import Mathlib

/-!
# StarEngine: GPU resource materialization (`Star/DX12Engine/SDX12Utils.cpp`)

A shallow embedding of the find-or-create materialization functions of
`SDX12Utils.cpp` and theorems about them.

Conventions of the embedding.

* A content identifier (`MetaID`, a uuid in the source) is a natural number;
  the nil uuid is `0`.
* Every cache of `DX12Resources` is a node-based container with a unique key
  and no erasure, so it is a list in insertion order and a pointer to an entry
  is the position of the entry in that list.
* The device, the command list, the upload buffer, the temporary arena and the
  shader descriptor heap are observed through a trace of the calls made on
  them, in program order, and through the little state they need (next object
  handle, upload cursor, outstanding arena allocations, descriptor heap).
* `Expects`/`Ensures`, a throwing `.at()`, a failed `V(hr)` and a throwing
  allocator all end the call; the result then carries the reason and the world
  at the point of failure. An entry whose population fails is left as it was
  emplaced.
* Byte payloads are opaque: the code only reads their length.
-/

namespace Star

/-! ## Identifiers, handles, failures -/

/-- Content identifier (`MetaID`); `0` is the nil identifier. -/
abbrev MetaID := Nat

/-- The test `metaID.is_nil()`. -/
def MetaID.isNil (metaID : MetaID) : Bool := metaID == 0

/-- A device object (buffer, texture, pipeline state, root signature). -/
abbrev Handle := Nat

/-- A pointer to a cache entry: its position in the owning container. -/
abbrev Ptr := Nat

/-- Names used as keys of the baked maps (solutions, pipelines, attributes). -/
abbrev Name := String

/-- The resource tags of `Core::ResourceType`. -/
inductive ResourceType where
  | Mesh_
  | Texture_
  | Shader_
  | Material_
  | Content_
  | RenderGraph_
  deriving DecidableEq, Repr

/-- The ways a materialization call ends without returning. -/
inductive Failure where
  /-- `Expects(!metaID.is_nil())` at the head of `try_createDX12`. -/
  | InvalidIdentity
  /-- Any other `Expects` or `Ensures`. -/
  | Contract
  /-- A throwing `.at()` lookup. -/
  | OutOfRange
  /-- A failed `V(hr)` device call. -/
  | Device
  /-- The persistent descriptor allocator has no room. -/
  | HeapExhausted
  /-- Use of a null object or an unchecked index past the end. -/
  | Undefined
  deriving DecidableEq, Repr

/-- An opaque byte payload; only its length is observed. -/
structure ByteBuffer where
  size : Nat
  deriving DecidableEq, Repr

/-- The test `buffer.empty()`. -/
def ByteBuffer.empty (b : ByteBuffer) : Bool := b.size == 0

/-! ## Baked asset payloads -/

/-- Baked index buffer. -/
structure IndexBufferData where
  mBuffer : ByteBuffer
  mElementSize : Nat
  mPrimitiveTopology : Nat
  deriving DecidableEq, Repr

/-- Baked vertex buffer description. -/
structure VertexBufferDesc where
  mVertexSize : Nat
  deriving DecidableEq, Repr

/-- Baked vertex buffer. -/
structure VertexBufferData where
  mBuffer : ByteBuffer
  mDesc : VertexBufferDesc
  deriving DecidableEq, Repr

/-- Baked mesh. -/
structure MeshData where
  mIndexBuffer : IndexBufferData
  mVertexBuffers : List VertexBufferData
  mSubMeshes : List Nat
  mLayoutID : Nat
  mLayoutName : Name
  deriving DecidableEq, Repr

/-- Baked resource description of a texture. -/
structure ResourceDesc where
  mFormat : Nat
  mWidth : Nat
  mHeight : Nat
  mDepthOrArraySize : Nat
  mMipLevels : Nat
  deriving DecidableEq, Repr

/-- Baked texture. -/
structure TextureData where
  mBuffer : ByteBuffer
  mDesc : ResourceDesc
  mFormat : Nat
  deriving DecidableEq, Repr

/-- Baked shader programs of a subpass. -/
structure ShaderProgramData where
  mPS : ByteBuffer
  mVS : ByteBuffer
  deriving DecidableEq, Repr

/-- Baked input layout of a subpass: per semantic, the inputs it binds. -/
structure ShaderInputLayout where
  mSemantics : List (Nat × List Nat)
  mStripCutValue : Nat
  mPrimitiveTopologyType : Nat
  deriving DecidableEq, Repr

/-- Baked depth-stencil state; only `DepthEnable` is read by name. -/
structure DepthStencilStateData where
  mDepthEnabled : Bool
  mRest : Nat
  deriving DecidableEq, Repr

/-- Baked render state of a subpass. -/
structure PipelineStateData where
  mBlendState : Nat
  mSampleMask : Nat
  mRasterizerState : Nat
  mDepthStencilState : DepthStencilStateData
  deriving DecidableEq, Repr

/-- Baked shader subpass. -/
structure ShaderSubpassData where
  mTextures : List Name
  mProgram : ShaderProgramData
  mVertexLayouts : List Nat
  mInputLayout : ShaderInputLayout
  mState : PipelineStateData
  deriving DecidableEq, Repr

/-- Baked shader pass variant. -/
structure ShaderPassData where
  mSubpasses : List ShaderSubpassData
  deriving DecidableEq, Repr

/-- Baked shader level: passes by name. -/
structure ShaderLevelData where
  mPasses : List (Name × ShaderPassData)
  deriving DecidableEq, Repr

/-- Baked shader queue. -/
structure ShaderQueueData where
  mLevels : List ShaderLevelData
  deriving DecidableEq, Repr

/-- Baked shader pipeline: queues by name. -/
structure ShaderPipelineData where
  mQueues : List (Name × ShaderQueueData)
  deriving DecidableEq, Repr

/-- Baked shader solution: pipelines by name. -/
structure ShaderSolutionData where
  mPipelines : List (Name × ShaderPipelineData)
  deriving DecidableEq, Repr

/-- Baked shader: solutions by name. -/
structure ShaderData where
  mSolutions : List (Name × ShaderSolutionData)
  deriving DecidableEq, Repr

/-- Baked material: the shader by name and the textures by attribute name. -/
structure MaterialData where
  mShader : Name
  mTextures : List (Name × MetaID)
  deriving DecidableEq, Repr

/-- Baked draw call. -/
structure DrawCallData where
  mType : Nat
  mMesh : MetaID
  mMaterial : MetaID
  deriving DecidableEq, Repr

/-- Baked mesh renderer of a flattened object. -/
structure MeshRendererData where
  mMeshID : MetaID
  mMaterialIDs : List MetaID
  deriving DecidableEq, Repr

/-- Baked batch of flattened objects. -/
structure FlattenedObjectsData where
  mWorldTransforms : List Nat
  mWorldTransformInvs : List Nat
  mBoundingBoxes : List Nat
  mMeshRenderers : List MeshRendererData
  deriving DecidableEq, Repr

/-- Baked content batch. -/
structure ContentData where
  mIDs : List Nat
  mDrawCalls : List DrawCallData
  mFlattenedObjects : List FlattenedObjectsData
  deriving DecidableEq, Repr

/-- An attachment of a render subpass; `mHandle` is `mDescriptor.mHandle`. -/
structure Attachment where
  mHandle : Nat
  deriving DecidableEq, Repr

/-- A view description of a render solution; only the format is read. -/
structure ViewDesc where
  mFormat : Nat
  deriving DecidableEq, Repr

/-- The value of the subpass index of a render pipeline. -/
structure RenderSubpassDesc where
  mPassID : Nat
  mSubpassID : Nat
  deriving DecidableEq, Repr

/-- Baked unordered render queue: the content batches it draws. -/
structure UnorderedRenderQueueData where
  mContents : List MetaID
  deriving DecidableEq, Repr

/-- Baked render subpass. -/
structure RenderSubpassData where
  mSampleDesc : Nat
  mInputAttachments : List Attachment
  mOutputAttachments : List Attachment
  mResolveAttachments : List Attachment
  mDepthStencilAttachment : Option Attachment
  mPreserveAttachments : List Attachment
  mSRVs : List Nat
  mUAVs : List Nat
  mPostViewTransitions : List Nat
  mRootSignature : ByteBuffer
  mOrderedRenderQueue : List UnorderedRenderQueueData
  deriving DecidableEq, Repr

/-- Baked render pass. -/
structure RenderPassData where
  mSubpasses : List RenderSubpassData
  mViewports : List Nat
  mScissorRects : List Nat
  mFramebuffers : List Nat
  mDependencies : List Nat
  deriving DecidableEq, Repr

/-- Baked render pipeline. -/
structure RenderPipelineData where
  mPasses : List RenderPassData
  mDependencies : List Nat
  mRTVInitialStates : List Nat
  mDSVInitialStates : List Nat
  mSubpassIndex : List (Name × RenderSubpassDesc)
  deriving DecidableEq, Repr

/-- Baked render solution. -/
structure RenderSolutionData where
  mPipelines : List RenderPipelineData
  mRTVSources : List Nat
  mDSVSources : List Nat
  mFramebuffers : List Nat
  mRTVs : List ViewDesc
  mDSVs : List ViewDesc
  mPipelineIndex : List (Name × Nat)
  deriving DecidableEq, Repr

/-- Baked swap chain description (`renderData.mRenderGraph`). -/
structure RenderSwapChainData where
  mSolutions : List RenderSolutionData
  mNumReserveFramebuffers : Nat
  mNumReserveDSVs : Nat
  mNumReserveRTVs : Nat
  mNumBackBuffers : Nat
  mSolutionIndex : List (Name × Nat)
  deriving DecidableEq, Repr

/-- Baked render graph: the shaders by name and the swap chain. -/
structure RenderGraphData where
  mShaderIndex : List (Name × MetaID)
  mRenderGraph : RenderSwapChainData
  deriving DecidableEq, Repr

/-! ## Asset handles -/

/-- The resource handle held by every cache entry (`mMeshData`,
`mTextureData`, ...): the identifier it was reset to, and the payload once it
is loaded. -/
structure AssetHandle (α : Type) where
  mMetaID : MetaID
  mData : Option α
  deriving DecidableEq, Repr

/-- The default-constructed handle. -/
def AssetHandle.null {α : Type} : AssetHandle α := ⟨0, none⟩

/-- The test `handle.valid()`. -/
def AssetHandle.valid {α : Type} (h : AssetHandle α) : Bool := !MetaID.isNil h.mMetaID

/-- Modelled from the spec: the baked-asset load contract `reset(contentID, async)`,
whose code is not part of the sources. A synchronous reset holds the payload
of the asset database when it returns; an asynchronous reset only schedules
the load and holds no payload yet. -/
def AssetHandle.reset {α : Type} (db : MetaID → Option α) (metaID : MetaID) (async : Bool) :
    AssetHandle α :=
  ⟨metaID, if async then none else db metaID⟩

/-! ## Cache entries -/

/-- Index buffer of a materialized mesh. -/
structure DX12IndexBuffer where
  mBuffer : Option Handle
  mPrimitiveTopology : Nat
  deriving DecidableEq, Repr

/-- The index formats chosen from the element size. -/
inductive IndexFormat where
  | UNKNOWN
  | R16_UINT
  | R32_UINT
  deriving DecidableEq, Repr

/-- Index buffer view of a materialized mesh. -/
structure IndexBufferView where
  BufferLocation : Option Handle
  SizeInBytes : Nat
  Format : IndexFormat
  deriving DecidableEq, Repr

/-- Vertex buffer of a materialized mesh. -/
structure DX12VertexBuffer where
  mBuffer : Option Handle
  deriving DecidableEq, Repr

/-- Vertex buffer view of a materialized mesh. -/
structure VertexBufferView where
  BufferLocation : Option Handle
  SizeInBytes : Nat
  StrideInBytes : Nat
  deriving DecidableEq, Repr

/-- Mesh cache entry. -/
structure DX12MeshData where
  mMetaID : MetaID
  mMeshData : AssetHandle MeshData
  mIndexBuffer : DX12IndexBuffer
  mIndexBufferView : IndexBufferView
  mVertexBuffers : List DX12VertexBuffer
  mVertexBufferViews : List VertexBufferView
  mSubMeshes : List Nat
  mLayoutID : Nat
  mLayoutName : Name
  deriving DecidableEq, Repr

/-- Texture cache entry. -/
structure DX12TextureData where
  mMetaID : MetaID
  mTextureData : AssetHandle TextureData
  mTexture : Option Handle
  mFormat : Nat
  deriving DecidableEq, Repr

/-- Pipeline state of one vertex-layout variant. -/
structure DX12PipelineState where
  mObject : Option Handle
  deriving DecidableEq, Repr

/-- Shader blobs of a materialized subpass (their sizes). -/
structure DX12ShaderProgram where
  mPS : Option Nat
  mVS : Option Nat
  deriving DecidableEq, Repr

/-- Subpass of a shader variant tree. -/
structure DX12ShaderSubpassData where
  mVertexLayoutIndex : List (Nat × Nat)
  mStates : List DX12PipelineState
  mTextures : List Name
  mProgram : DX12ShaderProgram
  deriving DecidableEq, Repr

/-- Pass variant of a shader variant tree. -/
structure DX12ShaderPassData where
  mSubpasses : List DX12ShaderSubpassData
  deriving DecidableEq, Repr

/-- Level of a shader variant tree. -/
structure DX12ShaderLevelData where
  mPasses : List DX12ShaderPassData
  mPassIndex : List (Name × Nat)
  deriving DecidableEq, Repr

/-- Queue of a shader variant tree. -/
structure DX12ShaderQueueData where
  mLevels : List DX12ShaderLevelData
  deriving DecidableEq, Repr

/-- Pipeline of a shader variant tree. -/
structure DX12ShaderPipelineData where
  mQueues : List DX12ShaderQueueData
  mQueueIndex : List (RenderSubpassDesc × Nat)
  deriving DecidableEq, Repr

/-- Solution of a shader variant tree. -/
structure DX12ShaderSolutionData where
  mPipelines : List DX12ShaderPipelineData
  mPipelineIndex : List (Nat × Nat)
  deriving DecidableEq, Repr

/-- Shader cache entry: the variant tree. -/
structure DX12ShaderData where
  mMetaID : MetaID
  mShaderData : AssetHandle ShaderData
  mSolutions : List DX12ShaderSolutionData
  mSolutionIndex : List (Nat × Nat)
  deriving DecidableEq, Repr

/-- Subpass of a material variant tree: its persistent view range. -/
structure DX12MaterialSubpassData where
  mPersistentCpuOffsetSRV : Nat
  mPersistentGpuOffsetSRV : Nat
  mPersistentCountSRV : Nat
  deriving DecidableEq, Repr

/-- Pass variant of a material variant tree. -/
structure DX12MaterialPassData where
  mSubpasses : List DX12MaterialSubpassData
  deriving DecidableEq, Repr

/-- Level of a material variant tree. -/
structure DX12MaterialLevelData where
  mPasses : List DX12MaterialPassData
  deriving DecidableEq, Repr

/-- Queue of a material variant tree. -/
structure DX12MaterialQueueData where
  mLevels : List DX12MaterialLevelData
  deriving DecidableEq, Repr

/-- Pipeline of a material variant tree. -/
structure DX12MaterialPipelineData where
  mQueues : List DX12MaterialQueueData
  deriving DecidableEq, Repr

/-- Solution of a material variant tree. -/
structure DX12MaterialSolutionData where
  mPipelines : List DX12MaterialPipelineData
  deriving DecidableEq, Repr

/-- Material cache entry. -/
structure DX12MaterialData where
  mMetaID : MetaID
  mMaterialData : AssetHandle MaterialData
  mShader : Option Ptr
  mDescriptorHeap : Bool
  mTextures : List Ptr
  mShaderData : List DX12MaterialSolutionData
  deriving DecidableEq, Repr

/-- Built draw call: back-references into the mesh and material caches. -/
structure DX12DrawCallData where
  mType : Nat
  mMesh : Option Ptr
  mMaterial : Option Ptr
  deriving DecidableEq, Repr

/-- Built mesh renderer. -/
structure DX12MeshRenderer where
  mMesh : Option Ptr
  mMaterials : List Ptr
  deriving DecidableEq, Repr

/-- Built batch of flattened objects. -/
structure DX12FlattenedObjects where
  mWorldTransforms : List Nat
  mWorldTransformInvs : List Nat
  mBoundingBoxes : List Nat
  mMeshRenderers : List DX12MeshRenderer
  deriving DecidableEq, Repr

/-- Content cache entry. -/
structure DX12ContentData where
  mMetaID : MetaID
  mContentData : AssetHandle ContentData
  mIDs : List Nat
  mDrawCalls : List DX12DrawCallData
  mFlattenedObjects : List DX12FlattenedObjects
  deriving DecidableEq, Repr

/-- Built unordered render queue: pointers into the content cache. -/
structure DX12UnorderedRenderQueue where
  mContents : List Ptr
  deriving DecidableEq, Repr

/-- Subpass of the render-graph template. -/
structure DX12RenderSubpass where
  mSampleDesc : Nat
  mInputAttachments : List Attachment
  mOutputAttachments : List Attachment
  mResolveAttachments : List Attachment
  mDepthStencilAttachment : Option Attachment
  mPreserveAttachments : List Attachment
  mSRVs : List Nat
  mUAVs : List Nat
  mPostViewTransitions : List Nat
  mRootSignature : Option Handle
  mOrderedRenderQueue : List DX12UnorderedRenderQueue
  deriving DecidableEq, Repr

/-- Pass of the render-graph template. -/
structure DX12RenderPass where
  mSubpasses : List DX12RenderSubpass
  mViewports : List Nat
  mScissorRects : List Nat
  mFramebuffers : List Nat
  mDependencies : List Nat
  deriving DecidableEq, Repr

/-- Pipeline of the render-graph template. -/
structure DX12RenderPipeline where
  mPasses : List DX12RenderPass
  mDependencies : List Nat
  mRTVInitialStates : List Nat
  mDSVInitialStates : List Nat
  mSubpassIndex : List (Name × RenderSubpassDesc)
  deriving DecidableEq, Repr

/-- Solution of the render-graph template. -/
structure DX12RenderSolution where
  mPipelines : List DX12RenderPipeline
  mRTVSources : List Nat
  mDSVSources : List Nat
  mFramebuffers : List Nat
  mRTVs : List ViewDesc
  mDSVs : List ViewDesc
  mPipelineIndex : List (Name × Nat)
  deriving DecidableEq, Repr

/-- The render-graph template (`DX12RenderWorks`). -/
structure DX12RenderWorks where
  mSolutions : List DX12RenderSolution
  mFramebuffers : Nat
  mDSVs : Nat
  mRTVs : Nat
  mNumBackBuffers : Nat
  mSolutionIndex : List (Name × Nat)
  deriving DecidableEq, Repr

/-- Render-graph cache entry. -/
structure DX12RenderGraphData where
  mMetaID : MetaID
  mRenderGraphData : AssetHandle RenderGraphData
  mShaderIndex : List (Name × MetaID)
  mRenderGraph : DX12RenderWorks
  deriving DecidableEq, Repr

/-- The well-known default textures of `DX12Resources::mDefaultTextures`. -/
inductive DefaultTexture where
  | White
  | Black
  deriving DecidableEq, Repr

/-- Element of a baked vertex layout. -/
structure VertexElementData where
  mType : Nat
  mFormat : Nat
  mAlignedByteOffset : Nat
  deriving DecidableEq, Repr

/-- Buffer of a baked vertex layout. -/
structure VertexLayoutBuffer where
  mElements : List VertexElementData
  deriving DecidableEq, Repr

/-- Baked vertex layout of the content settings. -/
structure VertexLayoutData where
  mIndex : List (Nat × (Nat × Nat))
  mBuffers : List VertexLayoutBuffer
  mStripCutValue : Nat
  mPrimitiveTopologyType : Nat
  deriving DecidableEq, Repr

/-- The content settings (`resources.mSettings`). -/
structure ContentSettings where
  mVertexLayouts : List (Nat × VertexLayoutData)
  deriving DecidableEq, Repr

/-- The caches (`DX12Resources`). -/
structure DX12Resources where
  mMeshes : List DX12MeshData
  mTextures : List DX12TextureData
  mShaders : List DX12ShaderData
  mMaterials : List DX12MaterialData
  mContents : List DX12ContentData
  mRenderGraphs : List DX12RenderGraphData
  mDefaultTextures : List (DefaultTexture × DX12TextureData)
  mSettings : ContentSettings
  deriving DecidableEq, Repr

/-! ## The creation context and its trace -/

/-- The resource states used by the transitions of this file. -/
inductive ResourceState where
  | COPY_DEST
  | INDEX_BUFFER
  | VERTEX_AND_CONSTANT_BUFFER
  | PIXEL_SHADER_RESOURCE
  deriving DecidableEq, Repr

/-- A transition barrier on all subresources of `pResource`. -/
structure ResourceBarrier where
  pResource : Option Handle
  StateBefore : ResourceState
  StateAfter : ResourceState
  deriving DecidableEq, Repr

/-- An element of the input layout of a pipeline state. -/
structure InputElementDesc where
  SemanticName : Name
  SemanticIndex : Nat
  Format : Nat
  InputSlot : Nat
  AlignedByteOffset : Nat
  deriving DecidableEq, Repr

/-- The description handed to `CreateGraphicsPipelineState`. -/
structure PipelineStateDesc where
  pRootSignature : Option Handle
  VS : Nat
  PS : Nat
  BlendState : Nat
  SampleMask : Nat
  RasterizerState : Nat
  DepthStencilState : DepthStencilStateData
  InputLayout : List InputElementDesc
  IBStripCutValue : Nat
  PrimitiveTopologyType : Nat
  NumRenderTargets : Nat
  RTVFormats : List Nat
  DSVFormat : Option Nat
  SampleDesc : Nat
  deriving DecidableEq, Repr

/-- The placed footprint of one mip in the upload buffer. -/
structure PlacedFootprint where
  Offset : Nat
  Format : Nat
  Width : Nat
  Height : Nat
  Depth : Nat
  RowPitch : Nat
  deriving DecidableEq, Repr

/-- The texture a shader-resource view is created for. -/
inductive TextureRef where
  | cached (p : Ptr)
  | wellKnown (t : DefaultTexture)
  deriving DecidableEq, Repr

/-- The calls made on the creation context, in program order. -/
inductive Event where
  | reset (tag : ResourceType) (metaID : MetaID) (async : Bool)
  | upload (size alignment offset : Nat)
  | createBuffer (object : Handle) (size : Nat)
  | CopyBufferRegion (dst : Option Handle) (dstOffset srcOffset numBytes : Nat)
  | createTexture2D (object : Handle) (desc : ResourceDesc) (format : Nat)
  | CopyTextureRegion (dst : Option Handle) (subresource : Nat) (src : PlacedFootprint)
  | ResourceBarrier (barriers : List ResourceBarrier)
  | D3DCreateBlob (size : Nat)
  | CreateGraphicsPipelineState (object : Handle) (desc : PipelineStateDesc)
  | CreateRootSignature (object : Handle) (size : Nat)
  | resizeDescriptorArray (count : Nat)
  | allocatePersistent (count : Nat) (first : Nat)
  | CreateShaderResourceView (target : TextureRef) (resource : Option Handle)
      (format : Nat) (dest : Nat)
  | arenaAllocate
  | arenaRelease
  deriving DecidableEq, Repr

/-- Modelled from the spec: the shader descriptor heap of
`SDX12ShaderDescriptorHeap.h`, which is not part of the sources. Persistent
allocation advances a bump pointer; a deallocated range goes to a free list
keyed by its size and is reused by a later allocation of that size. -/
structure DX12ShaderDescriptorHeap where
  mCapacity : Nat
  mCpuStart : Nat
  mGpuStart : Nat
  mNext : Nat
  mFree : List (Nat × Nat)
  deriving DecidableEq, Repr

/-- Everything a materialization call reads and writes. -/
structure World where
  mResources : DX12Resources
  mDescriptorHeap : DX12ShaderDescriptorHeap
  mUploadOffset : Nat
  mNextObject : Nat
  mArenaLive : Nat
  mTrace : List Event
  deriving DecidableEq, Repr

/-- Upload footprint of one mip (`getMipInfo`). -/
structure MipInfo where
  mUploadRowPitchSize : Nat
  mUploadSliceSize : Nat
  deriving DecidableEq, Repr

/-- Block size of a format (`getEncoding`). -/
structure Encoding where
  mBlockWidth : Nat
  mBlockHeight : Nat
  deriving DecidableEq, Repr

/-- What the sources take from outside this file: the baked assets behind
`reset`, the outcome of the fallible device calls, the format tables of
`SRenderFormatTextureUtils.h`, and the names of the vertex element types:
`SV_Position_` is the type of the `SV_Position_` alternative and `getName`
gives the name of a type. -/
structure Env where
  meshes : MetaID → Option MeshData
  textures : MetaID → Option TextureData
  shaders : MetaID → Option ShaderData
  materials : MetaID → Option MaterialData
  contents : MetaID → Option ContentData
  renderGraphs : MetaID → Option RenderGraphData
  createBlobOk : Nat → Bool
  createPipelineStateOk : PipelineStateDesc → Bool
  createRootSignatureOk : Nat → Bool
  getDXGIFormat : Nat → Nat
  getMipInfo : Nat → Nat → Nat → MipInfo
  getEncoding : Nat → Encoding
  half_size : Nat → Nat → Nat
  sSliceAlignment : Nat
  SV_Position_ : Nat
  getName : Nat → Name

/-- The part of `CreationContext` that is plain data: the render graph the
shaders and materials of this context are built against. -/
structure CreationContext where
  mRenderGraph : MetaID
  deriving DecidableEq, Repr

/-- Outcome of a call: a value and the world after it, or a failure and the
world at the point of failure. -/
inductive Res (α : Type) where
  | ok (a : α) (w : World)
  | fail (e : Failure) (w : World)
  deriving DecidableEq

/-- A call on the world. -/
def M (α : Type) : Type := World → Res α

/-- Run a call. -/
def M.run {α : Type} (m : M α) (w : World) : Res α := m w

/-- The value-returning call. -/
def M.pure {α : Type} (a : α) : M α := fun w => Res.ok a w

/-- Sequencing: a failure ends the call. -/
def M.bind {α β : Type} (m : M α) (f : α → M β) : M β := fun w =>
  match m w with
  | Res.ok a w1 => f a w1
  | Res.fail e w1 => Res.fail e w1

instance : Monad M where
  pure := M.pure
  bind := M.bind

/-- End the call with a failure. -/
def M.fail {α : Type} (e : Failure) : M α := fun w => Res.fail e w

/-- The contracts `Expects(cond)` and `Ensures(cond)`. -/
def Expects (cond : Bool) : M Unit :=
  if cond then M.pure () else M.fail Failure.Contract

/-- Read the world. -/
def getWorld : M World := fun w => Res.ok w w

/-- Read the caches. -/
def getResources : M DX12Resources := fun w => Res.ok w.mResources w

/-- Change the caches. -/
def modifyResources (f : DX12Resources → DX12Resources) : M Unit := fun w =>
  Res.ok () { w with mResources := f w.mResources }

/-- Record a call in the trace. -/
def emit (e : Event) : M Unit := fun w =>
  Res.ok () { w with mTrace := w.mTrace ++ [e] }

/-- A fresh device object. -/
def newObject : M Handle := fun w =>
  Res.ok w.mNextObject { w with mNextObject := w.mNextObject + 1 }

/-- Run the body on every element in order, collecting the results. -/
def forEach {α β : Type} (f : α → M β) : List α → M (List β)
  | [] => M.pure []
  | x :: xs => M.bind (f x) (fun y => M.bind (forEach f xs) (fun ys => M.pure (y :: ys)))

/-- Round `n` up to a multiple of `alignment`. -/
def alignUp (n alignment : Nat) : Nat :=
  if alignment = 0 then n else (n + alignment - 1) / alignment * alignment

/-- Modelled from the spec: `context.upload(bytes, alignment)` of
`SDX12UploadBuffer.h`, which is not part of the sources. It reserves an
aligned slice of the staging buffer and returns its offset. -/
def upload (buffer : ByteBuffer) (alignment : Nat) : M Nat := fun w =>
  let offset := alignUp w.mUploadOffset alignment
  Res.ok offset { w with
    mUploadOffset := offset + buffer.size,
    mTrace := w.mTrace ++ [Event.upload buffer.size alignment offset] }

/-- The helper `DX12::createBuffer(device, size)`. -/
def createBuffer (size : Nat) : M (Option Handle) := do
  let object ← newObject
  emit (Event.createBuffer object size)
  pure (some object)

/-- The helper `DX12::createTexture2D(device, desc)`. -/
def createTexture2D (desc : ResourceDesc) (format : Nat) : M (Option Handle) := do
  let object ← newObject
  emit (Event.createTexture2D object desc format)
  pure (some object)

/-- An allocation from the temporary arena (`pmr_make_unique`). -/
def arenaAllocate : M Unit := fun w =>
  Res.ok () { w with mArenaLive := w.mArenaLive + 1, mTrace := w.mTrace ++ [Event.arenaAllocate] }

/-- The call `mMemoryArena->release()`: every arena allocation is returned. -/
def arenaRelease : M Unit := fun w =>
  Res.ok () { w with mArenaLive := 0, mTrace := w.mTrace ++ [Event.arenaRelease] }

/-- Take the first free block of the wanted size out of the free list. -/
def takeFree (count : Nat) : List (Nat × Nat) → Option (Nat × List (Nat × Nat))
  | [] => none
  | b :: bs =>
    if b.1 = count then some (b.2, bs)
    else (takeFree count bs).map (fun r => (r.1, b :: r.2))

/-- Modelled from the spec: `allocatePersistent(count)`. A free block of that
size is reused, else the bump pointer advances, else the heap is exhausted.
The result is the first slot of the range. -/
def allocatePersistent (count : Nat) : M Nat := fun w =>
  let heap := w.mDescriptorHeap
  match takeFree count heap.mFree with
  | some (first, rest) =>
    Res.ok first { w with
      mDescriptorHeap := { heap with mFree := rest },
      mTrace := w.mTrace ++ [Event.allocatePersistent count first] }
  | none =>
    if heap.mNext + count ≤ heap.mCapacity then
      Res.ok heap.mNext { w with
        mDescriptorHeap := { heap with mNext := heap.mNext + count },
        mTrace := w.mTrace ++ [Event.allocatePersistent count heap.mNext] }
    else Res.fail Failure.HeapExhausted w

/-! ## The caches: find, emplace, modify -/

/-- What a cache needs from its entries: the key, and the entry that
`emplace(metaID)` constructs. -/
class CacheEntry (α : Type) where
  metaID : α → MetaID
  create : MetaID → α

/-- The lookup `cache.find(metaID)`: the position of the entry, if any. -/
def Cache.find {α : Type} [CacheEntry α] : List α → MetaID → Option Ptr
  | [], _ => none
  | e :: es, metaID =>
    if CacheEntry.metaID e = metaID then some 0
    else (Cache.find es metaID).map (fun p => p + 1)

/-- The insertion `cache.emplace(metaID)`: the cache after it, the position of
the entry with that key, and whether it was inserted. -/
def Cache.emplace {α : Type} [CacheEntry α] (cache : List α) (metaID : MetaID) :
    List α × Ptr × Bool :=
  match Cache.find cache metaID with
  | some p => (cache, p, false)
  | none => (cache ++ [CacheEntry.create metaID], cache.length, true)

/-- The in-place update `cache.modify(iter, ...)` once the modifier is done. -/
def Cache.modify {α : Type} (cache : List α) (iter : Ptr) (entry : α) : List α :=
  cache.set iter entry

/-- The erasure `cache.erase(iter)`. -/
def Cache.erase {α : Type} (cache : List α) (iter : Ptr) : List α :=
  cache.eraseIdx iter

/-- The modifier of `cache.modify(iter, modifier)` as Boost.MultiIndex runs it:
when the modifier throws, the element at `iter` is erased from the cache, which
is what `erase` does to the caches, and the failure leaves the call. -/
def modifying {α : Type} (erase : DX12Resources → DX12Resources) (modifier : M α) : M α :=
  fun w =>
    match modifier w with
    | Res.ok a w1 => Res.ok a w1
    | Res.fail e w1 => Res.fail e { w1 with mResources := erase w1.mResources }

instance : CacheEntry DX12MeshData where
  metaID := DX12MeshData.mMetaID
  create := fun metaID =>
    ⟨metaID, AssetHandle.null, ⟨none, 0⟩, ⟨none, 0, IndexFormat.UNKNOWN⟩, [], [], [], 0, ""⟩

instance : CacheEntry DX12TextureData where
  metaID := DX12TextureData.mMetaID
  create := fun metaID => ⟨metaID, AssetHandle.null, none, 0⟩

instance : CacheEntry DX12ShaderData where
  metaID := DX12ShaderData.mMetaID
  create := fun metaID => ⟨metaID, AssetHandle.null, [], []⟩

instance : CacheEntry DX12MaterialData where
  metaID := DX12MaterialData.mMetaID
  create := fun metaID => ⟨metaID, AssetHandle.null, none, false, [], []⟩

instance : CacheEntry DX12ContentData where
  metaID := DX12ContentData.mMetaID
  create := fun metaID => ⟨metaID, AssetHandle.null, [], [], []⟩

instance : CacheEntry DX12RenderGraphData where
  metaID := DX12RenderGraphData.mMetaID
  create := fun metaID => ⟨metaID, AssetHandle.null, [], ⟨[], 0, 0, 0, 0, []⟩⟩

/-! ## Meshes -/

/-- The body of the vertex-buffer loop of `try_createDX12MeshData`. -/
def createVertexBuffer (vertexBufferData : VertexBufferData) :
    M (DX12VertexBuffer × VertexBufferView) := do
  let buffer ← upload vertexBufferData.mBuffer 16
  let vb ← createBuffer vertexBufferData.mBuffer.size
  emit (Event.CopyBufferRegion vb 0 buffer vertexBufferData.mBuffer.size)
  Expects (vertexBufferData.mDesc.mVertexSize != 0)
  pure (⟨vb⟩, ⟨vb, vertexBufferData.mBuffer.size % 2 ^ 32, vertexBufferData.mDesc.mVertexSize⟩)

/-- The index-buffer block of `try_createDX12MeshData`. -/
def createIndexBuffer (mesh : DX12MeshData) (meshData : MeshData) : M DX12MeshData := do
  if !meshData.mIndexBuffer.mBuffer.empty then
    let buffer ← upload meshData.mIndexBuffer.mBuffer 16
    let ib ← createBuffer meshData.mIndexBuffer.mBuffer.size
    emit (Event.CopyBufferRegion ib 0 buffer meshData.mIndexBuffer.mBuffer.size)
    pure { mesh with
      mIndexBuffer := { mesh.mIndexBuffer with mBuffer := ib },
      mIndexBufferView := ⟨ib, meshData.mIndexBuffer.mBuffer.size % 2 ^ 32,
        if meshData.mIndexBuffer.mElementSize = 2 then IndexFormat.R16_UINT
        else IndexFormat.R32_UINT⟩ }
  else pure mesh

/-- The barriers of a mesh: the index buffer first when it was created, then
every vertex buffer in order. -/
def meshBarriers (mesh : DX12MeshData) : List ResourceBarrier :=
  (if mesh.mIndexBuffer.mBuffer.isSome then
    [⟨mesh.mIndexBuffer.mBuffer, ResourceState.COPY_DEST, ResourceState.INDEX_BUFFER⟩]
   else []) ++
  mesh.mVertexBuffers.map (fun vb =>
    ⟨vb.mBuffer, ResourceState.COPY_DEST, ResourceState.VERTEX_AND_CONSTANT_BUFFER⟩)

/-- The modifier that `try_createDX12MeshData` passes to `mMeshes.modify`. -/
def modifyMesh (env : Env) (metaID : MetaID) (async : Bool) (mesh0 : DX12MeshData) :
    M DX12MeshData := do
  emit (Event.reset ResourceType.Mesh_ metaID async)
  let mesh := { mesh0 with mMeshData := AssetHandle.reset env.meshes metaID async }
  if !async then
    match mesh.mMeshData.mData with
    | none => M.fail Failure.Contract
    | some meshData =>
      let mesh := { mesh with
        mIndexBuffer := { mesh.mIndexBuffer with
          mPrimitiveTopology := meshData.mIndexBuffer.mPrimitiveTopology },
        mLayoutID := meshData.mLayoutID,
        mLayoutName := meshData.mLayoutName }
      let mesh ← createIndexBuffer mesh meshData
      let vbs ← forEach createVertexBuffer meshData.mVertexBuffers
      let mesh := { mesh with
        mVertexBuffers := mesh.mVertexBuffers ++ vbs.map Prod.fst,
        mVertexBufferViews := mesh.mVertexBufferViews ++ vbs.map Prod.snd,
        mSubMeshes := meshData.mSubMeshes }
      let barrierCount := mesh.mVertexBuffers.length +
        (if meshData.mIndexBuffer.mBuffer.empty then 0 else 1)
      arenaAllocate
      let barriers := meshBarriers mesh
      Expects (barrierCount == barriers.length)
      emit (Event.ResourceBarrier barriers)
      arenaRelease
      pure mesh
  else pure mesh

/-- The function `try_createDX12MeshData`: find the entry, or emplace it and
populate it. Returns the entry and whether it was created. -/
def try_createDX12MeshData (env : Env) (metaID : MetaID) (async : Bool) : M (Ptr × Bool) := do
  let resources ← getResources
  match Cache.find resources.mMeshes metaID with
  | some iter => pure (iter, false)
  | none =>
    let (cache, iter, created) := Cache.emplace resources.mMeshes metaID
    modifyResources (fun r => { r with mMeshes := cache })
    Expects created
    let mesh ← modifying (fun r => { r with mMeshes := Cache.erase r.mMeshes iter })
      (modifyMesh env metaID async (CacheEntry.create metaID))
    modifyResources (fun r => { r with mMeshes := Cache.modify r.mMeshes iter mesh })
    pure (iter, created)

/-! ## Textures -/

/-- The mip loop of `try_createDX12TextureData`: `count` iterations are left,
`i` is the mip, `offset1` the running offset, `width` and `height` the size of
the mip. -/
def copyMipLevels (env : Env) (resource : ResourceDesc) (texture : Option Handle)
    (mBufferOffset : Nat) : Nat → Nat → Nat → Nat → Nat → M Unit
  | 0, _, _, _, _ => M.pure ()
  | count + 1, i, offset1, width, height =>
    let mip := env.getMipInfo resource.mFormat width height
    let encoding := env.getEncoding resource.mFormat
    M.bind (emit (Event.CopyTextureRegion texture i
      ⟨(mBufferOffset + offset1) % 2 ^ 64, env.getDXGIFormat resource.mFormat, width, height,
        resource.mDepthOrArraySize, mip.mUploadRowPitchSize⟩))
      (fun _ => copyMipLevels env resource texture mBufferOffset count (i + 1)
        ((offset1 + mip.mUploadSliceSize) % 2 ^ 64)
        (env.half_size width encoding.mBlockWidth)
        (env.half_size height encoding.mBlockHeight))

/-- The modifier that `try_createDX12TextureData` passes to `mTextures.modify`
(the `STAR_DEV` cross-check is not part of production builds). -/
def modifyTexture (env : Env) (metaID : MetaID) (async : Bool) (tex0 : DX12TextureData) :
    M DX12TextureData := do
  emit (Event.reset ResourceType.Texture_ metaID async)
  let tex := { tex0 with mTextureData := AssetHandle.reset env.textures metaID async }
  if !async then
    match tex.mTextureData.mData with
    | none => M.fail Failure.Contract
    | some textureData =>
      let buffer ← upload textureData.mBuffer env.sSliceAlignment
      let texture ← createTexture2D textureData.mDesc (env.getDXGIFormat textureData.mDesc.mFormat)
      let tex := { tex with mTexture := texture, mFormat := env.getDXGIFormat textureData.mFormat }
      let resource := textureData.mDesc
      copyMipLevels env resource tex.mTexture buffer resource.mMipLevels 0 0
        (resource.mWidth % 2 ^ 32) resource.mHeight
      emit (Event.ResourceBarrier
        [⟨tex.mTexture, ResourceState.COPY_DEST, ResourceState.PIXEL_SHADER_RESOURCE⟩])
      pure tex
  else pure tex

/-- The function `try_createDX12TextureData`. The arena is released on both
paths. -/
def try_createDX12TextureData (env : Env) (metaID : MetaID) (async : Bool) : M (Ptr × Bool) := do
  let resources ← getResources
  match Cache.find resources.mTextures metaID with
  | some iter =>
    arenaRelease
    pure (iter, false)
  | none =>
    let (cache, iter, created) := Cache.emplace resources.mTextures metaID
    modifyResources (fun r => { r with mTextures := cache })
    Expects created
    let tex ← modifying (fun r => { r with mTextures := Cache.erase r.mTextures iter })
      (modifyTexture env metaID async (CacheEntry.create metaID))
    modifyResources (fun r => { r with mTextures := Cache.modify r.mTextures iter tex })
    arenaRelease
    pure (iter, created)

/-! ## Shaders -/

/-- The lookup `map.at(key)` of a map kept as a list of pairs. -/
def mapAt {κ ν : Type} [DecidableEq κ] (map : List (κ × ν)) (key : κ) : M ν :=
  match map.find? (fun e => e.1 = key) with
  | some e => M.pure e.2
  | none => M.fail Failure.OutOfRange

/-- The lookup `vector.at(i)`. -/
def vectorAt {α : Type} (v : List α) (i : Nat) : M α :=
  match v[i]? with
  | some a => M.pure a
  | none => M.fail Failure.OutOfRange

/-- The unchecked access `vector[i]` and the dereference of a pointer. -/
def vectorIndex {α : Type} (v : List α) (i : Nat) : M α :=
  match v[i]? with
  | some a => M.pure a
  | none => M.fail Failure.Undefined

/-- The insertion `flatmap.try_emplace(hint, key, value)`: nothing happens
when the key is present. -/
def try_emplace {κ ν : Type} [DecidableEq κ] (flatmap : List (κ × ν)) (key : κ) (value : ν) :
    List (κ × ν) :=
  if flatmap.any (fun e => e.1 = key) then flatmap else flatmap ++ [(key, value)]

/-- The assignment `map[key] = value`. -/
def insert_or_assign {κ ν : Type} [DecidableEq κ] (map : List (κ × ν)) (key : κ) (value : ν) :
    List (κ × ν) :=
  if map.any (fun e => e.1 = key) then
    map.map (fun e => if e.1 = key then (key, value) else e)
  else map ++ [(key, value)]

/-- Run the body on the pairs of `boost::combine(xs, ys)`, updating the
elements of `xs` in place. -/
def forEachCombine {α δ : Type} (f : α → δ → M α) : List α → List δ → M (List α)
  | [], _ => M.pure []
  | x :: xs, [] => M.pure (x :: xs)
  | x :: xs, y :: ys =>
    M.bind (f x y) (fun x1 => M.bind (forEachCombine f xs ys) (fun xs1 => M.pure (x1 :: xs1)))

/-- The function `resizeData`: one node of the variant tree per node of the
baked shader, one pipeline state per vertex layout. -/
def resizeData (prototype : DX12ShaderData) (prototypeData : ShaderData) : DX12ShaderData :=
  { prototype with
    mSolutions := prototype.mSolutions ++ prototypeData.mSolutions.map (fun solutionData =>
      { mPipelineIndex := [],
        mPipelines := solutionData.2.mPipelines.map (fun pipelineData =>
          { mQueueIndex := [],
            mQueues := pipelineData.2.mQueues.map (fun queueData =>
              { mLevels := queueData.2.mLevels.map (fun levelData =>
                  { mPassIndex := [],
                    mPasses := levelData.mPasses.map (fun variantData =>
                      { mSubpasses := variantData.2.mSubpasses.map (fun subpassData =>
                          { mVertexLayoutIndex := [],
                            mStates := List.replicate subpassData.mVertexLayouts.length ⟨none⟩,
                            mTextures := [],
                            mProgram := ⟨none, none⟩ }) }) }) }) }) }) }

/-- The function `reserveIndex`: it only reserves capacity. -/
def reserveIndex (prototype : DX12ShaderData) : DX12ShaderData := prototype

/-- The loop of `emplaceIndex(flatmap, index, renderIndex)`. -/
def emplaceIndexLoop {ρ δ : Type} [DecidableEq ρ] (renderIndex : List (Name × ρ)) :
    List (Name × δ) → Nat → List (ρ × Nat) → M (List (ρ × Nat))
  | [], _, flatmap => M.pure flatmap
  | v :: vs, i, flatmap =>
    M.bind (mapAt renderIndex v.1) (fun renderID =>
      emplaceIndexLoop renderIndex vs (i + 1) (try_emplace flatmap renderID i))

/-- The overloads `emplaceIndex(flatmap, index, renderIndex)`: every name of
`index` is looked up in the render index. -/
def emplaceIndex {ρ δ : Type} [DecidableEq ρ] (flatmap : List (ρ × Nat))
    (index : List (Name × δ)) (renderIndex : List (Name × ρ)) : M (List (ρ × Nat)) := do
  let flatmap ← emplaceIndexLoop renderIndex index 0 flatmap
  Expects (flatmap.length == index.length)
  pure flatmap

/-- The loop of `emplaceIndex(flatmap, index)`. -/
def emplaceNameLoop {δ : Type} : List (Name × δ) → Nat → List (Name × Nat) → List (Name × Nat)
  | [], _, flatmap => flatmap
  | v :: vs, i, flatmap => emplaceNameLoop vs (i + 1) (try_emplace flatmap v.1 i)

/-- The overload `emplaceIndex(flatmap, index)`. -/
def emplaceNameIndex {δ : Type} (flatmap : List (Name × Nat)) (index : List (Name × δ)) :
    M (List (Name × Nat)) := do
  let flatmap := emplaceNameLoop index 0 flatmap
  Expects (flatmap.length == index.length)
  pure flatmap

/-- The level body of `createIndex`. -/
def createIndexLevel (level : DX12ShaderLevelData) (levelData : ShaderLevelData) :
    M DX12ShaderLevelData := do
  Expects (level.mPasses.length == levelData.mPasses.length)
  let passIndex ← emplaceNameIndex level.mPassIndex levelData.mPasses
  Expects (passIndex.length == levelData.mPasses.length)
  pure { level with mPassIndex := passIndex }

/-- The queue body of `createIndex`. -/
def createIndexQueue (queue : DX12ShaderQueueData) (queueData : Name × ShaderQueueData) :
    M DX12ShaderQueueData := do
  let levels ← forEachCombine createIndexLevel queue.mLevels queueData.2.mLevels
  pure { queue with mLevels := levels }

/-- The pipeline body of `createIndex`. -/
def createIndexPipeline (renderSolution : DX12RenderSolution) (pipeline : DX12ShaderPipelineData)
    (pipelineData : Name × ShaderPipelineData) : M DX12ShaderPipelineData := do
  let renderID ← mapAt renderSolution.mPipelineIndex pipelineData.1
  let renderPipeline ← vectorAt renderSolution.mPipelines renderID
  Expects (pipeline.mQueues.length == pipelineData.2.mQueues.length)
  let queueIndex ← emplaceIndex pipeline.mQueueIndex pipelineData.2.mQueues
    renderPipeline.mSubpassIndex
  Expects (queueIndex.length == pipelineData.2.mQueues.length)
  let queues ← forEachCombine createIndexQueue pipeline.mQueues pipelineData.2.mQueues
  pure { pipeline with mQueueIndex := queueIndex, mQueues := queues }

/-- The solution body of `createIndex`. -/
def createIndexSolution (renderGraph : DX12RenderWorks) (solution : DX12ShaderSolutionData)
    (solutionData : Name × ShaderSolutionData) : M DX12ShaderSolutionData := do
  let renderID ← mapAt renderGraph.mSolutionIndex solutionData.1
  let renderSolution ← vectorAt renderGraph.mSolutions renderID
  Expects (solution.mPipelines.length == solutionData.2.mPipelines.length)
  let pipelineIndex ← emplaceIndex solution.mPipelineIndex solutionData.2.mPipelines
    renderSolution.mPipelineIndex
  Expects (pipelineIndex.length == solutionData.2.mPipelines.length)
  let pipelines ← forEachCombine (createIndexPipeline renderSolution) solution.mPipelines
    solutionData.2.mPipelines
  pure { solution with mPipelineIndex := pipelineIndex, mPipelines := pipelines }

/-- The function `createIndex`: the index maps of the variant tree, keyed by
the positions the names have in the render-graph template. -/
def createIndex (prototype : DX12ShaderData) (prototypeData : ShaderData)
    (renderGraph : DX12RenderWorks) : M DX12ShaderData := do
  Expects (prototype.mSolutions.length == prototypeData.mSolutions.length)
  let solutionIndex ← emplaceIndex prototype.mSolutionIndex prototypeData.mSolutions
    renderGraph.mSolutionIndex
  Expects (solutionIndex.length == prototypeData.mSolutions.length)
  let solutions ← forEachCombine (createIndexSolution renderGraph) prototype.mSolutions
    prototypeData.mSolutions
  pure { prototype with mSolutionIndex := solutionIndex, mSolutions := solutions }

/-- The input elements of one semantic: `semanticID` counts the inputs. An
element of the type `SV_Position_` is named `POSITION`, every other element
has the name of its type; the format is converted by `getDXGIFormat`. -/
def createInputElements (env : Env) (meshLayout : VertexLayoutData) :
    List Nat → Nat → M (List InputElementDesc)
  | [], _ => M.pure []
  | input :: inputs, semanticID =>
    M.bind (mapAt meshLayout.mIndex input) (fun ids =>
    M.bind (vectorAt meshLayout.mBuffers ids.1) (fun layoutBuffer =>
    M.bind (vectorAt layoutBuffer.mElements ids.2) (fun descData =>
    M.bind (createInputElements env meshLayout inputs (semanticID + 1)) (fun rest =>
      M.pure (⟨if descData.mType = env.SV_Position_ then "POSITION"
          else env.getName descData.mType,
        semanticID, env.getDXGIFormat descData.mFormat, ids.1,
        descData.mAlignedByteOffset⟩ :: rest)))))

/-- The render-target formats of a pipeline state: `RTVFormats` has eight
slots and `mRTVs[rtvID]` is unchecked. -/
def createRTVFormats (renderSolution : DX12RenderSolution) : List Attachment → Nat → M (List Nat)
  | [], _ => M.pure []
  | attachment :: attachments, i =>
    if i < 8 then
      M.bind (vectorIndex renderSolution.mRTVs attachment.mHandle) (fun rtv =>
      M.bind (createRTVFormats renderSolution attachments (i + 1)) (fun rest =>
        M.pure (rtv.mFormat :: rest)))
    else M.fail Failure.Undefined

/-- The body of the vertex-layout loop of `createShaderResources`: the
pipeline state of vertex layout `vertID`, which is number `i` of the subpass. -/
def createPipelineState (env : Env) (settings : ContentSettings)
    (renderSolution : DX12RenderSolution) (renderSubpass : DX12RenderSubpass)
    (subpassData : ShaderSubpassData) (subpass : DX12ShaderSubpassData) (i vertID : Nat) :
    M DX12ShaderSubpassData := do
  let subpass := { subpass with
    mVertexLayoutIndex := insert_or_assign subpass.mVertexLayoutIndex vertID i }
  let _ ← vectorIndex subpass.mStates i
  let meshLayout ← mapAt settings.mVertexLayouts vertID
  let elemDescs ← forEach
    (fun (s : Nat × List Nat) => createInputElements env meshLayout s.2 0)
    subpassData.mInputLayout.mSemantics
  let stateData := subpassData.mState
  match subpass.mProgram.mVS, subpass.mProgram.mPS with
  | some vs, some ps =>
    let rtvFormats ← createRTVFormats renderSolution renderSubpass.mOutputAttachments 0
    let dsvFormat ← (match renderSubpass.mDepthStencilAttachment with
      | some attachment => do
        let dsv ← vectorIndex renderSolution.mDSVs attachment.mHandle
        Expects stateData.mDepthStencilState.mDepthEnabled
        pure (some (env.getDXGIFormat dsv.mFormat))
      | none => pure none)
    let desc : PipelineStateDesc :=
      { pRootSignature := renderSubpass.mRootSignature,
        VS := vs,
        PS := ps,
        BlendState := stateData.mBlendState,
        SampleMask := stateData.mSampleMask,
        RasterizerState := stateData.mRasterizerState,
        DepthStencilState := stateData.mDepthStencilState,
        InputLayout :=
          if subpassData.mInputLayout.mSemantics.isEmpty then [] else elemDescs.flatten,
        IBStripCutValue :=
          if subpassData.mInputLayout.mSemantics.isEmpty then
            subpassData.mInputLayout.mStripCutValue
          else meshLayout.mStripCutValue,
        PrimitiveTopologyType :=
          if subpassData.mInputLayout.mSemantics.isEmpty then
            subpassData.mInputLayout.mPrimitiveTopologyType
          else meshLayout.mPrimitiveTopologyType,
        NumRenderTargets := renderSubpass.mOutputAttachments.length,
        RTVFormats := rtvFormats.map env.getDXGIFormat,
        DSVFormat := dsvFormat,
        SampleDesc := renderSubpass.mSampleDesc }
    if env.createPipelineStateOk desc then
      let object ← newObject
      emit (Event.CreateGraphicsPipelineState object desc)
      pure { subpass with mStates := subpass.mStates.set i ⟨some object⟩ }
    else M.fail Failure.Device
  | _, _ => M.fail Failure.Undefined

/-- The vertex-layout loop of `createShaderResources`. -/
def createPipelineStates (env : Env) (settings : ContentSettings)
    (renderSolution : DX12RenderSolution) (renderSubpass : DX12RenderSubpass)
    (subpassData : ShaderSubpassData) :
    List Nat → Nat → DX12ShaderSubpassData → M DX12ShaderSubpassData
  | [], _, subpass => M.pure subpass
  | vertID :: vertIDs, i, subpass =>
    M.bind (createPipelineState env settings renderSolution renderSubpass subpassData subpass
      i vertID)
      (fun subpass1 => createPipelineStates env settings renderSolution renderSubpass
        subpassData vertIDs (i + 1) subpass1)

/-- The call `V(D3DCreateBlob(size, ...))` followed by the copy of the program. -/
def createBlob (env : Env) (program : ByteBuffer) : M (Option Nat) := do
  if !program.empty then
    if env.createBlobOk program.size then
      emit (Event.D3DCreateBlob program.size)
      pure (some program.size)
    else M.fail Failure.Device
  else pure none

/-- The function `createShaderResources`: the programs and one pipeline state
per vertex layout of the subpass. -/
def createShaderResources (env : Env) (settings : ContentSettings)
    (renderSolution : DX12RenderSolution) (renderSubpass : DX12RenderSubpass)
    (subpass : DX12ShaderSubpassData) (subpassData : ShaderSubpassData) :
    M DX12ShaderSubpassData := do
  let subpass := { subpass with mTextures := subpassData.mTextures }
  let ps ← createBlob env subpassData.mProgram.mPS
  let subpass := { subpass with
    mProgram := { subpass.mProgram with mPS := if ps.isSome then ps else subpass.mProgram.mPS } }
  let vs ← createBlob env subpassData.mProgram.mVS
  let subpass := { subpass with
    mProgram := { subpass.mProgram with mVS := if vs.isSome then vs else subpass.mProgram.mVS } }
  arenaAllocate
  let subpass ← createPipelineStates env settings renderSolution renderSubpass subpassData
    subpassData.mVertexLayouts 0 subpass
  arenaRelease
  pure subpass

/-- The pass body of the resource loop of `try_createDX12ShaderData`. -/
def createResourcesPass (env : Env) (settings : ContentSettings)
    (renderSolution : DX12RenderSolution) (renderSubpass : DX12RenderSubpass)
    (variant : DX12ShaderPassData) (variantData : Name × ShaderPassData) :
    M DX12ShaderPassData := do
  let subpasses ← forEachCombine (createShaderResources env settings renderSolution renderSubpass)
    variant.mSubpasses variantData.2.mSubpasses
  pure { variant with mSubpasses := subpasses }

/-- The level body of the resource loop. -/
def createResourcesLevel (env : Env) (settings : ContentSettings)
    (renderSolution : DX12RenderSolution) (renderSubpass : DX12RenderSubpass)
    (level : DX12ShaderLevelData) (levelData : ShaderLevelData) : M DX12ShaderLevelData := do
  let passes ← forEachCombine (createResourcesPass env settings renderSolution renderSubpass)
    level.mPasses levelData.mPasses
  pure { level with mPasses := passes }

/-- The queue body of the resource loop: the queue name selects the render
subpass. -/
def createResourcesQueue (env : Env) (settings : ContentSettings)
    (renderSolution : DX12RenderSolution) (renderPipeline : DX12RenderPipeline)
    (queue : DX12ShaderQueueData) (queueData : Name × ShaderQueueData) :
    M DX12ShaderQueueData := do
  let passDesc ← mapAt renderPipeline.mSubpassIndex queueData.1
  let renderPass ← vectorAt renderPipeline.mPasses passDesc.mPassID
  let renderSubpass ← vectorAt renderPass.mSubpasses passDesc.mSubpassID
  let levels ← forEachCombine (createResourcesLevel env settings renderSolution renderSubpass)
    queue.mLevels queueData.2.mLevels
  pure { queue with mLevels := levels }

/-- The pipeline body of the resource loop. -/
def createResourcesPipeline (env : Env) (settings : ContentSettings)
    (renderSolution : DX12RenderSolution) (pipeline : DX12ShaderPipelineData)
    (pipelineData : Name × ShaderPipelineData) : M DX12ShaderPipelineData := do
  let renderID ← mapAt renderSolution.mPipelineIndex pipelineData.1
  let renderPipeline ← vectorAt renderSolution.mPipelines renderID
  let queues ← forEachCombine (createResourcesQueue env settings renderSolution renderPipeline)
    pipeline.mQueues pipelineData.2.mQueues
  pure { pipeline with mQueues := queues }

/-- The solution body of the resource loop. -/
def createResourcesSolution (env : Env) (settings : ContentSettings)
    (renderGraph : DX12RenderWorks) (solution : DX12ShaderSolutionData)
    (solutionData : Name × ShaderSolutionData) : M DX12ShaderSolutionData := do
  let renderID ← mapAt renderGraph.mSolutionIndex solutionData.1
  let renderSolution ← vectorAt renderGraph.mSolutions renderID
  let pipelines ← forEachCombine (createResourcesPipeline env settings renderSolution)
    solution.mPipelines solutionData.2.mPipelines
  pure { solution with mPipelines := pipelines }

/-- The modifier that `try_createDX12ShaderData` passes to `mShaders.modify`. -/
def modifyShader (env : Env) (rg : DX12RenderGraphData) (metaID : MetaID) (async : Bool)
    (shader0 : DX12ShaderData) : M DX12ShaderData := do
  emit (Event.reset ResourceType.Shader_ metaID async)
  let shader := { shader0 with mShaderData := AssetHandle.reset env.shaders metaID async }
  if !async then
    match shader.mShaderData.mData with
    | none => M.fail Failure.Contract
    | some prototypeData =>
      let prototype := resizeData shader prototypeData
      let prototype := reserveIndex prototype
      let prototype ← createIndex prototype prototypeData rg.mRenderGraph
      Expects (prototype.mSolutions.length == prototypeData.mSolutions.length)
      let resources ← getResources
      let solutions ← forEachCombine
        (createResourcesSolution env resources.mSettings rg.mRenderGraph)
        prototype.mSolutions prototypeData.mSolutions
      pure { prototype with mSolutions := solutions }
  else pure shader

/-- The function `try_createDX12ShaderData`. -/
def try_createDX12ShaderData (env : Env) (rg : DX12RenderGraphData) (metaID : MetaID)
    (async : Bool) : M (Ptr × Bool) := do
  let resources ← getResources
  match Cache.find resources.mShaders metaID with
  | some iter => pure (iter, false)
  | none =>
    let (cache, iter, created) := Cache.emplace resources.mShaders metaID
    modifyResources (fun r => { r with mShaders := cache })
    Expects created
    let shader ← modifying (fun r => { r with mShaders := Cache.erase r.mShaders iter })
      (modifyShader env rg metaID async (CacheEntry.create metaID))
    modifyResources (fun r => { r with mShaders := Cache.modify r.mShaders iter shader })
    pure (iter, created)

/-! ## Materials -/

/-- The search of `material.mTextures` for the texture with identifier
`texID`: `pTex` stays null when none has it. -/
def findMaterialTexture (textures : List DX12TextureData) (texID : MetaID) :
    List Ptr → M (Option Ptr)
  | [] => M.pure none
  | tex :: rest =>
    M.bind (vectorIndex textures tex) (fun entry =>
      if texID = entry.mMetaID then M.pure (some tex)
      else findMaterialTexture textures texID rest)

/-- The texture an attribute resolves to: the material's texture of that
name, or the default `White` texture when the material has none. -/
def resolveTexture (materialData : MaterialData) (material : DX12MaterialData)
    (attributeName : Name) : M (TextureRef × DX12TextureData) := do
  let resources ← getResources
  match materialData.mTextures.find? (fun e => e.1 = attributeName) with
  | some iter =>
    let pTex ← findMaterialTexture resources.mTextures iter.2 material.mTextures
    match pTex with
    | some tex =>
      let entry ← vectorIndex resources.mTextures tex
      pure (TextureRef.cached tex, entry)
    | none => M.fail Failure.Contract
  | none =>
    let entry ← mapAt resources.mDefaultTextures DefaultTexture.White
    pure (TextureRef.wellKnown DefaultTexture.White, entry)

/-- The body of the attribute loop of `try_createDX12MaterialData`: the view
of one attribute, created at slot `i` of the range starting at `first`. -/
def createTextureView (materialData : MaterialData) (material : DX12MaterialData)
    (first i : Nat) (attributeName : Name) : M Unit := do
  let (target, pTex) ← resolveTexture materialData material attributeName
  let heap := (← getWorld).mDescriptorHeap
  emit (Event.CreateShaderResourceView target pTex.mTexture pTex.mFormat
    (heap.mCpuStart + (first + i)))

/-- The subpass body of the material loop. The source declares `size_t i = 0`
before the attribute loop and does not advance it. -/
def createMaterialSubpass (materialData : MaterialData) (material : DX12MaterialData)
    (pass : DX12ShaderSubpassData) : M DX12MaterialSubpassData := do
  let materialPass : DX12MaterialSubpassData := ⟨0, 0, 0⟩
  if pass.mTextures.isEmpty then pure materialPass
  else
    let descCount := pass.mTextures.length % 2 ^ 32
    let first ← allocatePersistent descCount
    let heap := (← getWorld).mDescriptorHeap
    let materialPass : DX12MaterialSubpassData :=
      ⟨heap.mCpuStart + first, heap.mGpuStart + first, descCount⟩
    let i := 0
    let _ ← forEach (createTextureView materialData material first i) pass.mTextures
    pure materialPass

/-- The pass body of the material loop. -/
def createMaterialPass (materialData : MaterialData) (material : DX12MaterialData)
    (variant : DX12ShaderPassData) : M DX12MaterialPassData := do
  let subpasses ← forEach (createMaterialSubpass materialData material) variant.mSubpasses
  pure ⟨subpasses⟩

/-- The level body of the material loop. -/
def createMaterialLevel (materialData : MaterialData) (material : DX12MaterialData)
    (level : DX12ShaderLevelData) : M DX12MaterialLevelData := do
  let passes ← forEach (createMaterialPass materialData material) level.mPasses
  pure ⟨passes⟩

/-- The queue body of the material loop. -/
def createMaterialQueue (materialData : MaterialData) (material : DX12MaterialData)
    (queue : DX12ShaderQueueData) : M DX12MaterialQueueData := do
  let levels ← forEach (createMaterialLevel materialData material) queue.mLevels
  pure ⟨levels⟩

/-- The pipeline body of the material loop. -/
def createMaterialPipeline (materialData : MaterialData) (material : DX12MaterialData)
    (pipeline : DX12ShaderPipelineData) : M DX12MaterialPipelineData := do
  let queues ← forEach (createMaterialQueue materialData material) pipeline.mQueues
  pure ⟨queues⟩

/-- The solution body of the material loop. -/
def createMaterialSolution (materialData : MaterialData) (material : DX12MaterialData)
    (solution : DX12ShaderSolutionData) : M DX12MaterialSolutionData := do
  let pipelines ← forEach (createMaterialPipeline materialData material) solution.mPipelines
  pure ⟨pipelines⟩

/-- The modifier that `try_createDX12MaterialData` passes to
`mMaterials.modify`. -/
def modifyMaterial (env : Env) (rg : DX12RenderGraphData) (metaID : MetaID) (async : Bool)
    (material0 : DX12MaterialData) : M DX12MaterialData := do
  emit (Event.reset ResourceType.Material_ metaID async)
  let material := { material0 with
    mMaterialData := AssetHandle.reset env.materials metaID async }
  if !async then
    match material.mMaterialData.mData with
    | none => M.fail Failure.Contract
    | some materialData =>
      let shaderID ← mapAt rg.mShaderIndex materialData.mShader
      let shader ← try_createDX12ShaderData env rg shaderID async
      let material := { material with mShader := some shader.1, mDescriptorHeap := true }
      let textures ← forEach (fun (texture : Name × MetaID) =>
        try_createDX12TextureData env texture.2 async) materialData.mTextures
      let material := { material with mTextures := textures.map Prod.fst }
      let resources ← getResources
      let mShader ← vectorIndex resources.mShaders shader.1
      let shaderData ← forEach (createMaterialSolution materialData material) mShader.mSolutions
      pure { material with mShaderData := material.mShaderData ++ shaderData }
  else pure material

/-- The function `try_createDX12MaterialData`. -/
def try_createDX12MaterialData (env : Env) (rg : DX12RenderGraphData) (metaID : MetaID)
    (async : Bool) : M (Ptr × Bool) := do
  let resources ← getResources
  match Cache.find resources.mMaterials metaID with
  | some iter => pure (iter, false)
  | none =>
    let (cache, iter, created) := Cache.emplace resources.mMaterials metaID
    modifyResources (fun r => { r with mMaterials := cache })
    Expects created
    let material ← modifying (fun r => { r with mMaterials := Cache.erase r.mMaterials iter })
      (modifyMaterial env rg metaID async (CacheEntry.create metaID))
    modifyResources (fun r => { r with mMaterials := Cache.modify r.mMaterials iter material })
    pure (iter, created)

/-! ## Content batches -/

/-- The body of the draw-call loop of the `Content_` alternative. The
material is requested under `data.mMesh`, as in the source. -/
def createDrawCall (env : Env) (rg : DX12RenderGraphData) (async : Bool) (data : DrawCallData) :
    M DX12DrawCallData := do
  let dc : DX12DrawCallData := ⟨data.mType, none, none⟩
  if MetaID.isNil data.mMesh then pure { dc with mMesh := none }
  else
    let mesh ← try_createDX12MeshData env data.mMesh async
    let material ← try_createDX12MaterialData env rg data.mMesh async
    pure { dc with mMesh := some mesh.1, mMaterial := some material.1 }

/-- The body of the mesh-renderer loop. -/
def createMeshRenderer (env : Env) (rg : DX12RenderGraphData) (async : Bool)
    (rendererData : MeshRendererData) : M DX12MeshRenderer := do
  let mesh ← try_createDX12MeshData env rendererData.mMeshID async
  let materials ← forEach (fun materialID => try_createDX12MaterialData env rg materialID async)
    rendererData.mMaterialIDs
  pure ⟨some mesh.1, materials.map Prod.fst⟩

/-- The body of the flattened-object loop. -/
def createFlattenedObjects (env : Env) (rg : DX12RenderGraphData) (async : Bool)
    (data : FlattenedObjectsData) : M DX12FlattenedObjects := do
  let renderers ← forEach (createMeshRenderer env rg async) data.mMeshRenderers
  pure ⟨data.mWorldTransforms, data.mWorldTransformInvs, data.mBoundingBoxes, renderers⟩

/-- The modifier that the `Content_` alternative passes to `mContents.modify`. -/
def modifyContent (context : CreationContext) (env : Env) (metaID : MetaID) (async : Bool)
    (content0 : DX12ContentData) : M DX12ContentData := do
  emit (Event.reset ResourceType.Content_ metaID async)
  let content := { content0 with mContentData := AssetHandle.reset env.contents metaID async }
  if !async then
    let resources ← getResources
    match Cache.find resources.mRenderGraphs context.mRenderGraph with
    | none => M.fail Failure.Contract
    | some iter =>
      let rg ← vectorIndex resources.mRenderGraphs iter
      match content.mContentData.mData with
      | none => M.fail Failure.Contract
      | some contentData =>
        let content := { content with mIDs := contentData.mIDs }
        let drawCalls ← forEach (createDrawCall env rg async) contentData.mDrawCalls
        let content := { content with mDrawCalls := content.mDrawCalls ++ drawCalls }
        let objects ← forEach (createFlattenedObjects env rg async) contentData.mFlattenedObjects
        pure { content with mFlattenedObjects := content.mFlattenedObjects ++ objects }
  else pure content

/-- The `Core::Content_` alternative of the visitor of `try_createDX12`. -/
def createContent (context : CreationContext) (env : Env) (metaID : MetaID) (async : Bool) :
    M Bool := do
  let resources ← getResources
  let (cache, iter, created) := Cache.emplace resources.mContents metaID
  modifyResources (fun r => { r with mContents := cache })
  if created then
    let entry ← vectorIndex cache iter
    Expects (entry.mMetaID == metaID)
    let content ← modifying (fun r => { r with mContents := Cache.erase r.mContents iter })
      (modifyContent context env metaID async entry)
    modifyResources (fun r => { r with mContents := Cache.modify r.mContents iter content })
    pure true
  else
    let content ← vectorIndex cache iter
    Expects content.mContentData.valid
    Expects (content.mContentData.mMetaID == metaID)
    pure false

/-- The call `try_createDX12(context, resources, contentID, Core::Content, async)`
as the render-graph builder makes it: the identity check and the `Content_`
alternative. -/
def try_createDX12Content (context : CreationContext) (env : Env) (metaID : MetaID)
    (async : Bool) : M Bool := do
  if MetaID.isNil metaID then M.fail Failure.InvalidIdentity
  else createContent context env metaID async

/-! ## Render graphs -/

/-- The subpass body of the first modifier of `try_createDX12RenderGraphData`:
the attachments are copied and the root signature is created when the baked
payload is not empty. -/
def createRenderSubpass (env : Env) (subpassData : RenderSubpassData) : M DX12RenderSubpass := do
  let subpass : DX12RenderSubpass :=
    { mSampleDesc := subpassData.mSampleDesc,
      mInputAttachments := subpassData.mInputAttachments,
      mOutputAttachments := subpassData.mOutputAttachments,
      mResolveAttachments := subpassData.mResolveAttachments,
      mDepthStencilAttachment := subpassData.mDepthStencilAttachment,
      mPreserveAttachments := subpassData.mPreserveAttachments,
      mSRVs := subpassData.mSRVs,
      mUAVs := subpassData.mUAVs,
      mPostViewTransitions := subpassData.mPostViewTransitions,
      mRootSignature := none,
      mOrderedRenderQueue := [] }
  if !subpassData.mRootSignature.empty then
    if env.createRootSignatureOk subpassData.mRootSignature.size then
      let object ← newObject
      emit (Event.CreateRootSignature object subpassData.mRootSignature.size)
      pure { subpass with mRootSignature := some object }
    else M.fail Failure.Device
  else pure subpass

/-- The pass body of the first modifier. -/
def createRenderPass (env : Env) (passData : RenderPassData) : M DX12RenderPass := do
  let subpasses ← forEach (createRenderSubpass env) passData.mSubpasses
  pure ⟨subpasses, passData.mViewports, passData.mScissorRects, passData.mFramebuffers,
    passData.mDependencies⟩

/-- The pipeline body of the first modifier. -/
def createRenderPipeline (env : Env) (pipelineData : RenderPipelineData) :
    M DX12RenderPipeline := do
  let passes ← forEach (createRenderPass env) pipelineData.mPasses
  pure ⟨passes, pipelineData.mDependencies, pipelineData.mRTVInitialStates,
    pipelineData.mDSVInitialStates, pipelineData.mSubpassIndex⟩

/-- The solution body of the first modifier. -/
def createRenderSolution (env : Env) (solutionData : RenderSolutionData) :
    M DX12RenderSolution := do
  let pipelines ← forEach (createRenderPipeline env) solutionData.mPipelines
  pure ⟨pipelines, solutionData.mRTVSources, solutionData.mDSVSources,
    solutionData.mFramebuffers, solutionData.mRTVs, solutionData.mDSVs,
    solutionData.mPipelineIndex⟩

/-- The first modifier of `try_createDX12RenderGraphData`: the template is
built from the baked description, which is always loaded synchronously. -/
def modifyRenderGraph (env : Env) (metaID : MetaID) (render0 : DX12RenderGraphData) :
    M DX12RenderGraphData := do
  emit (Event.reset ResourceType.RenderGraph_ metaID false)
  let render := { render0 with
    mRenderGraphData := AssetHandle.reset env.renderGraphs metaID false }
  match render.mRenderGraphData.mData with
  | none => M.fail Failure.Contract
  | some renderData =>
    let sc := renderData.mRenderGraph
    emit (Event.resizeDescriptorArray sc.mNumReserveDSVs)
    emit (Event.resizeDescriptorArray sc.mNumReserveRTVs)
    let solutions ← forEach (createRenderSolution env) sc.mSolutions
    pure { render with
      mShaderIndex := renderData.mShaderIndex,
      mRenderGraph :=
        { mSolutions := render.mRenderGraph.mSolutions ++ solutions,
          mFramebuffers := sc.mNumReserveFramebuffers,
          mDSVs := sc.mNumReserveDSVs,
          mRTVs := sc.mNumReserveRTVs,
          mNumBackBuffers := sc.mNumBackBuffers,
          mSolutionIndex := sc.mSolutionIndex } }

/-- The content loop of the second modifier: every content batch of the queue
is requested and then looked up in the content cache. -/
def createQueueContent (context : CreationContext) (env : Env) (async : Bool)
    (contentID : MetaID) : M Ptr := do
  let _ ← try_createDX12Content context env contentID async
  let resources ← getResources
  match Cache.find resources.mContents contentID with
  | some p => pure p
  | none => M.fail Failure.OutOfRange

/-- The queue loop of the second modifier. -/
def createOrderedRenderQueue (context : CreationContext) (env : Env) (async : Bool)
    (unorderedQueueData : UnorderedRenderQueueData) : M DX12UnorderedRenderQueue := do
  let contents ← forEach (createQueueContent context env async) unorderedQueueData.mContents
  pure ⟨contents⟩

/-- The subpass body of the second modifier. -/
def fillRenderSubpass (context : CreationContext) (env : Env) (async : Bool)
    (subpass : DX12RenderSubpass) (subpassData : RenderSubpassData) : M DX12RenderSubpass := do
  let queues ← forEach (createOrderedRenderQueue context env async)
    subpassData.mOrderedRenderQueue
  pure { subpass with mOrderedRenderQueue := subpass.mOrderedRenderQueue ++ queues }

/-- The pass body of the second modifier. -/
def fillRenderPass (context : CreationContext) (env : Env) (async : Bool)
    (pass : DX12RenderPass) (passData : RenderPassData) : M DX12RenderPass := do
  Expects (pass.mSubpasses.length == passData.mSubpasses.length)
  let subpasses ← forEachCombine (fillRenderSubpass context env async) pass.mSubpasses
    passData.mSubpasses
  pure { pass with mSubpasses := subpasses }

/-- The pipeline body of the second modifier. -/
def fillRenderPipeline (context : CreationContext) (env : Env) (async : Bool)
    (pipeline : DX12RenderPipeline) (pipelineData : RenderPipelineData) :
    M DX12RenderPipeline := do
  Expects (pipeline.mPasses.length == pipelineData.mPasses.length)
  let passes ← forEachCombine (fillRenderPass context env async) pipeline.mPasses
    pipelineData.mPasses
  pure { pipeline with mPasses := passes }

/-- The solution body of the second modifier. -/
def fillRenderSolution (context : CreationContext) (env : Env) (async : Bool)
    (solution : DX12RenderSolution) (solutionData : RenderSolutionData) :
    M DX12RenderSolution := do
  Expects (solution.mPipelines.length == solutionData.mPipelines.length)
  let pipelines ← forEachCombine (fillRenderPipeline context env async) solution.mPipelines
    solutionData.mPipelines
  pure { solution with mPipelines := pipelines }

/-- The second modifier of `try_createDX12RenderGraphData`: the ordered render
queues are filled with the content batches, and the baked description is
dropped. -/
def fillRenderGraph (context : CreationContext) (env : Env) (async : Bool)
    (render : DX12RenderGraphData) : M DX12RenderGraphData := do
  match render.mRenderGraphData.mData with
  | none => M.fail Failure.Contract
  | some renderData =>
    let sc := renderData.mRenderGraph
    Expects (render.mRenderGraph.mSolutions.length == sc.mSolutions.length)
    let solutions ← forEachCombine (fillRenderSolution context env async)
      render.mRenderGraph.mSolutions sc.mSolutions
    pure { render with
      mRenderGraph := { render.mRenderGraph with mSolutions := solutions },
      mRenderGraphData := AssetHandle.null }

/-- The function `try_createDX12RenderGraphData`. The entry is written back
after the first modifier, so that the content batches requested by the second
one find the template. -/
def try_createDX12RenderGraphData (context : CreationContext) (env : Env) (metaID : MetaID)
    (async : Bool) : M (Ptr × Bool) := do
  let resources ← getResources
  match Cache.find resources.mRenderGraphs metaID with
  | some iter => pure (iter, false)
  | none =>
    let (cache, iter, created) := Cache.emplace resources.mRenderGraphs metaID
    modifyResources (fun r => { r with mRenderGraphs := cache })
    Expects created
    let render ← modifying
      (fun r => { r with mRenderGraphs := Cache.erase r.mRenderGraphs iter })
      (modifyRenderGraph env metaID (CacheEntry.create metaID))
    modifyResources (fun r => { r with mRenderGraphs := Cache.modify r.mRenderGraphs iter render })
    let render ← modifying
      (fun r => { r with mRenderGraphs := Cache.erase r.mRenderGraphs iter })
      (fillRenderGraph context env async render)
    modifyResources (fun r => { r with mRenderGraphs := Cache.modify r.mRenderGraphs iter render })
    pure (iter, created)

/-! ## The entry point -/

/-- The lookup of the render graph of the context that the `Shader_` and
`Material_` alternatives start with. -/
def contextRenderGraph (context : CreationContext) : M DX12RenderGraphData := do
  let resources ← getResources
  match Cache.find resources.mRenderGraphs context.mRenderGraph with
  | none => M.fail Failure.Contract
  | some iter => vectorIndex resources.mRenderGraphs iter

/-- The function `try_createDX12`: a nil identifier is refused, then the tag
selects the kind. Returns whether the entry was created by this call. -/
def try_createDX12 (context : CreationContext) (env : Env) (metaID : MetaID)
    (tag : ResourceType) (async : Bool) : M Bool := do
  if MetaID.isNil metaID then M.fail Failure.InvalidIdentity
  else
    match tag with
    | ResourceType.Mesh_ =>
      let r ← try_createDX12MeshData env metaID async
      pure r.2
    | ResourceType.Texture_ =>
      let r ← try_createDX12TextureData env metaID async
      pure r.2
    | ResourceType.Shader_ =>
      let rg ← contextRenderGraph context
      let r ← try_createDX12ShaderData env rg metaID async
      pure r.2
    | ResourceType.Material_ =>
      let rg ← contextRenderGraph context
      let r ← try_createDX12MaterialData env rg metaID async
      pure r.2
    | ResourceType.Content_ => createContent context env metaID async
    | ResourceType.RenderGraph_ =>
      let r ← try_createDX12RenderGraphData context env metaID async
      pure r.2

/-! ## Specification vocabulary -/

/-- The world a call ends in. -/
def Res.world {α : Type} : Res α → World
  | Res.ok _ w => w
  | Res.fail _ w => w

/-- The cache of the given kind holds an entry for the identifier: the result
of `find` in that cache. -/
def findEntry (resources : DX12Resources) (tag : ResourceType) (metaID : MetaID) : Option Ptr :=
  match tag with
  | ResourceType.Mesh_ => Cache.find resources.mMeshes metaID
  | ResourceType.Texture_ => Cache.find resources.mTextures metaID
  | ResourceType.Shader_ => Cache.find resources.mShaders metaID
  | ResourceType.Material_ => Cache.find resources.mMaterials metaID
  | ResourceType.Content_ => Cache.find resources.mContents metaID
  | ResourceType.RenderGraph_ => Cache.find resources.mRenderGraphs metaID

/-- The second world differs from the first in no cache but those of the
listed kinds; the default textures and the settings are the same. -/
def ChangesOnly (tags : List ResourceType) (w w1 : World) : Prop :=
  (ResourceType.Mesh_ ∉ tags → w1.mResources.mMeshes = w.mResources.mMeshes) ∧
  (ResourceType.Texture_ ∉ tags → w1.mResources.mTextures = w.mResources.mTextures) ∧
  (ResourceType.Shader_ ∉ tags → w1.mResources.mShaders = w.mResources.mShaders) ∧
  (ResourceType.Material_ ∉ tags → w1.mResources.mMaterials = w.mResources.mMaterials) ∧
  (ResourceType.Content_ ∉ tags → w1.mResources.mContents = w.mResources.mContents) ∧
  (ResourceType.RenderGraph_ ∉ tags →
    w1.mResources.mRenderGraphs = w.mResources.mRenderGraphs) ∧
  w1.mResources.mDefaultTextures = w.mResources.mDefaultTextures ∧
  w1.mResources.mSettings = w.mResources.mSettings

/-- The trace of the second world is the trace of the first followed by
events that all satisfy `P`. -/
def TraceGrows (P : Event → Prop) (w w1 : World) : Prop :=
  ∃ events, w1.mTrace = w.mTrace ++ events ∧ ∀ e ∈ events, P e

/-- The effect of a call: which caches it may change and which events it may
record. -/
def Effect (tags : List ResourceType) (P : Event → Prop) (w w1 : World) : Prop :=
  ChangesOnly tags w w1 ∧ TraceGrows P w w1

/-- Whatever the outcome of the call, the world it ends in is related to the
world it started in. -/
structure Keeps {α : Type} (R : World → World → Prop) (m : M α) : Prop where
  keeps : ∀ w, R w (m w).world

/-- The event creates a device object, allocates descriptors, or records a
copy or a barrier. -/
def Event.isBackendWork : Event → Bool
  | Event.createBuffer _ _ => true
  | Event.CopyBufferRegion _ _ _ _ => true
  | Event.createTexture2D _ _ _ => true
  | Event.CopyTextureRegion _ _ _ => true
  | Event.ResourceBarrier _ => true
  | Event.D3DCreateBlob _ => true
  | Event.CreateGraphicsPipelineState _ _ => true
  | Event.CreateRootSignature _ _ => true
  | Event.resizeDescriptorArray _ => true
  | Event.allocatePersistent _ _ => true
  | Event.CreateShaderResourceView _ _ _ _ => true
  | _ => false

/-- The event touches the shader descriptor heap: a persistent allocation or
a view written into it. -/
def Event.isDescriptorWork : Event → Bool
  | Event.allocatePersistent _ _ => true
  | Event.CreateShaderResourceView _ _ _ _ => true
  | _ => false

/-- The size of the range when the event is a persistent allocation. -/
def Event.allocatedRange : Event → Option Nat
  | Event.allocatePersistent count _ => some count
  | _ => none

/-- The sizes of the persistent ranges allocated in a trace, in order. -/
def allocatedRanges (trace : List Event) : List Nat :=
  trace.filterMap Event.allocatedRange

/-- The target and the destination slot when the event creates a
shader-resource view. -/
def Event.createdView : Event → Option (TextureRef × Nat)
  | Event.CreateShaderResourceView target _ _ dest => some (target, dest)
  | _ => none

/-- The shader-resource views created in a trace, in order: the texture each
one is created for and the slot it is written to. -/
def createdViews (trace : List Event) : List (TextureRef × Nat) :=
  trace.filterMap Event.createdView

/-- The object and its size when the event creates a buffer. -/
def Event.createdBuffer : Event → Option (Handle × Nat)
  | Event.createBuffer object size => some (object, size)
  | _ => none

/-- The buffers created in a trace, in order. -/
def createdBuffers (trace : List Event) : List (Handle × Nat) :=
  trace.filterMap Event.createdBuffer

/-- The barriers of the event when it is a `ResourceBarrier` call. -/
def Event.barriers : Event → List Star.ResourceBarrier
  | Event.ResourceBarrier barriers => barriers
  | _ => []

/-- The barriers submitted in a trace, in order. -/
def submittedBarriers (trace : List Event) : List ResourceBarrier :=
  (trace.map Event.barriers).flatten

/-- Whenever the call returns, the value it returns satisfies `Q`. -/
structure Returns {α : Type} (m : M α) (Q : α → Prop) : Prop where
  returns : ∀ w a w1, m w = Res.ok a w1 → Q a

/-- The caches with one more entry for the identifier in the cache of the
given kind: the entry that `emplace` constructs, with its asset handle reset
to the identifier and not loaded. It owns no buffer, texture, pipeline state,
descriptor range or reference to another entry. The other caches are the
same. -/
def withReservedEntry (resources : DX12Resources) (tag : ResourceType) (metaID : MetaID) :
    DX12Resources :=
  match tag with
  | ResourceType.Mesh_ => { resources with
      mMeshes := resources.mMeshes ++
        [{ (CacheEntry.create metaID : DX12MeshData) with mMeshData := ⟨metaID, none⟩ }] }
  | ResourceType.Texture_ => { resources with
      mTextures := resources.mTextures ++
        [{ (CacheEntry.create metaID : DX12TextureData) with mTextureData := ⟨metaID, none⟩ }] }
  | ResourceType.Shader_ => { resources with
      mShaders := resources.mShaders ++
        [{ (CacheEntry.create metaID : DX12ShaderData) with mShaderData := ⟨metaID, none⟩ }] }
  | ResourceType.Material_ => { resources with
      mMaterials := resources.mMaterials ++
        [{ (CacheEntry.create metaID : DX12MaterialData) with
            mMaterialData := ⟨metaID, none⟩ }] }
  | ResourceType.Content_ => { resources with
      mContents := resources.mContents ++
        [{ (CacheEntry.create metaID : DX12ContentData) with mContentData := ⟨metaID, none⟩ }] }
  | ResourceType.RenderGraph_ => { resources with
      mRenderGraphs := resources.mRenderGraphs ++
        [{ (CacheEntry.create metaID : DX12RenderGraphData) with
            mRenderGraphData := ⟨metaID, none⟩ }] }

/-- The world after an asynchronous request has reserved an entry: the caches
with the reserved entry, and a trace that records the reset of the asset
handle and, for a texture, the release of the temporary arena. Nothing else
differs: no device object, no descriptor, no upload. -/
def afterReserve (w : World) (tag : ResourceType) (metaID : MetaID) : World :=
  { w with
    mResources := withReservedEntry w.mResources tag metaID,
    mArenaLive := if tag = ResourceType.Texture_ then 0 else w.mArenaLive,
    mTrace := w.mTrace ++ Event.reset tag metaID true ::
      (if tag = ResourceType.Texture_ then [Event.arenaRelease] else []) }

/-! ## Example data -/

/-- The scenario mesh: an index buffer of 500 indices of 2 bytes and two
vertex buffers of 1000 vertices of 32 bytes. -/
def exampleMesh : MeshData :=
  { mIndexBuffer := ⟨⟨1000⟩, 2, 4⟩,
    mVertexBuffers := [⟨⟨32000⟩, ⟨32⟩⟩, ⟨⟨32000⟩, ⟨32⟩⟩],
    mSubMeshes := [0],
    mLayoutID := 0,
    mLayoutName := "P3N3T2" }

/-- A texture of 4 by 4 texels with 3 mips, 4 bytes per texel. -/
def exampleTexture : TextureData :=
  { mBuffer := ⟨1792⟩,
    mDesc := ⟨28, 4, 4, 1, 3⟩,
    mFormat := 28 }

/-- A shader subpass with the given texture attributes, one vertex layout and
both programs. -/
def exampleSubpass (textures : List Name) : ShaderSubpassData :=
  { mTextures := textures,
    mProgram := ⟨⟨256⟩, ⟨128⟩⟩,
    mVertexLayouts := [0],
    mInputLayout := ⟨[(0, [0])], 0, 3⟩,
    mState := ⟨0, 4294967295, 0, ⟨false, 0⟩⟩ }

/-- The scenario shader: one solution, one pipeline, one queue, one level, one
pass with two subpasses; subpass A declares three texture attributes and
subpass B none. -/
def exampleShader : ShaderData :=
  ⟨[("Forward", ⟨[("Main", ⟨[("Opaque", ⟨[⟨[("Default",
      ⟨[exampleSubpass ["Albedo", "Normal", "Emissive"], exampleSubpass []]⟩)]⟩]⟩)]⟩)]⟩)]⟩

/-- The scenario material: it uses the scenario shader and bakes two of the
three textures the shader asks for. -/
def exampleMaterial : MaterialData :=
  { mShader := "Lit",
    mTextures := [("Albedo", 50), ("Normal", 51)] }

/-- A content batch with one draw call, mesh 1 with material 30, and one
flattened object with the same mesh and material. -/
def exampleContent : ContentData :=
  { mIDs := [0],
    mDrawCalls := [⟨0, 1, 30⟩],
    mFlattenedObjects := [⟨[0], [0], [0], [⟨1, [30]⟩]⟩] }

/-- A render solution with one pipeline of one pass of one subpass, which the
queue name `Opaque` selects. -/
def exampleRenderSolution : RenderSolutionData :=
  { mPipelines := [
      { mPasses := [
          { mSubpasses := [
              { mSampleDesc := 1,
                mInputAttachments := [],
                mOutputAttachments := [⟨0⟩],
                mResolveAttachments := [],
                mDepthStencilAttachment := none,
                mPreserveAttachments := [],
                mSRVs := [],
                mUAVs := [],
                mPostViewTransitions := [],
                mRootSignature := ⟨64⟩,
                mOrderedRenderQueue := [] }],
            mViewports := [0],
            mScissorRects := [0],
            mFramebuffers := [0],
            mDependencies := [] }],
        mDependencies := [],
        mRTVInitialStates := [0],
        mDSVInitialStates := [],
        mSubpassIndex := [("Opaque", ⟨0, 0⟩)] }],
    mRTVSources := [0],
    mDSVSources := [],
    mFramebuffers := [0],
    mRTVs := [⟨28⟩],
    mDSVs := [],
    mPipelineIndex := [("Main", 0)] }

/-- The scenario render graph: two solutions, `Forward` and `Deferred`, and
the shader index. -/
def exampleRenderGraph : RenderGraphData :=
  { mShaderIndex := [("Lit", 20)],
    mRenderGraph :=
      { mSolutions := [exampleRenderSolution, exampleRenderSolution],
        mNumReserveFramebuffers := 3,
        mNumReserveDSVs := 1,
        mNumReserveRTVs := 3,
        mNumBackBuffers := 3,
        mSolutionIndex := [("Forward", 0), ("Deferred", 1)] } }

/-- The scenario assets: mesh 1, textures 50 and 51, shader 20, material 30,
content 40 and render graph 7; every device call succeeds. -/
def exampleEnv : Env :=
  { meshes := fun metaID => if metaID = 1 then some exampleMesh else none,
    textures := fun metaID => if metaID = 50 ∨ metaID = 51 then some exampleTexture else none,
    shaders := fun metaID => if metaID = 20 then some exampleShader else none,
    materials := fun metaID => if metaID = 30 then some exampleMaterial else none,
    contents := fun metaID => if metaID = 40 then some exampleContent else none,
    renderGraphs := fun metaID => if metaID = 7 then some exampleRenderGraph else none,
    createBlobOk := fun _ => true,
    createPipelineStateOk := fun _ => true,
    createRootSignatureOk := fun _ => true,
    getDXGIFormat := fun format => format,
    getMipInfo := fun _ _ height => ⟨256, 256 * height⟩,
    getEncoding := fun _ => ⟨1, 1⟩,
    half_size := fun size _ => if size / 2 = 0 then 1 else size / 2,
    sSliceAlignment := 512,
    SV_Position_ := 0,
    getName := fun type => if type = 1 then "NORMAL" else "TEXCOORD" }

/-- The scenario context: its shaders and materials are built against render
graph 7. -/
def exampleContext : CreationContext := ⟨7⟩

/-- The world before any request: empty caches, the default `White` texture,
one vertex layout, and a descriptor heap of 64 slots. -/
def initialWorld : World :=
  { mResources :=
      { mMeshes := [],
        mTextures := [],
        mShaders := [],
        mMaterials := [],
        mContents := [],
        mRenderGraphs := [],
        mDefaultTextures := [(DefaultTexture.White, ⟨0, AssetHandle.null, some 0, 28⟩)],
        mSettings := ⟨[(0, ⟨[(0, (0, 0))], [⟨[⟨0, 6, 0⟩]⟩], 0, 3⟩)]⟩ },
    mDescriptorHeap := ⟨64, 4096, 8192, 0, []⟩,
    mUploadOffset := 0,
    mNextObject := 1,
    mArenaLive := 0,
    mTrace := [] }

/-- The subpasses of a shader variant tree, in the order in which the material
loop visits them. -/
def DX12ShaderData.subpasses (shader : DX12ShaderData) : List DX12ShaderSubpassData :=
  shader.mSolutions.flatMap (fun solution =>
    solution.mPipelines.flatMap (fun pipeline =>
      pipeline.mQueues.flatMap (fun queue =>
        queue.mLevels.flatMap (fun level =>
          level.mPasses.flatMap (fun variant => variant.mSubpasses)))))

/-- Whenever the call returns, the events of the observed kind that it has
added to the trace correspond one to one, in order, to the given items, and
each is related to its item by `R`. -/
def Observes {β γ δ : Type} (obs : Event → Option γ) (R : δ → γ → Prop) (m : M β)
    (items : List δ) : Prop :=
  ∀ w y w1, m w = Res.ok y w1 →
    ∃ events, w1.mTrace = w.mTrace ++ events ∧ List.Forall₂ R items (events.filterMap obs)

/-- The scenario world after render graph 7 has been materialized. -/
def exampleRenderGraphWorld : World :=
  (try_createDX12 exampleContext exampleEnv 7 ResourceType.RenderGraph_ false initialWorld).world

/-- The entry of render graph 7 in that world. -/
def exampleRenderGraphEntry : DX12RenderGraphData :=
  exampleRenderGraphWorld.mResources.mRenderGraphs.headD (CacheEntry.create 7)

/-- The scenario world after material 30 has then been materialized
synchronously. -/
def exampleMaterialWorld : World :=
  (try_createDX12MaterialData exampleEnv exampleRenderGraphEntry 30 false
    exampleRenderGraphWorld).world

/-- The scenario assets with one more material payload, stored under the
identifier of mesh 1. -/
def exampleEnvAliased : Env :=
  { exampleEnv with
    materials := fun metaID => if metaID = 30 ∨ metaID = 1 then some exampleMaterial else none }

/-- The scenario world after content 40 has been requested synchronously with
the aliased assets. -/
def exampleContentWorld : World :=
  (try_createDX12 exampleContext exampleEnvAliased 40 ResourceType.Content_ false
    exampleRenderGraphWorld).world

/-- The tree of a shader pass variant mirrors the baked pass: the same number
of subpasses, corresponding subpasses related by `S`. -/
def MirrorPass (S : DX12ShaderSubpassData → ShaderSubpassData → Prop)
    (variant : DX12ShaderPassData) (variantData : Name × ShaderPassData) : Prop :=
  List.Forall₂ S variant.mSubpasses variantData.2.mSubpasses

/-- The tree of a shader level mirrors the baked level. -/
def MirrorLevel (S : DX12ShaderSubpassData → ShaderSubpassData → Prop)
    (level : DX12ShaderLevelData) (levelData : ShaderLevelData) : Prop :=
  List.Forall₂ (MirrorPass S) level.mPasses levelData.mPasses

/-- The tree of a shader queue mirrors the baked queue. -/
def MirrorQueue (S : DX12ShaderSubpassData → ShaderSubpassData → Prop)
    (queue : DX12ShaderQueueData) (queueData : Name × ShaderQueueData) : Prop :=
  List.Forall₂ (MirrorLevel S) queue.mLevels queueData.2.mLevels

/-- The tree of a shader pipeline mirrors the baked pipeline. -/
def MirrorPipeline (S : DX12ShaderSubpassData → ShaderSubpassData → Prop)
    (pipeline : DX12ShaderPipelineData) (pipelineData : Name × ShaderPipelineData) : Prop :=
  List.Forall₂ (MirrorQueue S) pipeline.mQueues pipelineData.2.mQueues

/-- The tree of a shader solution mirrors the baked solution. -/
def MirrorSolution (S : DX12ShaderSubpassData → ShaderSubpassData → Prop)
    (solution : DX12ShaderSolutionData) (solutionData : Name × ShaderSolutionData) : Prop :=
  List.Forall₂ (MirrorPipeline S) solution.mPipelines solutionData.2.mPipelines

/-- The variant tree of a shader entry mirrors the baked shader: at every one
of the six levels the tree has as many children as the baked data, and
corresponding subpasses are related by `S`. -/
def Mirrors (S : DX12ShaderSubpassData → ShaderSubpassData → Prop) (shader : DX12ShaderData)
    (shaderData : ShaderData) : Prop :=
  List.Forall₂ (MirrorSolution S) shader.mSolutions shaderData.mSolutions

/-- The child counts of a baked shader: per solution, per pipeline, per queue,
per level and per pass, the number of subpasses. The length of each list is
the number of children at that level. -/
def ShaderData.shape (shaderData : ShaderData) : List (List (List (List (List Nat)))) :=
  shaderData.mSolutions.map (fun solutionData =>
    solutionData.2.mPipelines.map (fun pipelineData =>
      pipelineData.2.mQueues.map (fun queueData =>
        queueData.2.mLevels.map (fun levelData =>
          levelData.mPasses.map (fun variantData => variantData.2.mSubpasses.length)))))

/-- The child counts of a shader variant tree, level by level. -/
def DX12ShaderData.shape (shader : DX12ShaderData) : List (List (List (List (List Nat)))) :=
  shader.mSolutions.map (fun solution =>
    solution.mPipelines.map (fun pipeline =>
      pipeline.mQueues.map (fun queue =>
        queue.mLevels.map (fun level =>
          level.mPasses.map (fun variant => variant.mSubpasses.length)))))

/-- A subpass as `resizeData` leaves it: one empty pipeline state per vertex
layout and nothing else. -/
def SubpassResized (subpass : DX12ShaderSubpassData) (subpassData : ShaderSubpassData) : Prop :=
  subpass.mStates = List.replicate subpassData.mVertexLayouts.length ⟨none⟩

/-- A subpass as `createShaderResources` leaves it: the texture attributes of
the baked subpass, and one created pipeline state per vertex layout. -/
def SubpassBuilt (subpass : DX12ShaderSubpassData) (subpassData : ShaderSubpassData) : Prop :=
  subpass.mTextures = subpassData.mTextures ∧
  subpass.mStates.length = subpassData.mVertexLayouts.length ∧
  ∀ state ∈ subpass.mStates, state.mObject.isSome = true

/-- The baked pipeline fits a pipeline of the template: it has no more queues
than the template pipeline has named subpasses. -/
def FitsPipeline (renderPipeline : DX12RenderPipeline)
    (pipelineData : Name × ShaderPipelineData) : Prop :=
  pipelineData.2.mQueues.length ≤ renderPipeline.mSubpassIndex.length

/-- The baked solution fits a solution of the template: it has no more
pipelines than the template solution, and each of its pipelines is found by
name in the template solution and fits the pipeline found. -/
def FitsSolution (renderSolution : DX12RenderSolution)
    (solutionData : Name × ShaderSolutionData) : Prop :=
  solutionData.2.mPipelines.length ≤ renderSolution.mPipelines.length ∧
  ∀ pipelineData ∈ solutionData.2.mPipelines, ∃ e renderPipeline,
    renderSolution.mPipelineIndex.find? (fun e => e.1 = pipelineData.1) = some e ∧
    renderSolution.mPipelines[e.2]? = some renderPipeline ∧
    FitsPipeline renderPipeline pipelineData

/-- The baked shader fits the render-graph template: it has no more solutions
than the template, and each of its solutions is found by name in the template
and fits the solution found. -/
def FitsTemplate (renderGraph : DX12RenderWorks) (shaderData : ShaderData) : Prop :=
  shaderData.mSolutions.length ≤ renderGraph.mSolutions.length ∧
  ∀ solutionData ∈ shaderData.mSolutions, ∃ e renderSolution,
    renderGraph.mSolutionIndex.find? (fun e => e.1 = solutionData.1) = some e ∧
    renderGraph.mSolutions[e.2]? = some renderSolution ∧
    FitsSolution renderSolution solutionData

/-- A pipeline node without a queue index. -/
def PipelineUnindexed (pipeline : DX12ShaderPipelineData)
    (_pipelineData : Name × ShaderPipelineData) : Prop :=
  pipeline.mQueueIndex = []

/-- A solution node without a pipeline index, over pipelines without a queue
index, one per baked pipeline. -/
def SolutionUnindexed (solution : DX12ShaderSolutionData)
    (solutionData : Name × ShaderSolutionData) : Prop :=
  solution.mPipelineIndex = [] ∧
  List.Forall₂ PipelineUnindexed solution.mPipelines solutionData.2.mPipelines

/-- The scenario world after shader 20 has then been materialized
synchronously against render graph 7. -/
def exampleShaderWorld : World :=
  (try_createDX12ShaderData exampleEnv exampleRenderGraphEntry 20 false
    exampleRenderGraphWorld).world

/-- The child counts of the render-graph template: per solution, per pipeline
and per pass, the number of subpasses. -/
def DX12RenderWorks.shape (renderGraph : DX12RenderWorks) : List (List (List Nat)) :=
  renderGraph.mSolutions.map (fun solution =>
    solution.mPipelines.map (fun pipeline =>
      pipeline.mPasses.map (fun pass => pass.mSubpasses.length)))

/-- A mesh entry is Resident when its baked mesh is
loaded and its buffers are present: the index buffer exactly when the baked
index buffer is not empty, and one vertex buffer per baked vertex buffer. -/
def DX12MeshData.Resident (mesh : DX12MeshData) : Prop :=
  ∃ meshData, mesh.mMeshData.mData = some meshData ∧
    mesh.mIndexBuffer.mBuffer.isSome = !meshData.mIndexBuffer.mBuffer.empty ∧
    List.Forall₂ (fun (vb : DX12VertexBuffer) (_ : VertexBufferData) => vb.mBuffer.isSome = true)
      mesh.mVertexBuffers meshData.mVertexBuffers

/-- A texture entry is Resident when its baked texture
is loaded and its texture object is present. -/
def DX12TextureData.Resident (tex : DX12TextureData) : Prop :=
  ∃ textureData, tex.mTextureData.mData = some textureData ∧ tex.mTexture.isSome = true

/-- A shader entry is Resident when its baked shader
is loaded and its variant tree mirrors it, with one created pipeline state per
vertex layout of every subpass. -/
def DX12ShaderData.Resident (shader : DX12ShaderData) : Prop :=
  ∃ shaderData, shader.mShaderData.mData = some shaderData ∧
    Mirrors SubpassBuilt shader shaderData

/-- The view range of a material subpass has one slot per texture attribute of
the shader subpass. -/
def MaterialSubpassBuilt (materialPass : DX12MaterialSubpassData)
    (pass : DX12ShaderSubpassData) : Prop :=
  materialPass.mPersistentCountSRV = pass.mTextures.length % 2 ^ 32

/-- The tree of a material pass variant mirrors the pass variant of the
shader. -/
def MaterialMirrorPass (materialVariant : DX12MaterialPassData)
    (variant : DX12ShaderPassData) : Prop :=
  List.Forall₂ MaterialSubpassBuilt materialVariant.mSubpasses variant.mSubpasses

/-- The tree of a material level mirrors the level of the shader. -/
def MaterialMirrorLevel (materialLevel : DX12MaterialLevelData)
    (level : DX12ShaderLevelData) : Prop :=
  List.Forall₂ MaterialMirrorPass materialLevel.mPasses level.mPasses

/-- The tree of a material queue mirrors the queue of the shader. -/
def MaterialMirrorQueue (materialQueue : DX12MaterialQueueData)
    (queue : DX12ShaderQueueData) : Prop :=
  List.Forall₂ MaterialMirrorLevel materialQueue.mLevels queue.mLevels

/-- The tree of a material pipeline mirrors the pipeline of the shader. -/
def MaterialMirrorPipeline (materialPipeline : DX12MaterialPipelineData)
    (pipeline : DX12ShaderPipelineData) : Prop :=
  List.Forall₂ MaterialMirrorQueue materialPipeline.mQueues pipeline.mQueues

/-- The tree of a material solution mirrors the solution of the shader. -/
def MaterialMirrorSolution (materialSolution : DX12MaterialSolutionData)
    (solution : DX12ShaderSolutionData) : Prop :=
  List.Forall₂ MaterialMirrorPipeline materialSolution.mPipelines solution.mPipelines

/-- A material entry is built when its baked material is loaded, it refers to
a shader entry of the cache and to one texture entry per baked texture, and
its variant tree mirrors the tree of that shader entry, with a view range of
one slot per texture attribute for every subpass. -/
def DX12MaterialData.Built (resources : DX12Resources) (material : DX12MaterialData) : Prop :=
  ∃ materialData p shader, material.mMaterialData.mData = some materialData ∧
    material.mShader = some p ∧ resources.mShaders[p]? = some shader ∧
    material.mDescriptorHeap = true ∧
    material.mTextures.length = materialData.mTextures.length ∧
    List.Forall₂ MaterialMirrorSolution material.mShaderData shader.mSolutions

/-- The view range that a material subpass records for a shader subpass: one
slot per texture attribute; no range, with both offsets null, when the subpass
has no texture attribute; otherwise the CPU offset and the GPU offset of one
and the same slot of the descriptor heap, whose CPU and GPU starts are
`cpuStart` and `gpuStart`. -/
def MaterialSubpassResident (cpuStart gpuStart : Nat)
    (materialPass : DX12MaterialSubpassData) (pass : DX12ShaderSubpassData) : Prop :=
  materialPass.mPersistentCountSRV = pass.mTextures.length % 2 ^ 32 ∧
  (pass.mTextures = [] →
    materialPass.mPersistentCpuOffsetSRV = 0 ∧ materialPass.mPersistentGpuOffsetSRV = 0) ∧
  (pass.mTextures ≠ [] → ∃ first,
    materialPass.mPersistentCpuOffsetSRV = cpuStart + first ∧
    materialPass.mPersistentGpuOffsetSRV = gpuStart + first)

/-- The subpasses of the tree of a material correspond one to one to the
subpasses of the tree of a shader entry, related by `S`, through solutions,
pipelines, queues, levels and pass variants. -/
def MaterialMirrors (S : DX12MaterialSubpassData → DX12ShaderSubpassData → Prop)
    (tree : List DX12MaterialSolutionData) (solutions : List DX12ShaderSolutionData) : Prop :=
  List.Forall₂ (fun (ms : DX12MaterialSolutionData) (s : DX12ShaderSolutionData) =>
    List.Forall₂ (fun (mp : DX12MaterialPipelineData) (p : DX12ShaderPipelineData) =>
      List.Forall₂ (fun (mq : DX12MaterialQueueData) (q : DX12ShaderQueueData) =>
        List.Forall₂ (fun (ml : DX12MaterialLevelData) (l : DX12ShaderLevelData) =>
          List.Forall₂ (fun (mv : DX12MaterialPassData) (v : DX12ShaderPassData) =>
            List.Forall₂ S mv.mSubpasses v.mSubpasses)
            ml.mPasses l.mPasses)
          mq.mLevels q.mLevels)
        mp.mQueues p.mQueues)
      ms.mPipelines s.mPipelines)
    tree solutions

/-- A material entry is Resident when its baked material is loaded, the shader
entry it refers to is Resident, it refers, for every baked texture in order,
to a Resident texture entry of that identifier, it owns its descriptors, and
its variant tree mirrors the tree of that shader entry, every subpass with
the view range of its texture attributes in the descriptor heap. -/
def DX12MaterialData.Resident (heap : DX12ShaderDescriptorHeap) (resources : DX12Resources)
    (material : DX12MaterialData) : Prop :=
  ∃ materialData p shader, material.mMaterialData.mData = some materialData ∧
    material.mShader = some p ∧ resources.mShaders[p]? = some shader ∧ shader.Resident ∧
    material.mDescriptorHeap = true ∧
    List.Forall₂ (fun (ptr : Ptr) (texture : Name × MetaID) =>
      ∃ tex, resources.mTextures[ptr]? = some tex ∧ tex.mMetaID = texture.2 ∧ tex.Resident)
      material.mTextures materialData.mTextures ∧
    MaterialMirrors (MaterialSubpassResident heap.mCpuStart heap.mGpuStart)
      material.mShaderData shader.mSolutions

/-- A built draw call: the type of the baked draw call, and references to a
mesh entry and a material entry unless the baked mesh identifier is nil. -/
def DrawCallBuilt (dc : DX12DrawCallData) (data : DrawCallData) : Prop :=
  dc.mType = data.mType ∧
  (MetaID.isNil data.mMesh = false → dc.mMesh.isSome = true ∧ dc.mMaterial.isSome = true)

/-- A built mesh renderer: a reference to a mesh entry and one reference to a
material entry per baked material. -/
def MeshRendererBuilt (renderer : DX12MeshRenderer) (rendererData : MeshRendererData) : Prop :=
  renderer.mMesh.isSome = true ∧ renderer.mMaterials.length = rendererData.mMaterialIDs.length

/-- A built batch of flattened objects: one built mesh renderer per baked
renderer. -/
def FlattenedObjectsBuilt (objects : DX12FlattenedObjects) (data : FlattenedObjectsData) : Prop :=
  List.Forall₂ MeshRendererBuilt objects.mMeshRenderers data.mMeshRenderers

/-- A content entry is Resident when its baked content
is loaded and it holds one built draw call per baked draw call and one built
batch per baked batch of flattened objects. -/
def DX12ContentData.Resident (content : DX12ContentData) : Prop :=
  ∃ contentData, content.mContentData.mData = some contentData ∧
    content.mIDs = contentData.mIDs ∧
    List.Forall₂ DrawCallBuilt content.mDrawCalls contentData.mDrawCalls ∧
    List.Forall₂ FlattenedObjectsBuilt content.mFlattenedObjects contentData.mFlattenedObjects

/-- The subpasses of the template correspond one to one to the baked
subpasses, related by `S`, through solutions, pipelines and passes. -/
def RenderMirrors (S : DX12RenderSubpass → RenderSubpassData → Prop)
    (solutions : List DX12RenderSolution) (solutionsData : List RenderSolutionData) : Prop :=
  List.Forall₂ (fun (solution : DX12RenderSolution) (solutionData : RenderSolutionData) =>
    List.Forall₂ (fun (pipeline : DX12RenderPipeline) (pipelineData : RenderPipelineData) =>
      List.Forall₂ (fun (pass : DX12RenderPass) (passData : RenderPassData) =>
        List.Forall₂ S pass.mSubpasses passData.mSubpasses)
        pipeline.mPasses pipelineData.mPasses)
      solution.mPipelines solutionData.mPipelines)
    solutions solutionsData

/-- A subpass of the template as the first modifier leaves it: the root
signature is created exactly when the baked one is not empty, and there is no
render queue yet. -/
def RenderSubpassCreated (subpass : DX12RenderSubpass) (subpassData : RenderSubpassData) : Prop :=
  subpass.mRootSignature.isSome = !subpassData.mRootSignature.empty ∧
  subpass.mOrderedRenderQueue = []

/-- A subpass of the template as the second modifier leaves it: the root
signature is created exactly when the baked one is not empty, and every baked
render queue is built, with one content reference per baked content. -/
def RenderSubpassBuilt (subpass : DX12RenderSubpass) (subpassData : RenderSubpassData) : Prop :=
  subpass.mRootSignature.isSome = !subpassData.mRootSignature.empty ∧
  List.Forall₂ (fun (queue : DX12UnorderedRenderQueue) (queueData : UnorderedRenderQueueData) =>
    queue.mContents.length = queueData.mContents.length)
    subpass.mOrderedRenderQueue subpassData.mOrderedRenderQueue

/-- A render-graph entry is Resident when its template
is built from the baked render graph of its identifier: the shader index and
the solution index are the baked ones and every baked subpass has its built
subpass. The entry keeps no handle to the baked data, so the baked data is
that of the asset database. -/
def DX12RenderGraphData.Resident (env : Env) (render : DX12RenderGraphData) : Prop :=
  ∃ renderData, env.renderGraphs render.mMetaID = some renderData ∧
    render.mShaderIndex = renderData.mShaderIndex ∧
    render.mRenderGraph.mSolutionIndex = renderData.mRenderGraph.mSolutionIndex ∧
    RenderMirrors RenderSubpassBuilt render.mRenderGraph.mSolutions
      renderData.mRenderGraph.mSolutions

/-- The entry at position `p` of the cache of the given kind is Resident in
the world: its backend objects are present. -/
def Resident (env : Env) (w : World) (tag : ResourceType) (p : Ptr) : Prop :=
  match tag with
  | ResourceType.Mesh_ => ∃ mesh, w.mResources.mMeshes[p]? = some mesh ∧ mesh.Resident
  | ResourceType.Texture_ => ∃ tex, w.mResources.mTextures[p]? = some tex ∧ tex.Resident
  | ResourceType.Shader_ => ∃ shader, w.mResources.mShaders[p]? = some shader ∧ shader.Resident
  | ResourceType.Material_ =>
    ∃ material, w.mResources.mMaterials[p]? = some material ∧
      material.Resident w.mDescriptorHeap w.mResources
  | ResourceType.Content_ =>
    ∃ content, w.mResources.mContents[p]? = some content ∧ content.Resident
  | ResourceType.RenderGraph_ =>
    ∃ render, w.mResources.mRenderGraphs[p]? = some render ∧ render.Resident env

/-- Two runs agree: started in worlds related by `S`, whenever both return
they return the same value, in worlds related by `S`. -/
structure Agrees {α : Type} (S : World → World → Prop) (ma ms : M α) : Prop where
  agrees : ∀ wa ws ra rs wa1 ws1, S wa ws → ma wa = Res.ok ra wa1 → ms ws = Res.ok rs ws1 →
    ra = rs ∧ S wa1 ws1

/-- The content caches of the two worlds hold entries for the same
identifiers at the same positions, with handles reset to the same
identifiers. -/
def SameContentKeys (wa ws : World) : Prop :=
  wa.mResources.mContents.map (fun c => (c.mMetaID, c.mContentData.mMetaID)) =
    ws.mResources.mContents.map (fun c => (c.mMetaID, c.mContentData.mMetaID))

/-- A render graph like the scenario one whose subpasses queue content 40. -/
def exampleQueuedRenderGraph : RenderGraphData :=
  { exampleRenderGraph with
    mRenderGraph := { exampleRenderGraph.mRenderGraph with
      mSolutions := exampleRenderGraph.mRenderGraph.mSolutions.map (fun solution =>
        { solution with
          mPipelines := solution.mPipelines.map (fun pipeline =>
            { pipeline with
              mPasses := pipeline.mPasses.map (fun pass =>
                { pass with
                  mSubpasses := pass.mSubpasses.map (fun subpass =>
                    { subpass with mOrderedRenderQueue := [⟨[40]⟩] }) }) }) }) } }

/-- The aliased scenario assets with the queued render graph stored under
identifier 8. -/
def exampleQueuedEnv : Env :=
  { exampleEnvAliased with
    renderGraphs := fun metaID => if metaID = 8 then some exampleQueuedRenderGraph else none }

/-- The pass index of a level has one entry per pass. -/
def IndexedLevel (level : DX12ShaderLevelData) : Prop :=
  level.mPassIndex.length = level.mPasses.length

/-- Every level of the queue is indexed. -/
def IndexedQueue (queue : DX12ShaderQueueData) : Prop :=
  ∀ level ∈ queue.mLevels, IndexedLevel level

/-- The queue index of a pipeline has one entry per queue, and every queue is
indexed. -/
def IndexedPipeline (pipeline : DX12ShaderPipelineData) : Prop :=
  pipeline.mQueueIndex.length = pipeline.mQueues.length ∧
  ∀ queue ∈ pipeline.mQueues, IndexedQueue queue

/-- The pipeline index of a solution has one entry per pipeline, and every
pipeline is indexed. -/
def IndexedSolution (solution : DX12ShaderSolutionData) : Prop :=
  solution.mPipelineIndex.length = solution.mPipelines.length ∧
  ∀ pipeline ∈ solution.mPipelines, IndexedPipeline pipeline

/-- Every index map of the variant tree has as many entries as the tree has
children at its level: solution index, pipeline indices, queue indices and
pass indices. -/
def DX12ShaderData.Indexed (shader : DX12ShaderData) : Prop :=
  shader.mSolutionIndex.length = shader.mSolutions.length ∧
  ∀ solution ∈ shader.mSolutions, IndexedSolution solution

/-- A baked render graph whose index maps do not match its children: one name
for two solutions, two names for the one pipeline of a solution, no name for
the one subpass of a pipeline. -/
def exampleMismatchedRenderGraph : RenderGraphData :=
  { mShaderIndex := [("Lit", 20)],
    mRenderGraph :=
      { exampleRenderGraph.mRenderGraph with
        mSolutions := exampleRenderGraph.mRenderGraph.mSolutions.map (fun solution =>
          { solution with
            mPipelines := solution.mPipelines.map (fun pipeline =>
              { pipeline with mSubpassIndex := [] }),
            mPipelineIndex := [("Main", 0), ("Extra", 0)] }),
        mSolutionIndex := [("Forward", 0)] } }

/-- The scenario assets with the mismatched render graph stored under
identifier 9. -/
def exampleMismatchedEnv : Env :=
  { exampleEnv with
    renderGraphs := fun metaID =>
      if metaID = 9 then some exampleMismatchedRenderGraph else none }

/-- A baked shader with two solutions, `Forward` and `Deferred`, each like the
one of the scenario shader. -/
def exampleTwoSolutionShader : ShaderData :=
  ⟨exampleShader.mSolutions ++ exampleShader.mSolutions.map (fun s => ("Deferred", s.2))⟩

/-- The entry of render graph 7 with a solution index that sends both names to
position 0. -/
def exampleAliasedRenderGraphEntry : DX12RenderGraphData :=
  { exampleRenderGraphEntry with
    mRenderGraph := { exampleRenderGraphEntry.mRenderGraph with
      mSolutionIndex := [("Forward", 0), ("Deferred", 0)] } }

/-- The scenario assets with the two-solution shader stored under
identifier 21. -/
def exampleTwoSolutionEnv : Env :=
  { exampleEnv with
    shaders := fun metaID => if metaID = 21 then some exampleTwoSolutionShader else none }

/-- The world after the mismatched render graph 9 has been requested in the
initial world. -/
def exampleMismatchedWorld : World :=
  (try_createDX12 ⟨9⟩ exampleMismatchedEnv 9 ResourceType.RenderGraph_ false initialWorld).world

/-- The depth check of one baked subpass against the render subpass it is
built against: when the subpass has a vertex layout and the render subpass has
a depth-stencil attachment, the depth-stencil state enables depth. -/
def DepthChecked (renderSubpass : DX12RenderSubpass) (subpassData : ShaderSubpassData) : Prop :=
  subpassData.mVertexLayouts ≠ [] → renderSubpass.mDepthStencilAttachment.isSome = true →
    subpassData.mState.mDepthStencilState.mDepthEnabled = true

/-- The baked subpass is a subpass of the baked queue. -/
def SubpassOfQueue (queueData : Name × ShaderQueueData) (subpassData : ShaderSubpassData) :
    Prop :=
  ∃ levelData ∈ queueData.2.mLevels, ∃ variantData ∈ levelData.mPasses,
    subpassData ∈ variantData.2.mSubpasses

/-- The render subpass that the name of a baked queue selects in a pipeline of
the template. -/
def QueueSubpass (renderPipeline : DX12RenderPipeline) (queueData : Name × ShaderQueueData)
    (renderSubpass : DX12RenderSubpass) : Prop :=
  ∃ e renderPass, renderPipeline.mSubpassIndex.find? (fun e => e.1 = queueData.1) = some e ∧
    renderPipeline.mPasses[e.2.mPassID]? = some renderPass ∧
    renderPass.mSubpasses[e.2.mSubpassID]? = some renderSubpass

/-- The pipeline of the template that the name of a baked pipeline selects. -/
def PipelineOfTemplate (renderSolution : DX12RenderSolution)
    (pipelineData : Name × ShaderPipelineData) (renderPipeline : DX12RenderPipeline) : Prop :=
  ∃ e, renderSolution.mPipelineIndex.find? (fun e => e.1 = pipelineData.1) = some e ∧
    renderSolution.mPipelines[e.2]? = some renderPipeline

/-- The solution of the template that the name of a baked solution selects. -/
def SolutionOfTemplate (renderGraph : DX12RenderWorks)
    (solutionData : Name × ShaderSolutionData) (renderSolution : DX12RenderSolution) : Prop :=
  ∃ e, renderGraph.mSolutionIndex.find? (fun e => e.1 = solutionData.1) = some e ∧
    renderGraph.mSolutions[e.2]? = some renderSolution

/-- The baked subpass is built against the render subpass: it lies in a queue
of a pipeline of a solution of the baked shader, and the names of the
solution, the pipeline and the queue select the render subpass in the
template. -/
def BuiltAgainst (renderGraph : DX12RenderWorks) (shaderData : ShaderData)
    (renderSubpass : DX12RenderSubpass) (subpassData : ShaderSubpassData) : Prop :=
  ∃ solutionData ∈ shaderData.mSolutions, ∃ renderSolution,
    SolutionOfTemplate renderGraph solutionData renderSolution ∧
    ∃ pipelineData ∈ solutionData.2.mPipelines, ∃ renderPipeline,
      PipelineOfTemplate renderSolution pipelineData renderPipeline ∧
      ∃ queueData ∈ pipelineData.2.mQueues,
        QueueSubpass renderPipeline queueData renderSubpass ∧
        SubpassOfQueue queueData subpassData

/-- The scenario subpass with depth enabled. -/
def exampleDepthSubpass (textures : List Name) : ShaderSubpassData :=
  { exampleSubpass textures with mState := ⟨0, 4294967295, 0, ⟨true, 0⟩⟩ }

/-- The scenario shader with depth enabled in the state of both subpasses. -/
def exampleDepthShader : ShaderData :=
  ⟨[("Forward", ⟨[("Main", ⟨[("Opaque", ⟨[⟨[("Default",
      ⟨[exampleDepthSubpass ["Albedo", "Normal", "Emissive"], exampleDepthSubpass []]⟩)]⟩]⟩)]⟩)]⟩)]⟩

/-- The scenario assets with the depth-enabled shader stored under
identifier 22. -/
def exampleDepthEnv : Env :=
  { exampleEnv with
    shaders := fun metaID => if metaID = 22 then some exampleDepthShader else none }

/-- The render subpass of the scenario template with a depth-stencil
attachment. -/
def exampleDepthRenderSubpass : DX12RenderSubpass :=
  { mSampleDesc := 1,
    mInputAttachments := [],
    mOutputAttachments := [⟨0⟩],
    mResolveAttachments := [],
    mDepthStencilAttachment := some ⟨0⟩,
    mPreserveAttachments := [],
    mSRVs := [],
    mUAVs := [],
    mPostViewTransitions := [],
    mRootSignature := some 1,
    mOrderedRenderQueue := [] }

/-- The solution of the scenario template with that subpass and one
depth-stencil view. -/
def exampleDepthRenderSolution : DX12RenderSolution :=
  { mPipelines := [⟨[⟨[exampleDepthRenderSubpass], [0], [0], [0], []⟩], [], [0], [0],
      [("Opaque", ⟨0, 0⟩)]⟩],
    mRTVSources := [0],
    mDSVSources := [0],
    mFramebuffers := [0],
    mRTVs := [⟨28⟩],
    mDSVs := [⟨40⟩],
    mPipelineIndex := [("Main", 0)] }

/-- The entry of render graph 7 with depth-stencil attachments in its
template. -/
def exampleDepthRenderGraphEntry : DX12RenderGraphData :=
  { exampleRenderGraphEntry with
    mRenderGraph := { exampleRenderGraphEntry.mRenderGraph with
      mSolutions := [exampleDepthRenderSolution, exampleDepthRenderSolution] } }

/-- The scenario assets on a device whose `CreateGraphicsPipelineState`
fails. -/
def exampleDeviceFailureEnv : Env :=
  { exampleEnv with createPipelineStateOk := fun _ => false }

/-- The world in which the request for shader 20 ends on that device. -/
def exampleDeviceFailureWorld : World :=
  (try_createDX12 exampleContext exampleDeviceFailureEnv 20 ResourceType.Shader_ false
    exampleRenderGraphWorld).world

/-- The scenario shader with a vertex layout, 5, that the settings do not
have. -/
def exampleMissingLayoutShader : ShaderData :=
  ⟨[("Forward", ⟨[("Main", ⟨[("Opaque", ⟨[⟨[("Default",
      ⟨[{ exampleSubpass [] with mVertexLayouts := [5] }]⟩)]⟩]⟩)]⟩)]⟩)]⟩

/-- The scenario assets with that shader stored under identifier 23. -/
def exampleMissingLayoutEnv : Env :=
  { exampleEnv with
    shaders := fun metaID => if metaID = 23 then some exampleMissingLayoutShader else none }

/-- The world in which the request for shader 23 ends. -/
def exampleMissingLayoutWorld : World :=
  (try_createDX12 exampleContext exampleMissingLayoutEnv 23 ResourceType.Shader_ false
    exampleRenderGraphWorld).world

/-- A content batch without draw calls whose one mesh renderer has the nil
mesh identifier and material 30. -/
def exampleNilMeshContent : ContentData :=
  { mIDs := [0],
    mDrawCalls := [],
    mFlattenedObjects := [⟨[0], [0], [0], [⟨0, [30]⟩]⟩] }

/-- The scenario assets with that content batch stored under identifier 41. -/
def exampleNilMeshEnv : Env :=
  { exampleEnv with
    contents := fun metaID => if metaID = 41 then some exampleNilMeshContent else none }

/-- The world in which the synchronous request for content 41 ends. -/
def exampleNilMeshWorld : World :=
  (try_createDX12 exampleContext exampleNilMeshEnv 41 ResourceType.Content_ false
    exampleRenderGraphWorld).world

/-! ## Render works (`Star/DX12Engine/SDX12RenderWorks.cpp`)

The render targets and the descriptor tables of one pipeline of a render
solution. The structures are those that `SDX12RenderWorks.cpp` reads and
writes; the calls on the device, the swap chain and the shader descriptor
heap are observed through a trace. A function that updates the render works
in place is a function to a `Step`: the render works as the call leaves them,
the context, and what was thrown, if anything. -/

namespace RenderWorks

/-- What ends a call of `SDX12RenderWorks.cpp` without returning. -/
inductive Thrown where
  /-- A failed `Expects` or `Ensures`. -/
  | Contract
  /-- A throwing `.at()` lookup. -/
  | OutOfRange
  /-- A failed `V(hr)` device call. -/
  | Device
  /-- The persistent descriptor allocator has no room. -/
  | HeapExhausted
  /-- An unchecked index past the end. -/
  | Undefined
  /-- The exception `std::runtime_error(what)`. -/
  | runtime_error (what : String)
  deriving DecidableEq, Repr

/-- The alternatives of `collection.mIndex.mPersistency`. -/
inductive Persistency where
  | Persistent_
  | Dynamic_
  deriving DecidableEq, Repr

/-- The type of a descriptor: a sampler state, or another alternative, which
`isConstant` classifies. -/
inductive AttributeType where
  | SamplerState_
  | other (tag : Nat)
  deriving DecidableEq, Repr

/-- The alternatives of `subrange.mSource`. -/
inductive DescriptorSource where
  | EngineSource_
  | RenderTargetSource_
  | MaterialSource_
  deriving DecidableEq, Repr

/-- The type of a descriptor range: `SSV_` or another alternative. -/
inductive RangeType where
  | SSV_
  | other (tag : Nat)
  deriving DecidableEq, Repr

/-- A descriptor of a subrange (`attr`). -/
structure ShaderAttribute where
  mAttributeType : AttributeType
  mID : Nat
  deriving DecidableEq, Repr

/-- A subrange of a descriptor range: descriptors of one source. -/
structure DescriptorSubrange where
  mSource : DescriptorSource
  mDescriptors : List ShaderAttribute
  deriving DecidableEq, Repr

/-- A descriptor range. -/
structure DescriptorRange where
  mType : RangeType
  mSubranges : List DescriptorSubrange
  deriving DecidableEq, Repr

/-- A descriptor list of a collection (`dx12List`): its capacity, the offsets
of its persistent range (null when it has none), its ranges and its unbounded
descriptors. -/
structure DX12DescriptorList where
  mCapacity : Nat
  mGpuOffset : Nat
  mCpuOffset : Nat
  mRanges : List DescriptorRange
  mUnboundedDescriptors : List Nat
  deriving DecidableEq, Repr

/-- The index of a descriptor collection. -/
structure DescriptorIndex where
  mUpdate : Nat
  mPersistency : Persistency
  deriving DecidableEq, Repr

/-- A descriptor collection of a graphics subpass. -/
structure DX12DescriptorCollection where
  mIndex : DescriptorIndex
  mResourceViewLists : List DX12DescriptorList
  mSamplerLists : List DX12DescriptorList
  deriving DecidableEq, Repr

/-- A graphics subpass. -/
structure DX12GraphicsSubpass where
  mDescriptors : List DX12DescriptorCollection
  deriving DecidableEq, Repr

/-- A render pass. -/
structure DX12RenderPass where
  mGraphicsSubpasses : List DX12GraphicsSubpass
  deriving DecidableEq, Repr

/-- A render pipeline. -/
structure DX12RenderPipeline where
  mPasses : List DX12RenderPass
  deriving DecidableEq, Repr

/-- The clear value of a framebuffer. -/
inductive ClearValue where
  | ClearColor (mClearFormat : Nat)
  | ClearDepthStencil (mClearFormat : Nat)
  deriving DecidableEq, Repr

/-- A framebuffer of a render solution (`rt`). -/
structure Framebuffer where
  mResource : ResourceDesc
  mClear : ClearValue
  deriving DecidableEq, Repr

/-- The framebuffer a view is created on (`mRTVSources[i]`). -/
structure ViewSource where
  mHandle : Nat
  deriving DecidableEq, Repr

/-- A render solution. -/
structure DX12RenderSolution where
  mPipelines : List DX12RenderPipeline
  mFramebuffers : List Framebuffer
  mRTVs : List ViewDesc
  mRTVSources : List ViewSource
  mDSVs : List ViewDesc
  mDSVSources : List ViewSource
  mSRVs : List ViewDesc
  mSRVSources : List ViewSource
  mAttributeIndex : List (Nat × Nat)
  deriving DecidableEq, Repr

/-- The render works: the solutions, the framebuffer objects, and the first
CPU handle of each of the three descriptor arrays. -/
structure DX12RenderWorks where
  mSolutions : List DX12RenderSolution
  mNumBackBuffers : Nat
  mFramebuffers : List (Option Handle)
  mRTVs : Nat
  mDSVs : Nat
  mCBV_SRV_UAVs : Nat
  deriving DecidableEq, Repr

/-- The initial state of a committed resource. -/
inductive InitialState where
  | RENDER_TARGET
  | DEPTH_WRITE
  deriving DecidableEq, Repr

/-- The calls made on the device, the swap chain and the descriptor heap, in
program order. -/
inductive Event where
  | GetBuffer (i : Nat) (object : Handle)
  | CreateCommittedResource (object : Handle) (format : Nat) (state : InitialState)
      (clearFormat : Nat)
  | CreateRenderTargetView (resource : Option Handle) (format : Nat) (dest : Nat)
  | CreateDepthStencilView (resource : Option Handle) (format : Nat) (dest : Nat)
  | CreateShaderResourceView (resource : Option Handle) (format : Nat) (dest : Nat)
  | allocatePersistent (count : Nat) (cpuHandle : Nat)
  | deallocatePersistent (cpuHandle : Nat) (count : Nat)
  | CopyDescriptorsSimple (dest : Nat) (src : Nat)
  deriving DecidableEq, Repr

/-- The device, the swap chain and the shader descriptor heap. -/
structure Context where
  mDescriptorHeap : DX12ShaderDescriptorHeap
  mNextObject : Nat
  mTrace : List Event
  deriving DecidableEq, Repr

/-- What the sources take from outside the file: the format table, the
update frequency `PerPass`, the classifier `isConstant`, and the outcome of
the fallible device calls. -/
structure Device where
  getDXGIFormat : Nat → Nat
  PerPass : Nat
  isConstant : AttributeType → Bool
  getBufferOk : Nat → Bool
  createCommittedResourceOk : Nat → Bool

/-- Outcome of a call that updates nothing in place. -/
inductive Outcome (α : Type) where
  | ok (a : α) (c : Context)
  | throw (e : Thrown) (c : Context)
  deriving DecidableEq

/-- A call on the context. -/
def CM (α : Type) : Type := Context → Outcome α

/-- The value-returning call. -/
def CM.pure {α : Type} (a : α) : CM α := fun c => Outcome.ok a c

/-- Sequencing: a throw ends the call. -/
def CM.bind {α β : Type} (m : CM α) (f : α → CM β) : CM β := fun c =>
  match m c with
  | Outcome.ok a c1 => f a c1
  | Outcome.throw e c1 => Outcome.throw e c1

instance : Monad CM where
  pure := CM.pure
  bind := CM.bind

/-- End the call. -/
def CM.throw {α : Type} (e : Thrown) : CM α := fun c => Outcome.throw e c

/-- The contract `Expects(cond)`. -/
def Expects (cond : Bool) : CM Unit :=
  if cond then CM.pure () else CM.throw Thrown.Contract

/-- The contract `Ensures(cond)`. -/
def Ensures (cond : Bool) : CM Unit :=
  if cond then CM.pure () else CM.throw Thrown.Contract

/-- Record a call in the trace. -/
def emit (e : Event) : CM Unit := fun c =>
  Outcome.ok () { c with mTrace := c.mTrace ++ [e] }

/-- A fresh device object. -/
def newObject : CM Handle := fun c =>
  Outcome.ok c.mNextObject { c with mNextObject := c.mNextObject + 1 }

/-- The unchecked access `vector[i]`. -/
def index {α : Type} (v : List α) (i : Nat) : CM α :=
  match v[i]? with
  | some a => CM.pure a
  | none => CM.throw Thrown.Undefined

/-- The lookup `map.at(key)`. -/
def mapAt (map : List (Nat × Nat)) (key : Nat) : CM Nat :=
  match map.find? (fun e => e.1 = key) with
  | some e => CM.pure e.2
  | none => CM.throw Thrown.OutOfRange

/-- The DXGI format `DXGI_FORMAT_UNKNOWN`. -/
def DXGI_FORMAT_UNKNOWN : Nat := 0

/-- The state of an in-place update when the call leaves it: the value as it
is then, the context, and what was thrown, if anything. -/
structure Step (α : Type) where
  value : α
  context : Context
  thrown : Option Thrown
  deriving DecidableEq

/-- A range-based `for (auto& x : xs)` whose body updates `x` in place: the
elements after a throwing one are left as they were. -/
def traverse {α : Type} (f : α → Context → Step α) : List α → Context → Step (List α)
  | [], c => ⟨[], c, none⟩
  | x :: xs, c =>
    match f x c with
    | ⟨x1, c1, some e⟩ => ⟨x1 :: xs, c1, some e⟩
    | ⟨x1, c1, none⟩ =>
      match traverse f xs c1 with
      | ⟨xs1, c2, thrown⟩ => ⟨x1 :: xs1, c2, thrown⟩

/-- Run the body on every element in order. -/
def forEach {α : Type} (f : α → CM Unit) : List α → CM Unit
  | [] => CM.pure ()
  | x :: xs => CM.bind (f x) (fun _ => forEach f xs)

/-- Modelled from the spec: `allocatePersistent(count)` of
`SDX12ShaderDescriptorHeap.h`, as a function of the heap: a free block of that
size is reused, else the bump pointer advances, else there is no room. The
result is the first slot of the range and the heap after the allocation. -/
def allocate (heap : DX12ShaderDescriptorHeap) (count : Nat) :
    Option (Nat × DX12ShaderDescriptorHeap) :=
  match takeFree count heap.mFree with
  | some (first, rest) => some (first, { heap with mFree := rest })
  | none =>
    if heap.mNext + count ≤ heap.mCapacity then
      some (heap.mNext, { heap with mNext := heap.mNext + count })
    else none

/-- Modelled from the spec: `deallocatePersistent(cpuHandle, count)`: the
range goes to the free list, keyed by its size. -/
def deallocate (heap : DX12ShaderDescriptorHeap) (cpuHandle count : Nat) :
    DX12ShaderDescriptorHeap :=
  { heap with mFree := heap.mFree ++ [(count, cpuHandle - heap.mCpuStart)] }

/-- The body of the framebuffer loop of `createRenderSolutionRenderTargets`:
framebuffer `i` is a back buffer of the swap chain or a committed resource. -/
def createFramebuffer (device : Device) (mNumBackBuffers : Nat) (rt : Framebuffer) (i : Nat)
    (framebuffers : List (Option Handle)) : CM (List (Option Handle)) := do
  if i < mNumBackBuffers then
    let framebuffer ← index framebuffers i
    Expects framebuffer.isNone
    if device.getBufferOk i then
      let object ← newObject
      emit (Event.GetBuffer i object)
      pure (framebuffers.set i (some object))
    else CM.throw Thrown.Device
  else
    let format := device.getDXGIFormat rt.mResource.mFormat
    if format = DXGI_FORMAT_UNKNOWN then
      CM.throw (Thrown.runtime_error "empty render target")
    else
      let _ ← index framebuffers i
      if device.createCommittedResourceOk i then
        let object ← newObject
        match rt.mClear with
        | ClearValue.ClearColor mClearFormat =>
          emit (Event.CreateCommittedResource object format InitialState.RENDER_TARGET
            (device.getDXGIFormat mClearFormat))
        | ClearValue.ClearDepthStencil mClearFormat =>
          emit (Event.CreateCommittedResource object format InitialState.DEPTH_WRITE
            (device.getDXGIFormat mClearFormat))
        pure (framebuffers.set i (some object))
      else CM.throw Thrown.Device

/-- The framebuffer loop: the framebuffers created before a throw stay. -/
def createFramebuffers (device : Device) (mNumBackBuffers : Nat) :
    List Framebuffer → Nat → List (Option Handle) → Context → Step (List (Option Handle))
  | [], _, framebuffers, c => ⟨framebuffers, c, none⟩
  | rt :: rts, i, framebuffers, c =>
    match createFramebuffer device mNumBackBuffers rt i framebuffers c with
    | Outcome.ok framebuffers1 c1 =>
      createFramebuffers device mNumBackBuffers rts (i + 1) framebuffers1 c1
    | Outcome.throw e c1 => ⟨framebuffers, c1, some e⟩

/-- One of the three view loops: view `i` is created on the framebuffer that
`sources[i]` names, at slot `i` of the descriptor array. -/
def createViews (view : Option Handle → Nat → Nat → Event) (device : Device)
    (framebuffers : List (Option Handle)) (sources : List ViewSource) (array : Nat) :
    List ViewDesc → Nat → CM Unit
  | [], _ => CM.pure ()
  | desc0 :: descs, i =>
    CM.bind (index sources i) (fun source =>
    CM.bind (index framebuffers source.mHandle) (fun rt =>
    CM.bind (emit (view rt (device.getDXGIFormat desc0.mFormat) (array + i))) (fun _ =>
      createViews view device framebuffers sources array descs (i + 1))))

/-- The `RenderTargetSource_` alternative: the view of every descriptor is
copied to the range; `i` counts the descriptors of the subrange. -/
def copyRenderTargetDescriptors (rw : DX12RenderWorks) (sl : DX12RenderSolution)
    (cpuHandle : Nat) : List ShaderAttribute → Nat → CM Nat
  | [], i => CM.pure i
  | attr :: attrs, i =>
    CM.bind (mapAt sl.mAttributeIndex attr.mID) (fun id =>
    CM.bind (emit (Event.CopyDescriptorsSimple (cpuHandle + i) (rw.mCBV_SRV_UAVs + id)))
      (fun _ => copyRenderTargetDescriptors rw sl cpuHandle attrs (i + 1)))

/-- What the `EngineSource_` alternative throws for a descriptor. -/
def engineDescriptorError (device : Device) (attr : ShaderAttribute) : Thrown :=
  if attr.mAttributeType = AttributeType.SamplerState_ then
    Thrown.runtime_error "resource view should not have samplers"
  else if !device.isConstant attr.mAttributeType then
    Thrown.runtime_error "GraphicsSubpass EngineSource Descriptor not supported yet"
  else Thrown.runtime_error "descriptor should not be constant"

/-- The body of the subrange loop: the visit of the source, then the contract
on the number of descriptors. The result is the number of descriptors of the
subrange as a 32-bit count. -/
def copySubrange (device : Device) (rw : DX12RenderWorks) (sl : DX12RenderSolution)
    (cpuHandle : Nat) (subrange : DescriptorSubrange) : CM Nat := do
  let i ← (match subrange.mSource with
    | DescriptorSource.EngineSource_ =>
      match subrange.mDescriptors with
      | [] => CM.pure 0
      | attr :: _ => CM.throw (engineDescriptorError device attr)
    | DescriptorSource.RenderTargetSource_ =>
      copyRenderTargetDescriptors rw sl cpuHandle subrange.mDescriptors 0
    | DescriptorSource.MaterialSource_ =>
      CM.throw (Thrown.runtime_error "GraphicsSubpass MaterialSource Descriptor not supported yet"))
  Ensures (i == subrange.mDescriptors.length)
  pure (subrange.mDescriptors.length % 2 ^ 32)

/-- The subrange loop of one range; `offset` is the running 32-bit count. -/
def copySubranges (device : Device) (rw : DX12RenderWorks) (sl : DX12RenderSolution)
    (cpuHandle : Nat) : List DescriptorSubrange → Nat → CM Nat
  | [], offset => CM.pure offset
  | subrange :: subranges, offset =>
    CM.bind (copySubrange device rw sl cpuHandle subrange) (fun count =>
      copySubranges device rw sl cpuHandle subranges ((offset + count) % 2 ^ 32))

/-- The range loop of a resource-view list. -/
def copyRanges (device : Device) (rw : DX12RenderWorks) (sl : DX12RenderSolution)
    (cpuHandle : Nat) : List DescriptorRange → Nat → CM Nat
  | [], offset => CM.pure offset
  | range :: ranges, offset =>
    CM.bind (copySubranges device rw sl cpuHandle range.mSubranges offset) (fun offset1 =>
      copyRanges device rw sl cpuHandle ranges offset1)

/-- What follows the allocation of the range of a resource-view list: the
copies, the contract on the capacity, and the unbounded descriptors. -/
def fillResourceViewList (device : Device) (rw : DX12RenderWorks) (sl : DX12RenderSolution)
    (dx12List : DX12DescriptorList) : CM Unit := do
  let offset ← copyRanges device rw sl dx12List.mCpuOffset dx12List.mRanges 0
  Ensures (offset == dx12List.mCapacity)
  match dx12List.mUnboundedDescriptors with
  | [] => pure ()
  | _ :: _ =>
    CM.throw (Thrown.runtime_error "material resource view list unbounded not supported yet")

/-- The body of the resource-view-list loop of
`createRenderSolutionRenderTargets`. A persistent list of a collection updated
per pass or less often gets a persistent range, whose offsets it keeps. -/
def createResourceViewList (device : Device) (rw : DX12RenderWorks) (sl : DX12RenderSolution)
    (collection : DX12DescriptorCollection) (dx12List : DX12DescriptorList) (c : Context) :
    Step DX12DescriptorList :=
  match collection.mIndex.mPersistency with
  | Persistency.Persistent_ =>
    if collection.mIndex.mUpdate < device.PerPass then ⟨dx12List, c, none⟩
    else
      match allocate c.mDescriptorHeap dx12List.mCapacity with
      | none => ⟨dx12List, c, some Thrown.HeapExhausted⟩
      | some (first, heap) =>
        let dx12List1 := { dx12List with
          mGpuOffset := c.mDescriptorHeap.mGpuStart + first,
          mCpuOffset := c.mDescriptorHeap.mCpuStart + first }
        match fillResourceViewList device rw sl dx12List1
          { c with
            mDescriptorHeap := heap,
            mTrace := c.mTrace ++
              [Event.allocatePersistent dx12List.mCapacity (c.mDescriptorHeap.mCpuStart + first)] }
        with
        | Outcome.ok _ c1 => ⟨dx12List1, c1, none⟩
        | Outcome.throw e c1 => ⟨dx12List1, c1, some e⟩
  | Persistency.Dynamic_ => ⟨dx12List, c, none⟩

/-- The body of the range loop of a persistent sampler list. -/
def checkSamplerRange (range : DescriptorRange) : CM Unit :=
  if range.mType = RangeType.SSV_ then CM.pure ()
  else CM.throw (Thrown.runtime_error "GraphicsSubpass sampler list not supported yet")

/-- The body of the sampler-list loop of `createRenderSolutionRenderTargets`. -/
def checkSamplerList (collection : DX12DescriptorCollection) (dx12List : DX12DescriptorList) :
    CM Unit :=
  match collection.mIndex.mPersistency with
  | Persistency.Persistent_ => do
    forEach checkSamplerRange dx12List.mRanges
    match dx12List.mUnboundedDescriptors with
    | [] => pure ()
    | _ :: _ =>
      CM.throw (Thrown.runtime_error "material resource view list unbounded not supported yet")
  | Persistency.Dynamic_ => CM.pure ()

/-- The body of the collection loop: the resource-view lists, then the
sampler lists. -/
def createCollection (device : Device) (rw : DX12RenderWorks) (sl : DX12RenderSolution)
    (collection : DX12DescriptorCollection) (c : Context) : Step DX12DescriptorCollection :=
  match traverse (createResourceViewList device rw sl collection)
    collection.mResourceViewLists c with
  | ⟨lists, c1, some e⟩ => ⟨{ collection with mResourceViewLists := lists }, c1, some e⟩
  | ⟨lists, c1, none⟩ =>
    match forEach (checkSamplerList collection) collection.mSamplerLists c1 with
    | Outcome.ok _ c2 => ⟨{ collection with mResourceViewLists := lists }, c2, none⟩
    | Outcome.throw e c2 => ⟨{ collection with mResourceViewLists := lists }, c2, some e⟩

/-- The body of the subpass loop. -/
def createSubpass (device : Device) (rw : DX12RenderWorks) (sl : DX12RenderSolution)
    (subpass : DX12GraphicsSubpass) (c : Context) : Step DX12GraphicsSubpass :=
  match traverse (createCollection device rw sl) subpass.mDescriptors c with
  | ⟨collections, c1, thrown⟩ => ⟨{ subpass with mDescriptors := collections }, c1, thrown⟩

/-- The body of the pass loop. -/
def createPass (device : Device) (rw : DX12RenderWorks) (sl : DX12RenderSolution)
    (pass : DX12RenderPass) (c : Context) : Step DX12RenderPass :=
  match traverse (createSubpass device rw sl) pass.mGraphicsSubpasses c with
  | ⟨subpasses, c1, thrown⟩ => ⟨{ pass with mGraphicsSubpasses := subpasses }, c1, thrown⟩

/-- The pass loop over the selected pipeline. -/
def createPipeline (device : Device) (rw : DX12RenderWorks) (sl : DX12RenderSolution)
    (pipeline : DX12RenderPipeline) (c : Context) : Step DX12RenderPipeline :=
  match traverse (createPass device rw sl) pipeline.mPasses c with
  | ⟨passes, c1, thrown⟩ => ⟨{ pipeline with mPasses := passes }, c1, thrown⟩

/-- The render works with the selected pipeline replaced. -/
def withPipeline (rw : DX12RenderWorks) (id pipelineID : Nat) (sl : DX12RenderSolution)
    (pipeline : DX12RenderPipeline) : DX12RenderWorks :=
  { rw with
    mSolutions := rw.mSolutions.set id
      { sl with mPipelines := sl.mPipelines.set pipelineID pipeline } }

/-- The three view loops of `createRenderSolutionRenderTargets`. -/
def createSolutionViews (device : Device) (rw : DX12RenderWorks) (sl : DX12RenderSolution) :
    CM Unit := do
  createViews Event.CreateRenderTargetView device rw.mFramebuffers sl.mRTVSources rw.mRTVs
    sl.mRTVs 0
  createViews Event.CreateDepthStencilView device rw.mFramebuffers sl.mDSVSources rw.mDSVs
    sl.mDSVs 0
  createViews Event.CreateShaderResourceView device rw.mFramebuffers sl.mSRVSources
    rw.mCBV_SRV_UAVs sl.mSRVs 0

/-- The function `createRenderSolutionRenderTargets`: the framebuffers of the
solution, the views on them, and the persistent descriptor ranges of the
selected pipeline. -/
def createRenderSolutionRenderTargets (device : Device) (rw : DX12RenderWorks)
    (id pipelineID : Nat) (c : Context) : Step DX12RenderWorks :=
  match rw.mSolutions[id]? with
  | none => ⟨rw, c, some Thrown.Undefined⟩
  | some sl =>
    match createFramebuffers device rw.mNumBackBuffers sl.mFramebuffers 0 rw.mFramebuffers c with
    | ⟨framebuffers, c1, some e⟩ => ⟨{ rw with mFramebuffers := framebuffers }, c1, some e⟩
    | ⟨framebuffers, c1, none⟩ =>
      let rw1 := { rw with mFramebuffers := framebuffers }
      match createSolutionViews device rw1 sl c1 with
      | Outcome.throw e c2 => ⟨rw1, c2, some e⟩
      | Outcome.ok _ c2 =>
        match sl.mPipelines[pipelineID]? with
        | none => ⟨rw1, c2, some Thrown.Undefined⟩
        | some pipeline =>
          match createPipeline device rw1 sl pipeline c2 with
          | ⟨pipeline1, c3, thrown⟩ => ⟨withPipeline rw1 id pipelineID sl pipeline1, c3, thrown⟩

/-- The body of the first list loop of `clearRenderTargets`: the range of a
persistent list with a non-null offset is deallocated and its offsets are
reset. -/
def clearResourceViewList (collection : DX12DescriptorCollection)
    (dx12List : DX12DescriptorList) (c : Context) : Step DX12DescriptorList :=
  match collection.mIndex.mPersistency with
  | Persistency.Persistent_ =>
    if dx12List.mCpuOffset ≠ 0 then
      ⟨{ dx12List with mGpuOffset := 0, mCpuOffset := 0 },
        { c with
          mDescriptorHeap := deallocate c.mDescriptorHeap dx12List.mCpuOffset dx12List.mCapacity,
          mTrace := c.mTrace ++
            [Event.deallocatePersistent dx12List.mCpuOffset dx12List.mCapacity] },
        none⟩
    else ⟨dx12List, c, none⟩
  | Persistency.Dynamic_ => ⟨dx12List, c, none⟩

/-- The body of the second list loop of `clearRenderTargets`, which also runs
over the resource-view lists. -/
def clearSamplerList (collection : DX12DescriptorCollection) (dx12List : DX12DescriptorList) :
    CM Unit :=
  match collection.mIndex.mPersistency with
  | Persistency.Persistent_ =>
    if dx12List.mCpuOffset ≠ 0 then
      CM.throw (Thrown.runtime_error "sampler descriptor not supported yet")
    else CM.pure ()
  | Persistency.Dynamic_ => CM.pure ()

/-- The body of the collection loop of `clearRenderTargets`. -/
def clearCollection (collection : DX12DescriptorCollection) (c : Context) :
    Step DX12DescriptorCollection :=
  match traverse (clearResourceViewList collection) collection.mResourceViewLists c with
  | ⟨lists, c1, some e⟩ => ⟨{ collection with mResourceViewLists := lists }, c1, some e⟩
  | ⟨lists, c1, none⟩ =>
    match forEach (clearSamplerList collection) lists c1 with
    | Outcome.ok _ c2 => ⟨{ collection with mResourceViewLists := lists }, c2, none⟩
    | Outcome.throw e c2 => ⟨{ collection with mResourceViewLists := lists }, c2, some e⟩

/-- The body of the subpass loop of `clearRenderTargets`. -/
def clearSubpass (subpass : DX12GraphicsSubpass) (c : Context) : Step DX12GraphicsSubpass :=
  match traverse clearCollection subpass.mDescriptors c with
  | ⟨collections, c1, thrown⟩ => ⟨{ subpass with mDescriptors := collections }, c1, thrown⟩

/-- The body of the pass loop of `clearRenderTargets`. -/
def clearPass (pass : DX12RenderPass) (c : Context) : Step DX12RenderPass :=
  match traverse clearSubpass pass.mGraphicsSubpasses c with
  | ⟨subpasses, c1, thrown⟩ => ⟨{ pass with mGraphicsSubpasses := subpasses }, c1, thrown⟩

/-- The pass loop of `clearRenderTargets`. -/
def clearPipeline (pipeline : DX12RenderPipeline) (c : Context) : Step DX12RenderPipeline :=
  match traverse clearPass pipeline.mPasses c with
  | ⟨passes, c1, thrown⟩ => ⟨{ pipeline with mPasses := passes }, c1, thrown⟩

/-- The function `clearRenderTargets`: the persistent ranges of the selected
pipeline are deallocated, then the framebuffers are cleared. -/
def clearRenderTargets (rw : DX12RenderWorks) (solutionID pipelineID : Nat) (c : Context) :
    Step DX12RenderWorks :=
  match rw.mSolutions[solutionID]? with
  | none => ⟨rw, c, some Thrown.Undefined⟩
  | some solution =>
    match solution.mPipelines[pipelineID]? with
    | none => ⟨rw, c, some Thrown.Undefined⟩
    | some pipeline =>
      match clearPipeline pipeline c with
      | ⟨pipeline1, c1, some e⟩ =>
        ⟨withPipeline rw solutionID pipelineID solution pipeline1, c1, some e⟩
      | ⟨pipeline1, c1, none⟩ =>
        ⟨{ withPipeline rw solutionID pipelineID solution pipeline1 with mFramebuffers := [] },
          c1, none⟩

/-- The context a call ends in. -/
def Outcome.context {α : Type} : Outcome α → Context
  | Outcome.ok _ c => c
  | Outcome.throw _ c => c

/-- What a call has thrown, if anything. -/
def Outcome.thrown {α : Type} : Outcome α → Option Thrown
  | Outcome.ok _ _ => none
  | Outcome.throw e _ => some e

/-- The CPU handle and the slot count when the event is a persistent
allocation. -/
def Event.allocation : Event → Option (Nat × Nat)
  | Event.allocatePersistent count cpuHandle => some (cpuHandle, count)
  | _ => none

/-- The persistent ranges allocated in a trace, in order: the CPU handle and
the slot count of each. -/
def allocations (trace : List Event) : List (Nat × Nat) :=
  trace.filterMap Event.allocation

/-- The CPU handle and the slot count when the event is a persistent
deallocation. -/
def Event.deallocation : Event → Option (Nat × Nat)
  | Event.deallocatePersistent cpuHandle count => some (cpuHandle, count)
  | _ => none

/-- The persistent ranges deallocated in a trace, in order. -/
def deallocations (trace : List Event) : List (Nat × Nat) :=
  trace.filterMap Event.deallocation

/-- The second context extends the trace of the first by events whose
persistent allocations and deallocations are the given ones, and its heap has
the same first CPU handle. -/
def Extends (c c1 : Context) (allocated deallocated : List (Nat × Nat)) : Prop :=
  ∃ events, c1.mTrace = c.mTrace ++ events ∧ allocations events = allocated ∧
    deallocations events = deallocated ∧
    c1.mDescriptorHeap.mCpuStart = c.mDescriptorHeap.mCpuStart

/-- A call that records no persistent allocation and no deallocation. -/
structure Silent {α : Type} (m : CM α) : Prop where
  silent : ∀ c, Extends c (m c).context [] []

/-- The body of an in-place loop gives an element that holds no range the
ranges it allocates, and deallocates nothing. -/
def Allocates {α : Type} (g : α → List (Nat × Nat)) (f : α → Context → Step α) : Prop :=
  ∀ x c, g x = [] → 0 < c.mDescriptorHeap.mCpuStart →
    Extends c (f x c).context (g (f x c).value) []

/-- The body of an in-place loop deallocates the ranges the element holds,
leaves it without any, allocates nothing and does not throw. -/
def Frees {α : Type} (g : α → List (Nat × Nat)) (f : α → Context → Step α) : Prop :=
  ∀ x c, Extends c (f x c).context [] (g x) ∧ g (f x c).value = [] ∧ (f x c).thrown = none

/-- The persistent range a resource-view list of the collection holds: the
CPU handle and the capacity of a persistent list with a non-null offset. -/
def ownedList (collection : DX12DescriptorCollection) (dx12List : DX12DescriptorList) :
    List (Nat × Nat) :=
  match collection.mIndex.mPersistency with
  | Persistency.Persistent_ =>
    if dx12List.mCpuOffset ≠ 0 then [(dx12List.mCpuOffset, dx12List.mCapacity)] else []
  | Persistency.Dynamic_ => []

/-- The persistent ranges the resource-view lists of a collection hold. -/
def ownedCollection (collection : DX12DescriptorCollection) : List (Nat × Nat) :=
  collection.mResourceViewLists.flatMap (ownedList collection)

/-- The persistent ranges a graphics subpass holds. -/
def ownedSubpass (subpass : DX12GraphicsSubpass) : List (Nat × Nat) :=
  subpass.mDescriptors.flatMap ownedCollection

/-- The persistent ranges a pass holds. -/
def ownedPass (pass : DX12RenderPass) : List (Nat × Nat) :=
  pass.mGraphicsSubpasses.flatMap ownedSubpass

/-- The persistent ranges a pipeline holds, in the order of its loops. -/
def ownedPipeline (pipeline : DX12RenderPipeline) : List (Nat × Nat) :=
  pipeline.mPasses.flatMap ownedPass

/-- The persistent ranges the selected pipeline of the render works holds. -/
def owned (rw : DX12RenderWorks) (id pipelineID : Nat) : List (Nat × Nat) :=
  match rw.mSolutions[id]? with
  | none => []
  | some sl =>
    match sl.mPipelines[pipelineID]? with
    | none => []
    | some pipeline => ownedPipeline pipeline

/-- The collection is a descriptor collection of a graphics subpass of the
pipeline. -/
def CollectionOf (pipeline : DX12RenderPipeline) (collection : DX12DescriptorCollection) :
    Prop :=
  ∃ pass ∈ pipeline.mPasses, ∃ subpass ∈ pass.mGraphicsSubpasses,
    collection ∈ subpass.mDescriptors

/-- Every resource-view list of the pipeline has null offsets. -/
def NullPipeline (pipeline : DX12RenderPipeline) : Prop :=
  ∀ pass ∈ pipeline.mPasses, ∀ subpass ∈ pass.mGraphicsSubpasses,
    ∀ collection ∈ subpass.mDescriptors, ∀ dx12List ∈ collection.mResourceViewLists,
      dx12List.mCpuOffset = 0 ∧ dx12List.mGpuOffset = 0

instance (pipeline : DX12RenderPipeline) : Decidable (NullPipeline pipeline) := by
  unfold NullPipeline
  infer_instance

/-- Every resource-view list of the selected pipeline has null offsets. -/
def NullOffsets (rw : DX12RenderWorks) (id pipelineID : Nat) : Prop :=
  ∀ sl ∈ rw.mSolutions[id]?, ∀ pipeline ∈ sl.mPipelines[pipelineID]?, NullPipeline pipeline

instance (rw : DX12RenderWorks) (id pipelineID : Nat) :
    Decidable (NullOffsets rw id pipelineID) := by
  unfold NullOffsets
  infer_instance

/-- A device on which every call succeeds; `PerPass` is 2 and the constant
descriptor types are those with tag 0. -/
def exampleDevice : Device :=
  { getDXGIFormat := fun format => format,
    PerPass := 2,
    isConstant := fun t => t == AttributeType.other 0,
    getBufferOk := fun _ => true,
    createCommittedResourceOk := fun _ => true }

/-- A context with an empty descriptor heap of 64 slots. -/
def exampleHeapContext : Context := ⟨⟨64, 4096, 8192, 0, []⟩, 1, []⟩

/-- A resource-view list with null offsets and one range of one subrange. -/
def exampleViewList (source : DescriptorSource) (descriptors : List ShaderAttribute) :
    DX12DescriptorList :=
  ⟨descriptors.length, 0, 0, [⟨RangeType.other 1, [⟨source, descriptors⟩]⟩], []⟩

/-- Render works with one solution, one back buffer, one render-target view
and one shader-resource view on it, attribute 7 at slot 0, and one pipeline
of one pass of one graphics subpass with the given collections. -/
def exampleWorks (collections : List DX12DescriptorCollection) : DX12RenderWorks :=
  { mSolutions := [
      { mPipelines := [⟨[⟨[⟨collections⟩]⟩]⟩],
        mFramebuffers := [⟨⟨28, 1280, 720, 1, 1⟩, ClearValue.ClearColor 28⟩],
        mRTVs := [⟨28⟩],
        mRTVSources := [⟨0⟩],
        mDSVs := [],
        mDSVSources := [],
        mSRVs := [⟨28⟩],
        mSRVSources := [⟨0⟩],
        mAttributeIndex := [(7, 0)] }],
    mNumBackBuffers := 1,
    mFramebuffers := [none],
    mRTVs := 100,
    mDSVs := 200,
    mCBV_SRV_UAVs := 300 }

/-- A descriptor with a type that is not constant. -/
def exampleViewAttribute : ShaderAttribute := ⟨AttributeType.other 1, 7⟩

/-- A descriptor with a constant type. -/
def exampleConstantAttribute : ShaderAttribute := ⟨AttributeType.other 0, 7⟩

/-- A persistent collection updated per pass with two render-target-sourced
resource-view lists, of one and of two descriptors. -/
def exampleCollection : DX12DescriptorCollection :=
  { mIndex := ⟨2, Persistency.Persistent_⟩,
    mResourceViewLists := [
      exampleViewList DescriptorSource.RenderTargetSource_ [exampleViewAttribute],
      exampleViewList DescriptorSource.RenderTargetSource_
        [exampleViewAttribute, exampleViewAttribute]],
    mSamplerLists := [] }

/-- A persistent collection updated per pass whose resource-view list has a
material-sourced subrange. -/
def exampleMaterialCollection : DX12DescriptorCollection :=
  { mIndex := ⟨2, Persistency.Persistent_⟩,
    mResourceViewLists := [exampleViewList DescriptorSource.MaterialSource_ [exampleViewAttribute]],
    mSamplerLists := [] }

/-- A persistent collection updated more often than per pass whose
resource-view list has a material-sourced subrange. -/
def exampleFrequentMaterialCollection : DX12DescriptorCollection :=
  { mIndex := ⟨1, Persistency.Persistent_⟩,
    mResourceViewLists := [exampleViewList DescriptorSource.MaterialSource_ [exampleViewAttribute]],
    mSamplerLists := [] }

/-- A dynamic collection whose resource-view list has a material-sourced
subrange. -/
def exampleDynamicMaterialCollection : DX12DescriptorCollection :=
  { mIndex := ⟨2, Persistency.Dynamic_⟩,
    mResourceViewLists := [exampleViewList DescriptorSource.MaterialSource_ [exampleViewAttribute]],
    mSamplerLists := [] }

/-- A persistent collection updated per pass whose resource-view list has an
engine-sourced subrange of one constant-typed descriptor. -/
def exampleEngineConstantCollection : DX12DescriptorCollection :=
  { mIndex := ⟨2, Persistency.Persistent_⟩,
    mResourceViewLists := [
      exampleViewList DescriptorSource.EngineSource_ [exampleConstantAttribute]],
    mSamplerLists := [] }

/-- A persistent collection updated per pass whose resource-view list has a
render-target-sourced subrange of one constant-typed descriptor. -/
def exampleRenderTargetConstantCollection : DX12DescriptorCollection :=
  { mIndex := ⟨2, Persistency.Persistent_⟩,
    mResourceViewLists := [
      exampleViewList DescriptorSource.RenderTargetSource_ [exampleConstantAttribute]],
    mSamplerLists := [] }

/-- A sampler list with one range of the given type. -/
def exampleSamplerList (type : RangeType) : DX12DescriptorList :=
  ⟨1, 0, 0, [⟨type, [⟨DescriptorSource.EngineSource_, [⟨AttributeType.SamplerState_, 3⟩]⟩]⟩], []⟩

/-- A persistent collection with one sampler list of one range of the given
type. -/
def exampleSamplerCollection (type : RangeType) : DX12DescriptorCollection :=
  { mIndex := ⟨2, Persistency.Persistent_⟩,
    mResourceViewLists := [],
    mSamplerLists := [exampleSamplerList type] }

/-- A dynamic collection with a resource-view list and a sampler list that
both have an unbounded descriptor array. -/
def exampleDynamicUnboundedCollection : DX12DescriptorCollection :=
  { mIndex := ⟨2, Persistency.Dynamic_⟩,
    mResourceViewLists := [⟨0, 0, 0, [], [7]⟩],
    mSamplerLists := [⟨0, 0, 0, [], [3]⟩] }

end RenderWorks

namespace RenderWorks

/-- A persistent call on the heap: an allocation of `count` slots, or the
deallocation of the range of `count` slots at `cpuHandle`. -/
inductive HeapCall where
  | allocatePersistent (count : Nat)
  | deallocatePersistent (cpuHandle count : Nat)
  deriving DecidableEq, Repr

/-- The heap together with the ranges that are live: allocated and not yet
deallocated. A range is its first slot and its slot count. -/
structure HeapState where
  heap : DX12ShaderDescriptorHeap
  live : List (Nat × Nat)
  deriving DecidableEq, Repr

/-- One call. An allocation that finds no room fails and changes nothing. -/
def HeapState.call (s : HeapState) : HeapCall → HeapState
  | HeapCall.allocatePersistent count =>
    match allocate s.heap count with
    | none => s
    | some (first, heap) => ⟨heap, s.live ++ [(first, count)]⟩
  | HeapCall.deallocatePersistent cpuHandle count =>
    ⟨deallocate s.heap cpuHandle count, s.live.erase (cpuHandle - s.heap.mCpuStart, count)⟩

/-- A serialized sequence of calls, one after the other. -/
def HeapState.run (s : HeapState) (calls : List HeapCall) : HeapState :=
  calls.foldl HeapState.call s

/-- Every deallocation of the sequence hands back a range that is live when
it is called, with the slot count it was allocated with. -/
def HeapState.proper : HeapState → List HeapCall → Bool
  | _, [] => true
  | s, HeapCall.allocatePersistent count :: calls =>
    HeapState.proper (s.call (HeapCall.allocatePersistent count)) calls
  | s, HeapCall.deallocatePersistent cpuHandle count :: calls =>
    decide (s.heap.mCpuStart ≤ cpuHandle) &&
    decide ((cpuHandle - s.heap.mCpuStart, count) ∈ s.live) &&
    HeapState.proper (s.call (HeapCall.deallocatePersistent cpuHandle count)) calls

/-- A heap of the given capacity with nothing allocated. -/
def emptyHeap (capacity cpuStart gpuStart : Nat) : HeapState :=
  ⟨⟨capacity, cpuStart, gpuStart, 0, []⟩, []⟩

/-- Two ranges occupy disjoint slot intervals: one ends where the other
starts, or before. -/
def DisjointRanges (a b : Nat × Nat) : Prop :=
  a.1 + a.2 ≤ b.1 ∨ b.1 + b.2 ≤ a.1

instance (a b : Nat × Nat) : Decidable (DisjointRanges a b) := by
  unfold DisjointRanges
  infer_instance

/-- The ranges of the free list, as first slot and slot count. -/
def freeRanges (heap : DX12ShaderDescriptorHeap) : List (Nat × Nat) :=
  heap.mFree.map (fun b => (b.2, b.1))

/-- The live ranges and the free blocks are pairwise disjoint and lie below
the bump pointer, which is within the capacity. -/
def HeapState.Tiled (s : HeapState) : Prop :=
  (s.live ++ freeRanges s.heap).Pairwise DisjointRanges ∧
  (∀ r ∈ s.live ++ freeRanges s.heap, r.1 + r.2 ≤ s.heap.mNext) ∧
  s.heap.mNext ≤ s.heap.mCapacity

/-- An example sequence: two allocations, the first range handed back and
reused, one more allocation. -/
def exampleHeapCalls : List HeapCall :=
  [HeapCall.allocatePersistent 3, HeapCall.allocatePersistent 2,
    HeapCall.deallocatePersistent 4096 3, HeapCall.allocatePersistent 3,
    HeapCall.allocatePersistent 1]

end RenderWorks

/-- The copy of the event when it is a `CopyTextureRegion` call: the
destination texture, the mip, and the footprint read from the staging
buffer. -/
def Event.copiedTexture : Event → Option (Option Handle × Nat × PlacedFootprint)
  | Event.CopyTextureRegion dst subresource src => some (dst, subresource, src)
  | _ => none

/-- The texture copies recorded in a trace, in order. -/
def recordedCopies (trace : List Event) : List (Option Handle × Nat × PlacedFootprint) :=
  trace.filterMap Event.copiedTexture

/-- The offset of the event when it is an upload. -/
def Event.uploaded : Event → Option Nat
  | Event.upload _ _ offset => some offset
  | _ => none

/-- The width of mip `i`: the 32-bit width of the texture, halved (by the
block-aware `half_size`) once per preceding level. -/
def mipWidth (env : Env) (resource : ResourceDesc) : Nat → Nat
  | 0 => resource.mWidth % 2 ^ 32
  | i + 1 => env.half_size (mipWidth env resource i) (env.getEncoding resource.mFormat).mBlockWidth

/-- The height of mip `i`: the height of the texture, halved once per
preceding level. -/
def mipHeight (env : Env) (resource : ResourceDesc) : Nat → Nat
  | 0 => resource.mHeight
  | i + 1 =>
    env.half_size (mipHeight env resource i) (env.getEncoding resource.mFormat).mBlockHeight

/-- The upload footprint of mip `i`, computed from the format and the size of
the mip. -/
def mipInfo (env : Env) (resource : ResourceDesc) (i : Nat) : MipInfo :=
  env.getMipInfo resource.mFormat (mipWidth env resource i) (mipHeight env resource i)

/-- The sum of the upload slice sizes of the mips before mip `i`. -/
def mipOffset (env : Env) (resource : ResourceDesc) (i : Nat) : Nat :=
  ((List.range i).map (fun j => (mipInfo env resource j).mUploadSliceSize)).sum

/-- The footprint the copy of mip `i` reads, for an upload at offset `base`:
the 64-bit offset `base` plus the slice sizes of the preceding mips, the row
pitch of the mip, and its width and height. -/
def mipFootprint (env : Env) (resource : ResourceDesc) (base i : Nat) : PlacedFootprint :=
  ⟨(base + mipOffset env resource i) % 2 ^ 64, env.getDXGIFormat resource.mFormat,
    mipWidth env resource i, mipHeight env resource i, resource.mDepthOrArraySize,
    (mipInfo env resource i).mUploadRowPitchSize⟩

/-- The object and the description of the event when it creates a pipeline
state. -/
def Event.createdPipelineState : Event → Option (Handle × PipelineStateDesc)
  | Event.CreateGraphicsPipelineState object desc => some (object, desc)
  | _ => none

/-- The pipeline states created in a trace, in order. -/
def createdPipelineStates (trace : List Event) : List (Handle × PipelineStateDesc) :=
  trace.filterMap Event.createdPipelineState

/-- The description of a pipeline state is built for the vertex layout
`vertID`: the layout is one of the settings, and when the subpass has input
semantics the strip cut value and the topology type are those of the
layout. -/
def DescOfLayout (settings : ContentSettings) (subpassData : ShaderSubpassData) (vertID : Nat)
    (desc : PipelineStateDesc) : Prop :=
  ∃ meshLayout, settings.mVertexLayouts.find? (fun e => e.1 = vertID) = some (vertID, meshLayout) ∧
    (subpassData.mInputLayout.mSemantics.isEmpty = false →
      desc.IBStripCutValue = meshLayout.mStripCutValue ∧
      desc.PrimitiveTopologyType = meshLayout.mPrimitiveTopologyType)

/-- Settings with two vertex layouts, 0 and 5, which differ in strip cut value
and topology type. -/
def exampleTwoLayoutSettings : ContentSettings :=
  ⟨[(0, ⟨[(0, (0, 0))], [⟨[⟨0, 6, 0⟩]⟩], 0, 3⟩), (5, ⟨[(0, (0, 0))], [⟨[⟨0, 6, 0⟩]⟩], 1, 2⟩)]⟩

/-- A baked subpass with the vertex layouts 5 and 0, in this order. -/
def exampleTwoLayoutSubpass : ShaderSubpassData :=
  { exampleSubpass [] with mVertexLayouts := [5, 0] }

/-- A render solution with one render-target view. -/
def exampleTemplateSolution : DX12RenderSolution := ⟨[], [], [], [], [⟨28⟩], [], []⟩

/-- A render subpass with one output attachment and a root signature. -/
def exampleTemplateSubpass : DX12RenderSubpass :=
  ⟨1, [], [⟨0⟩], [], none, [], [], [], [], some 9, []⟩

/-- The subpass of the variant tree as `resizeData` leaves it for two vertex
layouts. -/
def exampleResizedSubpass : DX12ShaderSubpassData :=
  ⟨[], List.replicate 2 ⟨none⟩, [], ⟨none, none⟩⟩

/-- The object and the payload size of the event when it creates a root
signature. -/
def Event.createdRootSignature : Event → Option (Handle × Nat)
  | Event.CreateRootSignature object size => some (object, size)
  | _ => none

/-- The root signatures created in a trace, in order. -/
def createdRootSignatures (trace : List Event) : List (Handle × Nat) :=
  trace.filterMap Event.createdRootSignature

/-- The baked subpasses of a render graph, in the order in which the template
builder visits them. -/
def RenderGraphData.subpasses (renderData : RenderGraphData) : List RenderSubpassData :=
  renderData.mRenderGraph.mSolutions.flatMap (fun solutionData =>
    solutionData.mPipelines.flatMap (fun pipelineData =>
      pipelineData.mPasses.flatMap (fun passData => passData.mSubpasses)))

/-- A render graph like the scenario one in which the subpass of the second
solution has an empty root-signature payload. -/
def exampleMixedRenderGraph : RenderGraphData :=
  { exampleRenderGraph with
    mRenderGraph := { exampleRenderGraph.mRenderGraph with
      mSolutions := [exampleRenderSolution,
        { exampleRenderSolution with
          mPipelines := exampleRenderSolution.mPipelines.map (fun pipeline =>
            { pipeline with
              mPasses := pipeline.mPasses.map (fun pass =>
                { pass with
                  mSubpasses := pass.mSubpasses.map (fun subpass =>
                    { subpass with mRootSignature := ⟨0⟩ }) }) }) }] } }

/-- The scenario assets with the mixed render graph stored under identifier
10. -/
def exampleMixedEnv : Env :=
  { exampleEnv with
    renderGraphs := fun metaID => if metaID = 10 then some exampleMixedRenderGraph else none }

/-- The template the builder returns for render graph 10 in the initial
world. -/
def exampleMixedTemplate : DX12RenderGraphData :=
  match modifyRenderGraph exampleMixedEnv 10 (CacheEntry.create 10) initialWorld with
  | Res.ok render _ => render
  | Res.fail _ _ => CacheEntry.create 10

/-- The child counts of a material variant tree: per solution, per pipeline,
per queue, per level and per pass, the number of subpasses. The length of each
list is the number of children at that level. -/
def DX12MaterialData.shape (material : DX12MaterialData) :
    List (List (List (List (List Nat)))) :=
  material.mShaderData.map (fun solution =>
    solution.mPipelines.map (fun pipeline =>
      pipeline.mQueues.map (fun queue =>
        queue.mLevels.map (fun level =>
          level.mPasses.map (fun variant => variant.mSubpasses.length)))))

namespace RenderWorks

/-- The destination and the source when the event copies a descriptor. -/
def Event.copiedDescriptor : Event → Option (Nat × Nat)
  | Event.CopyDescriptorsSimple dest src => some (dest, src)
  | _ => none

/-- The descriptor copies recorded in a trace, in order: destination and
source of each. -/
def copiedDescriptors (trace : List Event) : List (Nat × Nat) :=
  trace.filterMap Event.copiedDescriptor

/-- A persistent collection updated per pass with one resource-view list of
capacity 2: one range of two render-target-sourced subranges, with the
descriptor of attribute 7 and the descriptor of attribute 8. -/
def exampleTwoSubrangeCollection : DX12DescriptorCollection :=
  { mIndex := ⟨2, Persistency.Persistent_⟩,
    mResourceViewLists := [
      ⟨2, 0, 0, [⟨RangeType.other 1, [
        ⟨DescriptorSource.RenderTargetSource_, [⟨AttributeType.other 1, 7⟩]⟩,
        ⟨DescriptorSource.RenderTargetSource_, [⟨AttributeType.other 1, 8⟩]⟩]⟩], []⟩],
    mSamplerLists := [] }

/-- The same descriptors in one subrange. -/
def exampleOneSubrangeCollection : DX12DescriptorCollection :=
  { mIndex := ⟨2, Persistency.Persistent_⟩,
    mResourceViewLists := [
      ⟨2, 0, 0, [⟨RangeType.other 1, [
        ⟨DescriptorSource.RenderTargetSource_,
          [⟨AttributeType.other 1, 7⟩, ⟨AttributeType.other 1, 8⟩]⟩]⟩], []⟩],
    mSamplerLists := [] }

/-- Render works like the example ones with two shader-resource views, of the
attributes 7 and 8, at the slots 0 and 1. -/
def exampleTwoViewWorks (collections : List DX12DescriptorCollection) : DX12RenderWorks :=
  { exampleWorks collections with
    mSolutions := (exampleWorks collections).mSolutions.map (fun sl =>
      { sl with
        mSRVs := [⟨28⟩, ⟨28⟩],
        mSRVSources := [⟨0⟩, ⟨0⟩],
        mAttributeIndex := [(7, 0), (8, 1)] }) }

end RenderWorks

namespace RenderWorks

/-- Every resource-view list of every persistent collection of the pipeline
satisfies `P`. -/
def PersistentLists (P : DX12DescriptorList → Prop) (pipeline : DX12RenderPipeline) : Prop :=
  ∀ pass ∈ pipeline.mPasses, ∀ subpass ∈ pass.mGraphicsSubpasses,
    ∀ collection ∈ subpass.mDescriptors,
      collection.mIndex.mPersistency = Persistency.Persistent_ →
        ∀ dx12List ∈ collection.mResourceViewLists, P dx12List

end RenderWorks

/-- From a world that satisfies `I`, the call does not fail with `e`, and the
world it returns in satisfies `I` again. -/
structure Avoids {α : Type} (I : World → Prop) (e : Failure) (m : M α) : Prop where
  avoids : ∀ w, I w → (∀ a w1, m w = Res.ok a w1 → I w1) ∧ ∀ w1, m w ≠ Res.fail e w1

/-- The pointers are, in order, the positions at which the texture cache holds
the identifiers that the material bakes. -/
def TexturesResolved (materialData : MaterialData) (ptrs : List Ptr)
    (cache : List DX12TextureData) : Prop :=
  List.Forall₂ (fun (texture : Name × MetaID) (p : Ptr) =>
    Cache.find cache texture.2 = some p) materialData.mTextures ptrs

/-- The scenario world after the texture loop of material 30 has run in the
world that holds render graph 7. -/
def exampleTexturesWorld : World :=
  (forEach (fun (texture : Name × MetaID) =>
    try_createDX12TextureData exampleEnv texture.2 false) exampleMaterial.mTextures
    exampleRenderGraphWorld).world

/-! ## The shader modules of `createStarModules` -/

namespace Shader

/-- The target a content variant of a module is written for: the second
member of an entry of `Contents` or `Content`. -/
inductive ContentTarget where
  | Default
  | UnityCG
  deriving DecidableEq, Repr

/-- One content variant of a module: the code and its target. -/
structure Content where
  mContent : String
  mTarget : ContentTarget
  deriving DecidableEq, Repr

/-- One registration `ADD_MODULE(name, ...)`: whether it is `Inline`, the names
of its attributes, outputs and inputs in the order written, and its content
variants. The types and semantics of the entries are left out. -/
structure ShaderModule where
  mName : String
  mInline : Bool
  mAttributes : List String
  mOutputs : List String
  mInputs : List String
  mContents : List Content
  deriving DecidableEq, Repr

/-- The registrations collected in a `ShaderModules`: the names of the global
attributes and the modules, in the order of registration. -/
structure ShaderModules where
  mAttributes : List String
  mModules : List ShaderModule
  deriving DecidableEq, Repr

/-- The names of the entries of `ADD_ATTRIBUTES` at the head of
`createStarModules`. -/
def starAttributes : List String :=
  ["Time", "View", "Proj", "CameraPos", "World", "WorldInvT", "WorldView", "PointSampler",
    "LinearSampler", "SceneColor", "SceneDepth", "DiffuseColor", "SpecularColor",
    "SubsurfaceColor", "BaseColor", "Specular", "Metallic", "WorldNormal",
    "SeparateTranslucency", "Opacity", "Roughness", "MaterialAO", "CustomDepth",
    "PostProcessInput0", "PostProcessInput1", "PostProcessInput2", "PostProcessInput3",
    "PostProcessInput4", "PostProcessInput5", "PostProcessInput6", "DecalMask", "ShadingModel",
    "AmbientOcclusion", "CustomStencil", "BaseColorGBuffer", "SpecularGBuffer", "MainTex",
    "MainTexSampler", "BumpMap", "BumpMapSampler", "Material", "MaterialSampler"]

/-- The registrations `ADD_MODULE` of `createStarModules`, in program order. -/
def starModules : List ShaderModule := [
  { mName := "ClipPos",
    mInline := true,
    mAttributes := ["WorldView", "View", "Proj"],
    mOutputs := ["clipPos"],
    mInputs := ["vertex"],
    mContents := [
      ⟨"clipPos = mul(Proj, mul(WorldView, vertex));\n",
        ContentTarget.Default⟩,
      ⟨"clipPos = UnityObjectToClipPos(vertex);\n",
        ContentTarget.UnityCG⟩] },
  { mName := "WorldPos",
    mInline := true,
    mAttributes := ["World"],
    mOutputs := ["worldPos"],
    mInputs := ["vertex"],
    mContents := [
      ⟨"worldPos = mul(World, vertex).xyz;\n",
        ContentTarget.Default⟩,
      ⟨"worldPos = mul(unity_ObjectToWorld, vertex).xyz;\n",
        ContentTarget.UnityCG⟩] },
  { mName := "ViewVector",
    mInline := true,
    mAttributes := ["CameraPos"],
    mOutputs := ["viewVector"],
    mInputs := ["worldPos"],
    mContents := [
      ⟨"viewVector = CameraPos.xyz - worldPos;\n",
        ContentTarget.Default⟩,
      ⟨"viewVector = _WorldSpaceCameraPos - worldPos;\n",
        ContentTarget.UnityCG⟩] },
  { mName := "ViewDir",
    mInline := true,
    mAttributes := [],
    mOutputs := ["viewDir"],
    mInputs := ["viewVector"],
    mContents := [
      ⟨"viewDir = normalize(viewVector);\n",
        ContentTarget.Default⟩] },
  { mName := "CosThetaOut",
    mInline := true,
    mAttributes := [],
    mOutputs := ["cosThetaOut"],
    mInputs := ["worldNormal", "viewDir"],
    mContents := [
      ⟨"cosThetaOut = dot(worldNormal, viewDir);\n",
        ContentTarget.Default⟩] },
  { mName := "NdotV",
    mInline := true,
    mAttributes := [],
    mOutputs := ["ndotv"],
    mInputs := ["cosThetaOut"],
    mContents := [
      ⟨"ndotv = saturate(cosThetaOut);\n",
        ContentTarget.Default⟩] },
  { mName := "CosThetaIn",
    mInline := true,
    mAttributes := [],
    mOutputs := ["cosThetaIn"],
    mInputs := ["worldNormal", "lightDir"],
    mContents := [
      ⟨"cosThetaIn = dot(worldNormal, lightDir);\n",
        ContentTarget.Default⟩] },
  { mName := "NdotL",
    mInline := true,
    mAttributes := [],
    mOutputs := ["ndotl"],
    mInputs := ["cosThetaIn"],
    mContents := [
      ⟨"ndotl = saturate(cosThetaIn);\n",
        ContentTarget.Default⟩] },
  { mName := "HalfVector",
    mInline := true,
    mAttributes := [],
    mOutputs := ["halfVector"],
    mInputs := ["lightDir", "viewDir"],
    mContents := [
      ⟨"halfVector = lightDir + viewDir;\n",
        ContentTarget.Default⟩] },
  { mName := "HalfAngle",
    mInline := true,
    mAttributes := [],
    mOutputs := ["halfAngle"],
    mInputs := ["halfVector"],
    mContents := [
      ⟨"halfAngle = safeNormalize(halfVector);\n",
        ContentTarget.Default⟩,
      ⟨"halfAngle = Unity_SafeNormalize(halfVector);\n",
        ContentTarget.UnityCG⟩] },
  { mName := "CosThetaH",
    mInline := true,
    mAttributes := [],
    mOutputs := ["cosThetaH"],
    mInputs := ["halfAngle", "worldNormal"],
    mContents := [
      ⟨"cosThetaH = dot(worldNormal, halfAngle);\n",
        ContentTarget.Default⟩] },
  { mName := "NdotH",
    mInline := true,
    mAttributes := [],
    mOutputs := ["ndoth"],
    mInputs := ["cosThetaH"],
    mContents := [
      ⟨"ndoth = saturate(cosThetaH);\n",
        ContentTarget.Default⟩] },
  { mName := "CosThetaD",
    mInline := true,
    mAttributes := [],
    mOutputs := ["cosThetaD"],
    mInputs := ["halfAngle", "lightDir"],
    mContents := [
      ⟨"cosThetaH = dot(lightDir, halfAngle);\n",
        ContentTarget.Default⟩] },
  { mName := "LdotH",
    mInline := true,
    mAttributes := [],
    mOutputs := ["ldoth"],
    mInputs := ["cosThetaD"],
    mContents := [
      ⟨"ldoth = saturate(cosThetaD);\n",
        ContentTarget.Default⟩] },
  { mName := "CosDoubleThetaD",
    mInline := true,
    mAttributes := [],
    mOutputs := ["cosDoubleThetaD"],
    mInputs := ["viewDir", "lightDir"],
    mContents := [
      ⟨"cosDoubleThetaD = dot(viewDir, lightDir);\n",
        ContentTarget.Default⟩] },
  { mName := "LdotV",
    mInline := true,
    mAttributes := [],
    mOutputs := ["ldotv"],
    mInputs := ["cosDoubleThetaD"],
    mContents := [
      ⟨"ldotv = saturate(cosDoubleThetaD);\n",
        ContentTarget.Default⟩] },
  { mName := "ViewRefl",
    mInline := true,
    mAttributes := [],
    mOutputs := ["viewRefl"],
    mInputs := ["worldNormal", "viewDir"],
    mContents := [
      ⟨"viewRefl = reflect(-viewDir, worldNormal);\n",
        ContentTarget.Default⟩] },
  { mName := "WorldNormal",
    mInline := true,
    mAttributes := ["WorldInvT"],
    mOutputs := ["worldNormal"],
    mInputs := ["normal"],
    mContents := [
      ⟨"worldNormal = normalize(mul(WorldInvT, half4(normal.xyz, 0.0h)).xyz);\n",
        ContentTarget.Default⟩,
      ⟨"worldNormal = UnityObjectToWorldNormal(normal.xyz);\n",
        ContentTarget.UnityCG⟩] },
  { mName := "WorldTangent",
    mInline := true,
    mAttributes := ["WorldInvT"],
    mOutputs := ["worldTangent"],
    mInputs := ["tangent"],
    mContents := [
      ⟨"worldTangent = normalize(mul(WorldInvT, half4(tangent.xyz, 0.0h)).xyz);\n",
        ContentTarget.Default⟩,
      ⟨"worldTangent = UnityObjectToWorldDir(tangent.xyz);\n",
        ContentTarget.UnityCG⟩] },
  { mName := "WorldBinormal",
    mInline := true,
    mAttributes := ["WorldInvT"],
    mOutputs := ["worldBinormal"],
    mInputs := ["binormal"],
    mContents := [
      ⟨"worldBinormal = normalize(mul(WorldInvT, half4(binormal.xyz, 0.0h)).xyz);\n",
        ContentTarget.Default⟩,
      ⟨"worldBinormal = UnityObjectToWorldDir(binormal.xyz);\n",
        ContentTarget.UnityCG⟩] },
  { mName := "CalculateWorldBinormal",
    mInline := true,
    mAttributes := [],
    mOutputs := ["worldBinormal"],
    mInputs := ["worldTangent", "worldNormal", "tangent"],
    mContents := [
      ⟨"worldBinormal = cross(worldNormal, worldTangent);\n",
        ContentTarget.Default⟩,
      ⟨"worldBinormal = cross(worldNormal, worldTangent) * tangent.w * unity_WorldTransformParams.w;\n",
        ContentTarget.UnityCG⟩] },
  { mName := "PackTangentSpaceAndViewDir",
    mInline := true,
    mAttributes := [],
    mOutputs := ["tspace0", "tspace1", "tspace2"],
    mInputs := ["worldTangent", "worldBinormal", "worldNormal", "viewDir"],
    mContents := [
      ⟨String.join [
        "tspace0 = half4(worldTangent.x, worldBinormal.x, worldNormal.x, viewDir.x);\n",
        "tspace1 = half4(worldTangent.y, worldBinormal.y, worldNormal.y, viewDir.y);\n",
        "tspace2 = half4(worldTangent.z, worldBinormal.z, worldNormal.z, viewDir.z);\n"],
        ContentTarget.Default⟩] },
  { mName := "UnpackTangent",
    mInline := true,
    mAttributes := [],
    mOutputs := ["worldTangent"],
    mInputs := ["tspace0", "tspace1", "tspace2"],
    mContents := [
      ⟨"worldTangent = half3(tspace0.x, tspace1.x, tspace2.x);\n",
        ContentTarget.Default⟩] },
  { mName := "UnpackBinormal",
    mInline := true,
    mAttributes := [],
    mOutputs := ["worldBinormal"],
    mInputs := ["tspace0", "tspace1", "tspace2"],
    mContents := [
      ⟨"worldBinormal = half3(tspace0.y, tspace1.y, tspace2.y);\n",
        ContentTarget.Default⟩] },
  { mName := "UnpackNormal",
    mInline := true,
    mAttributes := [],
    mOutputs := ["worldNormal"],
    mInputs := ["tspace0", "tspace1", "tspace2"],
    mContents := [
      ⟨"worldNormal = half3(tspace0.z, tspace1.z, tspace2.z);\n",
        ContentTarget.Default⟩] },
  { mName := "UnpackViewDir",
    mInline := true,
    mAttributes := [],
    mOutputs := ["viewDir"],
    mInputs := ["tspace0", "tspace1", "tspace2"],
    mContents := [
      ⟨"viewDir = half3(tspace0.w, tspace1.w, tspace2.w);\n",
        ContentTarget.Default⟩] },
  { mName := "NormalizeViewDir",
    mInline := true,
    mAttributes := [],
    mOutputs := ["viewDir"],
    mInputs := ["viewDir"],
    mContents := [
      ⟨"viewDir = normalize(viewDir);\n",
        ContentTarget.Default⟩] },
  { mName := "DefaultBaseColor",
    mInline := true,
    mAttributes := [],
    mOutputs := ["baseColor"],
    mInputs := [],
    mContents := [
      ⟨"baseColor = half3(0.5h, 0.5h, 0.5h);\n",
        ContentTarget.Default⟩] },
  { mName := "DefaultTransparency",
    mInline := true,
    mAttributes := [],
    mOutputs := ["transparency"],
    mInputs := [],
    mContents := [
      ⟨"transparency = 1.0h;\n",
        ContentTarget.Default⟩] },
  { mName := "DefaultPerceptualRoughness",
    mInline := true,
    mAttributes := [],
    mOutputs := ["perceptualRoughness"],
    mInputs := [],
    mContents := [
      ⟨"perceptualRoughness = 0.5h;\n",
        ContentTarget.Default⟩] },
  { mName := "DefaultPerceptualSmoothness",
    mInline := true,
    mAttributes := [],
    mOutputs := ["perceptualSmoothness"],
    mInputs := [],
    mContents := [
      ⟨"perceptualSmoothness = 0.5h;\n",
        ContentTarget.Default⟩] },
  { mName := "DefaultMetallic",
    mInline := true,
    mAttributes := [],
    mOutputs := ["metallic"],
    mInputs := [],
    mContents := [
      ⟨"metallic = 0.0h;\n",
        ContentTarget.Default⟩] },
  { mName := "DefaultOcclusion",
    mInline := true,
    mAttributes := [],
    mOutputs := ["occlusion"],
    mInputs := [],
    mContents := [
      ⟨"occlusion = 1.0h;\n",
        ContentTarget.Default⟩] },
  { mName := "DefaultEmission",
    mInline := true,
    mAttributes := [],
    mOutputs := ["emission"],
    mInputs := [],
    mContents := [
      ⟨"emission = 0.0h;\n",
        ContentTarget.Default⟩] },
  { mName := "SampleBaseColor",
    mInline := true,
    mAttributes := ["MainTex", "MainTexSampler"],
    mOutputs := ["baseColor"],
    mInputs := ["deviceUV"],
    mContents := [
      ⟨"baseColor = MainTex.Sample(MainTexSampler, deviceUV).xyz;\n",
        ContentTarget.Default⟩,
      ⟨"baseColor = tex2D(MainTex, deviceUV).xyz;\n",
        ContentTarget.UnityCG⟩] },
  { mName := "SampleBaseColorTransparency",
    mInline := true,
    mAttributes := ["MainTex", "MainTexSampler"],
    mOutputs := ["baseColor", "transparency"],
    mInputs := ["deviceUV"],
    mContents := [
      ⟨String.join [
        "\x7b\n",
        "    half4 tmp = MainTex.Sample(MainTexSampler, deviceUV);\n",
        "    baseColor = tmp.xyz;\n",
        "    transparency = tmp.w;\n",
        "\x7d\n"],
        ContentTarget.Default⟩,
      ⟨String.join [
        "\x7b\n",
        "    half4 tmp = tex2D(MainTex, deviceUV);\n",
        "    baseColor = tmp.xyz;\n",
        "    transparency = tmp.w;\n",
        "\x7d\n"],
        ContentTarget.UnityCG⟩] },
  { mName := "SampleNormalMap",
    mInline := true,
    mAttributes := ["BumpMap", "BumpMapSampler"],
    mOutputs := ["normalTS"],
    mInputs := ["deviceUV"],
    mContents := [
      ⟨"normalTS = BumpMap.Sample(BumpMapSampler, deviceUV).xyz;\n",
        ContentTarget.Default⟩,
      ⟨"normalTS = UnpackNormal(tex2D(BumpMap, deviceUV)).xyz;\n",
        ContentTarget.UnityCG⟩] },
  { mName := "SampleMaterial",
    mInline := false,
    mAttributes := ["Material", "MaterialSampler"],
    mOutputs := ["metallic", "perceptualSmoothness", "occlusion"],
    mInputs := ["deviceUV"],
    mContents := [
      ⟨String.join [
        "half3 tmp = Material.Sample(MaterialSampler, deviceUV).xyz;\n",
        "metallic = tmp.x;\n",
        "perceptualSmoothness = tmp.y;\n",
        "occlusion = tmp.z;\n"],
        ContentTarget.Default⟩,
      ⟨String.join [
        "half3 tmp = tex2D(Material, deviceUV).xyz;\n",
        "metallic = tmp.x;\n",
        "perceptualSmoothness = tmp.y;\n",
        "occlusion = tmp.z;\n"],
        ContentTarget.UnityCG⟩] },
  { mName := "PerceptualSmoothnessToPerceptualRoughness",
    mInline := true,
    mAttributes := [],
    mOutputs := ["perceptualRoughness"],
    mInputs := ["perceptualSmoothness"],
    mContents := [
      ⟨"perceptualRoughness = 1.0h - perceptualSmoothness;\n",
        ContentTarget.Default⟩] },
  { mName := "PerceptualRoughnessToRoughness",
    mInline := true,
    mAttributes := [],
    mOutputs := ["roughness"],
    mInputs := ["perceptualRoughness"],
    mContents := [
      ⟨"roughness = perceptualRoughness * perceptualRoughness;\n",
        ContentTarget.Default⟩] },
  { mName := "WorldShadingNormal",
    mInline := true,
    mAttributes := [],
    mOutputs := ["worldNormal"],
    mInputs := ["normalTS", "tspace0", "tspace1", "tspace2"],
    mContents := [
      ⟨String.join [
        "worldNormal.x = dot(half3(tspace0.xyz), normalTS);\n",
        "worldNormal.y = dot(half3(tspace1.xyz), normalTS);\n",
        "worldNormal.z = dot(half3(tspace2.xyz), normalTS);\n",
        "worldNormal = normalize(worldNormal);\n"],
        ContentTarget.Default⟩] },
  { mName := "LightIntensity",
    mInline := true,
    mAttributes := [],
    mOutputs := ["lightInten"],
    mInputs := [],
    mContents := [
      ⟨"lightInten = _LightColor0.xyz;\n",
        ContentTarget.UnityCG⟩] },
  { mName := "DirectionalLightDir",
    mInline := true,
    mAttributes := [],
    mOutputs := ["lightDir"],
    mInputs := [],
    mContents := [
      ⟨"lightDir = _WorldSpaceLightPos0.xyz;\n",
        ContentTarget.UnityCG⟩] },
  { mName := "LightAttenuation",
    mInline := true,
    mAttributes := [],
    mOutputs := ["atten"],
    mInputs := ["worldPos"],
    mContents := [
      ⟨"UNITY_LIGHT_ATTENUATION(atten, IN, worldPos);\n",
        ContentTarget.Default⟩] },
  { mName := "SUnityAmbientOrLightmapUV",
    mInline := false,
    mAttributes := [],
    mOutputs := ["ambientOrLightmapUV"],
    mInputs := ["deviceUV1", "deviceUV2", "worldNormal", "worldPos"],
    mContents := [
      ⟨String.join [
        "ambientOrLightmapUV = 0;\n",
        "// Static lightmaps\n",
        "#ifdef LIGHTMAP_ON\n",
        "ambientOrLightmapUV.xy = deviceUV1.xy * unity_LightmapST.xy + unity_LightmapST.zw;\n",
        "ambientOrLightmapUV.zw = 0;\n",
        "// Sample light probe for Dynamic objects only (no static or dynamic lightmaps)\n",
        "#elif UNITY_SHOULD_SAMPLE_SH\n",
        "\n",
        "#ifdef VERTEXLIGHT_ON\n",
        "// Approximated illumination from non-important point lights\n",
        "ambientOrLightmapUV.rgb = Shade4PointLights(\n",
        "    unity_4LightPosX0, unity_4LightPosY0, unity_4LightPosZ0,\n",
        "    unity_LightColor[0].rgb, unity_LightColor[1].rgb, unity_LightColor[2].rgb, unity_LightColor[3].rgb,\n",
        "    unity_4LightAtten0, worldPos, worldNormal);\n",
        "#endif\n",
        "\n",
        "ambientOrLightmapUV.rgb = ShadeSHPerVertex(worldNormal, ambientOrLightmapUV.rgb);\n",
        "#endif\n",
        "\n",
        "#ifdef DYNAMICLIGHTMAP_ON\n",
        "ambientOrLightmapUV.zw = deviceUV2.xy * unity_DynamicLightmapST.xy + unity_DynamicLightmapST.zw;\n",
        "#endif\n"],
        ContentTarget.Default⟩] },
  { mName := "SUnityGI",
    mInline := false,
    mAttributes := [],
    mOutputs := ["gi"],
    mInputs := ["lightDir", "worldNormal", "perceptualSmoothness", "metallic", "worldPos", "viewDir",
        "atten", "ambientOrLightmapUV", "baseColor", "transparency", "occlusion", "lightInten"],
    mContents := [
      ⟨String.join [
        "#ifdef UNITY_COMPILER_HLSL\n",
        "SurfaceOutputStandard o = (SurfaceOutputStandard)0;\n",
        "#else\n",
        "SurfaceOutputStandard o;\n",
        "#endif\n",
        "o.Albedo = baseColor;\n",
        "o.Normal = worldNormal;\n",
        "o.Emission = 0.0;\n",
        "o.Metallic = metallic;\n",
        "o.Alpha = transparency;\n",
        "o.Occlusion = occlusion;\n",
        "o.Smoothness = perceptualSmoothness;\n",
        "\n",
        "UNITY_INITIALIZE_OUTPUT(UnityGI, gi);\n",
        "gi.indirect.diffuse = 0;\n",
        "gi.indirect.specular = 0;\n",
        "gi.light.color = lightInten;\n",
        "gi.light.dir = lightDir;\n",
        "\n",
        "UnityGIInput giInput;\n",
        "UNITY_INITIALIZE_OUTPUT(UnityGIInput, giInput);\n",
        "giInput.light = gi.light;\n",
        "giInput.worldPos = worldPos;\n",
        "giInput.worldViewDir = viewDir;\n",
        "giInput.atten = atten;\n",
        "#if defined(LIGHTMAP_ON) || defined(DYNAMICLIGHTMAP_ON)\n",
        "giInput.ambient = 0;\n",
        "giInput.lightmapUV = ambientOrLightmapUV;\n",
        "#else\n",
        "giInput.ambient = ambientOrLightmapUV.rgb;\n",
        "giInput.lightmapUV = 0;\n",
        "#endif\n",
        "giInput.probeHDR[0] = unity_SpecCube0_HDR;\n",
        "giInput.probeHDR[1] = unity_SpecCube1_HDR;\n",
        "#if defined(UNITY_SPECCUBE_BLENDING) || defined(UNITY_SPECCUBE_BOX_PROJECTION)\n",
        "giInput.boxMin[0] = unity_SpecCube0_BoxMin; // .w holds lerp value for blending\n",
        "#endif\n",
        "#ifdef UNITY_SPECCUBE_BOX_PROJECTION\n",
        "giInput.boxMax[0] = unity_SpecCube0_BoxMax;\n",
        "giInput.probePosition[0] = unity_SpecCube0_ProbePosition;\n",
        "giInput.boxMax[1] = unity_SpecCube1_BoxMax;\n",
        "giInput.boxMin[1] = unity_SpecCube1_BoxMin;\n",
        "giInput.probePosition[1] = unity_SpecCube1_ProbePosition;\n",
        "#endif\n",
        "\n",
        "LightingStandard_GI(o, giInput, gi);\n"],
        ContentTarget.Default⟩] },
  { mName := "SUnityLightingStandard",
    mInline := false,
    mAttributes := [],
    mOutputs := ["color"],
    mInputs := ["gi", "baseColor", "transparency", "perceptualSmoothness", "metallic", "worldNormal",
        "viewDir"],
    mContents := [
      ⟨String.join [
        "half oneMinusReflectivity;\n",
        "half3 specColor;\n",
        "half3 albedo = DiffuseAndSpecularFromMetallic(baseColor, metallic, /*out*/ specColor, /*out*/ oneMinusReflectivity);\n",
        "\n",
        "// shader relies on pre-multiply alpha-blend (_SrcBlend = One, _DstBlend = OneMinusSrcAlpha)\n",
        "// this is necessary to handle transparency in physically correct way - only diffuse component gets affected by alpha\n",
        "half outputAlpha;\n",
        "albedo = PreMultiplyAlpha (albedo, transparency, oneMinusReflectivity, /*out*/ outputAlpha);\n",
        "\n",
        "color = UNITY_BRDF_PBS (albedo, specColor, oneMinusReflectivity, perceptualSmoothness, worldNormal, viewDir, gi.light, gi.indirect);\n",
        "color.a = outputAlpha;\n"],
        ContentTarget.UnityCG⟩] },
  { mName := "SUnityUnpackTexcoord",
    mInline := true,
    mAttributes := [],
    mOutputs := ["deviceUV"],
    mInputs := ["texcoord"],
    mContents := [
      ⟨"deviceUV = texcoord.xy;\n",
        ContentTarget.UnityCG⟩] },
  { mName := "SUnityUnpackTexcoord1",
    mInline := true,
    mAttributes := [],
    mOutputs := ["deviceUV1"],
    mInputs := ["texcoord1"],
    mContents := [
      ⟨"deviceUV1 = texcoord1.xy;\n",
        ContentTarget.UnityCG⟩] },
  { mName := "SUnityUnpackTexcoord2",
    mInline := true,
    mAttributes := [],
    mOutputs := ["deviceUV2"],
    mInputs := ["texcoord2"],
    mContents := [
      ⟨"deviceUV2 = texcoord2.xy;\n",
        ContentTarget.UnityCG⟩] },
  { mName := "SUnityUnpackTexcoord3",
    mInline := true,
    mAttributes := [],
    mOutputs := ["deviceUV3"],
    mInputs := ["texcoord3"],
    mContents := [
      ⟨"deviceUV3 = texcoord3.xy;\n",
        ContentTarget.UnityCG⟩] }]

/-- The function `createStarModules`: the attributes and the modules are
registered after those that `modules` holds. -/
def createStarModules (modules : ShaderModules) : ShaderModules :=
  { mAttributes := modules.mAttributes ++ starAttributes,
    mModules := modules.mModules ++ starModules }

/-- The characters of `pattern` are the first characters of `text`. -/
def startsWith : List Char → List Char → Bool
  | _, [] => true
  | [], _ :: _ => false
  | c :: text, p :: pattern => c == p && startsWith text pattern

/-- The characters of `pattern` occur in `text` as a contiguous run. -/
def occursIn (pattern : List Char) : List Char → Bool
  | [] => pattern.isEmpty
  | c :: text => startsWith (c :: text) pattern || occursIn pattern text

/-- Every declared output name of the module occurs in every content variant
of the module. -/
def ShaderModule.outputsOccur (shaderModule : ShaderModule) : Bool :=
  shaderModule.mOutputs.all (fun output =>
    shaderModule.mContents.all (fun content => occursIn output.toList content.mContent.toList))

/-- Every attribute name of the module is among the given global attributes. -/
def ShaderModule.attributesDeclared (attributes : List String)
    (shaderModule : ShaderModule) : Bool :=
  shaderModule.mAttributes.all (fun name => attributes.contains name)

end Shader

/-- No entry of the cache is keyed by the nil identifier. -/
def Cache.NoNilKey {α : Type} [CacheEntry α] (cache : List α) : Prop :=
  ∀ e ∈ cache, MetaID.isNil (CacheEntry.metaID e) = false

/-- No cache of any kind holds an entry keyed by the nil identifier. -/
def NoNilKeys (resources : DX12Resources) : Prop :=
  Cache.NoNilKey resources.mMeshes ∧ Cache.NoNilKey resources.mTextures ∧
  Cache.NoNilKey resources.mShaders ∧ Cache.NoNilKey resources.mMaterials ∧
  Cache.NoNilKey resources.mContents ∧ Cache.NoNilKey resources.mRenderGraphs

/-- The asset database stores no mesh, texture, shader or material under the
nil identifier: the nil identifier names no asset. -/
def NoNilAssets (env : Env) : Prop :=
  ∀ metaID, MetaID.isNil metaID = true →
    env.meshes metaID = none ∧ env.textures metaID = none ∧ env.shaders metaID = none ∧
    env.materials metaID = none

/-- Every cache that holds no nil key in the first world holds none in the
second. -/
def KeepsNoNil (w w1 : World) : Prop :=
  (Cache.NoNilKey w.mResources.mMeshes → Cache.NoNilKey w1.mResources.mMeshes) ∧
  (Cache.NoNilKey w.mResources.mTextures → Cache.NoNilKey w1.mResources.mTextures) ∧
  (Cache.NoNilKey w.mResources.mShaders → Cache.NoNilKey w1.mResources.mShaders) ∧
  (Cache.NoNilKey w.mResources.mMaterials → Cache.NoNilKey w1.mResources.mMaterials) ∧
  (Cache.NoNilKey w.mResources.mContents → Cache.NoNilKey w1.mResources.mContents) ∧
  (Cache.NoNilKey w.mResources.mRenderGraphs → Cache.NoNilKey w1.mResources.mRenderGraphs)

namespace RenderWorks

/-- The offsets of the resource-view list are set together: the GPU offset is
null when the CPU offset is. -/
def OffsetsPaired (dx12List : DX12DescriptorList) : Prop :=
  dx12List.mCpuOffset = 0 → dx12List.mGpuOffset = 0

/-- The offsets of every persistent resource-view list of every pipeline of
the render works are set together. -/
def PairedWorks (rw : DX12RenderWorks) : Prop :=
  ∀ sl ∈ rw.mSolutions, ∀ pipeline ∈ sl.mPipelines, PersistentLists OffsetsPaired pipeline

/-- The render works that the code produces: render works whose
resource-view lists all have null offsets, the state of the lists before
their offsets are first written, and what `createRenderSolutionRenderTargets`,
on a heap with a non-null first CPU handle, and `clearRenderTargets` leave of
render works that the code produces, whether they complete or throw. These
two functions are the only ones of `SDX12RenderWorks.cpp` and `SDX12Utils.cpp`
that write the offsets. -/
inductive Produced (device : Device) : DX12RenderWorks → Prop where
  | constructed (rw : DX12RenderWorks)
      (hnull : ∀ sl ∈ rw.mSolutions, ∀ pipeline ∈ sl.mPipelines, NullPipeline pipeline) :
      Produced device rw
  | created (rw : DX12RenderWorks) (id pipelineID : Nat) (c : Context)
      (hproduced : Produced device rw) (hstart : 0 < c.mDescriptorHeap.mCpuStart) :
      Produced device (createRenderSolutionRenderTargets device rw id pipelineID c).value
  | cleared (rw : DX12RenderWorks) (id pipelineID : Nat) (c : Context)
      (hproduced : Produced device rw) :
      Produced device (clearRenderTargets rw id pipelineID c).value

end RenderWorks

namespace RenderWorks

/-- The render works that `createRenderSolutionRenderTargets` leaves of the
scenario with two persistent resource-view lists. -/
def exampleCreatedWorks : DX12RenderWorks :=
  (createRenderSolutionRenderTargets exampleDevice (exampleWorks [exampleCollection]) 0 0
    exampleHeapContext).value

/-- The context that call ends in. -/
def exampleCreatedContext : Context :=
  (createRenderSolutionRenderTargets exampleDevice (exampleWorks [exampleCollection]) 0 0
    exampleHeapContext).context

/-- The solution of those render works. -/
def exampleCreatedSolution : DX12RenderSolution :=
  exampleCreatedWorks.mSolutions.head?.getD ⟨[], [], [], [], [], [], [], [], []⟩

/-- The pipeline of that solution. -/
def exampleCreatedPipeline : DX12RenderPipeline :=
  exampleCreatedSolution.mPipelines.head?.getD ⟨[]⟩

/-- The CPU and GPU offsets of the resource-view lists of a pipeline. -/
def DX12RenderPipeline.offsets (pipeline : DX12RenderPipeline) : List (Nat × Nat) :=
  pipeline.mPasses.flatMap (fun pass => pass.mGraphicsSubpasses.flatMap (fun subpass =>
    subpass.mDescriptors.flatMap (fun collection =>
      collection.mResourceViewLists.map (fun dx12List =>
        (dx12List.mCpuOffset, dx12List.mGpuOffset)))))

end RenderWorks

/-! # Theorems -/

/-! ## The call monad -/

@[simp] theorem bind_eq {α β : Type} (m : M α) (f : α → M β) : (m >>= f) = M.bind m f := rfl

@[simp] theorem pure_eq {α : Type} (a : α) : (pure a : M α) = M.pure a := rfl

theorem bind_ok {α β : Type} {m : M α} {f : α → M β} {w w1 : World} {a : α}
    (h : m w = Res.ok a w1) : M.bind m f w = f a w1 := by
  simp [M.bind, h]

theorem bind_fail {α β : Type} {m : M α} {f : α → M β} {w w1 : World} {e : Failure}
    (h : m w = Res.fail e w1) : M.bind m f w = Res.fail e w1 := by
  simp [M.bind, h]

/-- A sequence that returns has returned from its first part. -/
theorem bind_eq_ok {α β : Type} {m : M α} {f : α → M β} {w w2 : World} {b : β}
    (h : M.bind m f w = Res.ok b w2) :
    ∃ a w1, m w = Res.ok a w1 ∧ f a w1 = Res.ok b w2 := by
  unfold M.bind at h
  cases hm : m w with
  | ok a w1 => rw [hm] at h; exact ⟨a, w1, rfl, h⟩
  | fail e w1 => rw [hm] at h; cases h

/-- A modifier under `modify` returns exactly when it returns on its own. -/
theorem modifying_eq_ok {α : Type} {m : M α} {erase : DX12Resources → DX12Resources}
    {w w1 : World} {a : α} : modifying erase m w = Res.ok a w1 ↔ m w = Res.ok a w1 := by
  unfold modifying
  cases m w <;> simp

theorem Expects_eq_ok {cond : Bool} {w w1 : World} {u : Unit}
    (h : Expects cond w = Res.ok u w1) : cond = true ∧ w1 = w := by
  unfold Expects at h
  cases cond with
  | true => simp [M.pure] at h; exact ⟨rfl, h.symm⟩
  | false => simp [M.fail] at h

/-! ## The caches -/

theorem find_lt {α : Type} [CacheEntry α] (cache : List α) (metaID : MetaID) (p : Ptr)
    (h : Cache.find cache metaID = some p) : p < cache.length := by
  induction cache generalizing p with
  | nil => simp [Cache.find] at h
  | cons e es ih =>
    unfold Cache.find at h
    split at h
    · cases h; simp
    · cases hf : Cache.find es metaID with
      | none => simp [hf] at h
      | some q =>
        simp [hf] at h
        have := ih q hf
        subst h
        simpa using this

theorem find_get {α : Type} [CacheEntry α] (cache : List α) (metaID : MetaID) (p : Ptr)
    (h : Cache.find cache metaID = some p) :
    ∃ e, cache[p]? = some e ∧ CacheEntry.metaID e = metaID := by
  induction cache generalizing p with
  | nil => simp [Cache.find] at h
  | cons e es ih =>
    unfold Cache.find at h
    split at h
    · cases h; exact ⟨e, by simp, by assumption⟩
    · cases hf : Cache.find es metaID with
      | none => simp [hf] at h
      | some q =>
        simp [hf] at h
        obtain ⟨e1, h1, h2⟩ := ih q hf
        subst h
        exact ⟨e1, by simpa using h1, h2⟩

theorem find_append_some {α : Type} [CacheEntry α] (cache more : List α) (metaID : MetaID)
    (p : Ptr) (h : Cache.find cache metaID = some p) :
    Cache.find (cache ++ more) metaID = some p := by
  induction cache generalizing p with
  | nil => simp [Cache.find] at h
  | cons e es ih =>
    simp only [List.cons_append]
    unfold Cache.find at h ⊢
    split
    · rename_i heq; simpa [heq] using h
    · rename_i hne
      simp only [hne, ↓reduceIte] at h
      cases hf : Cache.find es metaID with
      | none => simp [hf] at h
      | some q => simp [hf] at h; simp [ih q hf, h]

theorem find_append_none {α : Type} [CacheEntry α] (cache : List α) (e : α) (metaID : MetaID)
    (h : Cache.find cache metaID = none) :
    Cache.find (cache ++ [e]) metaID =
      if CacheEntry.metaID e = metaID then some cache.length else none := by
  induction cache with
  | nil => simp [Cache.find]
  | cons e0 es ih =>
    simp only [List.cons_append]
    unfold Cache.find at h ⊢
    split
    · rename_i heq; simp [heq] at h
    · rename_i hne
      simp only [hne, ↓reduceIte] at h
      cases hf : Cache.find es metaID with
      | none => rw [ih hf]; split <;> simp
      | some q => simp [hf] at h

theorem find_set {α : Type} [CacheEntry α] (cache : List α) (q : Ptr) (e : α) (metaID : MetaID)
    (h : ∀ e0, cache[q]? = some e0 → CacheEntry.metaID e0 = CacheEntry.metaID e) :
    Cache.find (cache.set q e) metaID = Cache.find cache metaID := by
  induction cache generalizing q with
  | nil => simp
  | cons e0 es ih =>
    cases q with
    | zero =>
      have := h e0 (by simp)
      simp [Cache.find, this]
    | succ q =>
      simp only [List.set_cons_succ]
      unfold Cache.find
      rw [ih q (fun e1 h1 => h e1 (by simpa using h1))]

/-- After `emplace` on a cache without the key and `modify` with an entry of
that key, `find` returns the position of the new entry. -/
theorem find_modify_emplace {α : Type} [CacheEntry α] (cache : List α) (metaID : MetaID)
    (e : α) (hnone : Cache.find cache metaID = none)
    (hcreate : CacheEntry.metaID (CacheEntry.create metaID : α) = metaID)
    (hkey : CacheEntry.metaID e = metaID) :
    Cache.find (Cache.modify (cache ++ [CacheEntry.create metaID]) cache.length e) metaID =
      some cache.length := by
  unfold Cache.modify
  rw [find_set, find_append_none _ _ _ hnone]
  · simp [hcreate]
  · intro e0 h0
    simp at h0
    subst h0
    rw [hcreate, hkey]

theorem emplace_of_none {α : Type} [CacheEntry α] (cache : List α) (metaID : MetaID)
    (h : Cache.find cache metaID = none) :
    Cache.emplace cache metaID = (cache ++ [CacheEntry.create metaID], cache.length, true) := by
  simp [Cache.emplace, h]

theorem emplace_of_some {α : Type} [CacheEntry α] (cache : List α) (metaID : MetaID) (p : Ptr)
    (h : Cache.find cache metaID = some p) :
    Cache.emplace cache metaID = (cache, p, false) := by
  simp [Cache.emplace, h]

/-! ## Effects -/

theorem changesOnly_refl (T : List ResourceType) (w : World) : ChangesOnly T w w := by
  simp [ChangesOnly]

theorem changesOnly_trans {T : List ResourceType} {a b c : World}
    (h1 : ChangesOnly T a b) (h2 : ChangesOnly T b c) : ChangesOnly T a c := by
  obtain ⟨a1, a2, a3, a4, a5, a6, a7, a8⟩ := h1
  obtain ⟨b1, b2, b3, b4, b5, b6, b7, b8⟩ := h2
  exact ⟨fun h => (b1 h).trans (a1 h), fun h => (b2 h).trans (a2 h),
    fun h => (b3 h).trans (a3 h), fun h => (b4 h).trans (a4 h), fun h => (b5 h).trans (a5 h),
    fun h => (b6 h).trans (a6 h), b7.trans a7, b8.trans a8⟩

theorem changesOnly_mono {T tags1 : List ResourceType} {a b : World}
    (hsub : ∀ t, t ∈ T → t ∈ tags1) (h : ChangesOnly T a b) : ChangesOnly tags1 a b := by
  obtain ⟨a1, a2, a3, a4, a5, a6, a7, a8⟩ := h
  exact ⟨fun h => a1 (fun k => h (hsub _ k)), fun h => a2 (fun k => h (hsub _ k)),
    fun h => a3 (fun k => h (hsub _ k)), fun h => a4 (fun k => h (hsub _ k)),
    fun h => a5 (fun k => h (hsub _ k)), fun h => a6 (fun k => h (hsub _ k)), a7, a8⟩

theorem traceGrows_refl (P : Event → Prop) (w : World) : TraceGrows P w w :=
  ⟨[], by simp, by simp⟩

theorem traceGrows_trans {P : Event → Prop} {a b c : World}
    (h1 : TraceGrows P a b) (h2 : TraceGrows P b c) : TraceGrows P a c := by
  obtain ⟨e1, t1, p1⟩ := h1
  obtain ⟨e2, t2, p2⟩ := h2
  refine ⟨e1 ++ e2, by rw [t2, t1, List.append_assoc], ?_⟩
  intro e he
  rcases List.mem_append.1 he with h | h
  · exact p1 e h
  · exact p2 e h

theorem traceGrows_mono {P Q : Event → Prop} {a b : World} (hPQ : ∀ e, P e → Q e)
    (h : TraceGrows P a b) : TraceGrows Q a b := by
  obtain ⟨e1, t1, p1⟩ := h
  exact ⟨e1, t1, fun e he => hPQ e (p1 e he)⟩

theorem effect_refl (T : List ResourceType) (P : Event → Prop) (w : World) :
    Effect T P w w :=
  ⟨changesOnly_refl T w, traceGrows_refl P w⟩

theorem effect_trans {T : List ResourceType} {P : Event → Prop} {a b c : World}
    (h1 : Effect T P a b) (h2 : Effect T P b c) : Effect T P a c :=
  ⟨changesOnly_trans h1.1 h2.1, traceGrows_trans h1.2 h2.2⟩

theorem effect_mono {T tags1 : List ResourceType} {P Q : Event → Prop} {a b : World}
    (hsub : ∀ t, t ∈ T → t ∈ tags1) (hPQ : ∀ e, P e → Q e) (h : Effect T P a b) :
    Effect tags1 Q a b :=
  ⟨changesOnly_mono hsub h.1, traceGrows_mono hPQ h.2⟩

/-- The world of a sequence, by cases on its first part. -/
theorem world_bind {α β : Type} (m : M α) (f : α → M β) (w : World) :
    (M.bind m f w).world =
      match m w with
      | Res.ok a w1 => (f a w1).world
      | Res.fail _ w1 => w1 := by
  unfold M.bind
  cases m w <;> rfl

section KeepsEffect

variable {T : List ResourceType} {P : Event → Prop}

theorem keeps_pure {α : Type} (a : α) : Keeps (Effect T P) (M.pure a) :=
  ⟨fun w => effect_refl T P w⟩

theorem keeps_fail {α : Type} (e : Failure) : Keeps (Effect T P) (M.fail e : M α) :=
  ⟨fun w => effect_refl T P w⟩

theorem keeps_bind {α β : Type} {m : M α} {f : α → M β} (hm : Keeps (Effect T P) m)
    (hf : ∀ a, Keeps (Effect T P) (f a)) : Keeps (Effect T P) (M.bind m f) := by
  refine ⟨fun w => ?_⟩
  rw [world_bind]
  have h1 := hm.keeps w
  cases hmw : m w with
  | ok a w1 =>
    rw [hmw] at h1
    exact effect_trans h1 ((hf a).keeps w1)
  | fail e w1 =>
    rw [hmw] at h1
    exact h1

/-- The erasure of the element of a failed modifier is an effect on the cache
it is erased from. -/
theorem keeps_modifying {α : Type} {m : M α} {erase : DX12Resources → DX12Resources}
    (hm : Keeps (Effect T P) m)
    (he : ∀ w, ChangesOnly T w { w with mResources := erase w.mResources }) :
    Keeps (Effect T P) (modifying erase m) := by
  refine ⟨fun w => ?_⟩
  have h1 := hm.keeps w
  unfold modifying
  cases hmw : m w with
  | ok a w1 =>
    rw [hmw] at h1
    exact h1
  | fail e w1 =>
    rw [hmw] at h1
    exact effect_trans h1 ⟨he w1, ⟨[], by simp [Res.world], by simp⟩⟩

theorem keeps_weaken {α : Type} {tags0 : List ResourceType} {P0 : Event → Prop} {m : M α}
    (hm : Keeps (Effect tags0 P0) m) (hsub : ∀ t, t ∈ tags0 → t ∈ T)
    (hPQ : ∀ e, P0 e → P e) : Keeps (Effect T P) m :=
  ⟨fun w => effect_mono hsub hPQ (hm.keeps w)⟩

theorem keeps_Expects (cond : Bool) : Keeps (Effect T P) (Expects cond) := by
  unfold Star.Expects
  split
  · exact keeps_pure _
  · exact keeps_fail _

theorem keeps_getWorld : Keeps (Effect T P) getWorld :=
  ⟨fun w => effect_refl T P w⟩

theorem keeps_getResources : Keeps (Effect T P) getResources :=
  ⟨fun w => effect_refl T P w⟩

theorem keeps_newObject : Keeps (Effect T P) newObject :=
  ⟨fun w => ⟨by simp [Star.newObject, Res.world, ChangesOnly],
    ⟨[], by simp [Star.newObject, Res.world], by simp⟩⟩⟩

theorem keeps_emit (e : Event) (he : P e) : Keeps (Effect T P) (emit e) :=
  ⟨fun w => ⟨by simp [Star.emit, Res.world, ChangesOnly],
    ⟨[e], by simp [Star.emit, Res.world], by simpa using he⟩⟩⟩

theorem keeps_upload (buffer : ByteBuffer) (alignment : Nat)
    (he : ∀ offset, P (Event.upload buffer.size alignment offset)) :
    Keeps (Effect T P) (upload buffer alignment) :=
  ⟨fun w => ⟨by simp [Star.upload, Res.world, ChangesOnly],
    ⟨[Event.upload buffer.size alignment (alignUp w.mUploadOffset alignment)],
      by simp [Star.upload, Res.world], by simpa using he _⟩⟩⟩

theorem keeps_arenaAllocate (he : P Event.arenaAllocate) :
    Keeps (Effect T P) arenaAllocate :=
  ⟨fun w => ⟨by simp [Star.arenaAllocate, Res.world, ChangesOnly],
    ⟨[Event.arenaAllocate], by simp [Star.arenaAllocate, Res.world], by simpa using he⟩⟩⟩

theorem keeps_arenaRelease (he : P Event.arenaRelease) :
    Keeps (Effect T P) arenaRelease :=
  ⟨fun w => ⟨by simp [Star.arenaRelease, Res.world, ChangesOnly],
    ⟨[Event.arenaRelease], by simp [Star.arenaRelease, Res.world], by simpa using he⟩⟩⟩

theorem keeps_allocatePersistent (count : Nat)
    (he : ∀ first, P (Event.allocatePersistent count first)) :
    Keeps (Effect T P) (allocatePersistent count) := by
  refine ⟨fun w => ?_⟩
  unfold Star.allocatePersistent
  dsimp only
  split
  · rename_i first rest _
    exact ⟨by simp [Res.world, ChangesOnly],
      ⟨[Event.allocatePersistent count first], by simp [Res.world], by simpa using he first⟩⟩
  · split
    · exact ⟨by simp [Res.world, ChangesOnly],
        ⟨[Event.allocatePersistent count w.mDescriptorHeap.mNext], by simp [Res.world],
          by simpa using he _⟩⟩
    · exact effect_refl T P w

theorem keeps_modifyResources (f : DX12Resources → DX12Resources)
    (hf : ∀ w : World, ChangesOnly T w { w with mResources := f w.mResources }) :
    Keeps (Effect T P) (modifyResources f) :=
  ⟨fun w => ⟨hf w, ⟨[], by simp [Star.modifyResources, Res.world], by simp⟩⟩⟩

theorem keeps_forEach {α β : Type} (f : α → M β) (xs : List α)
    (hf : ∀ x, Keeps (Effect T P) (f x)) : Keeps (Effect T P) (forEach f xs) := by
  induction xs with
  | nil => exact keeps_pure _
  | cons x xs ih =>
    unfold Star.forEach
    exact keeps_bind (hf x) (fun _ => keeps_bind ih (fun _ => keeps_pure _))

theorem keeps_forEachCombine {α δ : Type} (f : α → δ → M α) (xs : List α) (ys : List δ)
    (hf : ∀ x y, Keeps (Effect T P) (f x y)) :
    Keeps (Effect T P) (forEachCombine f xs ys) := by
  induction xs generalizing ys with
  | nil => unfold Star.forEachCombine; exact keeps_pure _
  | cons x xs ih =>
    cases ys with
    | nil => unfold Star.forEachCombine; exact keeps_pure _
    | cons y ys =>
      unfold Star.forEachCombine
      exact keeps_bind (hf x y) (fun _ => keeps_bind (ih ys) (fun _ => keeps_pure _))

theorem keeps_mapAt {κ ν : Type} [DecidableEq κ] (map : List (κ × ν)) (key : κ) :
    Keeps (Effect T P) (mapAt map key) := by
  unfold Star.mapAt
  split
  · exact keeps_pure _
  · exact keeps_fail _

theorem keeps_vectorAt {α : Type} (v : List α) (i : Nat) :
    Keeps (Effect T P) (vectorAt v i) := by
  unfold Star.vectorAt
  split
  · exact keeps_pure _
  · exact keeps_fail _

theorem keeps_vectorIndex {α : Type} (v : List α) (i : Nat) :
    Keeps (Effect T P) (vectorIndex v i) := by
  unfold Star.vectorIndex
  split
  · exact keeps_pure _
  · exact keeps_fail _

end KeepsEffect

/-! ## Effects of the materialization functions -/

theorem createBuffer_keeps {T : List ResourceType} {P : Event → Prop} (size : Nat)
    (he : ∀ object, P (Event.createBuffer object size)) :
    Keeps (Effect T P) (createBuffer size) := by
  unfold createBuffer
  simp only [bind_eq, pure_eq]
  refine keeps_bind keeps_newObject (fun object => keeps_bind (keeps_emit _ (he object)) ?_)
  intro _
  exact keeps_pure _

theorem createTexture2D_keeps {T : List ResourceType} {P : Event → Prop} (desc : ResourceDesc)
    (format : Nat) (he : ∀ object, P (Event.createTexture2D object desc format)) :
    Keeps (Effect T P) (createTexture2D desc format) := by
  unfold createTexture2D
  simp only [bind_eq, pure_eq]
  refine keeps_bind keeps_newObject (fun object => keeps_bind (keeps_emit _ (he object)) ?_)
  intro _
  exact keeps_pure _

theorem modifyMesh_keeps (env : Env) (metaID : MetaID) (async : Bool) (mesh0 : DX12MeshData) :
    Keeps (Effect [] (fun e => e.isDescriptorWork = false)) (modifyMesh env metaID async mesh0) := by
  unfold modifyMesh createIndexBuffer
  simp only [bind_eq, pure_eq]
  repeat' first
    | exact keeps_pure _
    | exact keeps_fail _
    | exact keeps_Expects _
    | exact keeps_emit _ rfl
    | exact keeps_upload _ _ (fun _ => rfl)
    | exact createBuffer_keeps _ (fun _ => rfl)
    | exact keeps_arenaAllocate rfl
    | exact keeps_arenaRelease rfl
    | apply keeps_forEach
    | apply keeps_bind
    | intro _
    | split
    | (unfold createVertexBuffer; simp only [bind_eq, pure_eq])

theorem try_createDX12MeshData_keeps (env : Env) (metaID : MetaID) (async : Bool) :
    Keeps (Effect [ResourceType.Mesh_] (fun e => e.isDescriptorWork = false))
      (try_createDX12MeshData env metaID async) := by
  unfold try_createDX12MeshData
  simp only [bind_eq, pure_eq]
  repeat' first
    | exact keeps_pure _
    | exact keeps_Expects _
    | exact keeps_getResources
    | exact keeps_weaken (modifyMesh_keeps _ _ _ _) (by simp) (fun _ h => h)
    | exact keeps_modifyResources _ (fun _ => by simp [ChangesOnly])
    | refine keeps_modifying ?_ (fun _ => by simp [ChangesOnly])
    | apply keeps_bind
    | intro _
    | split

theorem copyMipLevels_keeps (env : Env) (resource : ResourceDesc) (texture : Option Handle)
    (mBufferOffset count i offset1 width height : Nat) :
    Keeps (Effect [] (fun e => e.isDescriptorWork = false))
      (copyMipLevels env resource texture mBufferOffset count i offset1 width height) := by
  induction count generalizing i offset1 width height with
  | zero => unfold copyMipLevels; exact keeps_pure _
  | succ n ih =>
    unfold copyMipLevels
    exact keeps_bind (keeps_emit _ rfl) (fun _ => ih _ _ _ _)

theorem modifyTexture_keeps (env : Env) (metaID : MetaID) (async : Bool) (tex0 : DX12TextureData) :
    Keeps (Effect [] (fun e => e.isDescriptorWork = false))
      (modifyTexture env metaID async tex0) := by
  unfold modifyTexture
  simp only [bind_eq, pure_eq]
  repeat' first
    | exact keeps_pure _
    | exact keeps_fail _
    | exact keeps_emit _ rfl
    | exact keeps_upload _ _ (fun _ => rfl)
    | exact createTexture2D_keeps _ _ (fun _ => rfl)
    | exact copyMipLevels_keeps _ _ _ _ _ _ _ _ _
    | apply keeps_bind
    | intro _
    | split

theorem try_createDX12TextureData_keeps (env : Env) (metaID : MetaID) (async : Bool) :
    Keeps (Effect [ResourceType.Texture_] (fun e => e.isDescriptorWork = false))
      (try_createDX12TextureData env metaID async) := by
  unfold try_createDX12TextureData
  simp only [bind_eq, pure_eq]
  repeat' first
    | exact keeps_pure _
    | exact keeps_Expects _
    | exact keeps_getResources
    | exact keeps_arenaRelease rfl
    | exact keeps_weaken (modifyTexture_keeps _ _ _ _) (by simp) (fun _ h => h)
    | exact keeps_modifyResources _ (fun _ => by simp [ChangesOnly])
    | refine keeps_modifying ?_ (fun _ => by simp [ChangesOnly])
    | apply keeps_bind
    | intro _
    | split

theorem emplaceIndexLoop_keeps {T : List ResourceType} {P : Event → Prop} {ρ δ : Type}
    [DecidableEq ρ] (renderIndex : List (Name × ρ)) (index : List (Name × δ)) (i : Nat)
    (flatmap : List (ρ × Nat)) :
    Keeps (Effect T P) (emplaceIndexLoop renderIndex index i flatmap) := by
  induction index generalizing i flatmap with
  | nil => unfold emplaceIndexLoop; exact keeps_pure _
  | cons v vs ih =>
    unfold emplaceIndexLoop
    exact keeps_bind (keeps_mapAt _ _) (fun _ => ih _ _)

theorem emplaceIndex_keeps {T : List ResourceType} {P : Event → Prop} {ρ δ : Type}
    [DecidableEq ρ] (flatmap : List (ρ × Nat)) (index : List (Name × δ))
    (renderIndex : List (Name × ρ)) :
    Keeps (Effect T P) (emplaceIndex flatmap index renderIndex) := by
  unfold emplaceIndex
  simp only [bind_eq, pure_eq]
  exact keeps_bind (emplaceIndexLoop_keeps _ _ _ _)
    (fun _ => keeps_bind (keeps_Expects _) (fun _ => keeps_pure _))

theorem emplaceNameIndex_keeps {T : List ResourceType} {P : Event → Prop} {δ : Type}
    (flatmap : List (Name × Nat)) (index : List (Name × δ)) :
    Keeps (Effect T P) (emplaceNameIndex flatmap index) := by
  unfold emplaceNameIndex
  simp only [bind_eq, pure_eq]
  exact keeps_bind (keeps_Expects _) (fun _ => keeps_pure _)

theorem createIndex_keeps {T : List ResourceType} {P : Event → Prop}
    (prototype : DX12ShaderData) (prototypeData : ShaderData) (renderGraph : DX12RenderWorks) :
    Keeps (Effect T P) (createIndex prototype prototypeData renderGraph) := by
  unfold createIndex
  simp only [bind_eq, pure_eq]
  repeat' first
    | exact keeps_pure _
    | exact keeps_Expects _
    | exact keeps_mapAt _ _
    | exact keeps_vectorAt _ _
    | exact emplaceIndex_keeps _ _ _
    | exact emplaceNameIndex_keeps _ _
    | apply keeps_forEachCombine
    | apply keeps_bind
    | intro _

theorem createInputElements_keeps {T : List ResourceType} {P : Event → Prop}
    (env : Env) (meshLayout : VertexLayoutData) (inputs : List Nat) (semanticID : Nat) :
    Keeps (Effect T P) (createInputElements env meshLayout inputs semanticID) := by
  induction inputs generalizing semanticID with
  | nil => unfold createInputElements; exact keeps_pure _
  | cons input inputs ih =>
    unfold createInputElements
    exact keeps_bind (keeps_mapAt _ _) (fun _ => keeps_bind (keeps_vectorAt _ _)
      (fun _ => keeps_bind (keeps_vectorAt _ _) (fun _ => keeps_bind (ih _)
        (fun _ => keeps_pure _))))

theorem createRTVFormats_keeps {T : List ResourceType} {P : Event → Prop}
    (renderSolution : DX12RenderSolution) (attachments : List Attachment) (i : Nat) :
    Keeps (Effect T P) (createRTVFormats renderSolution attachments i) := by
  induction attachments generalizing i with
  | nil => unfold createRTVFormats; exact keeps_pure _
  | cons a as ih =>
    unfold createRTVFormats
    split
    · exact keeps_bind (keeps_vectorIndex _ _) (fun _ => keeps_bind (ih _)
        (fun _ => keeps_pure _))
    · exact keeps_fail _

theorem createPipelineState_keeps (env : Env) (settings : ContentSettings)
    (renderSolution : DX12RenderSolution) (renderSubpass : DX12RenderSubpass)
    (subpassData : ShaderSubpassData) (subpass : DX12ShaderSubpassData) (i vertID : Nat) :
    Keeps (Effect [] (fun e => e.isDescriptorWork = false))
      (createPipelineState env settings renderSolution renderSubpass subpassData subpass
        i vertID) := by
  unfold createPipelineState
  simp only [bind_eq, pure_eq]
  repeat' first
    | exact keeps_pure _
    | exact keeps_fail _
    | exact keeps_Expects _
    | exact keeps_emit _ rfl
    | exact keeps_newObject
    | exact keeps_mapAt _ _
    | exact keeps_vectorIndex _ _
    | exact createInputElements_keeps _ _ _ _
    | exact createRTVFormats_keeps _ _ _
    | apply keeps_forEach
    | apply keeps_bind
    | intro _
    | split

theorem createPipelineStates_keeps (env : Env) (settings : ContentSettings)
    (renderSolution : DX12RenderSolution) (renderSubpass : DX12RenderSubpass)
    (subpassData : ShaderSubpassData) (vertIDs : List Nat) (i : Nat)
    (subpass : DX12ShaderSubpassData) :
    Keeps (Effect [] (fun e => e.isDescriptorWork = false))
      (createPipelineStates env settings renderSolution renderSubpass subpassData vertIDs i
        subpass) := by
  induction vertIDs generalizing i subpass with
  | nil => unfold createPipelineStates; exact keeps_pure _
  | cons v vs ih =>
    unfold createPipelineStates
    exact keeps_bind (createPipelineState_keeps _ _ _ _ _ _ _ _) (fun _ => ih _ _)

theorem createBlob_keeps (env : Env) (program : ByteBuffer) :
    Keeps (Effect [] (fun e => e.isDescriptorWork = false)) (createBlob env program) := by
  unfold createBlob
  simp only [bind_eq, pure_eq]
  repeat' first
    | exact keeps_pure _
    | exact keeps_fail _
    | exact keeps_emit _ rfl
    | apply keeps_bind
    | intro _
    | split

theorem createShaderResources_keeps (env : Env) (settings : ContentSettings)
    (renderSolution : DX12RenderSolution) (renderSubpass : DX12RenderSubpass)
    (subpass : DX12ShaderSubpassData) (subpassData : ShaderSubpassData) :
    Keeps (Effect [] (fun e => e.isDescriptorWork = false))
      (createShaderResources env settings renderSolution renderSubpass subpass subpassData) := by
  unfold createShaderResources
  simp only [bind_eq, pure_eq]
  repeat' first
    | exact keeps_pure _
    | exact createBlob_keeps _ _
    | exact createPipelineStates_keeps _ _ _ _ _ _ _ _
    | exact keeps_arenaAllocate rfl
    | exact keeps_arenaRelease rfl
    | apply keeps_bind
    | intro _

theorem createResourcesSolution_keeps (env : Env) (settings : ContentSettings)
    (renderGraph : DX12RenderWorks) (solution : DX12ShaderSolutionData)
    (solutionData : Name × ShaderSolutionData) :
    Keeps (Effect [] (fun e => e.isDescriptorWork = false))
      (createResourcesSolution env settings renderGraph solution solutionData) := by
  unfold createResourcesSolution
  simp only [bind_eq, pure_eq]
  repeat' first
    | exact keeps_pure _
    | exact keeps_mapAt _ _
    | exact keeps_vectorAt _ _
    | exact createShaderResources_keeps _ _ _ _ _ _
    | apply keeps_forEachCombine
    | apply keeps_bind
    | intro _

theorem modifyShader_keeps (env : Env) (rg : DX12RenderGraphData) (metaID : MetaID)
    (async : Bool) (shader0 : DX12ShaderData) :
    Keeps (Effect [] (fun e => e.isDescriptorWork = false))
      (modifyShader env rg metaID async shader0) := by
  unfold modifyShader
  simp only [bind_eq, pure_eq]
  repeat' first
    | exact keeps_pure _
    | exact keeps_fail _
    | exact keeps_Expects _
    | exact keeps_getResources
    | exact keeps_emit _ rfl
    | exact createIndex_keeps _ _ _
    | exact createResourcesSolution_keeps _ _ _ _ _
    | apply keeps_forEachCombine
    | apply keeps_bind
    | intro _
    | split

theorem try_createDX12ShaderData_keeps (env : Env) (rg : DX12RenderGraphData)
    (metaID : MetaID) (async : Bool) :
    Keeps (Effect [ResourceType.Shader_] (fun e => e.isDescriptorWork = false))
      (try_createDX12ShaderData env rg metaID async) := by
  unfold try_createDX12ShaderData
  simp only [bind_eq, pure_eq]
  repeat' first
    | exact keeps_pure _
    | exact keeps_Expects _
    | exact keeps_getResources
    | exact keeps_weaken (modifyShader_keeps _ _ _ _ _) (by simp) (fun _ h => h)
    | exact keeps_modifyResources _ (fun _ => by simp [ChangesOnly])
    | refine keeps_modifying ?_ (fun _ => by simp [ChangesOnly])
    | apply keeps_bind
    | intro _
    | split

theorem findMaterialTexture_keeps {T : List ResourceType} {P : Event → Prop}
    (textures : List DX12TextureData) (texID : MetaID) (ptrs : List Ptr) :
    Keeps (Effect T P) (findMaterialTexture textures texID ptrs) := by
  induction ptrs with
  | nil => unfold findMaterialTexture; exact keeps_pure _
  | cons tex rest ih =>
    unfold findMaterialTexture
    refine keeps_bind (keeps_vectorIndex _ _) (fun _ => ?_)
    split
    · exact keeps_pure _
    · exact ih

theorem resolveTexture_keeps {T : List ResourceType} {P : Event → Prop}
    (materialData : MaterialData) (material : DX12MaterialData) (attributeName : Name) :
    Keeps (Effect T P) (resolveTexture materialData material attributeName) := by
  unfold resolveTexture
  simp only [bind_eq, pure_eq]
  repeat' first
    | exact keeps_pure _
    | exact keeps_fail _
    | exact keeps_getResources
    | exact keeps_mapAt _ _
    | exact keeps_vectorIndex _ _
    | exact findMaterialTexture_keeps _ _ _
    | apply keeps_bind
    | intro _
    | split

theorem createMaterialSolution_keeps (materialData : MaterialData) (material : DX12MaterialData)
    (solution : DX12ShaderSolutionData) :
    Keeps (Effect [] (fun _ => True)) (createMaterialSolution materialData material solution) := by
  unfold createMaterialSolution
  simp only [bind_eq, pure_eq]
  repeat' first
    | exact keeps_pure _
    | exact keeps_getWorld
    | exact keeps_emit _ trivial
    | exact keeps_allocatePersistent _ (fun _ => trivial)
    | exact resolveTexture_keeps _ _ _
    | apply keeps_forEach
    | apply keeps_bind
    | intro _
    | split
    | (unfold createMaterialSubpass; simp only [bind_eq, pure_eq])

theorem modifyMaterial_keeps (env : Env) (rg : DX12RenderGraphData) (metaID : MetaID)
    (async : Bool) (material0 : DX12MaterialData) :
    Keeps (Effect [ResourceType.Shader_, ResourceType.Texture_] (fun _ => True))
      (modifyMaterial env rg metaID async material0) := by
  unfold modifyMaterial
  simp only [bind_eq, pure_eq]
  repeat' first
    | exact keeps_pure _
    | exact keeps_fail _
    | exact keeps_getResources
    | exact keeps_emit _ trivial
    | exact keeps_mapAt _ _
    | exact keeps_vectorIndex _ _
    | exact keeps_weaken (try_createDX12ShaderData_keeps _ _ _ _) (by simp) (fun _ _ => trivial)
    | exact keeps_weaken (try_createDX12TextureData_keeps _ _ _) (by simp) (fun _ _ => trivial)
    | exact keeps_weaken (createMaterialSolution_keeps _ _ _) (by simp) (fun _ _ => trivial)
    | apply keeps_forEach
    | apply keeps_bind
    | intro _
    | split

theorem try_createDX12MaterialData_keeps (env : Env) (rg : DX12RenderGraphData)
    (metaID : MetaID) (async : Bool) :
    Keeps (Effect [ResourceType.Material_, ResourceType.Shader_, ResourceType.Texture_]
      (fun _ => True)) (try_createDX12MaterialData env rg metaID async) := by
  unfold try_createDX12MaterialData
  simp only [bind_eq, pure_eq]
  repeat' first
    | exact keeps_pure _
    | exact keeps_Expects _
    | exact keeps_getResources
    | exact keeps_weaken (modifyMaterial_keeps _ _ _ _ _) (by simp) (fun _ h => h)
    | exact keeps_modifyResources _ (fun _ => by simp [ChangesOnly])
    | refine keeps_modifying ?_ (fun _ => by simp [ChangesOnly])
    | apply keeps_bind
    | intro _
    | split

/-- The kinds a content batch may materialize: itself and its dependencies. -/
theorem modifyContent_keeps (context : CreationContext) (env : Env) (metaID : MetaID)
    (async : Bool) (content0 : DX12ContentData) :
    Keeps (Effect [ResourceType.Mesh_, ResourceType.Material_, ResourceType.Shader_,
      ResourceType.Texture_] (fun _ => True)) (modifyContent context env metaID async content0) := by
  unfold modifyContent
  simp only [bind_eq, pure_eq]
  repeat' first
    | exact keeps_pure _
    | exact keeps_fail _
    | exact keeps_getResources
    | exact keeps_emit _ trivial
    | exact keeps_vectorIndex _ _
    | exact keeps_weaken (try_createDX12MeshData_keeps _ _ _) (by simp) (fun _ _ => trivial)
    | exact keeps_weaken (try_createDX12MaterialData_keeps _ _ _ _) (by simp)
        (fun _ _ => trivial)
    | apply keeps_forEach
    | apply keeps_bind
    | intro _
    | split
    | (unfold createDrawCall; simp only [bind_eq, pure_eq])

theorem createContent_keeps (context : CreationContext) (env : Env) (metaID : MetaID)
    (async : Bool) :
    Keeps (Effect [ResourceType.Content_, ResourceType.Mesh_, ResourceType.Material_,
      ResourceType.Shader_, ResourceType.Texture_] (fun _ => True))
      (createContent context env metaID async) := by
  unfold createContent
  simp only [bind_eq, pure_eq]
  repeat' first
    | exact keeps_pure _
    | exact keeps_Expects _
    | exact keeps_getResources
    | exact keeps_vectorIndex _ _
    | exact keeps_weaken (modifyContent_keeps _ _ _ _ _) (by simp) (fun _ h => h)
    | exact keeps_modifyResources _ (fun _ => by simp [ChangesOnly])
    | refine keeps_modifying ?_ (fun _ => by simp [ChangesOnly])
    | apply keeps_bind
    | intro _
    | split

theorem try_createDX12Content_keeps (context : CreationContext) (env : Env) (metaID : MetaID)
    (async : Bool) :
    Keeps (Effect [ResourceType.Content_, ResourceType.Mesh_, ResourceType.Material_,
      ResourceType.Shader_, ResourceType.Texture_] (fun _ => True))
      (try_createDX12Content context env metaID async) := by
  unfold try_createDX12Content
  split
  · exact keeps_fail _
  · exact createContent_keeps _ _ _ _

theorem modifyRenderGraph_keeps (env : Env) (metaID : MetaID) (render0 : DX12RenderGraphData) :
    Keeps (Effect [] (fun _ => True)) (modifyRenderGraph env metaID render0) := by
  unfold modifyRenderGraph
  simp only [bind_eq, pure_eq]
  repeat' first
    | exact keeps_pure _
    | exact keeps_fail _
    | exact keeps_emit _ trivial
    | exact keeps_newObject
    | apply keeps_forEach
    | apply keeps_bind
    | intro _
    | split
    | (unfold createRenderSubpass; simp only [bind_eq, pure_eq])

theorem fillRenderGraph_keeps (context : CreationContext) (env : Env) (async : Bool)
    (render : DX12RenderGraphData) :
    Keeps (Effect [ResourceType.Content_, ResourceType.Mesh_, ResourceType.Material_,
      ResourceType.Shader_, ResourceType.Texture_] (fun _ => True))
      (fillRenderGraph context env async render) := by
  unfold fillRenderGraph
  simp only [bind_eq, pure_eq]
  repeat' first
    | exact keeps_pure _
    | exact keeps_fail _
    | exact keeps_Expects _
    | exact keeps_getResources
    | exact try_createDX12Content_keeps _ _ _ _
    | apply keeps_forEach
    | apply keeps_forEachCombine
    | apply keeps_bind
    | intro _
    | split

/-! ## The path that finds an entry -/

theorem try_createDX12MeshData_found (env : Env) (metaID : MetaID) (async : Bool) (w : World)
    (p : Ptr) (h : Cache.find w.mResources.mMeshes metaID = some p) :
    try_createDX12MeshData env metaID async w = Res.ok (p, false) w := by
  simp [try_createDX12MeshData, M.bind, getResources, h, M.pure]

theorem try_createDX12TextureData_found (env : Env) (metaID : MetaID) (async : Bool) (w : World)
    (p : Ptr) (h : Cache.find w.mResources.mTextures metaID = some p) :
    try_createDX12TextureData env metaID async w =
      Res.ok (p, false) { w with mArenaLive := 0, mTrace := w.mTrace ++ [Event.arenaRelease] } := by
  simp [try_createDX12TextureData, M.bind, getResources, h, M.pure, arenaRelease]

theorem try_createDX12ShaderData_found (env : Env) (rg : DX12RenderGraphData) (metaID : MetaID)
    (async : Bool) (w : World) (p : Ptr) (h : Cache.find w.mResources.mShaders metaID = some p) :
    try_createDX12ShaderData env rg metaID async w = Res.ok (p, false) w := by
  simp [try_createDX12ShaderData, M.bind, getResources, h, M.pure]

theorem try_createDX12MaterialData_found (env : Env) (rg : DX12RenderGraphData)
    (metaID : MetaID) (async : Bool) (w : World) (p : Ptr)
    (h : Cache.find w.mResources.mMaterials metaID = some p) :
    try_createDX12MaterialData env rg metaID async w = Res.ok (p, false) w := by
  simp [try_createDX12MaterialData, M.bind, getResources, h, M.pure]

theorem try_createDX12RenderGraphData_found (context : CreationContext) (env : Env)
    (metaID : MetaID) (async : Bool) (w : World) (p : Ptr)
    (h : Cache.find w.mResources.mRenderGraphs metaID = some p) :
    try_createDX12RenderGraphData context env metaID async w = Res.ok (p, false) w := by
  simp [try_createDX12RenderGraphData, M.bind, getResources, h, M.pure]

/-- On the path that finds an entry, the `Content_` alternative changes
nothing: it returns `false`, or one of its two contracts fails. -/
theorem createContent_found (context : CreationContext) (env : Env) (metaID : MetaID)
    (async : Bool) (w : World) (p : Ptr)
    (h : Cache.find w.mResources.mContents metaID = some p) :
    ∃ e, w.mResources.mContents[p]? = some e ∧
      createContent context env metaID async w =
        if e.mContentData.valid = true ∧ e.mContentData.mMetaID = metaID then Res.ok false w
        else Res.fail Failure.Contract w := by
  obtain ⟨e, he, _⟩ := find_get _ _ _ h
  refine ⟨e, he, ?_⟩
  cases hv : e.mContentData.valid <;> by_cases hm : e.mContentData.mMetaID = metaID <;>
    simp [createContent, M.bind, getResources, emplace_of_some _ _ _ h, modifyResources,
      vectorIndex, he, M.pure, Expects, M.fail, hv, hm]

/-! ## The path that creates an entry -/

/-- The world after `emplace` has appended the new mesh entry. -/
theorem try_createDX12MeshData_fresh (env : Env) (metaID : MetaID) (async : Bool) (w : World)
    (h : Cache.find w.mResources.mMeshes metaID = none) :
    try_createDX12MeshData env metaID async w =
      match modifyMesh env metaID async (CacheEntry.create metaID)
        { w with mResources := { w.mResources with
            mMeshes := w.mResources.mMeshes ++ [CacheEntry.create metaID] } } with
      | Res.ok mesh w2 => Res.ok (w.mResources.mMeshes.length, true)
          { w2 with mResources := { w2.mResources with
              mMeshes := Cache.modify w2.mResources.mMeshes w.mResources.mMeshes.length mesh } }
      | Res.fail e w2 => Res.fail e
          { w2 with mResources := { w2.mResources with
              mMeshes := Cache.erase w2.mResources.mMeshes w.mResources.mMeshes.length } } := by
  simp only [try_createDX12MeshData, bind_eq, pure_eq, M.bind, getResources, h,
    emplace_of_none _ _ h, modifyResources, modifying, Expects, M.pure, ↓reduceIte]
  cases modifyMesh env metaID async (CacheEntry.create metaID) _ <;> rfl

theorem try_createDX12TextureData_fresh (env : Env) (metaID : MetaID) (async : Bool) (w : World)
    (h : Cache.find w.mResources.mTextures metaID = none) :
    try_createDX12TextureData env metaID async w =
      match modifyTexture env metaID async (CacheEntry.create metaID)
        { w with mResources := { w.mResources with
            mTextures := w.mResources.mTextures ++ [CacheEntry.create metaID] } } with
      | Res.ok tex w2 => Res.ok (w.mResources.mTextures.length, true)
          { w2 with
            mResources := { w2.mResources with
              mTextures := Cache.modify w2.mResources.mTextures w.mResources.mTextures.length tex },
            mArenaLive := 0,
            mTrace := w2.mTrace ++ [Event.arenaRelease] }
      | Res.fail e w2 => Res.fail e
          { w2 with mResources := { w2.mResources with
              mTextures := Cache.erase w2.mResources.mTextures w.mResources.mTextures.length } } := by
  simp only [try_createDX12TextureData, bind_eq, pure_eq, M.bind, getResources, h,
    emplace_of_none _ _ h, modifyResources, modifying, Expects, M.pure, ↓reduceIte, arenaRelease]
  cases modifyTexture env metaID async (CacheEntry.create metaID) _ <;> rfl

theorem try_createDX12ShaderData_fresh (env : Env) (rg : DX12RenderGraphData) (metaID : MetaID)
    (async : Bool) (w : World) (h : Cache.find w.mResources.mShaders metaID = none) :
    try_createDX12ShaderData env rg metaID async w =
      match modifyShader env rg metaID async (CacheEntry.create metaID)
        { w with mResources := { w.mResources with
            mShaders := w.mResources.mShaders ++ [CacheEntry.create metaID] } } with
      | Res.ok shader w2 => Res.ok (w.mResources.mShaders.length, true)
          { w2 with mResources := { w2.mResources with
              mShaders := Cache.modify w2.mResources.mShaders w.mResources.mShaders.length shader } }
      | Res.fail e w2 => Res.fail e
          { w2 with mResources := { w2.mResources with
              mShaders := Cache.erase w2.mResources.mShaders w.mResources.mShaders.length } } := by
  simp only [try_createDX12ShaderData, bind_eq, pure_eq, M.bind, getResources, h,
    emplace_of_none _ _ h, modifyResources, modifying, Expects, M.pure, ↓reduceIte]
  cases modifyShader env rg metaID async (CacheEntry.create metaID) _ <;> rfl

theorem try_createDX12MaterialData_fresh (env : Env) (rg : DX12RenderGraphData)
    (metaID : MetaID) (async : Bool) (w : World)
    (h : Cache.find w.mResources.mMaterials metaID = none) :
    try_createDX12MaterialData env rg metaID async w =
      match modifyMaterial env rg metaID async (CacheEntry.create metaID)
        { w with mResources := { w.mResources with
            mMaterials := w.mResources.mMaterials ++ [CacheEntry.create metaID] } } with
      | Res.ok material w2 => Res.ok (w.mResources.mMaterials.length, true)
          { w2 with mResources := { w2.mResources with
              mMaterials :=
                Cache.modify w2.mResources.mMaterials w.mResources.mMaterials.length material } }
      | Res.fail e w2 => Res.fail e
          { w2 with mResources := { w2.mResources with
              mMaterials := Cache.erase w2.mResources.mMaterials w.mResources.mMaterials.length } } := by
  simp only [try_createDX12MaterialData, bind_eq, pure_eq, M.bind, getResources, h,
    emplace_of_none _ _ h, modifyResources, modifying, Expects, M.pure, ↓reduceIte]
  cases modifyMaterial env rg metaID async (CacheEntry.create metaID) _ <;> rfl

theorem createContent_fresh (context : CreationContext) (env : Env) (metaID : MetaID)
    (async : Bool) (w : World) (h : Cache.find w.mResources.mContents metaID = none) :
    createContent context env metaID async w =
      match modifyContent context env metaID async (CacheEntry.create metaID)
        { w with mResources := { w.mResources with
            mContents := w.mResources.mContents ++ [CacheEntry.create metaID] } } with
      | Res.ok content w2 => Res.ok true
          { w2 with mResources := { w2.mResources with
              mContents :=
                Cache.modify w2.mResources.mContents w.mResources.mContents.length content } }
      | Res.fail e w2 => Res.fail e
          { w2 with mResources := { w2.mResources with
              mContents := Cache.erase w2.mResources.mContents w.mResources.mContents.length } } := by
  simp only [createContent, bind_eq, pure_eq, M.bind, getResources, h,
    emplace_of_none _ _ h, modifyResources, modifying, Expects, M.pure, ↓reduceIte, vectorIndex,
    List.getElem?_concat_length]
  simp only [CacheEntry.create, beq_self_eq_true, ↓reduceIte, M.pure]
  cases modifyContent context env metaID async _ _ <;> rfl

theorem try_createDX12RenderGraphData_fresh (context : CreationContext) (env : Env)
    (metaID : MetaID) (async : Bool) (w : World)
    (h : Cache.find w.mResources.mRenderGraphs metaID = none) :
    try_createDX12RenderGraphData context env metaID async w =
      match modifyRenderGraph env metaID (CacheEntry.create metaID)
        { w with mResources := { w.mResources with
            mRenderGraphs := w.mResources.mRenderGraphs ++ [CacheEntry.create metaID] } } with
      | Res.ok render w2 =>
        (match fillRenderGraph context env async render
          { w2 with mResources := { w2.mResources with
              mRenderGraphs := Cache.modify w2.mResources.mRenderGraphs
                w.mResources.mRenderGraphs.length render } } with
        | Res.ok render1 w3 => Res.ok (w.mResources.mRenderGraphs.length, true)
            { w3 with mResources := { w3.mResources with
                mRenderGraphs := Cache.modify w3.mResources.mRenderGraphs
                  w.mResources.mRenderGraphs.length render1 } }
        | Res.fail e w3 => Res.fail e
            { w3 with mResources := { w3.mResources with
                mRenderGraphs := Cache.erase w3.mResources.mRenderGraphs
                  w.mResources.mRenderGraphs.length } })
      | Res.fail e w2 => Res.fail e
          { w2 with mResources := { w2.mResources with
              mRenderGraphs := Cache.erase w2.mResources.mRenderGraphs
                w.mResources.mRenderGraphs.length } } := by
  simp only [try_createDX12RenderGraphData, bind_eq, pure_eq, M.bind, getResources, h,
    emplace_of_none _ _ h, modifyResources, modifying, Expects, M.pure, ↓reduceIte]
  cases modifyRenderGraph env metaID (CacheEntry.create metaID) _ with
  | fail e w2 => rfl
  | ok render w2 =>
    simp only []
    cases fillRenderGraph context env async render _ <;> rfl

/-! ## Returned values -/

theorem returns_pure {α : Type} {Q : α → Prop} {a : α} (h : Q a) : Returns (M.pure a) Q :=
  ⟨fun w b w1 hb => by
    simp only [M.pure, Res.ok.injEq] at hb
    exact hb.1 ▸ h⟩

theorem returns_fail {α : Type} {Q : α → Prop} (e : Failure) : Returns (M.fail e : M α) Q :=
  ⟨fun w b w1 hb => by simp [M.fail] at hb⟩

theorem returns_bind {α β : Type} {Q : β → Prop} {m : M α} {f : α → M β}
    (hf : ∀ a, Returns (f a) Q) : Returns (M.bind m f) Q :=
  ⟨fun w b w1 hb => by
    obtain ⟨a, w0, _, h2⟩ := bind_eq_ok hb
    exact (hf a).returns _ _ _ h2⟩

theorem returns_bind_of {α β : Type} {Q1 : α → Prop} {Q : β → Prop} {m : M α} {f : α → M β}
    (hm : Returns m Q1) (hf : ∀ a, Q1 a → Returns (f a) Q) : Returns (M.bind m f) Q :=
  ⟨fun w b w1 hb => by
    obtain ⟨a, w0, h1, h2⟩ := bind_eq_ok hb
    exact (hf a (hm.returns _ _ _ h1)).returns _ _ _ h2⟩

theorem createIndexBuffer_metaID (mesh : DX12MeshData) (meshData : MeshData) :
    Returns (createIndexBuffer mesh meshData)
      (fun m => m.mMetaID = mesh.mMetaID ∧ m.mMeshData = mesh.mMeshData) := by
  unfold createIndexBuffer
  simp only [bind_eq, pure_eq]
  split
  · exact returns_bind (fun _ => returns_bind (fun _ => returns_bind (fun _ =>
      returns_pure ⟨rfl, rfl⟩)))
  · exact returns_pure ⟨rfl, rfl⟩

/-- The mesh modifier keeps the key of the entry and leaves the handle as
`reset` made it. -/
theorem modifyMesh_metaID (env : Env) (metaID : MetaID) (async : Bool) (mesh0 : DX12MeshData) :
    Returns (modifyMesh env metaID async mesh0)
      (fun m => m.mMetaID = mesh0.mMetaID ∧
        m.mMeshData = AssetHandle.reset env.meshes metaID async) := by
  unfold modifyMesh
  simp only [bind_eq, pure_eq]
  refine returns_bind (fun _ => ?_)
  split
  · split
    · exact returns_fail _
    · refine returns_bind_of (createIndexBuffer_metaID _ _) (fun m hm => ?_)
      exact returns_bind (fun _ => returns_bind (fun _ => returns_bind (fun _ =>
        returns_bind (fun _ => returns_bind (fun _ => returns_pure ⟨hm.1, hm.2⟩)))))
  · exact returns_pure ⟨rfl, rfl⟩

theorem modifyTexture_metaID (env : Env) (metaID : MetaID) (async : Bool)
    (tex0 : DX12TextureData) :
    Returns (modifyTexture env metaID async tex0)
      (fun t => t.mMetaID = tex0.mMetaID ∧
        t.mTextureData = AssetHandle.reset env.textures metaID async) := by
  unfold modifyTexture
  simp only [bind_eq, pure_eq]
  refine returns_bind (fun _ => ?_)
  split
  · split
    · exact returns_fail _
    · exact returns_bind (fun _ => returns_bind (fun _ => returns_bind (fun _ =>
        returns_bind (fun _ => returns_pure ⟨rfl, rfl⟩))))
  · exact returns_pure ⟨rfl, rfl⟩

theorem createIndex_metaID (prototype : DX12ShaderData) (prototypeData : ShaderData)
    (renderGraph : DX12RenderWorks) :
    Returns (createIndex prototype prototypeData renderGraph)
      (fun s => s.mMetaID = prototype.mMetaID ∧ s.mShaderData = prototype.mShaderData) := by
  unfold createIndex
  simp only [bind_eq, pure_eq]
  exact returns_bind (fun _ => returns_bind (fun _ => returns_bind (fun _ =>
    returns_bind (fun _ => returns_pure ⟨rfl, rfl⟩))))

theorem modifyShader_metaID (env : Env) (rg : DX12RenderGraphData) (metaID : MetaID)
    (async : Bool) (shader0 : DX12ShaderData) :
    Returns (modifyShader env rg metaID async shader0)
      (fun s => s.mMetaID = shader0.mMetaID ∧
        s.mShaderData = AssetHandle.reset env.shaders metaID async) := by
  unfold modifyShader
  simp only [bind_eq, pure_eq]
  refine returns_bind (fun _ => ?_)
  split
  · split
    · exact returns_fail _
    · refine returns_bind_of (createIndex_metaID _ _ _) (fun s hs => ?_)
      exact returns_bind (fun _ => returns_bind (fun _ => returns_bind (fun _ =>
        returns_pure ⟨hs.1, hs.2⟩)))
  · exact returns_pure ⟨rfl, rfl⟩

theorem modifyMaterial_metaID (env : Env) (rg : DX12RenderGraphData) (metaID : MetaID)
    (async : Bool) (material0 : DX12MaterialData) :
    Returns (modifyMaterial env rg metaID async material0)
      (fun m => m.mMetaID = material0.mMetaID ∧
        m.mMaterialData = AssetHandle.reset env.materials metaID async) := by
  unfold modifyMaterial
  simp only [bind_eq, pure_eq]
  refine returns_bind (fun _ => ?_)
  split
  · split
    · exact returns_fail _
    · exact returns_bind (fun _ => returns_bind (fun _ => returns_bind (fun _ =>
        returns_bind (fun _ => returns_bind (fun _ => returns_bind (fun _ =>
          returns_pure ⟨rfl, rfl⟩))))))
  · exact returns_pure ⟨rfl, rfl⟩

theorem modifyContent_metaID (context : CreationContext) (env : Env) (metaID : MetaID)
    (async : Bool) (content0 : DX12ContentData) :
    Returns (modifyContent context env metaID async content0)
      (fun c => c.mMetaID = content0.mMetaID ∧
        c.mContentData = AssetHandle.reset env.contents metaID async) := by
  unfold modifyContent
  simp only [bind_eq, pure_eq]
  refine returns_bind (fun _ => ?_)
  split
  · refine returns_bind (fun _ => ?_)
    split
    · exact returns_fail _
    · refine returns_bind (fun _ => ?_)
      split
      · exact returns_fail _
      · exact returns_bind (fun _ => returns_bind (fun _ => returns_pure ⟨rfl, rfl⟩))
  · exact returns_pure ⟨rfl, rfl⟩

theorem modifyRenderGraph_metaID (env : Env) (metaID : MetaID) (render0 : DX12RenderGraphData) :
    Returns (modifyRenderGraph env metaID render0) (fun r => r.mMetaID = render0.mMetaID) := by
  unfold modifyRenderGraph
  simp only [bind_eq, pure_eq]
  refine returns_bind (fun _ => ?_)
  split
  · exact returns_fail _
  · exact returns_bind (fun _ => returns_bind (fun _ => returns_bind (fun _ =>
      returns_pure rfl)))

theorem fillRenderGraph_metaID (context : CreationContext) (env : Env) (async : Bool)
    (render : DX12RenderGraphData) :
    Returns (fillRenderGraph context env async render) (fun r => r.mMetaID = render.mMetaID) := by
  unfold fillRenderGraph
  simp only [bind_eq, pure_eq]
  split
  · exact returns_fail _
  · exact returns_bind (fun _ => returns_bind (fun _ => returns_pure rfl))

/-! ## The entry is in the cache when the call returns -/

theorem find_modify {α : Type} [CacheEntry α] (cache : List α) (metaID : MetaID) (p : Ptr)
    (e : α) (hfind : Cache.find cache metaID = some p) (hkey : CacheEntry.metaID e = metaID) :
    Cache.find (Cache.modify cache p e) metaID = some p := by
  unfold Cache.modify
  rw [find_set, hfind]
  intro e0 h0
  obtain ⟨e1, h1, h2⟩ := find_get _ _ _ hfind
  rw [h1] at h0
  cases h0
  rw [h2, hkey]

theorem find_emplaced {α : Type} [CacheEntry α] (cache : List α) (metaID : MetaID)
    (hnone : Cache.find cache metaID = none)
    (hcreate : CacheEntry.metaID (CacheEntry.create metaID : α) = metaID) :
    Cache.find (cache ++ [CacheEntry.create metaID]) metaID = some cache.length := by
  rw [find_append_none _ _ _ hnone]
  simp [hcreate]

/-- Worlds related by an effect that excludes a kind have the same cache of
that kind. -/
theorem keeps_of_ok {α : Type} {R : World → World → Prop} {m : M α} (hk : Keeps R m)
    {w w1 : World} {a : α} (h : m w = Res.ok a w1) : R w w1 := by
  have := hk.keeps w
  rw [h] at this
  exact this

theorem try_createDX12MeshData_ok (env : Env) (metaID : MetaID) (async : Bool) (w w1 : World)
    (r : Ptr × Bool) (h : try_createDX12MeshData env metaID async w = Res.ok r w1) :
    Cache.find w1.mResources.mMeshes metaID = some r.1 ∧
      r.2 = (Cache.find w.mResources.mMeshes metaID).isNone := by
  cases hf : Cache.find w.mResources.mMeshes metaID with
  | some p =>
    rw [try_createDX12MeshData_found _ _ _ _ _ hf] at h
    cases h
    exact ⟨hf, rfl⟩
  | none =>
    rw [try_createDX12MeshData_fresh _ _ _ _ hf] at h
    split at h
    · rename_i mesh w2 hm
      cases h
      have hk := (keeps_of_ok (modifyMesh_keeps _ _ _ _) hm).1.1 (by simp)
      have hid := ((modifyMesh_metaID _ _ _ _).returns _ _ _ hm).1
      simp only at hk
      simp only [hk]
      exact ⟨find_modify _ _ _ _ (find_emplaced _ _ hf rfl) hid, rfl⟩
    · cases h

theorem try_createDX12TextureData_ok (env : Env) (metaID : MetaID) (async : Bool)
    (w w1 : World) (r : Ptr × Bool)
    (h : try_createDX12TextureData env metaID async w = Res.ok r w1) :
    Cache.find w1.mResources.mTextures metaID = some r.1 ∧
      r.2 = (Cache.find w.mResources.mTextures metaID).isNone := by
  cases hf : Cache.find w.mResources.mTextures metaID with
  | some p =>
    rw [try_createDX12TextureData_found _ _ _ _ _ hf] at h
    cases h
    exact ⟨hf, rfl⟩
  | none =>
    rw [try_createDX12TextureData_fresh _ _ _ _ hf] at h
    split at h
    · rename_i tex w2 hm
      cases h
      have hk := (keeps_of_ok (modifyTexture_keeps _ _ _ _) hm).1.2.1 (by simp)
      have hid := ((modifyTexture_metaID _ _ _ _).returns _ _ _ hm).1
      simp only at hk
      simp only [hk]
      exact ⟨find_modify _ _ _ _ (find_emplaced _ _ hf rfl) hid, rfl⟩
    · cases h

theorem try_createDX12ShaderData_ok (env : Env) (rg : DX12RenderGraphData) (metaID : MetaID)
    (async : Bool) (w w1 : World) (r : Ptr × Bool)
    (h : try_createDX12ShaderData env rg metaID async w = Res.ok r w1) :
    Cache.find w1.mResources.mShaders metaID = some r.1 ∧
      r.2 = (Cache.find w.mResources.mShaders metaID).isNone := by
  cases hf : Cache.find w.mResources.mShaders metaID with
  | some p =>
    rw [try_createDX12ShaderData_found _ _ _ _ _ _ hf] at h
    cases h
    exact ⟨hf, rfl⟩
  | none =>
    rw [try_createDX12ShaderData_fresh _ _ _ _ _ hf] at h
    split at h
    · rename_i shader w2 hm
      cases h
      have hk := (keeps_of_ok (modifyShader_keeps _ _ _ _ _) hm).1.2.2.1 (by simp)
      have hid := ((modifyShader_metaID _ _ _ _ _).returns _ _ _ hm).1
      simp only at hk
      simp only [hk]
      exact ⟨find_modify _ _ _ _ (find_emplaced _ _ hf rfl) hid, rfl⟩
    · cases h

theorem try_createDX12MaterialData_ok (env : Env) (rg : DX12RenderGraphData) (metaID : MetaID)
    (async : Bool) (w w1 : World) (r : Ptr × Bool)
    (h : try_createDX12MaterialData env rg metaID async w = Res.ok r w1) :
    Cache.find w1.mResources.mMaterials metaID = some r.1 ∧
      r.2 = (Cache.find w.mResources.mMaterials metaID).isNone := by
  cases hf : Cache.find w.mResources.mMaterials metaID with
  | some p =>
    rw [try_createDX12MaterialData_found _ _ _ _ _ _ hf] at h
    cases h
    exact ⟨hf, rfl⟩
  | none =>
    rw [try_createDX12MaterialData_fresh _ _ _ _ _ hf] at h
    split at h
    · rename_i material w2 hm
      cases h
      have hk := (keeps_of_ok (modifyMaterial_keeps _ _ _ _ _) hm).1.2.2.2.1 (by simp)
      have hid := ((modifyMaterial_metaID _ _ _ _ _).returns _ _ _ hm).1
      simp only at hk
      simp only [hk]
      exact ⟨find_modify _ _ _ _ (find_emplaced _ _ hf rfl) hid, rfl⟩
    · cases h

/-- When the `Content_` alternative returns, the entry is in the cache with
a handle that passes the two contracts of the finding path. -/
theorem createContent_ok (context : CreationContext) (env : Env) (metaID : MetaID)
    (async : Bool) (w w1 : World) (created : Bool) (hid : MetaID.isNil metaID = false)
    (h : createContent context env metaID async w = Res.ok created w1) :
    created = (Cache.find w.mResources.mContents metaID).isNone ∧
      ∃ p e, Cache.find w1.mResources.mContents metaID = some p ∧
        w1.mResources.mContents[p]? = some e ∧ e.mContentData.valid = true ∧
        e.mContentData.mMetaID = metaID := by
  cases hf : Cache.find w.mResources.mContents metaID with
  | some p =>
    obtain ⟨e, he, heq⟩ := createContent_found context env metaID async w p hf
    rw [heq] at h
    split at h
    · rename_i hc
      cases h
      exact ⟨rfl, p, e, hf, he, hc.1, hc.2⟩
    · cases h
  | none =>
    rw [createContent_fresh _ _ _ _ _ hf] at h
    split at h
    · rename_i content w2 hm
      cases h
      have hk := (keeps_of_ok (modifyContent_keeps _ _ _ _ _) hm).1.2.2.2.2.1 (by simp)
      have hr := (modifyContent_metaID _ _ _ _ _).returns _ _ _ hm
      simp only at hk
      simp only [hk]
      refine ⟨rfl, _, content, find_modify _ _ _ _ (find_emplaced _ _ hf rfl) hr.1, ?_, ?_, ?_⟩
      · simp [Cache.modify]
      · rw [hr.2]
        simp [AssetHandle.reset, AssetHandle.valid, hid]
      · rw [hr.2]
        rfl
    · cases h

theorem try_createDX12RenderGraphData_ok (context : CreationContext) (env : Env)
    (metaID : MetaID) (async : Bool) (w w1 : World) (r : Ptr × Bool)
    (h : try_createDX12RenderGraphData context env metaID async w = Res.ok r w1) :
    Cache.find w1.mResources.mRenderGraphs metaID = some r.1 ∧
      r.2 = (Cache.find w.mResources.mRenderGraphs metaID).isNone := by
  cases hf : Cache.find w.mResources.mRenderGraphs metaID with
  | some p =>
    rw [try_createDX12RenderGraphData_found _ _ _ _ _ _ hf] at h
    cases h
    exact ⟨hf, rfl⟩
  | none =>
    rw [try_createDX12RenderGraphData_fresh _ _ _ _ _ hf] at h
    split at h
    · rename_i render w2 hm
      split at h
      · rename_i render1 w3 hfill
        cases h
        have hk := (keeps_of_ok (modifyRenderGraph_keeps _ _ _) hm).1.2.2.2.2.2.1 (by simp)
        have hid := (modifyRenderGraph_metaID _ _ _).returns _ _ _ hm
        have hk2 := (keeps_of_ok (fillRenderGraph_keeps _ _ _ _) hfill).1.2.2.2.2.2.1 (by simp)
        have hid2 := (fillRenderGraph_metaID _ _ _ _).returns _ _ _ hfill
        simp only at hk hk2
        simp only [hk2, hk]
        refine ⟨find_modify _ _ _ _ (find_modify _ _ _ _ (find_emplaced _ _ hf rfl) hid) ?_, rfl⟩
        exact hid2.trans hid
      · cases h
    · cases h

/-! ## The entry point -/

/-- The lookup of the render graph of the context reads the render-graph
cache and nothing else. -/
theorem contextRenderGraph_ok (context : CreationContext) (w w1 : World)
    (rg : DX12RenderGraphData) (h : contextRenderGraph context w = Res.ok rg w1) :
    w1 = w ∧ ∀ w2 : World, w2.mResources.mRenderGraphs = w.mResources.mRenderGraphs →
      contextRenderGraph context w2 = Res.ok rg w2 := by
  unfold contextRenderGraph at h
  simp only [bind_eq, M.bind, getResources] at h
  cases hf : Cache.find w.mResources.mRenderGraphs context.mRenderGraph with
  | none => simp [hf, M.fail] at h
  | some iter =>
    simp only [hf, vectorIndex] at h
    cases hg : w.mResources.mRenderGraphs[iter]? with
    | none => simp [hg, M.fail] at h
    | some rg0 =>
      simp only [hg, M.pure, Res.ok.injEq] at h
      refine ⟨h.2.symm, fun w2 h2 => ?_⟩
      simp [contextRenderGraph, M.bind, getResources, h2, hf, vectorIndex, hg, M.pure, h.1]

theorem contextRenderGraph_world (context : CreationContext) (w : World) :
    (contextRenderGraph context w).world = w := by
  unfold contextRenderGraph
  simp only [bind_eq, M.bind, getResources]
  cases Cache.find w.mResources.mRenderGraphs context.mRenderGraph with
  | none => rfl
  | some iter =>
    simp only [vectorIndex]
    cases w.mResources.mRenderGraphs[iter]? <;> rfl

/-- C3: for every resource kind, every flag and every world, a request with a
nil content identifier fails with the invalid-identity failure and leaves the
world, hence every cache, as it was. -/
theorem C3_nil_identifier_is_refused (context : CreationContext) (env : Env) (metaID : MetaID)
    (tag : ResourceType) (async : Bool) (w : World) (hnil : MetaID.isNil metaID = true) :
    try_createDX12 context env metaID tag async w = Res.fail Failure.InvalidIdentity w := by
  simp [try_createDX12, hnil, M.fail]

/-- C2: a request that finds an existing entry for its identifier and kind
populates nothing, whatever its outcome: every cache, the descriptor heap, the
upload cursor and the set of device objects are as before, and the only call
it may record is the release of the temporary arena. It creates no buffer,
texture, pipeline state or descriptor range, records no copy or barrier and
resets no asset handle. The world is arbitrary, so this holds after any series
of earlier requests. -/
theorem C2_found_entry_is_not_populated_again (context : CreationContext) (env : Env)
    (metaID : MetaID) (tag : ResourceType) (async : Bool) (w : World) (p : Ptr)
    (hfound : findEntry w.mResources tag metaID = some p) :
    (try_createDX12 context env metaID tag async w).world.mResources = w.mResources ∧
    (try_createDX12 context env metaID tag async w).world.mDescriptorHeap = w.mDescriptorHeap ∧
    (try_createDX12 context env metaID tag async w).world.mUploadOffset = w.mUploadOffset ∧
    (try_createDX12 context env metaID tag async w).world.mNextObject = w.mNextObject ∧
    ∃ events, (try_createDX12 context env metaID tag async w).world.mTrace = w.mTrace ++ events ∧
      ∀ e ∈ events, e = Event.arenaRelease := by
  have hself : w.mResources = w.mResources ∧ w.mDescriptorHeap = w.mDescriptorHeap ∧
      w.mUploadOffset = w.mUploadOffset ∧ w.mNextObject = w.mNextObject ∧
      ∃ events, w.mTrace = w.mTrace ++ events ∧ ∀ e ∈ events, e = Event.arenaRelease :=
    ⟨rfl, rfl, rfl, rfl, [], by simp, by simp⟩
  unfold try_createDX12
  cases hnil : MetaID.isNil metaID with
  | true => simp [M.fail, Res.world]
  | false =>
    simp only [Bool.false_eq_true, ↓reduceIte]
    cases tag with
    | Mesh_ =>
      simp only [findEntry] at hfound
      simp [M.bind, try_createDX12MeshData_found _ _ _ _ _ hfound, M.pure, Res.world]
    | Texture_ =>
      simp only [findEntry] at hfound
      simp only [bind_eq, pure_eq, M.bind, try_createDX12TextureData_found _ _ _ _ _ hfound,
        M.pure, Res.world]
      exact ⟨trivial, trivial, trivial, trivial, [Event.arenaRelease], by simp, by simp⟩
    | Shader_ =>
      simp only [findEntry] at hfound
      simp only [bind_eq, pure_eq, world_bind]
      cases hrg : contextRenderGraph context w with
      | fail e w1 =>
        have := contextRenderGraph_world context w
        rw [hrg] at this
        simp only [Res.world] at this
        subst this
        exact hself
      | ok rg w1 =>
        obtain ⟨rfl, _⟩ := contextRenderGraph_ok _ _ _ _ hrg
        simp [M.bind, try_createDX12ShaderData_found _ _ _ _ _ _ hfound, M.pure, Res.world]
    | Material_ =>
      simp only [findEntry] at hfound
      simp only [bind_eq, pure_eq, world_bind]
      cases hrg : contextRenderGraph context w with
      | fail e w1 =>
        have := contextRenderGraph_world context w
        rw [hrg] at this
        simp only [Res.world] at this
        subst this
        exact hself
      | ok rg w1 =>
        obtain ⟨rfl, _⟩ := contextRenderGraph_ok _ _ _ _ hrg
        simp [M.bind, try_createDX12MaterialData_found _ _ _ _ _ _ hfound, M.pure, Res.world]
    | Content_ =>
      simp only [findEntry] at hfound
      obtain ⟨e, _, heq⟩ := createContent_found context env metaID async w p hfound
      simp only [heq]
      split <;> exact hself
    | RenderGraph_ =>
      simp only [findEntry] at hfound
      simp [M.bind, try_createDX12RenderGraphData_found _ _ _ _ _ _ hfound, M.pure, Res.world]

/-- C1: when a request for an identifier and a kind returns, a second request
for the same identifier and kind, with either flag, returns too, reports
`created = false` and leaves the caches as they are, so that both calls end
with the same entry at the same position of the cache of that kind; the first
call reports `created = true` exactly when the cache had no such entry. -/
theorem C1_find_or_create_twice (context : CreationContext) (env : Env) (metaID : MetaID)
    (tag : ResourceType) (async1 async2 : Bool) (w w1 : World) (created1 : Bool)
    (h1 : try_createDX12 context env metaID tag async1 w = Res.ok created1 w1) :
    created1 = (findEntry w.mResources tag metaID).isNone ∧
    ∃ p w2, findEntry w1.mResources tag metaID = some p ∧
      try_createDX12 context env metaID tag async2 w1 = Res.ok false w2 ∧
      w2.mResources = w1.mResources ∧
      findEntry w2.mResources tag metaID = some p := by
  unfold try_createDX12 at h1
  cases hnil : MetaID.isNil metaID with
  | true => simp [hnil, M.fail] at h1
  | false =>
    simp only [hnil, Bool.false_eq_true, ↓reduceIte] at h1
    unfold try_createDX12
    simp only [hnil, Bool.false_eq_true, ↓reduceIte]
    cases tag with
    | Mesh_ =>
      simp only [bind_eq, pure_eq] at h1
      obtain ⟨r, w0, hr, hp⟩ := bind_eq_ok h1
      simp only [M.pure, Res.ok.injEq] at hp
      obtain ⟨rfl, rfl⟩ := hp
      obtain ⟨hfind, hcreated⟩ := try_createDX12MeshData_ok _ _ _ _ _ _ hr
      refine ⟨hcreated, r.1, w0, hfind, ?_, rfl, hfind⟩
      simp [M.bind, try_createDX12MeshData_found _ _ _ _ _ hfind, M.pure]
    | Texture_ =>
      simp only [bind_eq, pure_eq] at h1
      obtain ⟨r, w0, hr, hp⟩ := bind_eq_ok h1
      simp only [M.pure, Res.ok.injEq] at hp
      obtain ⟨rfl, rfl⟩ := hp
      obtain ⟨hfind, hcreated⟩ := try_createDX12TextureData_ok _ _ _ _ _ _ hr
      refine ⟨hcreated, r.1,
        { w0 with mArenaLive := 0, mTrace := w0.mTrace ++ [Event.arenaRelease] }, hfind, ?_,
        rfl, hfind⟩
      simp only [bind_eq, pure_eq, M.bind, try_createDX12TextureData_found _ _ _ _ _ hfind,
        M.pure]
    | Shader_ =>
      simp only [bind_eq, pure_eq] at h1
      obtain ⟨rg, w0, hrg, h2⟩ := bind_eq_ok h1
      obtain ⟨rfl, hrg2⟩ := contextRenderGraph_ok _ _ _ _ hrg
      obtain ⟨r, w2, hr, hp⟩ := bind_eq_ok h2
      simp only [M.pure, Res.ok.injEq] at hp
      obtain ⟨rfl, rfl⟩ := hp
      obtain ⟨hfind, hcreated⟩ := try_createDX12ShaderData_ok _ _ _ _ _ _ _ hr
      have hk := (keeps_of_ok (try_createDX12ShaderData_keeps _ _ _ _) hr).1.2.2.2.2.2.1
        (by simp)
      refine ⟨hcreated, r.1, w2, hfind, ?_, rfl, hfind⟩
      simp [M.bind, hrg2 w2 hk, try_createDX12ShaderData_found _ _ _ _ _ _ hfind, M.pure]
    | Material_ =>
      simp only [bind_eq, pure_eq] at h1
      obtain ⟨rg, w0, hrg, h2⟩ := bind_eq_ok h1
      obtain ⟨rfl, hrg2⟩ := contextRenderGraph_ok _ _ _ _ hrg
      obtain ⟨r, w2, hr, hp⟩ := bind_eq_ok h2
      simp only [M.pure, Res.ok.injEq] at hp
      obtain ⟨rfl, rfl⟩ := hp
      obtain ⟨hfind, hcreated⟩ := try_createDX12MaterialData_ok _ _ _ _ _ _ _ hr
      have hk := (keeps_of_ok (try_createDX12MaterialData_keeps _ _ _ _) hr).1.2.2.2.2.2.1
        (by simp)
      refine ⟨hcreated, r.1, w2, hfind, ?_, rfl, hfind⟩
      simp [M.bind, hrg2 w2 hk, try_createDX12MaterialData_found _ _ _ _ _ _ hfind, M.pure]
    | Content_ =>
      obtain ⟨hcreated, p, e, hfind, he, hvalid, hkey⟩ :=
        createContent_ok _ _ _ _ _ _ _ hnil h1
      refine ⟨hcreated, p, w1, hfind, ?_, rfl, hfind⟩
      obtain ⟨e1, he1, heq⟩ := createContent_found context env metaID async2 w1 p hfind
      rw [he] at he1
      cases he1
      simp only [heq, hvalid, hkey, and_self, ↓reduceIte]
    | RenderGraph_ =>
      simp only [bind_eq, pure_eq] at h1
      obtain ⟨r, w0, hr, hp⟩ := bind_eq_ok h1
      simp only [M.pure, Res.ok.injEq] at hp
      obtain ⟨rfl, rfl⟩ := hp
      obtain ⟨hfind, hcreated⟩ := try_createDX12RenderGraphData_ok _ _ _ _ _ _ _ hr
      refine ⟨hcreated, r.1, w0, hfind, ?_, rfl, hfind⟩
      simp [M.bind, try_createDX12RenderGraphData_found _ _ _ _ _ _ hfind, M.pure]

/-! ## Asynchronous requests -/

theorem try_createDX12MeshData_async (env : Env) (metaID : MetaID) (w : World)
    (h : Cache.find w.mResources.mMeshes metaID = none) :
    try_createDX12MeshData env metaID true w =
      Res.ok (w.mResources.mMeshes.length, true) (afterReserve w ResourceType.Mesh_ metaID) := by
  rw [try_createDX12MeshData_fresh _ _ _ _ h]
  simp [modifyMesh, M.bind, emit, M.pure, AssetHandle.reset, afterReserve, withReservedEntry,
    Cache.modify]

theorem try_createDX12TextureData_async (env : Env) (metaID : MetaID) (w : World)
    (h : Cache.find w.mResources.mTextures metaID = none) :
    try_createDX12TextureData env metaID true w =
      Res.ok (w.mResources.mTextures.length, true)
        (afterReserve w ResourceType.Texture_ metaID) := by
  rw [try_createDX12TextureData_fresh _ _ _ _ h]
  simp [modifyTexture, M.bind, emit, M.pure, AssetHandle.reset, afterReserve, withReservedEntry,
    Cache.modify]

theorem try_createDX12ShaderData_async (env : Env) (rg : DX12RenderGraphData) (metaID : MetaID)
    (w : World) (h : Cache.find w.mResources.mShaders metaID = none) :
    try_createDX12ShaderData env rg metaID true w =
      Res.ok (w.mResources.mShaders.length, true)
        (afterReserve w ResourceType.Shader_ metaID) := by
  rw [try_createDX12ShaderData_fresh _ _ _ _ _ h]
  simp [modifyShader, M.bind, emit, M.pure, AssetHandle.reset, afterReserve, withReservedEntry,
    Cache.modify]

theorem try_createDX12MaterialData_async (env : Env) (rg : DX12RenderGraphData)
    (metaID : MetaID) (w : World) (h : Cache.find w.mResources.mMaterials metaID = none) :
    try_createDX12MaterialData env rg metaID true w =
      Res.ok (w.mResources.mMaterials.length, true)
        (afterReserve w ResourceType.Material_ metaID) := by
  rw [try_createDX12MaterialData_fresh _ _ _ _ _ h]
  simp [modifyMaterial, M.bind, emit, M.pure, AssetHandle.reset, afterReserve,
    withReservedEntry, Cache.modify]

theorem createContent_async (context : CreationContext) (env : Env) (metaID : MetaID)
    (w : World) (h : Cache.find w.mResources.mContents metaID = none) :
    createContent context env metaID true w =
      Res.ok true (afterReserve w ResourceType.Content_ metaID) := by
  rw [createContent_fresh _ _ _ _ _ h]
  simp [modifyContent, M.bind, emit, M.pure, AssetHandle.reset, afterReserve,
    withReservedEntry, Cache.modify]

/-- C5: an asynchronous request for an identifier that the cache of its kind
(mesh, texture, shader, material, content) does not hold returns
`created = true` and ends in the world `afterReserve`: that cache has exactly
one more entry, the entry holds the identifier and an unloaded handle and
nothing else, the other caches, the descriptor heap, the upload cursor and the
device objects are as before, and the trace gains only the reset of the handle
(and the arena release of the texture path). This holds for each per-kind
function as it stands, and for the entry point `try_createDX12` once its
guards pass: the identifier is not nil and, for a shader or a material, the
render graph of the context is cached. -/
theorem C5_async_request_reserves_an_empty_entry (context : CreationContext) (env : Env)
    (rg : DX12RenderGraphData) (metaID : MetaID) (tag : ResourceType) (w : World)
    (hkind : tag ≠ ResourceType.RenderGraph_)
    (hfresh : findEntry w.mResources tag metaID = none) :
    (tag = ResourceType.Mesh_ →
      try_createDX12MeshData env metaID true w =
        Res.ok (w.mResources.mMeshes.length, true) (afterReserve w tag metaID)) ∧
    (tag = ResourceType.Texture_ →
      try_createDX12TextureData env metaID true w =
        Res.ok (w.mResources.mTextures.length, true) (afterReserve w tag metaID)) ∧
    (tag = ResourceType.Shader_ →
      try_createDX12ShaderData env rg metaID true w =
        Res.ok (w.mResources.mShaders.length, true) (afterReserve w tag metaID)) ∧
    (tag = ResourceType.Material_ →
      try_createDX12MaterialData env rg metaID true w =
        Res.ok (w.mResources.mMaterials.length, true) (afterReserve w tag metaID)) ∧
    (tag = ResourceType.Content_ →
      createContent context env metaID true w = Res.ok true (afterReserve w tag metaID)) ∧
    (MetaID.isNil metaID = false →
      (tag = ResourceType.Shader_ ∨ tag = ResourceType.Material_ →
        findEntry w.mResources ResourceType.RenderGraph_ context.mRenderGraph ≠ none) →
      try_createDX12 context env metaID tag true w = Res.ok true (afterReserve w tag metaID)) := by
  refine ⟨?_, ?_, ?_, ?_, ?_, ?_⟩
  · rintro rfl
    exact try_createDX12MeshData_async _ _ _ hfresh
  · rintro rfl
    exact try_createDX12TextureData_async _ _ _ hfresh
  · rintro rfl
    exact try_createDX12ShaderData_async _ _ _ _ hfresh
  · rintro rfl
    exact try_createDX12MaterialData_async _ _ _ _ hfresh
  · rintro rfl
    exact createContent_async _ _ _ _ hfresh
  · intro hid hrg
    have hctx : findEntry w.mResources ResourceType.RenderGraph_ context.mRenderGraph ≠ none →
        ∃ rg0, contextRenderGraph context w = Res.ok rg0 w := by
      intro hne
      simp only [findEntry] at hne
      cases hf : Cache.find w.mResources.mRenderGraphs context.mRenderGraph with
      | none => exact absurd hf hne
      | some iter =>
        obtain ⟨rg0, hg, _⟩ := find_get _ _ _ hf
        exact ⟨rg0, by
          simp [contextRenderGraph, M.bind, getResources, hf, vectorIndex, hg, M.pure]⟩
    unfold try_createDX12
    simp only [hid, Bool.false_eq_true, ↓reduceIte]
    cases tag with
    | Mesh_ =>
      simp [M.bind, try_createDX12MeshData_async _ _ _ hfresh, M.pure]
    | Texture_ =>
      simp [M.bind, try_createDX12TextureData_async _ _ _ hfresh, M.pure]
    | Shader_ =>
      obtain ⟨rg0, h0⟩ := hctx (hrg (Or.inl rfl))
      simp [M.bind, h0, try_createDX12ShaderData_async _ _ _ _ hfresh, M.pure]
    | Material_ =>
      obtain ⟨rg0, h0⟩ := hctx (hrg (Or.inr rfl))
      simp [M.bind, h0, try_createDX12MaterialData_async _ _ _ _ hfresh, M.pure]
    | Content_ =>
      exact createContent_async _ _ _ _ hfresh
    | RenderGraph_ => exact absurd rfl hkind

/-! ## Meshes -/

theorem createdBuffers_append (a b : List Event) :
    createdBuffers (a ++ b) = createdBuffers a ++ createdBuffers b := by
  simp [createdBuffers]

theorem submittedBarriers_append (a b : List Event) :
    submittedBarriers (a ++ b) = submittedBarriers a ++ submittedBarriers b := by
  simp [submittedBarriers]

theorem createdBuffers_nil : createdBuffers [] = [] := rfl

theorem createdBuffers_cons (e : Event) (es : List Event) :
    createdBuffers (e :: es) = e.createdBuffer.toList ++ createdBuffers es := by
  unfold createdBuffers
  rw [List.filterMap_cons]
  cases e.createdBuffer <;> rfl

theorem submittedBarriers_nil : submittedBarriers [] = [] := rfl

theorem submittedBarriers_cons (e : Event) (es : List Event) :
    submittedBarriers (e :: es) = e.barriers ++ submittedBarriers es := by
  simp [submittedBarriers]

theorem createVertexBuffer_ok (vb : VertexBufferData) (w : World)
    (hsize : vb.mDesc.mVertexSize ≠ 0) :
    createVertexBuffer vb w =
      Res.ok (⟨some w.mNextObject⟩, ⟨some w.mNextObject, vb.mBuffer.size % 2 ^ 32,
          vb.mDesc.mVertexSize⟩)
        { w with
          mUploadOffset := alignUp w.mUploadOffset 16 + vb.mBuffer.size,
          mNextObject := w.mNextObject + 1,
          mTrace := w.mTrace ++ [Event.upload vb.mBuffer.size 16 (alignUp w.mUploadOffset 16),
            Event.createBuffer w.mNextObject vb.mBuffer.size,
            Event.CopyBufferRegion (some w.mNextObject) 0 (alignUp w.mUploadOffset 16)
              vb.mBuffer.size] } := by
  simp [createVertexBuffer, M.bind, upload, createBuffer, newObject, emit, Expects, hsize,
    M.pure]

/-- The vertex-buffer loop: one buffer per baked vertex buffer, in order, and
no barrier yet. -/
theorem forEach_createVertexBuffer (vbs : List VertexBufferData) (w : World)
    (hsizes : ∀ vb ∈ vbs, vb.mDesc.mVertexSize ≠ 0) :
    ∃ res w1 events, forEach createVertexBuffer vbs w = Res.ok res w1 ∧
      w1.mTrace = w.mTrace ++ events ∧ w1.mResources = w.mResources ∧
      res.map (fun r => r.1.mBuffer) = (createdBuffers events).map (fun c => some c.1) ∧
      (createdBuffers events).map Prod.snd = vbs.map (fun vb => vb.mBuffer.size) ∧
      submittedBarriers events = [] := by
  induction vbs generalizing w with
  | nil => exact ⟨[], w, [], rfl, by simp, rfl, rfl, rfl, rfl⟩
  | cons vb vbs ih =>
    have hvb := createVertexBuffer_ok vb w (hsizes vb (List.mem_cons_self _ _))
    obtain ⟨res, w1, events, h1, h2, h3, h4, h5, h6⟩ :=
      ih { w with
        mUploadOffset := alignUp w.mUploadOffset 16 + vb.mBuffer.size,
        mNextObject := w.mNextObject + 1,
        mTrace := w.mTrace ++ [Event.upload vb.mBuffer.size 16 (alignUp w.mUploadOffset 16),
          Event.createBuffer w.mNextObject vb.mBuffer.size,
          Event.CopyBufferRegion (some w.mNextObject) 0 (alignUp w.mUploadOffset 16)
            vb.mBuffer.size] }
        (fun v hv => hsizes v (List.mem_cons_of_mem _ hv))
    refine ⟨(⟨some w.mNextObject⟩, ⟨some w.mNextObject, vb.mBuffer.size % 2 ^ 32,
        vb.mDesc.mVertexSize⟩) :: res, w1,
      [Event.upload vb.mBuffer.size 16 (alignUp w.mUploadOffset 16),
        Event.createBuffer w.mNextObject vb.mBuffer.size,
        Event.CopyBufferRegion (some w.mNextObject) 0 (alignUp w.mUploadOffset 16)
          vb.mBuffer.size] ++ events, ?_, ?_, ?_, ?_, ?_, ?_⟩
    · unfold forEach
      rw [bind_ok hvb, bind_ok h1]
      rfl
    · simp [h2]
    · simp [h3]
    · simp [createdBuffers_append, h4, createdBuffers_cons, createdBuffers_nil,
        Event.createdBuffer]
    · simp [createdBuffers_append, h5, createdBuffers_cons, createdBuffers_nil,
        Event.createdBuffer]
    · simp [submittedBarriers_append, h6, submittedBarriers_cons, submittedBarriers_nil,
        Event.barriers]

theorem createIndexBuffer_nonempty (mesh : DX12MeshData) (meshData : MeshData) (w : World)
    (hempty : meshData.mIndexBuffer.mBuffer.empty = false) :
    createIndexBuffer mesh meshData w =
      Res.ok { mesh with
          mIndexBuffer := { mesh.mIndexBuffer with mBuffer := some w.mNextObject },
          mIndexBufferView := ⟨some w.mNextObject, meshData.mIndexBuffer.mBuffer.size % 2 ^ 32,
            if meshData.mIndexBuffer.mElementSize = 2 then IndexFormat.R16_UINT
            else IndexFormat.R32_UINT⟩ }
        { w with
          mUploadOffset := alignUp w.mUploadOffset 16 + meshData.mIndexBuffer.mBuffer.size,
          mNextObject := w.mNextObject + 1,
          mTrace := w.mTrace ++
            [Event.upload meshData.mIndexBuffer.mBuffer.size 16 (alignUp w.mUploadOffset 16),
              Event.createBuffer w.mNextObject meshData.mIndexBuffer.mBuffer.size,
              Event.CopyBufferRegion (some w.mNextObject) 0 (alignUp w.mUploadOffset 16)
                meshData.mIndexBuffer.mBuffer.size] } := by
  simp [createIndexBuffer, hempty, M.bind, upload, createBuffer, newObject, emit, M.pure]

/-- The index-buffer block: one buffer when the baked index buffer is not
empty, none when it is. -/
theorem createIndexBuffer_ok (mesh : DX12MeshData) (meshData : MeshData) (w : World) :
    ∃ mesh1 w1 events, createIndexBuffer mesh meshData w = Res.ok mesh1 w1 ∧
      w1.mTrace = w.mTrace ++ events ∧ w1.mResources = w.mResources ∧
      mesh1.mVertexBuffers = mesh.mVertexBuffers ∧
      mesh1.mIndexBuffer.mBuffer =
        (if meshData.mIndexBuffer.mBuffer.empty then mesh.mIndexBuffer.mBuffer
         else ((createdBuffers events).map (fun c => c.1)).head?) ∧
      (createdBuffers events).map Prod.snd =
        (if meshData.mIndexBuffer.mBuffer.empty then []
         else [meshData.mIndexBuffer.mBuffer.size]) ∧
      submittedBarriers events = [] := by
  cases hempty : meshData.mIndexBuffer.mBuffer.empty with
  | true =>
    exact ⟨mesh, w, [], by simp [createIndexBuffer, hempty, M.pure], by simp, rfl, rfl, rfl,
      rfl, rfl⟩
  | false =>
    refine ⟨_, _, _, createIndexBuffer_nonempty mesh meshData w hempty, rfl, rfl, rfl, ?_, ?_,
      ?_⟩
    all_goals simp [createdBuffers_cons, createdBuffers_nil, Event.createdBuffer,
      submittedBarriers_cons, submittedBarriers_nil, Event.barriers]

theorem zipWith_replicate_right {α β γ : Type} (f : α → β → γ) (xs : List α) (b : β) (n : Nat)
    (hn : n = xs.length) : List.zipWith f xs (List.replicate n b) = xs.map (fun x => f x b) := by
  subst hn
  induction xs with
  | nil => rfl
  | cons x xs ih => simp [List.replicate_succ, ih]

/-- The transitions of the buffers of a mesh, in the order the buffers are
created: the index buffer, when there is one, then the vertex buffers. -/
theorem modifyMesh_sync (env : Env) (metaID : MetaID) (meshData : MeshData)
    (mesh0 : DX12MeshData) (w : World) (hasset : env.meshes metaID = some meshData)
    (hsizes : ∀ vb ∈ meshData.mVertexBuffers, vb.mDesc.mVertexSize ≠ 0)
    (hib : mesh0.mIndexBuffer.mBuffer = none) (hvb : mesh0.mVertexBuffers = []) :
    ∃ mesh w1 events, modifyMesh env metaID false mesh0 w = Res.ok mesh w1 ∧
      w1.mTrace = w.mTrace ++ events ∧ w1.mResources = w.mResources ∧
      (createdBuffers events).map Prod.snd =
        (if meshData.mIndexBuffer.mBuffer.empty then []
         else [meshData.mIndexBuffer.mBuffer.size]) ++
        meshData.mVertexBuffers.map (fun vb => vb.mBuffer.size) ∧
      submittedBarriers events =
        List.zipWith (fun c after => ⟨some c.1, ResourceState.COPY_DEST, after⟩)
          (createdBuffers events)
          ((if meshData.mIndexBuffer.mBuffer.empty then [] else [ResourceState.INDEX_BUFFER]) ++
            List.replicate meshData.mVertexBuffers.length
              ResourceState.VERTEX_AND_CONSTANT_BUFFER) ∧
      mesh.mMeshData.mData = some meshData ∧
      mesh.mIndexBuffer.mBuffer.isSome = !meshData.mIndexBuffer.mBuffer.empty ∧
      mesh.mVertexBuffers.map (fun vb => vb.mBuffer.isSome) =
        List.replicate meshData.mVertexBuffers.length true := by
  obtain ⟨mesh1, w1, ev1, h1, t1, r1, v1, i1, b1, s1⟩ := createIndexBuffer_ok
    { mesh0 with
      mMeshData := AssetHandle.reset env.meshes metaID false,
      mIndexBuffer := { mesh0.mIndexBuffer with
        mPrimitiveTopology := meshData.mIndexBuffer.mPrimitiveTopology },
      mLayoutID := meshData.mLayoutID,
      mLayoutName := meshData.mLayoutName } meshData
    { w with mTrace := w.mTrace ++ [Event.reset ResourceType.Mesh_ metaID false] }
  obtain ⟨res, w2, ev2, h2, t2, r2, v2, b2, s2⟩ :=
    forEach_createVertexBuffer meshData.mVertexBuffers w1 hsizes
  have hlen : res.length = meshData.mVertexBuffers.length := by
    have := congrArg List.length v2
    have := congrArg List.length b2
    simp at *
    omega
  have hmesh1ib : mesh1.mIndexBuffer.mBuffer.isSome = !meshData.mIndexBuffer.mBuffer.empty := by
    rw [i1]
    cases hempty : meshData.mIndexBuffer.mBuffer.empty with
    | true => simp [hib]
    | false =>
      simp only [hempty, Bool.false_eq_true, ↓reduceIte] at b1 ⊢
      cases hc : createdBuffers ev1 with
      | nil => simp [hc] at b1
      | cons c cs => simp
  have hcount : ((mesh1.mVertexBuffers ++ res.map Prod.fst).length +
      (if meshData.mIndexBuffer.mBuffer.empty = true then 0 else 1) ==
      (meshBarriers { mesh1 with
        mVertexBuffers := mesh1.mVertexBuffers ++ res.map Prod.fst,
        mVertexBufferViews := mesh1.mVertexBufferViews ++ res.map Prod.snd,
        mSubMeshes := meshData.mSubMeshes }).length) = true := by
    simp only [meshBarriers, hmesh1ib, beq_iff_eq]
    cases meshData.mIndexBuffer.mBuffer.empty <;> simp
  refine ⟨{ mesh1 with
      mVertexBuffers := mesh1.mVertexBuffers ++ res.map Prod.fst,
      mVertexBufferViews := mesh1.mVertexBufferViews ++ res.map Prod.snd,
      mSubMeshes := meshData.mSubMeshes },
    { w2 with mArenaLive := 0, mTrace := w2.mTrace ++ [Event.arenaAllocate,
      Event.ResourceBarrier (meshBarriers { mesh1 with
        mVertexBuffers := mesh1.mVertexBuffers ++ res.map Prod.fst,
        mVertexBufferViews := mesh1.mVertexBufferViews ++ res.map Prod.snd,
        mSubMeshes := meshData.mSubMeshes }), Event.arenaRelease] },
    Event.reset ResourceType.Mesh_ metaID false :: (ev1 ++ ev2 ++ [Event.arenaAllocate,
      Event.ResourceBarrier (meshBarriers { mesh1 with
        mVertexBuffers := mesh1.mVertexBuffers ++ res.map Prod.fst,
        mVertexBufferViews := mesh1.mVertexBufferViews ++ res.map Prod.snd,
        mSubMeshes := meshData.mSubMeshes }), Event.arenaRelease]), ?_, ?_, ?_, ?_, ?_, ?_, ?_, ?_⟩
  · unfold modifyMesh
    simp only [bind_eq, pure_eq]
    rw [bind_ok (show emit _ w = Res.ok () _ from rfl)]
    simp only [Bool.not_false, ↓reduceIte, AssetHandle.reset, Bool.false_eq_true, hasset]
    simp only [AssetHandle.reset, Bool.false_eq_true, ↓reduceIte, hasset] at h1
    rw [bind_ok h1, bind_ok h2]
    simp only [M.bind, arenaAllocate, Expects, hcount, ↓reduceIte, M.pure, emit, arenaRelease,
      List.append_assoc, List.cons_append, List.nil_append]
  · simp [t2, t1]
  · simp [r2, r1]
  · simp [createdBuffers_cons, createdBuffers_append, createdBuffers_nil, Event.createdBuffer,
      b1, b2]
  · have hlen2 : (createdBuffers ev2).length = meshData.mVertexBuffers.length := by
      simpa using congrArg List.length b2
    have hres : res.map (fun r => (⟨r.1.mBuffer, ResourceState.COPY_DEST,
        ResourceState.VERTEX_AND_CONSTANT_BUFFER⟩ : ResourceBarrier)) =
        (createdBuffers ev2).map (fun c => ⟨some c.1, ResourceState.COPY_DEST,
          ResourceState.VERTEX_AND_CONSTANT_BUFFER⟩) := by
      have := congrArg (List.map (fun b => (⟨b, ResourceState.COPY_DEST,
        ResourceState.VERTEX_AND_CONSTANT_BUFFER⟩ : ResourceBarrier))) v2
      simpa [List.map_map, Function.comp_def] using this
    simp only [submittedBarriers_cons, submittedBarriers_append, submittedBarriers_nil,
      Event.barriers, s1, s2, List.nil_append, List.append_nil, meshBarriers, v1, hvb,
      List.map_map, Function.comp_def, hres, createdBuffers_cons, createdBuffers_append,
      createdBuffers_nil, Event.createdBuffer, Option.toList]
    cases hempty : meshData.mIndexBuffer.mBuffer.empty with
    | true =>
      simp only [hempty, ↓reduceIte] at b1 i1
      have hc1 : createdBuffers ev1 = [] := by simpa using b1
      simp [i1, hib, hc1, zipWith_replicate_right _ _ _ _ hlen2.symm]
    | false =>
      simp only [hempty, Bool.false_eq_true, ↓reduceIte] at b1 i1
      cases hc : createdBuffers ev1 with
      | nil => simp [hc] at b1
      | cons c cs =>
        have hcs : cs = [] := by simpa [hc] using congrArg List.length b1
        subst hcs
        simp [i1, hc, zipWith_replicate_right _ _ _ _ hlen2.symm]
  · have := ((createIndexBuffer_metaID _ _).returns _ _ _ h1).2
    simp only [this, AssetHandle.reset, Bool.false_eq_true, ↓reduceIte, hasset]
  · simp [hmesh1ib]
  · have hlen2 : (createdBuffers ev2).length = meshData.mVertexBuffers.length := by
      simpa using congrArg List.length b2
    have := congrArg (List.map Option.isSome) v2
    simp only [List.map_map, Function.comp_def, Option.isSome_some] at this
    simp only [v1, hvb, List.nil_append, List.map_map, Function.comp_def, this]
    rw [List.map_const', hlen2]

/-- C6: synchronous materialization of a mesh that is not cached yet, whose
baked payload has `n` vertex buffers (each with a non-zero vertex size) and an
index buffer that is empty (`b = 0`) or not (`b = 1`), returns
`created = true`, creates exactly `n + b` buffers, of the baked sizes with the
index buffer first, and submits exactly `n + b` transition barriers, one per
created buffer in the order of creation: copy-dest to index-buffer for the
index buffer, copy-dest to vertex-buffer for every vertex buffer. -/
theorem C6_mesh_buffers_and_barriers (env : Env) (metaID : MetaID) (meshData : MeshData)
    (w : World) (hfresh : Cache.find w.mResources.mMeshes metaID = none)
    (hasset : env.meshes metaID = some meshData)
    (hsizes : ∀ vb ∈ meshData.mVertexBuffers, vb.mDesc.mVertexSize ≠ 0) :
    ∃ w1 events,
      try_createDX12MeshData env metaID false w =
        Res.ok (w.mResources.mMeshes.length, true) w1 ∧
      w1.mTrace = w.mTrace ++ events ∧
      (createdBuffers events).map Prod.snd =
        (if meshData.mIndexBuffer.mBuffer.empty then []
         else [meshData.mIndexBuffer.mBuffer.size]) ++
        meshData.mVertexBuffers.map (fun vb => vb.mBuffer.size) ∧
      submittedBarriers events =
        List.zipWith (fun c after => ⟨some c.1, ResourceState.COPY_DEST, after⟩)
          (createdBuffers events)
          ((if meshData.mIndexBuffer.mBuffer.empty then [] else [ResourceState.INDEX_BUFFER]) ++
            List.replicate meshData.mVertexBuffers.length
              ResourceState.VERTEX_AND_CONSTANT_BUFFER) ∧
      (createdBuffers events).length =
        meshData.mVertexBuffers.length +
          (if meshData.mIndexBuffer.mBuffer.empty then 0 else 1) ∧
      (submittedBarriers events).length =
        meshData.mVertexBuffers.length +
          (if meshData.mIndexBuffer.mBuffer.empty then 0 else 1) := by
  obtain ⟨mesh, w1, events, hm, ht, _, hb, hs, _⟩ := modifyMesh_sync env metaID meshData
    (CacheEntry.create metaID)
    { w with mResources := { w.mResources with
        mMeshes := w.mResources.mMeshes ++ [CacheEntry.create metaID] } }
    hasset hsizes rfl rfl
  have hlen : (createdBuffers events).length =
      meshData.mVertexBuffers.length +
        (if meshData.mIndexBuffer.mBuffer.empty then 0 else 1) := by
    have := congrArg List.length hb
    simp only [List.length_map, List.length_append] at this
    rw [this]
    cases meshData.mIndexBuffer.mBuffer.empty <;> simp
    omega
  refine ⟨{ w1 with mResources := { w1.mResources with
      mMeshes := Cache.modify w1.mResources.mMeshes w.mResources.mMeshes.length mesh } },
    events, ?_, ?_, hb, hs, hlen, ?_⟩
  · rw [try_createDX12MeshData_fresh _ _ _ _ hfresh, hm]
  · exact ht
  · rw [hs, List.length_zipWith, hlen]
    cases meshData.mIndexBuffer.mBuffer.empty <;> simp

/-- C1 at the scenario: mesh 1 is requested asynchronously in the initial
world and then synchronously. -/
theorem C1_find_or_create_twice_witness :
    ∃ p w2, findEntry (afterReserve initialWorld ResourceType.Mesh_ 1).mResources
        ResourceType.Mesh_ 1 = some p ∧
      try_createDX12 exampleContext exampleEnv 1 ResourceType.Mesh_ false
        (afterReserve initialWorld ResourceType.Mesh_ 1) = Res.ok false w2 ∧
      w2.mResources = (afterReserve initialWorld ResourceType.Mesh_ 1).mResources ∧
      findEntry w2.mResources ResourceType.Mesh_ 1 = some p :=
  (C1_find_or_create_twice exampleContext exampleEnv 1 ResourceType.Mesh_ true false
    initialWorld (afterReserve initialWorld ResourceType.Mesh_ 1) true (by rfl)).2

/-- C2 at the scenario: mesh 1 is requested synchronously in a world that
holds a reserved entry for it. -/
theorem C2_found_entry_is_not_populated_again_witness :
    (try_createDX12 exampleContext exampleEnv 1 ResourceType.Mesh_ false
      (afterReserve initialWorld ResourceType.Mesh_ 1)).world.mResources =
      (afterReserve initialWorld ResourceType.Mesh_ 1).mResources :=
  (C2_found_entry_is_not_populated_again exampleContext exampleEnv 1 ResourceType.Mesh_ false
    (afterReserve initialWorld ResourceType.Mesh_ 1) 0 (by rfl)).1

/-- C3 at the scenario: a texture request with the nil identifier. -/
theorem C3_nil_identifier_is_refused_witness :
    try_createDX12 exampleContext exampleEnv 0 ResourceType.Texture_ false initialWorld =
      Res.fail Failure.InvalidIdentity initialWorld :=
  C3_nil_identifier_is_refused exampleContext exampleEnv 0 ResourceType.Texture_ false
    initialWorld (by rfl)

/-- C5 at the scenario: mesh 1 is requested asynchronously in the initial
world. -/
theorem C5_async_request_reserves_an_empty_entry_witness :
    try_createDX12 exampleContext exampleEnv 1 ResourceType.Mesh_ true initialWorld =
      Res.ok true (afterReserve initialWorld ResourceType.Mesh_ 1) :=
  (C5_async_request_reserves_an_empty_entry exampleContext exampleEnv
    (CacheEntry.create 7) 1 ResourceType.Mesh_ initialWorld (by decide) (by rfl)).2.2.2.2.2
    (by rfl) (by decide)

/-- C6 at the scenario: one index buffer of 500 indices of 2 bytes and two
vertex buffers of 1000 vertices of 32 bytes give 3 buffers and 3 barriers. -/
theorem C6_mesh_buffers_and_barriers_witness :
    ∃ w1 events,
      try_createDX12MeshData exampleEnv 1 false initialWorld = Res.ok (0, true) w1 ∧
      w1.mTrace = initialWorld.mTrace ++ events ∧
      (createdBuffers events).map Prod.snd = [1000, 32000, 32000] ∧
      (createdBuffers events).length = 3 ∧
      (submittedBarriers events).length = 3 := by
  obtain ⟨w1, events, h1, h2, h3, _, h5, h6⟩ :=
    C6_mesh_buffers_and_barriers exampleEnv 1 exampleMesh initialWorld (by rfl) (by rfl)
      (by decide)
  exact ⟨w1, events, h1, h2, h3, h5, h6⟩

/-! ## Observing the trace of the material loop -/

section ObservesLemmas

variable {β γ δ : Type} {o : Event → Option γ} {R : δ → γ → Prop}

theorem observes_pure (b : β) : Observes o R (M.pure b) ([] : List δ) := by
  intro w y w1 h
  simp only [M.pure, Res.ok.injEq] at h
  exact ⟨[], by simp [h.2], by simp⟩

theorem observes_fail (e : Failure) : Observes o R (M.fail e : M β) ([] : List δ) := by
  intro w y w1 h
  simp [M.fail] at h

theorem observes_bind {α : Type} {m : M α} {f : α → M β} {I J : List δ}
    (hm : Observes o R m I) (hf : ∀ a, Observes o R (f a) J) :
    Observes o R (M.bind m f) (I ++ J) := by
  intro w y w2 h
  obtain ⟨a, w1, h1, h2⟩ := bind_eq_ok h
  obtain ⟨e1, t1, r1⟩ := hm w a w1 h1
  obtain ⟨e2, t2, r2⟩ := hf a w1 y w2 h2
  refine ⟨e1 ++ e2, by rw [t2, t1, List.append_assoc], ?_⟩
  rw [List.filterMap_append]
  exact List.rel_append r1 r2

/-- A call that records no event of the observed kind. -/
theorem observes_of_keeps {T : List ResourceType} {P : Event → Prop} {m : M β}
    (hk : Keeps (Effect T P) m) (hP : ∀ e, P e → o e = none) :
    Observes o R m ([] : List δ) := by
  intro w y w1 h
  obtain ⟨events, ht, hp⟩ := (keeps_of_ok hk h).2
  refine ⟨events, ht, ?_⟩
  have : events.filterMap o = [] := by
    rw [List.filterMap_eq_nil_iff]
    exact fun e he => hP e (hp e he)
  rw [this]
  exact List.Forall₂.nil

theorem observes_forEach {α : Type} (f : α → M β) (g : α → List δ)
    (hf : ∀ x, Observes o R (f x) (g x)) (xs : List α) :
    Observes o R (forEach f xs) (xs.flatMap g) := by
  induction xs with
  | nil => exact observes_pure _
  | cons x xs ih =>
    unfold forEach
    rw [List.flatMap_cons]
    have := observes_bind (hf x) (fun y => observes_bind ih (fun ys => observes_pure (y :: ys)))
    simpa using this

end ObservesLemmas

theorem observes_allocatePersistent {γ δ : Type} {o : Event → Option γ} {R : δ → γ → Prop}
    (count : Nat) (items : List δ)
    (h : ∀ first, List.Forall₂ R items ([Event.allocatePersistent count first].filterMap o)) :
    Observes o R (allocatePersistent count) items := by
  intro w y w1 hok
  unfold allocatePersistent at hok
  dsimp only at hok
  split at hok
  · rename_i first rest _
    simp only [Res.ok.injEq] at hok
    exact ⟨[Event.allocatePersistent count first], by simp [← hok.2], h first⟩
  · split at hok
    · simp only [Res.ok.injEq] at hok
      exact ⟨[Event.allocatePersistent count w.mDescriptorHeap.mNext], by simp [← hok.2], h _⟩
    · cases hok

theorem observes_emit {γ δ : Type} {o : Event → Option γ} {R : δ → γ → Prop}
    (e : Event) (items : List δ) (h : List.Forall₂ R items ([e].filterMap o)) :
    Observes o R (emit e) items := by
  intro w y w1 hok
  simp only [emit, Res.ok.injEq] at hok
  exact ⟨[e], by simp [← hok.2], h⟩

theorem observes_getWorld {γ δ : Type} {o : Event → Option γ} {R : δ → γ → Prop} :
    Observes o R getWorld ([] : List δ) := by
  intro w y w1 hok
  simp only [getWorld, Res.ok.injEq] at hok
  exact ⟨[], by simp [← hok.2], List.Forall₂.nil⟩

/-- The texture an attribute resolves to when the material bakes no texture
of that name: the default `White` texture. -/
theorem resolveTexture_absent (materialData : MaterialData) (material : DX12MaterialData)
    (attributeName : Name)
    (habsent : materialData.mTextures.find? (fun e => e.1 = attributeName) = none) :
    Returns (resolveTexture materialData material attributeName)
      (fun r => r.1 = TextureRef.wellKnown DefaultTexture.White) := by
  unfold resolveTexture
  simp only [bind_eq, pure_eq, habsent]
  exact returns_bind (fun _ => returns_bind (fun _ => returns_pure rfl))

/-- The resolution of an absent name does not fail as long as the default
`White` texture is registered. -/
theorem resolveTexture_absent_ok (materialData : MaterialData) (material : DX12MaterialData)
    (attributeName : Name) (w : World) (white : DefaultTexture × DX12TextureData)
    (habsent : materialData.mTextures.find? (fun e => e.1 = attributeName) = none)
    (hwhite : w.mResources.mDefaultTextures.find? (fun e => e.1 = DefaultTexture.White) =
      some white) :
    resolveTexture materialData material attributeName w =
      Res.ok (TextureRef.wellKnown DefaultTexture.White, white.2) w := by
  simp [resolveTexture, M.bind, getResources, habsent, mapAt, hwhite, M.pure]

theorem observes_bind_of {α β γ δ : Type} {o : Event → Option γ} {R : δ → γ → Prop}
    {m : M α} {f : α → M β} {Q : α → Prop} {I J : List δ}
    (hm : Observes o R m I) (hq : Returns m Q)
    (hf : ∀ a, Q a → Observes o R (f a) J) :
    Observes o R (M.bind m f) (I ++ J) := by
  intro w y w2 h
  obtain ⟨a, w1, h1, h2⟩ := bind_eq_ok h
  obtain ⟨e1, t1, r1⟩ := hm w a w1 h1
  obtain ⟨e2, t2, r2⟩ := hf a (hq.returns _ _ _ h1) w1 y w2 h2
  refine ⟨e1 ++ e2, by rw [t2, t1, List.append_assoc], ?_⟩
  rw [List.filterMap_append]
  exact List.rel_append r1 r2

/-- The view of one attribute: exactly one view, and it is created for the
default `White` texture when the material bakes no texture of that name. -/
theorem createTextureView_views (materialData : MaterialData) (material : DX12MaterialData)
    (first i : Nat) (attributeName : Name) :
    Observes Event.createdView
      (fun (a : Name) (view : TextureRef × Nat) =>
        materialData.mTextures.find? (fun e => e.1 = a) = none →
          view.1 = TextureRef.wellKnown DefaultTexture.White)
      (createTextureView materialData material first i attributeName) [attributeName] := by
  unfold createTextureView
  simp only [bind_eq, pure_eq]
  have h := observes_bind_of (o := Event.createdView)
    (R := fun (a : Name) (view : TextureRef × Nat) =>
        materialData.mTextures.find? (fun e => e.1 = a) = none →
          view.1 = TextureRef.wellKnown DefaultTexture.White)
    (Q := fun r => materialData.mTextures.find? (fun e => e.1 = attributeName) = none →
      r.1 = TextureRef.wellKnown DefaultTexture.White)
    (I := []) (J := [attributeName])
    (observes_of_keeps (resolveTexture_keeps (T := []) (P := fun _ => False)
      materialData material attributeName) (fun _ hf => hf.elim))
    (m := resolveTexture materialData material attributeName)
    (f := fun r => M.bind getWorld (fun world =>
      emit (Event.CreateShaderResourceView r.1 r.2.mTexture r.2.mFormat
        (world.mDescriptorHeap.mCpuStart + (first + i)))))
    ⟨fun w a w1 hok habsent =>
      (resolveTexture_absent materialData material attributeName habsent).returns w a w1 hok⟩
    (fun r hr => by
      have := observes_bind (o := Event.createdView)
        (R := fun (a : Name) (view : TextureRef × Nat) =>
          materialData.mTextures.find? (fun e => e.1 = a) = none →
            view.1 = TextureRef.wellKnown DefaultTexture.White)
        (I := []) (J := [attributeName]) (m := getWorld)
        (f := fun world => emit (Event.CreateShaderResourceView r.1 r.2.mTexture r.2.mFormat
          (world.mDescriptorHeap.mCpuStart + (first + i))))
        observes_getWorld
        (fun world => observes_emit _ _ (by
          simp only [List.filterMap_cons, Event.createdView, List.filterMap_nil]
          exact List.Forall₂.cons hr List.Forall₂.nil))
      simpa using this)
  simpa using h

theorem flatMap_singleton_id {α : Type} (xs : List α) : xs.flatMap (fun a => [a]) = xs := by
  induction xs with
  | nil => rfl
  | cons x xs ih => simp [List.flatMap_cons, ih]

/-- The views of one subpass: one per texture attribute, in order. -/
theorem createMaterialSubpass_views (materialData : MaterialData) (material : DX12MaterialData)
    (pass : DX12ShaderSubpassData) :
    Observes Event.createdView
      (fun (a : Name) (view : TextureRef × Nat) =>
        materialData.mTextures.find? (fun e => e.1 = a) = none →
          view.1 = TextureRef.wellKnown DefaultTexture.White)
      (createMaterialSubpass materialData material pass) pass.mTextures := by
  unfold createMaterialSubpass
  simp only [bind_eq, pure_eq]
  split
  · rename_i hempty
    have : pass.mTextures = [] := by simpa using hempty
    rw [this]
    exact observes_pure _
  · have h := observes_bind (I := ([] : List Name))
      (observes_allocatePersistent (o := Event.createdView) (pass.mTextures.length % 2 ^ 32)
        ([] : List Name) (fun _ => by simp [Event.createdView]))
      (fun first => observes_bind (I := ([] : List Name)) observes_getWorld
        (fun world => observes_bind
          (observes_forEach _ (fun a => [a])
            (fun a => createTextureView_views materialData material first 0 a) pass.mTextures)
          (fun _ => observes_pure
            (⟨world.mDescriptorHeap.mCpuStart + first, world.mDescriptorHeap.mGpuStart + first,
              pass.mTextures.length % 2 ^ 32⟩ : DX12MaterialSubpassData))))
    simpa [flatMap_singleton_id] using h

theorem createTextureView_keeps {T : List ResourceType} {P : Event → Prop}
    (materialData : MaterialData) (material : DX12MaterialData) (first i : Nat)
    (attributeName : Name)
    (he : ∀ target resource format dest,
      P (Event.CreateShaderResourceView target resource format dest)) :
    Keeps (Effect T P) (createTextureView materialData material first i attributeName) := by
  unfold createTextureView
  simp only [bind_eq, pure_eq]
  refine keeps_bind (resolveTexture_keeps _ _ _) (fun r => ?_)
  exact keeps_bind keeps_getWorld (fun _ => keeps_emit _ (he _ _ _ _))

/-- The persistent ranges of one subpass: one range of the size of the
attribute list when the list is not empty, none when it is. -/
theorem createMaterialSubpass_ranges (materialData : MaterialData)
    (material : DX12MaterialData) (pass : DX12ShaderSubpassData) :
    Observes Event.allocatedRange
      (fun (p : DX12ShaderSubpassData) (count : Nat) => count = p.mTextures.length % 2 ^ 32)
      (createMaterialSubpass materialData material pass)
      ([pass].filter (fun p => !p.mTextures.isEmpty)) := by
  unfold createMaterialSubpass
  simp only [bind_eq, pure_eq]
  split
  · rename_i hempty
    simp only [List.filter, hempty, Bool.not_true]
    exact observes_pure _
  · rename_i hempty
    have h := observes_bind (J := ([] : List DX12ShaderSubpassData))
      (observes_allocatePersistent (o := Event.allocatedRange)
        (R := fun (p : DX12ShaderSubpassData) (count : Nat) =>
          count = p.mTextures.length % 2 ^ 32)
        (pass.mTextures.length % 2 ^ 32) [pass]
        (fun _ => by
          simp only [List.filterMap_cons, Event.allocatedRange, List.filterMap_nil]
          exact List.Forall₂.cons rfl List.Forall₂.nil))
      (fun first => observes_bind (I := ([] : List DX12ShaderSubpassData))
        (J := ([] : List DX12ShaderSubpassData)) observes_getWorld
        (fun world => observes_bind (I := ([] : List DX12ShaderSubpassData))
          (J := ([] : List DX12ShaderSubpassData))
          (observes_of_keeps (P := fun e => e.allocatedRange = none)
            (keeps_forEach (T := []) (createTextureView materialData material first 0)
              pass.mTextures
              (fun a => createTextureView_keeps _ _ _ _ _ (fun _ _ _ _ => rfl)))
            (fun _ h => h))
          (fun _ => observes_pure
            (⟨world.mDescriptorHeap.mCpuStart + first, world.mDescriptorHeap.mGpuStart + first,
              pass.mTextures.length % 2 ^ 32⟩ : DX12MaterialSubpassData))))
    simpa [List.filter, hempty] using h

/-- What is observed of the subpass body is observed, subpass after subpass,
of the whole material loop. -/
theorem createMaterialSolution_observes {γ δ : Type} {o : Event → Option γ}
    {R : δ → γ → Prop} (materialData : MaterialData) (material : DX12MaterialData)
    (g : DX12ShaderSubpassData → List δ)
    (hg : ∀ pass, Observes o R (createMaterialSubpass materialData material pass) (g pass))
    (solution : DX12ShaderSolutionData) :
    Observes o R (createMaterialSolution materialData material solution)
      (solution.mPipelines.flatMap (fun pipeline =>
        pipeline.mQueues.flatMap (fun queue =>
          queue.mLevels.flatMap (fun level =>
            level.mPasses.flatMap (fun variant => variant.mSubpasses.flatMap g))))) := by
  have hpass : ∀ variant, Observes o R (createMaterialPass materialData material variant)
      (variant.mSubpasses.flatMap g) := by
    intro variant
    unfold createMaterialPass
    simp only [bind_eq, pure_eq]
    simpa using observes_bind (observes_forEach _ g hg variant.mSubpasses)
      (fun s => observes_pure (⟨s⟩ : DX12MaterialPassData))
  have hlevel : ∀ level, Observes o R (createMaterialLevel materialData material level)
      (level.mPasses.flatMap (fun variant => variant.mSubpasses.flatMap g)) := by
    intro level
    unfold createMaterialLevel
    simp only [bind_eq, pure_eq]
    simpa using observes_bind (observes_forEach _ _ hpass level.mPasses)
      (fun s => observes_pure (⟨s⟩ : DX12MaterialLevelData))
  have hqueue : ∀ queue, Observes o R (createMaterialQueue materialData material queue)
      (queue.mLevels.flatMap (fun level =>
        level.mPasses.flatMap (fun variant => variant.mSubpasses.flatMap g))) := by
    intro queue
    unfold createMaterialQueue
    simp only [bind_eq, pure_eq]
    simpa using observes_bind (observes_forEach _ _ hlevel queue.mLevels)
      (fun s => observes_pure (⟨s⟩ : DX12MaterialQueueData))
  have hpipeline : ∀ pipeline,
      Observes o R (createMaterialPipeline materialData material pipeline)
        (pipeline.mQueues.flatMap (fun queue =>
          queue.mLevels.flatMap (fun level =>
            level.mPasses.flatMap (fun variant => variant.mSubpasses.flatMap g)))) := by
    intro pipeline
    unfold createMaterialPipeline
    simp only [bind_eq, pure_eq]
    simpa using observes_bind (observes_forEach _ _ hqueue pipeline.mQueues)
      (fun s => observes_pure (⟨s⟩ : DX12MaterialPipelineData))
  unfold createMaterialSolution
  simp only [bind_eq, pure_eq]
  simpa using observes_bind (observes_forEach _ _ hpipeline solution.mPipelines)
    (fun s => observes_pure (⟨s⟩ : DX12MaterialSolutionData))

theorem subpasses_flatMap {δ : Type} (shader : DX12ShaderData)
    (g : DX12ShaderSubpassData → List δ) :
    shader.subpasses.flatMap g =
      shader.mSolutions.flatMap (fun solution =>
        solution.mPipelines.flatMap (fun pipeline =>
          pipeline.mQueues.flatMap (fun queue =>
            queue.mLevels.flatMap (fun level =>
              level.mPasses.flatMap (fun variant => variant.mSubpasses.flatMap g))))) := by
  simp only [DX12ShaderData.subpasses, List.flatMap_assoc]

theorem vectorIndex_eq_ok {α : Type} {v : List α} {i : Nat} {w w1 : World} {a : α}
    (h : vectorIndex v i w = Res.ok a w1) : v[i]? = some a ∧ w1 = w := by
  unfold vectorIndex at h
  cases hv : v[i]? with
  | none => simp [hv, M.fail] at h
  | some b =>
    simp only [hv, M.pure, Res.ok.injEq] at h
    exact ⟨by rw [h.1], h.2.symm⟩

theorem mapAt_eq_ok {κ ν : Type} [DecidableEq κ] {map : List (κ × ν)} {key : κ} {w w1 : World}
    {a : ν} (h : mapAt map key w = Res.ok a w1) :
    (∃ e, map.find? (fun e => e.1 = key) = some e ∧ e.2 = a) ∧ w1 = w := by
  unfold mapAt at h
  cases hv : map.find? (fun e => e.1 = key) with
  | none => simp [hv, M.fail] at h
  | some b =>
    simp only [hv, M.pure, Res.ok.injEq] at h
    exact ⟨⟨b, rfl, h.1⟩, h.2.symm⟩

/-- What is observed of the subpass body is observed of the synchronous
material modifier, for the subpasses of the shader entry the material refers
to, provided the shader and texture paths record nothing of the observed kind. -/
theorem modifyMaterial_observes {γ δ : Type} {o : Event → Option γ} {R : δ → γ → Prop}
    (env : Env) (rg : DX12RenderGraphData) (metaID : MetaID) (material0 : DX12MaterialData)
    (materialData : MaterialData) (g : DX12ShaderSubpassData → List δ)
    (hasset : env.materials metaID = some materialData)
    (hobs : ∀ e, e.isDescriptorWork = false → o e = none)
    (hg : ∀ material pass,
      Observes o R (createMaterialSubpass materialData material pass) (g pass))
    (w w1 : World) (material : DX12MaterialData)
    (h : modifyMaterial env rg metaID false material0 w = Res.ok material w1) :
    ∃ p shader events, material.mShader = some p ∧
      w1.mResources.mShaders[p]? = some shader ∧
      w1.mResources.mMaterials = w.mResources.mMaterials ∧
      w1.mTrace = w.mTrace ++ events ∧
      List.Forall₂ R (shader.subpasses.flatMap g) (events.filterMap o) := by
  unfold modifyMaterial at h
  simp only [bind_eq, pure_eq] at h
  obtain ⟨_, wa, ha, h⟩ := bind_eq_ok h
  simp only [Bool.not_false, ↓reduceIte, AssetHandle.reset, Bool.false_eq_true, hasset] at h
  obtain ⟨shaderID, wb, hb, h⟩ := bind_eq_ok h
  obtain ⟨shader, wc, hc, h⟩ := bind_eq_ok h
  obtain ⟨textures, wd, hd, h⟩ := bind_eq_ok h
  obtain ⟨resources, we, he, h⟩ := bind_eq_ok h
  obtain ⟨mShader, wf, hf, h⟩ := bind_eq_ok h
  obtain ⟨shaderData, wg, hgg, h⟩ := bind_eq_ok h
  simp only [M.pure, Res.ok.injEq] at h
  obtain ⟨rfl, rfl⟩ := h
  -- the worlds that only read
  simp only [getResources, Res.ok.injEq] at he
  obtain ⟨hres, hwe⟩ := he
  obtain ⟨hsh, hwf⟩ := vectorIndex_eq_ok hf
  rw [hwf, ← hwe] at hgg
  rw [← hres] at hsh
  -- the traces
  obtain ⟨e1, t1, r1⟩ := observes_emit (o := o) (R := R)
    (Event.reset ResourceType.Material_ metaID false) ([] : List δ)
    (by
      rw [List.filterMap_cons, hobs (Event.reset ResourceType.Material_ metaID false) rfl]
      exact List.Forall₂.nil) w _ wa ha
  obtain ⟨e2, t2, r2⟩ := observes_of_keeps (o := o) (R := R) (δ := δ)
    (keeps_mapAt (T := []) (P := fun _ => False) rg.mShaderIndex materialData.mShader)
    (fun _ hf => hf.elim) wa _ wb hb
  obtain ⟨e3, t3, r3⟩ := observes_of_keeps (o := o) (R := R) (δ := δ)
    (try_createDX12ShaderData_keeps env rg shaderID false) hobs wb _ wc hc
  obtain ⟨e4, t4, r4⟩ := observes_of_keeps (o := o) (R := R) (δ := δ)
    (keeps_forEach _ materialData.mTextures
      (fun texture => try_createDX12TextureData_keeps env texture.2 false)) hobs wc _ wd hd
  obtain ⟨e5, t5, r5⟩ := observes_forEach _ _
    (fun solution => createMaterialSolution_observes materialData _ g (hg _) solution)
    mShader.mSolutions wd _ wg hgg
  have hk := (keeps_of_ok (keeps_forEach _ mShader.mSolutions
    (fun solution => createMaterialSolution_keeps materialData _ solution)) hgg).1
  have hk1 := (keeps_of_ok (keeps_emit (T := []) (P := fun _ => True)
    (Event.reset ResourceType.Material_ metaID false) trivial) ha).1
  have hk2 := (keeps_of_ok (keeps_mapAt (T := []) (P := fun _ => True) rg.mShaderIndex
    materialData.mShader) hb).1
  have hk3 := (keeps_of_ok (try_createDX12ShaderData_keeps env rg shaderID false) hc).1
  have hk4 := (keeps_of_ok (keeps_forEach _ materialData.mTextures
    (fun texture => try_createDX12TextureData_keeps env texture.2 false)) hd).1
  refine ⟨shader.1, mShader, e1 ++ e2 ++ e3 ++ e4 ++ e5, rfl, ?_, ?_, ?_, ?_⟩
  · rw [hk.2.2.1 (by simp)]
    exact hsh
  · rw [hk.2.2.2.1 (by simp), hk4.2.2.2.1 (by simp), hk3.2.2.2.1 (by simp),
      hk2.2.2.2.1 (by simp), hk1.2.2.2.1 (by simp)]
  · rw [t5, t4, t3, t2, t1]
    simp only [List.append_assoc]
  · simp only [List.filterMap_append]
    rw [subpasses_flatMap]
    have := List.rel_append (List.rel_append (List.rel_append (List.rel_append r1 r2) r3) r4) r5
    simpa using this

theorem forall₂_eq_map {α β : Type} (f : α → β) (xs : List α) (ys : List β)
    (h : List.Forall₂ (fun a b => b = f a) xs ys) : ys = xs.map f := by
  induction h with
  | nil => rfl
  | cons hab _ ih => simp [hab, ih]

theorem flatMap_filter_singleton {α : Type} (q : α → Bool) (xs : List α) :
    xs.flatMap (fun x => [x].filter q) = xs.filter q := by
  induction xs with
  | nil => rfl
  | cons x xs ih =>
    rw [List.flatMap_cons, ih]
    cases hq : q x <;> simp [List.filter, hq]

/-- The synchronous creation of a material, seen from the function: the new
entry, the shader entry it refers to, and what is observed of the subpass
body. -/
theorem try_createDX12MaterialData_observes {γ δ : Type} {o : Event → Option γ}
    {R : MaterialData → δ → γ → Prop} (env : Env) (rg : DX12RenderGraphData) (metaID : MetaID)
    (g : DX12ShaderSubpassData → List δ)
    (hobs : ∀ e, e.isDescriptorWork = false → o e = none)
    (hg : ∀ materialData material pass,
      Observes o (R materialData) (createMaterialSubpass materialData material pass) (g pass))
    (w w1 : World) (r : Ptr × Bool)
    (hfresh : Cache.find w.mResources.mMaterials metaID = none)
    (h : try_createDX12MaterialData env rg metaID false w = Res.ok r w1) :
    ∃ materialData material p shader events,
      env.materials metaID = some materialData ∧
      r = (w.mResources.mMaterials.length, true) ∧
      w1.mResources.mMaterials[r.1]? = some material ∧
      material.mShader = some p ∧
      w1.mResources.mShaders[p]? = some shader ∧
      w1.mTrace = w.mTrace ++ events ∧
      List.Forall₂ (R materialData) (shader.subpasses.flatMap g) (events.filterMap o) := by
  rw [try_createDX12MaterialData_fresh _ _ _ _ _ hfresh] at h
  split at h
  · rename_i material w2 hm
    simp only [Res.ok.injEq] at h
    obtain ⟨hr, hw1⟩ := h
    cases hasset : env.materials metaID with
    | none =>
      exfalso
      unfold modifyMaterial at hm
      simp only [bind_eq, pure_eq] at hm
      obtain ⟨_, wa, _, hm⟩ := bind_eq_ok hm
      simp [AssetHandle.reset, hasset, M.fail] at hm
    | some materialData =>
      obtain ⟨p, shader, events, hp, hs, hmat, ht, hrel⟩ :=
        modifyMaterial_observes env rg metaID _ materialData g hasset hobs (hg materialData)
          _ _ _ hm
      refine ⟨materialData, material, p, shader, events, rfl, hr.symm, ?_, hp, ?_, ?_, hrel⟩
      · rw [← hw1, ← hr]
        simp only [hmat, Cache.modify]
        simp
      · rw [← hw1]
        exact hs
      · rw [← hw1]
        exact ht
  · cases h

theorem nonzero_counts (subpasses : List DX12ShaderSubpassData)
    (hsmall : ∀ pass ∈ subpasses, pass.mTextures.length < 2 ^ 32) :
    (subpasses.filter (fun pass => !pass.mTextures.isEmpty)).map
        (fun pass => pass.mTextures.length % 2 ^ 32) =
      (subpasses.map (fun pass => pass.mTextures.length)).filter (fun count => count != 0) := by
  induction subpasses with
  | nil => rfl
  | cons pass rest ih =>
    have hlt := hsmall pass (List.mem_cons_self _ _)
    have ih := ih (fun q hq => hsmall q (List.mem_cons_of_mem _ hq))
    cases hl : pass.mTextures with
    | nil => simpa [List.filter, hl] using ih
    | cons a as =>
      rw [hl] at hlt
      have hmod : (a :: as).length % 2 ^ 32 = (a :: as).length := Nat.mod_eq_of_lt hlt
      simp only [List.filter, hl, List.isEmpty_cons, Bool.not_false, List.map_cons, hmod]
      rw [ih]
      simp [List.filter]

/-- C7: synchronous materialization of a material allocates, for every
subpass of the variant tree of its shader, in the order of the tree, exactly
one persistent shader-resource-view range when the subpass has texture
attributes, of the size of the attribute list (as the 32-bit count the source
narrows it to), and none when it has no attribute. When every attribute list
is shorter than 2^32 the sizes are the attribute counts themselves: the
allocated sizes are the non-zero attribute counts of the subpasses, in
order. -/
theorem C7_material_ranges_per_subpass (env : Env) (rg : DX12RenderGraphData)
    (metaID : MetaID) (w w1 : World) (r : Ptr × Bool)
    (hfresh : Cache.find w.mResources.mMaterials metaID = none)
    (h : try_createDX12MaterialData env rg metaID false w = Res.ok r w1) :
    ∃ material p shader events,
      w1.mResources.mMaterials[r.1]? = some material ∧
      material.mShader = some p ∧
      w1.mResources.mShaders[p]? = some shader ∧
      w1.mTrace = w.mTrace ++ events ∧
      allocatedRanges events =
        (shader.subpasses.filter (fun pass => !pass.mTextures.isEmpty)).map
          (fun pass => pass.mTextures.length % 2 ^ 32) ∧
      ((∀ pass ∈ shader.subpasses, pass.mTextures.length < 2 ^ 32) →
        allocatedRanges events =
          (shader.subpasses.map (fun pass => pass.mTextures.length)).filter
            (fun count => count != 0)) := by
  obtain ⟨_, material, p, shader, events, _, _, hm, hp, hs, ht, hrel⟩ :=
    try_createDX12MaterialData_observes (o := Event.allocatedRange)
      (R := fun _ (pass : DX12ShaderSubpassData) (count : Nat) =>
        count = pass.mTextures.length % 2 ^ 32)
      env rg metaID (fun pass => [pass].filter (fun p => !p.mTextures.isEmpty))
      (fun e he => by cases e <;> simp_all [Event.isDescriptorWork, Event.allocatedRange])
      (fun materialData material pass => createMaterialSubpass_ranges materialData material pass)
      w w1 r hfresh h
  rw [flatMap_filter_singleton] at hrel
  have hranges := forall₂_eq_map _ _ _ hrel
  refine ⟨material, p, shader, events, hm, hp, hs, ht, hranges, ?_⟩
  intro hsmall
  unfold allocatedRanges
  rw [hranges]
  exact nonzero_counts _ hsmall

/-- C9: during synchronous materialization of a material, one view is
created per texture attribute of every subpass of its shader, in order, and
the view of an attribute whose name is absent from the material's own texture
map is created for the default `White` texture. The missing name is not a
failure: wherever the `White` texture is registered, resolving such an
attribute returns it. -/
theorem C9_missing_texture_falls_back_to_white (env : Env) (rg : DX12RenderGraphData)
    (metaID : MetaID) (w w1 : World) (r : Ptr × Bool)
    (hfresh : Cache.find w.mResources.mMaterials metaID = none)
    (h : try_createDX12MaterialData env rg metaID false w = Res.ok r w1) :
    ∃ materialData material p shader events,
      env.materials metaID = some materialData ∧
      w1.mResources.mMaterials[r.1]? = some material ∧
      material.mShader = some p ∧
      w1.mResources.mShaders[p]? = some shader ∧
      w1.mTrace = w.mTrace ++ events ∧
      List.Forall₂
        (fun (attributeName : Name) (view : TextureRef × Nat) =>
          materialData.mTextures.find? (fun e => e.1 = attributeName) = none →
            view.1 = TextureRef.wellKnown DefaultTexture.White)
        (shader.subpasses.flatMap (fun pass => pass.mTextures)) (createdViews events) ∧
      ∀ (material0 : DX12MaterialData) (attributeName : Name) (w0 : World)
        (white : DefaultTexture × DX12TextureData),
        materialData.mTextures.find? (fun e => e.1 = attributeName) = none →
        w0.mResources.mDefaultTextures.find? (fun e => e.1 = DefaultTexture.White) =
          some white →
        resolveTexture materialData material0 attributeName w0 =
          Res.ok (TextureRef.wellKnown DefaultTexture.White, white.2) w0 := by
  obtain ⟨materialData, material, p, shader, events, hasset, _, hm, hp, hs, ht, hrel⟩ :=
    try_createDX12MaterialData_observes (o := Event.createdView)
      (R := fun (materialData : MaterialData) (a : Name) (view : TextureRef × Nat) =>
        materialData.mTextures.find? (fun e => e.1 = a) = none →
          view.1 = TextureRef.wellKnown DefaultTexture.White)
      env rg metaID (fun pass => pass.mTextures)
      (fun e he => by cases e <;> simp_all [Event.isDescriptorWork, Event.createdView])
      (fun materialData material pass => createMaterialSubpass_views materialData material pass)
      w w1 r hfresh h
  exact ⟨materialData, material, p, shader, events, hasset, hm, hp, hs, ht, hrel,
    fun material0 attributeName w0 white habsent hwhite =>
      resolveTexture_absent_ok materialData material0 attributeName w0 white habsent hwhite⟩

/-- C7 at the scenario: material 30 uses shader 20, whose subpass A declares
three texture attributes and whose subpass B declares none; exactly one range,
of size 3, is allocated. -/
theorem C7_material_ranges_per_subpass_witness :
    (∃ material p shader events,
      exampleMaterialWorld.mResources.mMaterials[0]? = some material ∧
      material.mShader = some p ∧
      exampleMaterialWorld.mResources.mShaders[p]? = some shader ∧
      exampleMaterialWorld.mTrace = exampleRenderGraphWorld.mTrace ++ events ∧
      allocatedRanges events =
        (shader.subpasses.filter (fun pass => !pass.mTextures.isEmpty)).map
          (fun pass => pass.mTextures.length % 2 ^ 32) ∧
      ((∀ pass ∈ shader.subpasses, pass.mTextures.length < 2 ^ 32) →
        allocatedRanges events =
          (shader.subpasses.map (fun pass => pass.mTextures.length)).filter
            (fun count => count != 0))) ∧
    allocatedRanges exampleRenderGraphWorld.mTrace = [] ∧
    allocatedRanges exampleMaterialWorld.mTrace = [3] :=
  ⟨C7_material_ranges_per_subpass exampleEnv exampleRenderGraphEntry 30
    exampleRenderGraphWorld exampleMaterialWorld (0, true) (by decide!) (by decide!),
    by decide!, by decide!⟩

/-- C9 at the scenario: material 30 bakes `Albedo` and `Normal` but not
`Emissive`; the third view is created for the default `White` texture. -/
theorem C9_missing_texture_falls_back_to_white_witness :
    (∃ materialData material p shader events,
      exampleEnv.materials 30 = some materialData ∧
      exampleMaterialWorld.mResources.mMaterials[0]? = some material ∧
      material.mShader = some p ∧
      exampleMaterialWorld.mResources.mShaders[p]? = some shader ∧
      exampleMaterialWorld.mTrace = exampleRenderGraphWorld.mTrace ++ events ∧
      List.Forall₂
        (fun (attributeName : Name) (view : TextureRef × Nat) =>
          materialData.mTextures.find? (fun e => e.1 = attributeName) = none →
            view.1 = TextureRef.wellKnown DefaultTexture.White)
        (shader.subpasses.flatMap (fun pass => pass.mTextures)) (createdViews events) ∧
      ∀ (material0 : DX12MaterialData) (attributeName : Name) (w0 : World)
        (white : DefaultTexture × DX12TextureData),
        materialData.mTextures.find? (fun e => e.1 = attributeName) = none →
        w0.mResources.mDefaultTextures.find? (fun e => e.1 = DefaultTexture.White) =
          some white →
        resolveTexture materialData material0 attributeName w0 =
          Res.ok (TextureRef.wellKnown DefaultTexture.White, white.2) w0) ∧
    (createdViews exampleMaterialWorld.mTrace).map Prod.fst =
      [TextureRef.cached 0, TextureRef.cached 1,
        TextureRef.wellKnown DefaultTexture.White] :=
  ⟨C9_missing_texture_falls_back_to_white exampleEnv exampleRenderGraphEntry 30
    exampleRenderGraphWorld exampleMaterialWorld (0, true) (by decide!) (by decide!),
    by decide!⟩

/-- C8: the draw-call loop requests the material under the identifier of the
mesh. Content 40 has one draw call, with mesh 1 and material 30. With the
scenario assets its synchronous materialization fails, on the contract that
the material payload of identifier 1 is loaded, right after resetting the
handle of material 1. With a material payload stored under identifier 1 it
returns, and the material reference of the built draw call is the entry of
material 1, not the entry of material 30. -/
theorem C8_draw_call_material_is_requested_under_the_mesh_identifier :
    exampleContent.mDrawCalls = [⟨0, 1, 30⟩] ∧
    try_createDX12 exampleContext exampleEnv 40 ResourceType.Content_ false
        exampleRenderGraphWorld =
      Res.fail Failure.Contract
        (try_createDX12 exampleContext exampleEnv 40 ResourceType.Content_ false
          exampleRenderGraphWorld).world ∧
    (try_createDX12 exampleContext exampleEnv 40 ResourceType.Content_ false
        exampleRenderGraphWorld).world.mTrace.getLast? =
      some (Event.reset ResourceType.Material_ 1 false) ∧
    try_createDX12 exampleContext exampleEnvAliased 40 ResourceType.Content_ false
        exampleRenderGraphWorld = Res.ok true exampleContentWorld ∧
    exampleContentWorld.mResources.mContents.map (fun content => content.mDrawCalls) =
      [[⟨0, some 0, some 0⟩]] ∧
    findEntry exampleContentWorld.mResources ResourceType.Material_ 1 = some 0 ∧
    findEntry exampleContentWorld.mResources ResourceType.Material_ 30 = some 1 := by
  decide!

/-! ## The shader variant tree mirrors the baked shader -/

theorem returns_mono {α : Type} {m : M α} {Q Q1 : α → Prop} (h : Returns m Q)
    (hQ : ∀ a, Q a → Q1 a) : Returns m Q1 :=
  ⟨fun w a w1 hok => hQ a (h.returns w a w1 hok)⟩

theorem returns_and {α : Type} {m : M α} {Q Q1 : α → Prop} (h : Returns m Q)
    (h1 : Returns m Q1) : Returns m (fun a => Q a ∧ Q1 a) :=
  ⟨fun w a w1 hok => ⟨h.returns w a w1 hok, h1.returns w a w1 hok⟩⟩

theorem returns_Expects (cond : Bool) : Returns (Expects cond) (fun _ => cond = true) :=
  ⟨fun _ _ _ hok => (Expects_eq_ok hok).1⟩

theorem returns_vectorIndex {α : Type} (v : List α) (i : Nat) :
    Returns (vectorIndex v i) (fun a => v[i]? = some a) :=
  ⟨fun _ _ _ hok => (vectorIndex_eq_ok hok).1⟩

/-- The zip loop keeps a relation between the elements and the baked data
when its body does. -/
theorem returns_forEachCombine {α δ : Type} {f : α → δ → M α} {S U : α → δ → Prop}
    (hf : ∀ x y, S x y → Returns (f x y) (fun x1 => U x1 y)) (xs : List α) (ys : List δ)
    (h : List.Forall₂ S xs ys) :
    Returns (forEachCombine f xs ys) (fun xs1 => List.Forall₂ U xs1 ys) := by
  induction h with
  | nil => unfold forEachCombine; exact returns_pure List.Forall₂.nil
  | cons hxy _ ih =>
    unfold forEachCombine
    exact returns_bind_of (hf _ _ hxy) (fun x1 hx1 =>
      returns_bind_of ih (fun xs1 hxs1 => returns_pure (List.Forall₂.cons hx1 hxs1)))

theorem forall₂_map_self {α δ : Type} {R : α → δ → Prop} (G : δ → α) (ys : List δ)
    (h : ∀ y ∈ ys, R (G y) y) : List.Forall₂ R (ys.map G) ys := by
  induction ys with
  | nil => exact List.Forall₂.nil
  | cons y ys ih =>
    exact List.Forall₂.cons (h y (List.mem_cons_self _ _))
      (ih (fun z hz => h z (List.mem_cons_of_mem _ hz)))

/-- The tree that `resizeData` builds in an entry without solutions mirrors
the baked shader. -/
theorem resizeData_mirrors (prototype : DX12ShaderData) (prototypeData : ShaderData)
    (hempty : prototype.mSolutions = []) :
    Mirrors SubpassResized (resizeData prototype prototypeData) prototypeData := by
  unfold Mirrors resizeData
  simp only [hempty, List.nil_append]
  refine forall₂_map_self _ _ (fun s _ => ?_)
  refine forall₂_map_self _ _ (fun p _ => ?_)
  refine forall₂_map_self _ _ (fun q _ => ?_)
  refine forall₂_map_self _ _ (fun l _ => ?_)
  refine forall₂_map_self _ _ (fun v _ => ?_)
  refine forall₂_map_self _ _ (fun sub _ => ?_)
  rfl

theorem createIndexLevel_mirrors {S : DX12ShaderSubpassData → ShaderSubpassData → Prop}
    (level : DX12ShaderLevelData) (levelData : ShaderLevelData)
    (h : MirrorLevel S level levelData) :
    Returns (createIndexLevel level levelData) (fun l => MirrorLevel S l levelData) := by
  unfold createIndexLevel
  simp only [bind_eq, pure_eq]
  exact returns_bind (fun _ => returns_bind (fun _ => returns_bind (fun _ => returns_pure h)))

theorem createIndexQueue_mirrors {S : DX12ShaderSubpassData → ShaderSubpassData → Prop}
    (queue : DX12ShaderQueueData) (queueData : Name × ShaderQueueData)
    (h : MirrorQueue S queue queueData) :
    Returns (createIndexQueue queue queueData) (fun q => MirrorQueue S q queueData) := by
  unfold createIndexQueue
  simp only [bind_eq, pure_eq]
  exact returns_bind_of (returns_forEachCombine (fun x y hxy => createIndexLevel_mirrors x y hxy)
    _ _ h) (fun levels hl => returns_pure hl)

theorem createIndexPipeline_mirrors {S : DX12ShaderSubpassData → ShaderSubpassData → Prop}
    (renderSolution : DX12RenderSolution) (pipeline : DX12ShaderPipelineData)
    (pipelineData : Name × ShaderPipelineData) (h : MirrorPipeline S pipeline pipelineData) :
    Returns (createIndexPipeline renderSolution pipeline pipelineData)
      (fun p => MirrorPipeline S p pipelineData) := by
  unfold createIndexPipeline
  simp only [bind_eq, pure_eq]
  refine returns_bind (fun _ => returns_bind (fun _ => returns_bind (fun _ =>
    returns_bind (fun _ => returns_bind (fun _ => ?_)))))
  exact returns_bind_of (returns_forEachCombine
    (fun x y hxy => createIndexQueue_mirrors x y hxy) _ _ h) (fun queues hq => returns_pure hq)

theorem createIndexSolution_mirrors {S : DX12ShaderSubpassData → ShaderSubpassData → Prop}
    (renderGraph : DX12RenderWorks) (solution : DX12ShaderSolutionData)
    (solutionData : Name × ShaderSolutionData) (h : MirrorSolution S solution solutionData) :
    Returns (createIndexSolution renderGraph solution solutionData)
      (fun s => MirrorSolution S s solutionData) := by
  unfold createIndexSolution
  simp only [bind_eq, pure_eq]
  refine returns_bind (fun _ => returns_bind (fun _ => returns_bind (fun _ =>
    returns_bind (fun _ => returns_bind (fun _ => ?_)))))
  exact returns_bind_of (returns_forEachCombine
    (fun x y hxy => createIndexPipeline_mirrors _ x y hxy) _ _ h)
    (fun pipelines hp => returns_pure hp)

/-- The function `createIndex` fills the index maps and leaves the tree as it
is. -/
theorem createIndex_mirrors {S : DX12ShaderSubpassData → ShaderSubpassData → Prop}
    (prototype : DX12ShaderData) (prototypeData : ShaderData) (renderGraph : DX12RenderWorks)
    (h : Mirrors S prototype prototypeData) :
    Returns (createIndex prototype prototypeData renderGraph)
      (fun s => Mirrors S s prototypeData) := by
  unfold createIndex
  simp only [bind_eq, pure_eq]
  refine returns_bind (fun _ => returns_bind (fun _ => returns_bind (fun _ => ?_)))
  exact returns_bind_of (returns_forEachCombine
    (fun x y hxy => createIndexSolution_mirrors _ x y hxy) _ _ h)
    (fun solutions hs => returns_pure hs)

/-- The body of the vertex-layout loop stores a created pipeline state at
position `i` and touches no other state. -/
theorem createPipelineState_returns (env : Env) (settings : ContentSettings)
    (renderSolution : DX12RenderSolution) (renderSubpass : DX12RenderSubpass)
    (subpassData : ShaderSubpassData) (subpass : DX12ShaderSubpassData) (i vertID : Nat) :
    Returns (createPipelineState env settings renderSolution renderSubpass subpassData subpass
        i vertID)
      (fun s1 => i < subpass.mStates.length ∧ s1.mTextures = subpass.mTextures ∧
        ∃ object, s1.mStates = subpass.mStates.set i ⟨some object⟩) := by
  unfold createPipelineState
  simp only [bind_eq, pure_eq]
  refine returns_bind_of (returns_vectorIndex _ _) (fun st hst => ?_)
  have hi : i < subpass.mStates.length := by
    by_contra hge
    rw [List.getElem?_eq_none (by omega)] at hst
    cases hst
  repeat' first
    | exact returns_fail _
    | exact returns_pure ⟨hi, rfl, _, rfl⟩
    | apply returns_bind
    | intro _
    | split

/-- The vertex-layout loop, started at position `i` with `n` layouts left:
the states from `i` to `i + n` are created, the states below `i` are kept. -/
theorem createPipelineStates_returns (env : Env) (settings : ContentSettings)
    (renderSolution : DX12RenderSolution) (renderSubpass : DX12RenderSubpass)
    (subpassData : ShaderSubpassData) (vertIDs : List Nat) (i : Nat)
    (subpass : DX12ShaderSubpassData) :
    Returns (createPipelineStates env settings renderSolution renderSubpass subpassData vertIDs
        i subpass)
      (fun s1 => s1.mTextures = subpass.mTextures ∧
        s1.mStates.length = subpass.mStates.length ∧
        (vertIDs ≠ [] → i + vertIDs.length ≤ subpass.mStates.length) ∧
        ∀ k st, s1.mStates[k]? = some st →
          (i ≤ k → k < i + vertIDs.length → st.mObject.isSome = true) ∧
          (k < i → subpass.mStates[k]? = some st)) := by
  induction vertIDs generalizing i subpass with
  | nil =>
    unfold createPipelineStates
    refine returns_pure ⟨rfl, rfl, fun h => absurd rfl h, fun k st hk => ⟨?_, fun _ => hk⟩⟩
    intro h1 h2
    simp at h2
    omega
  | cons vertID vertIDs ih =>
    unfold createPipelineStates
    refine returns_bind_of (createPipelineState_returns _ _ _ _ _ _ _ _) ?_
    rintro s0 ⟨hi, htex, object, hstates⟩
    refine returns_mono (ih (i + 1) s0) ?_
    rintro s1 ⟨h1, h2, h3, h4⟩
    have hlen0 : s0.mStates.length = subpass.mStates.length := by
      rw [hstates, List.length_set]
    refine ⟨h1.trans htex, h2.trans hlen0, fun _ => ?_, fun k st hk => ⟨?_, ?_⟩⟩
    · cases hv : vertIDs with
      | nil => simp; omega
      | cons v vs =>
        have := h3 (by simp [hv])
        rw [hlen0, hv] at this
        simp only [List.length_cons] at this ⊢
        omega
    · intro hik hki
      by_cases heq : k = i
      · subst heq
        have := (h4 k st hk).2 (by omega)
        rw [hstates, List.getElem?_set_self hi] at this
        cases this
        rfl
      · exact (h4 k st hk).1 (by omega) (by simp only [List.length_cons] at hki; omega)
    · intro hki
      have := (h4 k st hk).2 (by omega)
      rw [hstates, List.getElem?_set_ne (by omega)] at this
      exact this

theorem createBlob_returns (env : Env) (program : ByteBuffer) :
    Returns (createBlob env program) (fun _ => True) :=
  ⟨fun _ _ _ _ => trivial⟩

/-- The function `createShaderResources` turns a resized subpass into a built
one. -/
theorem createShaderResources_built (env : Env) (settings : ContentSettings)
    (renderSolution : DX12RenderSolution) (renderSubpass : DX12RenderSubpass)
    (subpass : DX12ShaderSubpassData) (subpassData : ShaderSubpassData)
    (h : SubpassResized subpass subpassData) :
    Returns (createShaderResources env settings renderSolution renderSubpass subpass
      subpassData) (fun s1 => SubpassBuilt s1 subpassData) := by
  unfold createShaderResources
  simp only [bind_eq, pure_eq]
  refine returns_bind (fun ps => returns_bind (fun vs => returns_bind (fun _ => ?_)))
  refine returns_bind_of (createPipelineStates_returns _ _ _ _ _ _ _ _) ?_
  rintro s1 ⟨h1, h2, _, h4⟩
  have hs : subpass.mStates = List.replicate subpassData.mVertexLayouts.length ⟨none⟩ := h
  simp only [hs, List.length_replicate] at h2
  refine returns_bind (fun _ => returns_pure ⟨h1, h2, ?_⟩)
  · intro state hstate
    obtain ⟨k, hk, hget⟩ := List.mem_iff_getElem.1 hstate
    have hk2 : k < subpassData.mVertexLayouts.length := by
      rw [h2] at hk
      exact hk
    exact (h4 k state (by rw [List.getElem?_eq_getElem hk, hget])).1 (Nat.zero_le _)
      (by omega)

theorem createResourcesSolution_built (env : Env) (settings : ContentSettings)
    (renderGraph : DX12RenderWorks) (solution : DX12ShaderSolutionData)
    (solutionData : Name × ShaderSolutionData)
    (h : MirrorSolution SubpassResized solution solutionData) :
    Returns (createResourcesSolution env settings renderGraph solution solutionData)
      (fun s => MirrorSolution SubpassBuilt s solutionData) := by
  have hpass : ∀ renderSolution renderSubpass variant variantData,
      MirrorPass SubpassResized variant variantData →
      Returns (createResourcesPass env settings renderSolution renderSubpass variant variantData)
        (fun v => MirrorPass SubpassBuilt v variantData) := by
    intro renderSolution renderSubpass variant variantData hv
    unfold createResourcesPass
    simp only [bind_eq, pure_eq]
    exact returns_bind_of (returns_forEachCombine
      (fun x y hxy => createShaderResources_built env settings renderSolution renderSubpass
        x y hxy) _ _ hv) (fun _ hs => returns_pure hs)
  have hlevel : ∀ renderSolution renderSubpass level levelData,
      MirrorLevel SubpassResized level levelData →
      Returns (createResourcesLevel env settings renderSolution renderSubpass level levelData)
        (fun l => MirrorLevel SubpassBuilt l levelData) := by
    intro renderSolution renderSubpass level levelData hl
    unfold createResourcesLevel
    simp only [bind_eq, pure_eq]
    exact returns_bind_of (returns_forEachCombine
      (fun x y hxy => hpass renderSolution renderSubpass x y hxy) _ _ hl)
      (fun _ hs => returns_pure hs)
  have hqueue : ∀ renderSolution renderPipeline queue queueData,
      MirrorQueue SubpassResized queue queueData →
      Returns (createResourcesQueue env settings renderSolution renderPipeline queue queueData)
        (fun q => MirrorQueue SubpassBuilt q queueData) := by
    intro renderSolution renderPipeline queue queueData hq
    unfold createResourcesQueue
    simp only [bind_eq, pure_eq]
    refine returns_bind (fun _ => returns_bind (fun _ => returns_bind (fun renderSubpass => ?_)))
    exact returns_bind_of (returns_forEachCombine
      (fun x y hxy => hlevel renderSolution renderSubpass x y hxy) _ _ hq)
      (fun _ hs => returns_pure hs)
  have hpipeline : ∀ renderSolution pipeline pipelineData,
      MirrorPipeline SubpassResized pipeline pipelineData →
      Returns (createResourcesPipeline env settings renderSolution pipeline pipelineData)
        (fun p => MirrorPipeline SubpassBuilt p pipelineData) := by
    intro renderSolution pipeline pipelineData hp
    unfold createResourcesPipeline
    simp only [bind_eq, pure_eq]
    refine returns_bind (fun _ => returns_bind (fun renderPipeline => ?_))
    exact returns_bind_of (returns_forEachCombine
      (fun x y hxy => hqueue renderSolution renderPipeline x y hxy) _ _ hp)
      (fun _ hs => returns_pure hs)
  unfold createResourcesSolution
  simp only [bind_eq, pure_eq]
  refine returns_bind (fun _ => returns_bind (fun renderSolution => ?_))
  exact returns_bind_of (returns_forEachCombine
    (fun x y hxy => hpipeline renderSolution x y hxy) _ _ h)
    (fun _ hs => returns_pure hs)

/-- The synchronous shader modifier, applied to an entry without solutions,
loads the baked shader and returns a tree that mirrors it, every subpass
built. -/
theorem modifyShader_mirrors (env : Env) (rg : DX12RenderGraphData) (metaID : MetaID)
    (shader0 : DX12ShaderData) (hempty : shader0.mSolutions = []) :
    Returns (modifyShader env rg metaID false shader0)
      (fun s => ∃ shaderData, env.shaders metaID = some shaderData ∧
        s.mShaderData.mData = some shaderData ∧ Mirrors SubpassBuilt s shaderData) := by
  unfold modifyShader
  simp only [bind_eq, pure_eq, Bool.not_false, ↓reduceIte]
  refine returns_bind (fun _ => ?_)
  cases hasset : env.shaders metaID with
  | none =>
    simp only [AssetHandle.reset, Bool.false_eq_true, ↓reduceIte, hasset]
    exact returns_fail _
  | some shaderData =>
    simp only [AssetHandle.reset, Bool.false_eq_true, ↓reduceIte, hasset]
    unfold reserveIndex
    have hci := returns_and
      (createIndex_metaID (resizeData { shader0 with mShaderData := ⟨metaID, some shaderData⟩ }
        shaderData) shaderData rg.mRenderGraph)
      (createIndex_mirrors (S := SubpassResized) _ shaderData rg.mRenderGraph
        (resizeData_mirrors { shader0 with mShaderData := ⟨metaID, some shaderData⟩ }
          shaderData hempty))
    refine returns_bind_of hci ?_
    rintro prototype ⟨⟨_, hdata⟩, hmirror⟩
    refine returns_bind (fun _ => returns_bind (fun resources => ?_))
    exact returns_bind_of (returns_forEachCombine
      (fun x y hxy => createResourcesSolution_built env resources.mSettings _ x y hxy)
      _ _ hmirror)
      (fun solutions hs => returns_pure ⟨shaderData, rfl, by rw [hdata]; rfl, hs⟩)

theorem forall₂_map_eq {α δ σ : Type} {R : α → δ → Prop} (f : α → σ) (g : δ → σ)
    (hfg : ∀ x y, R x y → f x = g y) {xs : List α} {ys : List δ} (h : List.Forall₂ R xs ys) :
    xs.map f = ys.map g := by
  induction h with
  | nil => rfl
  | cons hxy _ ih => simp [hfg _ _ hxy, ih]

/-- A tree that mirrors the baked shader has its child counts at every
level. -/
theorem Mirrors_shape {S : DX12ShaderSubpassData → ShaderSubpassData → Prop}
    (shader : DX12ShaderData) (shaderData : ShaderData) (h : Mirrors S shader shaderData) :
    shader.shape = shaderData.shape := by
  unfold DX12ShaderData.shape ShaderData.shape
  refine forall₂_map_eq _ _ (fun s sd hs => ?_) h
  refine forall₂_map_eq _ _ (fun p pd hp => ?_) hs
  refine forall₂_map_eq _ _ (fun q qd hq => ?_) hp
  refine forall₂_map_eq _ _ (fun l ld hl => ?_) hq
  refine forall₂_map_eq _ _ (fun v vd hv => ?_) hl
  exact List.Forall₂.length_eq hv

/-- The synchronous creation of a shader, seen from the function: the new
entry holds the baked shader and a tree that mirrors it, every subpass
built. -/
theorem try_createDX12ShaderData_mirrors (env : Env) (rg : DX12RenderGraphData)
    (metaID : MetaID) (w w1 : World) (r : Ptr × Bool)
    (hfresh : Cache.find w.mResources.mShaders metaID = none)
    (h : try_createDX12ShaderData env rg metaID false w = Res.ok r w1) :
    ∃ shaderData shader, env.shaders metaID = some shaderData ∧
      r = (w.mResources.mShaders.length, true) ∧
      w1.mResources.mShaders[r.1]? = some shader ∧
      shader.mShaderData.mData = some shaderData ∧
      Mirrors SubpassBuilt shader shaderData := by
  rw [try_createDX12ShaderData_fresh _ _ _ _ _ hfresh] at h
  split at h
  · rename_i shader w2 hm
    simp only [Res.ok.injEq] at h
    obtain ⟨hr, hw1⟩ := h
    obtain ⟨shaderData, hasset, hdata, hmirror⟩ :=
      (modifyShader_mirrors env rg metaID (CacheEntry.create metaID) rfl).returns _ _ _ hm
    have hk := (keeps_of_ok (modifyShader_keeps _ _ _ _ _) hm).1.2.2.1 (by simp)
    refine ⟨shaderData, shader, hasset, hr.symm, ?_, hdata, hmirror⟩
    rw [← hw1, ← hr]
    simp only at hk
    simp [hk, Cache.modify]
  · cases h

theorem vectorAt_eq_ok {α : Type} {v : List α} {i : Nat} {w w1 : World} {a : α}
    (h : vectorAt v i w = Res.ok a w1) : v[i]? = some a ∧ w1 = w := by
  unfold vectorAt at h
  cases hv : v[i]? with
  | none => simp [hv, M.fail] at h
  | some b =>
    simp only [hv, M.pure, Res.ok.injEq] at h
    exact ⟨by rw [h.1], h.2.symm⟩

theorem returns_mapAt {κ ν : Type} [DecidableEq κ] (map : List (κ × ν)) (key : κ) :
    Returns (mapAt map key) (fun a => ∃ e, map.find? (fun e => e.1 = key) = some e ∧ e.2 = a) :=
  ⟨fun _ _ _ hok => (mapAt_eq_ok hok).1⟩

theorem returns_vectorAt {α : Type} (v : List α) (i : Nat) :
    Returns (vectorAt v i) (fun a => v[i]? = some a) :=
  ⟨fun _ _ _ hok => (vectorAt_eq_ok hok).1⟩

/-- Distinct positions below a bound are no more than the bound. -/
theorem length_le_of_nodup_lt (keys : List Nat) (n : Nat) (hnodup : keys.Nodup)
    (hlt : ∀ k ∈ keys, k < n) : keys.length ≤ n := by
  have hsub : keys ⊆ List.range n := fun k hk => List.mem_range.mpr (hlt k hk)
  simpa using (List.subperm_of_subset hnodup hsub).length_le

/-- Distinct values of an index are no more than its entries. -/
theorem length_le_of_nodup_mem {κ ρ : Type} (keys : List ρ) (index : List (κ × ρ))
    (hnodup : keys.Nodup) (hmem : ∀ k ∈ keys, k ∈ index.map Prod.snd) :
    keys.length ≤ index.length := by
  simpa using (List.subperm_of_subset hnodup hmem).length_le

theorem try_emplace_keys {κ ν : Type} [DecidableEq κ] (flatmap : List (κ × ν)) (key : κ)
    (value : ν) (hnodup : (flatmap.map Prod.fst).Nodup) :
    ((try_emplace flatmap key value).map Prod.fst).Nodup ∧
    ∀ k ∈ (try_emplace flatmap key value).map Prod.fst, k ∈ flatmap.map Prod.fst ∨ k = key := by
  unfold try_emplace
  split
  · exact ⟨hnodup, fun k hk => Or.inl hk⟩
  · rename_i hany
    refine ⟨?_, ?_⟩
    · rw [List.map_append, List.nodup_append]
      refine ⟨hnodup, by simp, ?_⟩
      intro a ha hb
      simp only [List.map_cons, List.map_nil, List.mem_singleton] at hb
      simp only [List.any_eq_true, decide_eq_true_eq, not_exists, not_and] at hany
      obtain ⟨e, he, hea⟩ := List.mem_map.mp ha
      exact hany e he (by rw [hea, hb])
    · intro k hk
      simp only [List.map_append, List.map_cons, List.map_nil, List.mem_append,
        List.mem_singleton] at hk
      exact hk

/-- The keys that the index loop leaves are distinct, and each is an old key
or the position that the render index gives to one of the names. -/
theorem emplaceIndexLoop_keys {ρ δ : Type} [DecidableEq ρ] (renderIndex : List (Name × ρ))
    (index : List (Name × δ)) (i : Nat) (flatmap : List (ρ × Nat))
    (hnodup : (flatmap.map Prod.fst).Nodup) :
    Returns (emplaceIndexLoop renderIndex index i flatmap)
      (fun fm => (fm.map Prod.fst).Nodup ∧ ∀ k ∈ fm.map Prod.fst,
        k ∈ flatmap.map Prod.fst ∨
        ∃ v ∈ index, ∃ e, renderIndex.find? (fun e => e.1 = v.1) = some e ∧ e.2 = k) := by
  induction index generalizing i flatmap with
  | nil =>
    unfold emplaceIndexLoop
    exact returns_pure ⟨hnodup, fun k hk => Or.inl hk⟩
  | cons v vs ih =>
    unfold emplaceIndexLoop
    refine returns_bind_of (returns_mapAt renderIndex v.1) ?_
    rintro renderID ⟨e, hfind, he⟩
    obtain ⟨hn, hkeys⟩ := try_emplace_keys flatmap renderID i hnodup
    refine returns_mono (ih (i + 1) _ hn) ?_
    rintro fm ⟨hfmn, hfm⟩
    refine ⟨hfmn, fun k hk => ?_⟩
    rcases hfm k hk with h | ⟨v1, hv1, h⟩
    · rcases hkeys k h with h | h
      · exact Or.inl h
      · exact Or.inr ⟨v, List.mem_cons_self _ _, e, hfind, by rw [he, h]⟩
    · exact Or.inr ⟨v1, List.mem_cons_of_mem _ hv1, h⟩

/-- An index built from nothing has one key per name, the keys are distinct,
and each is the position that the render index gives to one of the names. -/
theorem emplaceIndex_keys {ρ δ : Type} [DecidableEq ρ] (index : List (Name × δ))
    (renderIndex : List (Name × ρ)) :
    Returns (emplaceIndex [] index renderIndex)
      (fun fm => fm.length = index.length ∧ (fm.map Prod.fst).Nodup ∧ ∀ k ∈ fm.map Prod.fst,
        ∃ v ∈ index, ∃ e, renderIndex.find? (fun e => e.1 = v.1) = some e ∧ e.2 = k) := by
  unfold emplaceIndex
  simp only [bind_eq, pure_eq]
  refine returns_bind_of (emplaceIndexLoop_keys renderIndex index 0 [] (by simp)) ?_
  rintro fm ⟨hn, hk⟩
  refine returns_bind_of (returns_Expects _) (fun _ hlen => returns_pure ⟨?_, hn, ?_⟩)
  · simpa using hlen
  · intro k hkm
    rcases hk k hkm with h | h
    · simp at h
    · exact h

theorem forall₂_right {α δ : Type} {P : δ → Prop} {xs : List α} {ys : List δ}
    (h : List.Forall₂ (fun _ y => P y) xs ys) : ∀ y ∈ ys, P y := by
  induction h with
  | nil => intro y hy; cases hy
  | cons hxy _ ih =>
    intro y hy
    rcases List.mem_cons.mp hy with rfl | hy1
    · exact hxy
    · exact ih y hy1

/-- What the body of the zip loop establishes about each baked element holds
of all of them when the loop returns. -/
theorem returns_forEachCombine_each {α δ : Type} {f : α → δ → M α} {S : α → δ → Prop}
    {P : δ → Prop} (hf : ∀ x y, S x y → Returns (f x y) (fun _ => P y)) (xs : List α)
    (ys : List δ) (h : List.Forall₂ S xs ys) :
    Returns (forEachCombine f xs ys) (fun _ => ∀ y ∈ ys, P y) := by
  exact returns_mono (returns_forEachCombine (U := fun _ y => P y) hf xs ys h)
    (fun _ hall => forall₂_right hall)

/-- When the index of a pipeline node is built from nothing, the baked
pipeline is found in the template solution and fits the pipeline found. -/
theorem createIndexPipeline_fits (renderSolution : DX12RenderSolution)
    (pipeline : DX12ShaderPipelineData) (pipelineData : Name × ShaderPipelineData)
    (h : PipelineUnindexed pipeline pipelineData) :
    Returns (createIndexPipeline renderSolution pipeline pipelineData)
      (fun _ => ∃ e renderPipeline,
        renderSolution.mPipelineIndex.find? (fun e => e.1 = pipelineData.1) = some e ∧
        renderSolution.mPipelines[e.2]? = some renderPipeline ∧
        FitsPipeline renderPipeline pipelineData) := by
  have hq : pipeline.mQueueIndex = [] := h
  unfold createIndexPipeline
  simp only [bind_eq, pure_eq, hq]
  refine returns_bind_of (returns_mapAt _ _) ?_
  rintro renderID ⟨e, hfind, he⟩
  refine returns_bind_of (returns_vectorAt _ _) (fun renderPipeline hrp => ?_)
  refine returns_bind (fun _ => ?_)
  refine returns_bind_of (emplaceIndex_keys _ _) ?_
  rintro queueIndex ⟨hlen, hn, hk⟩
  refine returns_bind (fun _ => returns_bind (fun _ => returns_pure ?_))
  refine ⟨e, renderPipeline, hfind, by rw [he]; exact hrp, ?_⟩
  unfold FitsPipeline
  rw [← hlen, ← List.length_map queueIndex Prod.fst]
  refine length_le_of_nodup_mem _ _ hn (fun k hkm => ?_)
  obtain ⟨v, _, e1, hf1, he1⟩ := hk k hkm
  exact List.mem_map.mpr ⟨e1, List.mem_of_find?_eq_some hf1, he1⟩

/-- When the index of a solution node is built from nothing, the baked
solution is found in the template and fits the solution found. -/
theorem createIndexSolution_fits (renderGraph : DX12RenderWorks)
    (solution : DX12ShaderSolutionData) (solutionData : Name × ShaderSolutionData)
    (h : SolutionUnindexed solution solutionData) :
    Returns (createIndexSolution renderGraph solution solutionData)
      (fun _ => ∃ e renderSolution,
        renderGraph.mSolutionIndex.find? (fun e => e.1 = solutionData.1) = some e ∧
        renderGraph.mSolutions[e.2]? = some renderSolution ∧
        FitsSolution renderSolution solutionData) := by
  obtain ⟨hp, hall⟩ := h
  unfold createIndexSolution
  simp only [bind_eq, pure_eq, hp]
  refine returns_bind_of (returns_mapAt _ _) ?_
  rintro renderID ⟨e, hfind, he⟩
  refine returns_bind_of (returns_vectorAt _ _) (fun renderSolution hrs => ?_)
  refine returns_bind (fun _ => ?_)
  refine returns_bind_of (emplaceIndex_keys _ _) ?_
  rintro pipelineIndex ⟨hlen, hn, hk⟩
  refine returns_bind (fun _ => ?_)
  refine returns_bind_of (returns_forEachCombine_each
    (fun x y hxy => createIndexPipeline_fits renderSolution x y hxy) _ _ hall) ?_
  intro _ hfits
  refine returns_pure ⟨e, renderSolution, hfind, by rw [he]; exact hrs, ?_, hfits⟩
  rw [← hlen, ← List.length_map pipelineIndex Prod.fst]
  refine length_le_of_nodup_lt _ _ hn (fun k hkm => ?_)
  obtain ⟨v, hv, e1, hf1, he1⟩ := hk k hkm
  obtain ⟨e2, renderPipeline, hf2, hget, _⟩ := hfits v hv
  rw [hf1] at hf2
  cases hf2
  rw [← he1]
  exact (List.getElem?_eq_some_iff.mp hget).1

/-- When the index of a tree is built from nothing, the baked shader fits the
template. -/
theorem createIndex_fits (prototype : DX12ShaderData) (prototypeData : ShaderData)
    (renderGraph : DX12RenderWorks) (hindex : prototype.mSolutionIndex = [])
    (hall : List.Forall₂ SolutionUnindexed prototype.mSolutions prototypeData.mSolutions) :
    Returns (createIndex prototype prototypeData renderGraph)
      (fun _ => FitsTemplate renderGraph prototypeData) := by
  unfold createIndex
  simp only [bind_eq, pure_eq, hindex]
  refine returns_bind (fun _ => ?_)
  refine returns_bind_of (emplaceIndex_keys _ _) ?_
  rintro solutionIndex ⟨hlen, hn, hk⟩
  refine returns_bind (fun _ => ?_)
  refine returns_bind_of (returns_forEachCombine_each
    (fun x y hxy => createIndexSolution_fits renderGraph x y hxy) _ _ hall) ?_
  intro _ hfits
  refine returns_pure ⟨?_, hfits⟩
  rw [← hlen, ← List.length_map solutionIndex Prod.fst]
  refine length_le_of_nodup_lt _ _ hn (fun k hkm => ?_)
  obtain ⟨v, hv, e1, hf1, he1⟩ := hk k hkm
  obtain ⟨e2, renderSolution, hf2, hget, _⟩ := hfits v hv
  rw [hf1] at hf2
  cases hf2
  rw [← he1]
  exact (List.getElem?_eq_some_iff.mp hget).1

/-- The tree that `resizeData` builds in an entry without solutions has no
index at any node. -/
theorem resizeData_unindexed (prototype : DX12ShaderData) (prototypeData : ShaderData)
    (hempty : prototype.mSolutions = []) :
    List.Forall₂ SolutionUnindexed (resizeData prototype prototypeData).mSolutions
      prototypeData.mSolutions := by
  unfold resizeData
  simp only [hempty, List.nil_append]
  refine forall₂_map_self _ _ (fun sd _ => ⟨rfl, ?_⟩)
  exact forall₂_map_self _ _ (fun pd _ => rfl)

/-- The synchronous modifier of a shader entry that has no solutions and no
solution index returns only when the baked shader fits the template. -/
theorem modifyShader_fits (env : Env) (rg : DX12RenderGraphData) (metaID : MetaID)
    (shader0 : DX12ShaderData) (hempty : shader0.mSolutions = [])
    (hindex : shader0.mSolutionIndex = []) :
    Returns (modifyShader env rg metaID false shader0)
      (fun _ => ∃ shaderData, env.shaders metaID = some shaderData ∧
        FitsTemplate rg.mRenderGraph shaderData) := by
  unfold modifyShader
  simp only [bind_eq, pure_eq, Bool.not_false, ↓reduceIte]
  refine returns_bind (fun _ => ?_)
  cases hasset : env.shaders metaID with
  | none =>
    simp only [AssetHandle.reset, Bool.false_eq_true, ↓reduceIte, hasset]
    exact returns_fail _
  | some shaderData =>
    simp only [AssetHandle.reset, Bool.false_eq_true, ↓reduceIte, hasset]
    unfold reserveIndex
    refine returns_bind_of (createIndex_fits
      (resizeData { shader0 with mShaderData := ⟨metaID, some shaderData⟩ } shaderData)
      shaderData rg.mRenderGraph hindex
      (resizeData_unindexed { shader0 with mShaderData := ⟨metaID, some shaderData⟩ }
        shaderData hempty)) ?_
    intro _ hfits
    exact returns_bind (fun _ => returns_bind (fun _ => returns_bind (fun _ =>
      returns_pure ⟨shaderData, rfl, hfits⟩)))

/-! ## The variant tree and the template -/

/-- C10 (amended): when the synchronous materialization of a shader that has
no entry yet returns, the variant tree of the new entry has, at every one of
its six levels, as many children as the baked shader (not as the template),
and the baked shader fits the template: it has no more solutions than the
template, each of its solutions is found by name in the template and has no
more pipelines than the solution found, and each of its pipelines is found by
name there and has no more queues than the pipeline found has named
subpasses. -/
theorem C10_variant_tree_counts_are_those_of_the_baked_shader (env : Env)
    (rg : DX12RenderGraphData) (metaID : MetaID) (w w1 : World) (r : Ptr × Bool)
    (hfresh : Cache.find w.mResources.mShaders metaID = none)
    (h : try_createDX12ShaderData env rg metaID false w = Res.ok r w1) :
    ∃ shaderData shader, env.shaders metaID = some shaderData ∧
      w1.mResources.mShaders[r.1]? = some shader ∧
      shader.mShaderData.mData = some shaderData ∧
      shader.shape = shaderData.shape ∧
      shader.mSolutions.length = shaderData.mSolutions.length ∧
      FitsTemplate rg.mRenderGraph shaderData := by
  obtain ⟨shaderData, shader, hasset, _, hget, hdata, hmirror⟩ :=
    try_createDX12ShaderData_mirrors env rg metaID w w1 r hfresh h
  refine ⟨shaderData, shader, hasset, hget, hdata, Mirrors_shape _ _ hmirror,
    List.Forall₂.length_eq hmirror, ?_⟩
  rw [try_createDX12ShaderData_fresh _ _ _ _ _ hfresh] at h
  split at h
  · rename_i shader1 w2 hm
    obtain ⟨shaderData1, hasset1, hfits⟩ :=
      (modifyShader_fits env rg metaID (CacheEntry.create metaID) rfl rfl).returns _ _ _ hm
    rw [hasset] at hasset1
    cases hasset1
    exact hfits
  · cases h

/-- C10 (amended) at the scenario: shader 20 is built synchronously against
render graph 7. -/
theorem C10_variant_tree_counts_are_those_of_the_baked_shader_witness :
    ∃ shaderData shader, exampleEnv.shaders 20 = some shaderData ∧
      exampleShaderWorld.mResources.mShaders[(0, true).1]? = some shader ∧
      shader.mShaderData.mData = some shaderData ∧
      shader.shape = shaderData.shape ∧
      shader.mSolutions.length = shaderData.mSolutions.length ∧
      FitsTemplate exampleRenderGraphEntry.mRenderGraph shaderData :=
  C10_variant_tree_counts_are_those_of_the_baked_shader exampleEnv exampleRenderGraphEntry 20
    exampleRenderGraphWorld exampleShaderWorld (0, true) (by decide!) (by decide!)

/-- C10 (counterexample): render graph 7 is built from its baked data and has
two solutions, each with one pipeline of one pass of one subpass. Shader 20 is
then built synchronously against it, and the call returns. The variant tree
has one solution, not two, and its pass has two subpasses where the pass of
the template has one. -/
theorem C10_variant_tree_counts_differ_from_the_template :
    try_createDX12 exampleContext exampleEnv 7 ResourceType.RenderGraph_ false initialWorld =
      Res.ok true exampleRenderGraphWorld ∧
    exampleRenderGraphWorld.mResources.mRenderGraphs = [exampleRenderGraphEntry] ∧
    try_createDX12ShaderData exampleEnv exampleRenderGraphEntry 20 false
        exampleRenderGraphWorld = Res.ok (0, true) exampleShaderWorld ∧
    exampleRenderGraphEntry.mRenderGraph.mSolutions.length = 2 ∧
    exampleShaderWorld.mResources.mShaders.map (fun shader => shader.mSolutions.length) = [1] ∧
    exampleRenderGraphEntry.mRenderGraph.shape = [[[1]], [[1]]] ∧
    exampleShaderWorld.mResources.mShaders.map DX12ShaderData.shape = [[[[[[2]]]]]] := by
  decide!

/-! ## Residency of a created entry -/

/-- The loop relates every result to its element when its body does. -/
theorem returns_forEach {α β : Type} {f : α → M β} {S : β → α → Prop}
    (hf : ∀ x, Returns (f x) (fun y => S y x)) (xs : List α) :
    Returns (forEach f xs) (fun ys => List.Forall₂ S ys xs) := by
  induction xs with
  | nil => unfold forEach; exact returns_pure List.Forall₂.nil
  | cons x xs ih =>
    unfold forEach
    exact returns_bind_of (hf x) (fun y hy =>
      returns_bind_of ih (fun ys hys => returns_pure (List.Forall₂.cons hy hys)))

theorem forall₂_length {α δ : Type} {xs : List α} {ys : List δ}
    (h : List.Forall₂ (fun _ _ => True) xs ys) : xs.length = ys.length :=
  List.Forall₂.length_eq h

/-- The loop returns one result per element. -/
theorem returns_forEach_length {α β : Type} (f : α → M β) (xs : List α) :
    Returns (forEach f xs) (fun ys => ys.length = xs.length) :=
  returns_mono (returns_forEach (S := fun _ _ => True) (fun _ => ⟨fun _ _ _ _ => trivial⟩) xs)
    (fun _ h => List.Forall₂.length_eq h)

theorem createMaterialSubpass_built (materialData : MaterialData) (material : DX12MaterialData)
    (pass : DX12ShaderSubpassData) :
    Returns (createMaterialSubpass materialData material pass)
      (fun materialPass => MaterialSubpassBuilt materialPass pass) := by
  unfold createMaterialSubpass
  simp only [bind_eq, pure_eq]
  split
  · rename_i hempty
    refine returns_pure ?_
    unfold MaterialSubpassBuilt
    have : pass.mTextures = [] := by simpa using hempty
    simp [this]
  · exact returns_bind (fun _ => returns_bind (fun _ => returns_bind (fun _ =>
      returns_pure rfl)))

theorem createMaterialSolution_built (materialData : MaterialData) (material : DX12MaterialData)
    (solution : DX12ShaderSolutionData) :
    Returns (createMaterialSolution materialData material solution)
      (fun materialSolution => MaterialMirrorSolution materialSolution solution) := by
  unfold createMaterialSolution
  simp only [bind_eq, pure_eq]
  refine returns_bind_of (returns_forEach (S := MaterialMirrorPipeline) (fun pipeline => ?_) _)
    (fun _ h => returns_pure h)
  unfold createMaterialPipeline
  simp only [bind_eq, pure_eq]
  refine returns_bind_of (returns_forEach (S := MaterialMirrorQueue) (fun queue => ?_) _)
    (fun _ h => returns_pure h)
  unfold createMaterialQueue
  simp only [bind_eq, pure_eq]
  refine returns_bind_of (returns_forEach (S := MaterialMirrorLevel) (fun level => ?_) _)
    (fun _ h => returns_pure h)
  unfold createMaterialLevel
  simp only [bind_eq, pure_eq]
  refine returns_bind_of (returns_forEach (S := MaterialMirrorPass) (fun variant => ?_) _)
    (fun _ h => returns_pure h)
  unfold createMaterialPass
  simp only [bind_eq, pure_eq]
  exact returns_bind_of (returns_forEach
    (fun pass => createMaterialSubpass_built materialData material pass) _)
    (fun _ h => returns_pure h)

/-- The synchronous modifier of a material entry without a tree returns an
entry that is built in the caches it leaves, and leaves the material cache
as it was. -/
theorem modifyMaterial_built (env : Env) (rg : DX12RenderGraphData) (metaID : MetaID)
    (material0 : DX12MaterialData) (hempty : material0.mShaderData = [])
    (w w1 : World) (material : DX12MaterialData)
    (h : modifyMaterial env rg metaID false material0 w = Res.ok material w1) :
    material.Built w1.mResources ∧
      w1.mResources.mMaterials = w.mResources.mMaterials := by
  have hkeep := (keeps_of_ok (modifyMaterial_keeps env rg metaID false material0) h).1
  refine ⟨?_, hkeep.2.2.2.1 (by simp)⟩
  unfold modifyMaterial at h
  simp only [bind_eq, pure_eq] at h
  obtain ⟨_, wa, ha, h⟩ := bind_eq_ok h
  cases hasset : env.materials metaID with
  | none => simp [AssetHandle.reset, hasset, M.fail] at h
  | some materialData =>
    simp only [Bool.not_false, ↓reduceIte, AssetHandle.reset, Bool.false_eq_true, hasset] at h
    obtain ⟨shaderID, wb, hb, h⟩ := bind_eq_ok h
    obtain ⟨shader, wc, hc, h⟩ := bind_eq_ok h
    obtain ⟨textures, wd, hd, h⟩ := bind_eq_ok h
    obtain ⟨resources, we, he, h⟩ := bind_eq_ok h
    obtain ⟨mShader, wf, hf, h⟩ := bind_eq_ok h
    obtain ⟨shaderData, wg, hgg, h⟩ := bind_eq_ok h
    simp only [M.pure, Res.ok.injEq] at h
    obtain ⟨rfl, rfl⟩ := h
    simp only [getResources, Res.ok.injEq] at he
    obtain ⟨hres, hwe⟩ := he
    obtain ⟨hsh, hwf⟩ := vectorIndex_eq_ok hf
    rw [hwf, ← hwe] at hgg
    rw [← hres] at hsh
    have hk := (keeps_of_ok (keeps_forEach _ mShader.mSolutions
      (fun solution => createMaterialSolution_keeps materialData _ solution)) hgg).1
    have hlen := (returns_forEach_length _ _).returns _ _ _ hd
    have htree := (returns_forEach
      (fun solution => createMaterialSolution_built materialData _ solution) _).returns _ _ _ hgg
    refine ⟨materialData, shader.1, mShader, rfl, rfl, ?_, rfl, ?_, ?_⟩
    · rw [hk.2.2.1 (by simp)]
      exact hsh
    · simpa using hlen
    · simpa [hempty] using htree

theorem try_createDX12MaterialData_built (env : Env) (rg : DX12RenderGraphData)
    (metaID : MetaID) (w w1 : World) (r : Ptr × Bool)
    (hfresh : Cache.find w.mResources.mMaterials metaID = none)
    (h : try_createDX12MaterialData env rg metaID false w = Res.ok r w1) :
    ∃ material, w1.mResources.mMaterials[r.1]? = some material ∧
      material.Built w1.mResources := by
  rw [try_createDX12MaterialData_fresh _ _ _ _ _ hfresh] at h
  split at h
  · rename_i material w2 hm
    simp only [Res.ok.injEq] at h
    obtain ⟨hr, hw1⟩ := h
    obtain ⟨hres, hk⟩ := modifyMaterial_built env rg metaID _ rfl _ _ _ hm
    refine ⟨material, ?_, ?_⟩
    · rw [← hw1, ← hr]
      simp only at hk
      simp [hk, Cache.modify]
    · rw [← hw1]
      exact hres
  · cases h

theorem createRenderSubpass_created (env : Env) (subpassData : RenderSubpassData) :
    Returns (createRenderSubpass env subpassData)
      (fun subpass => RenderSubpassCreated subpass subpassData) := by
  unfold createRenderSubpass
  simp only [bind_eq, pure_eq]
  cases hempty : subpassData.mRootSignature.empty with
  | true =>
    simp only [Bool.not_true, Bool.false_eq_true, ↓reduceIte]
    exact returns_pure ⟨by simp [hempty], rfl⟩
  | false =>
    simp only [Bool.not_false, ↓reduceIte]
    split
    · exact returns_bind (fun _ => returns_bind (fun _ =>
        returns_pure ⟨by simp [hempty], rfl⟩))
    · exact returns_fail _

theorem createRenderSolution_created (env : Env) (solutionData : RenderSolutionData) :
    Returns (createRenderSolution env solutionData)
      (fun solution => RenderMirrors RenderSubpassCreated [solution] [solutionData]) := by
  unfold createRenderSolution
  simp only [bind_eq, pure_eq]
  refine returns_bind_of (returns_forEach (S := fun (pipeline : DX12RenderPipeline)
      (pipelineData : RenderPipelineData) =>
      List.Forall₂ (fun (pass : DX12RenderPass) (passData : RenderPassData) =>
        List.Forall₂ RenderSubpassCreated pass.mSubpasses passData.mSubpasses)
        pipeline.mPasses pipelineData.mPasses) (fun pipelineData => ?_) _)
    (fun _ h => returns_pure (List.Forall₂.cons h List.Forall₂.nil))
  unfold createRenderPipeline
  simp only [bind_eq, pure_eq]
  refine returns_bind_of (returns_forEach (S := fun (pass : DX12RenderPass)
      (passData : RenderPassData) =>
      List.Forall₂ RenderSubpassCreated pass.mSubpasses passData.mSubpasses)
      (fun passData => ?_) _)
    (fun _ h => returns_pure h)
  unfold createRenderPass
  simp only [bind_eq, pure_eq]
  exact returns_bind_of (returns_forEach (fun subpassData =>
    createRenderSubpass_created env subpassData) _) (fun _ h => returns_pure h)

theorem forall₂_singleton {α δ : Type} {R : α → δ → Prop} {xs : List α} {ys : List δ}
    (h : List.Forall₂ (fun x y => List.Forall₂ R [x] [y]) xs ys) : List.Forall₂ R xs ys := by
  induction h with
  | nil => exact List.Forall₂.nil
  | cons hxy _ ih =>
    cases hxy with
    | cons hr _ => exact List.Forall₂.cons hr ih

/-- The first modifier of a render-graph entry without solutions loads the
baked render graph of the identifier and returns the template as created from
it. -/
theorem modifyRenderGraph_created (env : Env) (metaID : MetaID) (render0 : DX12RenderGraphData)
    (hempty : render0.mRenderGraph.mSolutions = []) :
    Returns (modifyRenderGraph env metaID render0)
      (fun render => ∃ renderData, env.renderGraphs metaID = some renderData ∧
        render.mRenderGraphData.mData = some renderData ∧
        render.mShaderIndex = renderData.mShaderIndex ∧
        render.mRenderGraph.mSolutionIndex = renderData.mRenderGraph.mSolutionIndex ∧
        RenderMirrors RenderSubpassCreated render.mRenderGraph.mSolutions
          renderData.mRenderGraph.mSolutions) := by
  unfold modifyRenderGraph
  simp only [bind_eq, pure_eq]
  refine returns_bind (fun _ => ?_)
  cases hasset : env.renderGraphs metaID with
  | none =>
    simp only [AssetHandle.reset, Bool.false_eq_true, ↓reduceIte, hasset]
    exact returns_fail _
  | some renderData =>
    simp only [AssetHandle.reset, Bool.false_eq_true, ↓reduceIte, hasset]
    refine returns_bind (fun _ => returns_bind (fun _ => ?_))
    refine returns_bind_of (returns_forEach
      (fun solutionData => createRenderSolution_created env solutionData) _)
      (fun solutions hs => returns_pure ⟨renderData, rfl, rfl, rfl, rfl, ?_⟩)
    simp only [hempty, List.nil_append]
    exact forall₂_singleton hs

theorem fillRenderSubpass_built (context : CreationContext) (env : Env) (async : Bool)
    (subpass : DX12RenderSubpass) (subpassData : RenderSubpassData)
    (h : RenderSubpassCreated subpass subpassData) :
    Returns (fillRenderSubpass context env async subpass subpassData)
      (fun subpass1 => RenderSubpassBuilt subpass1 subpassData) := by
  obtain ⟨hroot, hqueue⟩ := h
  unfold fillRenderSubpass
  simp only [bind_eq, pure_eq]
  refine returns_bind_of (returns_forEach (S := fun (queue : DX12UnorderedRenderQueue)
      (queueData : UnorderedRenderQueueData) =>
      queue.mContents.length = queueData.mContents.length) (fun queueData => ?_) _)
    (fun queues hq => returns_pure ⟨hroot, by simpa [hqueue] using hq⟩)
  unfold createOrderedRenderQueue
  simp only [bind_eq, pure_eq]
  exact returns_bind_of (returns_forEach_length _ _) (fun _ hlen => returns_pure hlen)

theorem fillRenderSolution_built (context : CreationContext) (env : Env) (async : Bool)
    (solution : DX12RenderSolution) (solutionData : RenderSolutionData)
    (h : RenderMirrors RenderSubpassCreated [solution] [solutionData]) :
    Returns (fillRenderSolution context env async solution solutionData)
      (fun solution1 => RenderMirrors RenderSubpassBuilt [solution1] [solutionData]) := by
  cases h with
  | cons hpipelines _ =>
  unfold fillRenderSolution
  simp only [bind_eq, pure_eq]
  refine returns_bind (fun _ => ?_)
  refine returns_bind_of (returns_forEachCombine (U := fun (pipeline : DX12RenderPipeline)
      (pipelineData : RenderPipelineData) =>
      List.Forall₂ (fun (pass : DX12RenderPass) (passData : RenderPassData) =>
        List.Forall₂ RenderSubpassBuilt pass.mSubpasses passData.mSubpasses)
        pipeline.mPasses pipelineData.mPasses) (fun pipeline pipelineData hp => ?_) _ _ hpipelines)
    (fun _ h => returns_pure (List.Forall₂.cons h List.Forall₂.nil))
  unfold fillRenderPipeline
  simp only [bind_eq, pure_eq]
  refine returns_bind (fun _ => ?_)
  refine returns_bind_of (returns_forEachCombine (U := fun (pass : DX12RenderPass)
      (passData : RenderPassData) =>
      List.Forall₂ RenderSubpassBuilt pass.mSubpasses passData.mSubpasses)
      (fun pass passData hpass => ?_) _ _ hp)
    (fun _ h => returns_pure h)
  unfold fillRenderPass
  simp only [bind_eq, pure_eq]
  refine returns_bind (fun _ => ?_)
  exact returns_bind_of (returns_forEachCombine (S := RenderSubpassCreated)
    (U := RenderSubpassBuilt)
    (fun subpass subpassData hs =>
      fillRenderSubpass_built context env async subpass subpassData hs) _ _ hpass)
    (fun _ h => returns_pure h)

theorem forall₂_of_singleton {α δ : Type} {R : α → δ → Prop} {xs : List α} {ys : List δ}
    (h : List.Forall₂ R xs ys) : List.Forall₂ (fun x y => List.Forall₂ R [x] [y]) xs ys := by
  induction h with
  | nil => exact List.Forall₂.nil
  | cons hxy _ ih => exact List.Forall₂.cons (List.Forall₂.cons hxy List.Forall₂.nil) ih

/-- The second modifier turns a created template into a built one and keeps
the indices. -/
theorem fillRenderGraph_built (context : CreationContext) (env : Env) (async : Bool)
    (render : DX12RenderGraphData) (renderData : RenderGraphData)
    (hdata : render.mRenderGraphData.mData = some renderData)
    (h : RenderMirrors RenderSubpassCreated render.mRenderGraph.mSolutions
      renderData.mRenderGraph.mSolutions) :
    Returns (fillRenderGraph context env async render)
      (fun render1 => render1.mShaderIndex = render.mShaderIndex ∧
        render1.mRenderGraph.mSolutionIndex = render.mRenderGraph.mSolutionIndex ∧
        RenderMirrors RenderSubpassBuilt render1.mRenderGraph.mSolutions
          renderData.mRenderGraph.mSolutions) := by
  unfold fillRenderGraph
  simp only [bind_eq, pure_eq, hdata]
  refine returns_bind (fun _ => ?_)
  refine returns_bind_of (returns_forEachCombine
    (S := fun solution solutionData =>
      RenderMirrors RenderSubpassCreated [solution] [solutionData])
    (U := fun solution solutionData =>
      RenderMirrors RenderSubpassBuilt [solution] [solutionData])
    (fun solution solutionData hs =>
      fillRenderSolution_built context env async solution solutionData hs) _ _
    (forall₂_of_singleton h))
    (fun solutions hs => returns_pure ⟨rfl, rfl, forall₂_singleton hs⟩)

theorem try_createDX12RenderGraphData_resident (context : CreationContext) (env : Env)
    (metaID : MetaID) (async : Bool) (w w1 : World) (r : Ptr × Bool)
    (hfresh : Cache.find w.mResources.mRenderGraphs metaID = none)
    (h : try_createDX12RenderGraphData context env metaID async w = Res.ok r w1) :
    ∃ render, w1.mResources.mRenderGraphs[r.1]? = some render ∧ render.Resident env := by
  rw [try_createDX12RenderGraphData_fresh _ _ _ _ _ hfresh] at h
  split at h
  · rename_i render w2 hm
    split at h
    · rename_i render1 w3 hfill
      simp only [Res.ok.injEq] at h
      obtain ⟨hr, hw1⟩ := h
      have hk := (keeps_of_ok (modifyRenderGraph_keeps _ _ _) hm).1.2.2.2.2.2.1 (by simp)
      have hk2 := (keeps_of_ok (fillRenderGraph_keeps _ _ _ _) hfill).1.2.2.2.2.2.1 (by simp)
      have hid := (modifyRenderGraph_metaID _ _ _).returns _ _ _ hm
      have hid2 := (fillRenderGraph_metaID _ _ _ _).returns _ _ _ hfill
      obtain ⟨renderData, hasset, hdata, hshader, hindex, hcreated⟩ :=
        (modifyRenderGraph_created env metaID _ rfl).returns _ _ _ hm
      obtain ⟨hshader1, hindex1, hbuilt⟩ :=
        (fillRenderGraph_built context env async render renderData hdata hcreated).returns
          _ _ _ hfill
      refine ⟨render1, ?_, renderData, ?_, hshader1.trans hshader, hindex1.trans hindex, hbuilt⟩
      · rw [← hw1, ← hr]
        simp only at hk hk2
        simp [hk2, hk, Cache.modify]
      · rw [hid2, hid]
        exact hasset
    · cases h
  · cases h

/-! ## The render-graph template does not depend on the flag -/

theorem agrees_pure {α : Type} {S : World → World → Prop} (a : α) :
    Agrees S (M.pure a) (M.pure a) :=
  ⟨fun wa ws ra rs wa1 ws1 hS ha hs => by
    simp only [M.pure, Res.ok.injEq] at ha hs
    exact ⟨ha.1.symm.trans hs.1, ha.2 ▸ hs.2 ▸ hS⟩⟩

theorem agrees_fail {α : Type} {S : World → World → Prop} (ma : M α) (e : Failure) :
    Agrees S ma (M.fail e) :=
  ⟨fun wa ws ra rs wa1 ws1 _ _ hs => by simp [M.fail] at hs⟩

theorem agrees_bind {α β : Type} {S : World → World → Prop} {ma ms : M α} {fa fs : α → M β}
    (hm : Agrees S ma ms) (hf : ∀ a, Agrees S (fa a) (fs a)) :
    Agrees S (M.bind ma fa) (M.bind ms fs) :=
  ⟨fun wa ws ra rs wa1 ws1 hS ha hs => by
    obtain ⟨a, wa0, ha1, ha2⟩ := bind_eq_ok ha
    obtain ⟨b, ws0, hs1, hs2⟩ := bind_eq_ok hs
    obtain ⟨hab, hS0⟩ := hm.agrees _ _ _ _ _ _ hS ha1 hs1
    subst hab
    exact (hf a).agrees _ _ _ _ _ _ hS0 ha2 hs2⟩

theorem agrees_Expects {S : World → World → Prop} (cond : Bool) :
    Agrees S (Expects cond) (Expects cond) :=
  ⟨fun wa ws ra rs wa1 ws1 hS ha hs => by
    obtain ⟨_, h1⟩ := Expects_eq_ok ha
    obtain ⟨_, h2⟩ := Expects_eq_ok hs
    exact ⟨rfl, h1 ▸ h2 ▸ hS⟩⟩

theorem agrees_forEach {α β : Type} {S : World → World → Prop} {fa fs : α → M β}
    (hf : ∀ x, Agrees S (fa x) (fs x)) (xs : List α) :
    Agrees S (forEach fa xs) (forEach fs xs) := by
  induction xs with
  | nil => unfold forEach; exact agrees_pure _
  | cons x xs ih =>
    unfold forEach
    exact agrees_bind (hf x) (fun _ => agrees_bind ih (fun _ => agrees_pure _))

theorem agrees_forEachCombine {α δ : Type} {S : World → World → Prop} {fa fs : α → δ → M α}
    (hf : ∀ x y, Agrees S (fa x y) (fs x y)) (xs : List α) (ys : List δ) :
    Agrees S (forEachCombine fa xs ys) (forEachCombine fs xs ys) := by
  induction xs generalizing ys with
  | nil => unfold forEachCombine; exact agrees_pure _
  | cons x xs ih =>
    cases ys with
    | nil => unfold forEachCombine; exact agrees_pure _
    | cons y ys =>
      unfold forEachCombine
      exact agrees_bind (hf x y) (fun _ => agrees_bind (ih ys) (fun _ => agrees_pure _))

/-- The lookup in the content cache depends on the identifiers only. -/
theorem find_of_keys (ca cs : List DX12ContentData)
    (h : ca.map (fun c => (c.mMetaID, c.mContentData.mMetaID)) =
      cs.map (fun c => (c.mMetaID, c.mContentData.mMetaID))) (metaID : MetaID) :
    Cache.find ca metaID = Cache.find cs metaID := by
  induction ca generalizing cs with
  | nil =>
    cases cs with
    | nil => rfl
    | cons c cs => simp at h
  | cons a ca ih =>
    cases cs with
    | nil => simp at h
    | cons c cs =>
      simp only [List.map_cons, List.cons.injEq, Prod.mk.injEq] at h
      have hkey : CacheEntry.metaID a = CacheEntry.metaID c := h.1.1
      simp only [Cache.find, hkey, ih cs h.2]

/-- The content alternative keeps the two content caches in step, whatever the
flags of the two requests. -/
theorem createContent_agrees (context : CreationContext) (env : Env) (metaID : MetaID) :
    Agrees SameContentKeys (createContent context env metaID true)
      (createContent context env metaID false) := by
  refine ⟨fun wa ws ra rs wa1 ws1 hS ha hs => ?_⟩
  have hfind := find_of_keys _ _ hS metaID
  cases hfa : Cache.find wa.mResources.mContents metaID with
  | some p =>
    rw [hfa] at hfind
    obtain ⟨ea, _, heqa⟩ := createContent_found context env metaID true wa p hfa
    obtain ⟨es, _, heqs⟩ := createContent_found context env metaID false ws p hfind.symm
    rw [heqa] at ha
    rw [heqs] at hs
    split at ha
    · split at hs
      · simp only [Res.ok.injEq] at ha hs
        exact ⟨ha.1.symm.trans hs.1, ha.2 ▸ hs.2 ▸ hS⟩
      · cases hs
    · cases ha
  | none =>
    rw [hfa] at hfind
    rw [createContent_async _ _ _ _ hfa] at ha
    rw [createContent_fresh _ _ _ _ _ hfind.symm] at hs
    simp only [Res.ok.injEq] at ha
    split at hs
    · rename_i content w2 hm
      simp only [Res.ok.injEq] at hs
      have hk := (keeps_of_ok (modifyContent_keeps _ _ _ _ _) hm).1.2.2.2.2.1 (by simp)
      have hr := (modifyContent_metaID _ _ _ _ _).returns _ _ _ hm
      refine ⟨ha.1.symm.trans hs.1, ?_⟩
      rw [← ha.2, ← hs.2]
      unfold SameContentKeys at hS ⊢
      have hlen : wa.mResources.mContents.length = ws.mResources.mContents.length := by
        simpa using congrArg List.length hS
      simp only at hk
      simp only [afterReserve, withReservedEntry, hk, Cache.modify, List.map_append,
        List.map_cons, List.map_nil, List.map_set, hS]
      rw [← List.length_map ws.mResources.mContents
        (fun c => (c.mMetaID, c.mContentData.mMetaID))]
      simp [hr.1, hr.2, AssetHandle.reset, CacheEntry.create]
    · cases hs

theorem createQueueContent_agrees (context : CreationContext) (env : Env) (contentID : MetaID) :
    Agrees SameContentKeys (createQueueContent context env true contentID)
      (createQueueContent context env false contentID) := by
  unfold createQueueContent
  simp only [bind_eq, pure_eq]
  have hcontent : Agrees SameContentKeys (try_createDX12Content context env contentID true)
      (try_createDX12Content context env contentID false) := by
    unfold try_createDX12Content
    split
    · exact agrees_fail _ _
    · exact createContent_agrees context env contentID
  refine agrees_bind hcontent (fun _ => ?_)
  refine ⟨fun wa ws ra rs wa1 ws1 hS ha hs => ?_⟩
  have hfind := find_of_keys _ _ hS contentID
  simp only [M.bind, getResources] at ha hs
  rw [← hfind] at hs
  cases hf : Cache.find wa.mResources.mContents contentID with
  | none => simp [hf, M.fail] at ha
  | some p =>
    simp only [hf, M.pure, Res.ok.injEq] at ha hs
    exact ⟨ha.1.symm.trans hs.1, ha.2 ▸ hs.2 ▸ hS⟩

/-- The second modifier returns the same template for both flags. -/
theorem fillRenderGraph_agrees (context : CreationContext) (env : Env)
    (render : DX12RenderGraphData) :
    Agrees SameContentKeys (fillRenderGraph context env true render)
      (fillRenderGraph context env false render) := by
  unfold fillRenderGraph
  simp only [bind_eq, pure_eq]
  split
  · exact agrees_fail _ _
  · refine agrees_bind (agrees_Expects _) (fun _ => ?_)
    refine agrees_bind (agrees_forEachCombine (fun solution solutionData => ?_) _ _)
      (fun _ => agrees_pure _)
    unfold fillRenderSolution
    simp only [bind_eq, pure_eq]
    refine agrees_bind (agrees_Expects _) (fun _ => ?_)
    refine agrees_bind (agrees_forEachCombine (fun pipeline pipelineData => ?_) _ _)
      (fun _ => agrees_pure _)
    unfold fillRenderPipeline
    simp only [bind_eq, pure_eq]
    refine agrees_bind (agrees_Expects _) (fun _ => ?_)
    refine agrees_bind (agrees_forEachCombine (fun pass passData => ?_) _ _)
      (fun _ => agrees_pure _)
    unfold fillRenderPass
    simp only [bind_eq, pure_eq]
    refine agrees_bind (agrees_Expects _) (fun _ => ?_)
    refine agrees_bind (agrees_forEachCombine (fun subpass subpassData => ?_) _ _)
      (fun _ => agrees_pure _)
    unfold fillRenderSubpass
    simp only [bind_eq, pure_eq]
    refine agrees_bind (agrees_forEach (fun queueData => ?_) _) (fun _ => agrees_pure _)
    unfold createOrderedRenderQueue
    simp only [bind_eq, pure_eq]
    exact agrees_bind (agrees_forEach (fun contentID =>
      createQueueContent_agrees context env contentID) _) (fun _ => agrees_pure _)

/-- C11: the materialization of a render graph that is not cached yet loads
the baked description synchronously whatever the flag. With either flag, when
the call returns the template of the new entry is built from the baked
description of the identifier: the shader index and the solution index are
the baked ones, and the template has the child counts of the baked description
at every level (solutions, pipelines, passes, subpasses, render queues and
their contents), with a root signature for every subpass that bakes one. When
the request with `async = true` and the request with `async = false` both
return, they return the same position and leave the same render-graph cache:
the two templates are equal. -/
theorem C11_render_graph_template_does_not_depend_on_the_flag (context : CreationContext)
    (env : Env) (metaID : MetaID) (w : World)
    (hfresh : Cache.find w.mResources.mRenderGraphs metaID = none) :
    (∀ (async : Bool) (r : Ptr × Bool) (w1 : World),
      try_createDX12RenderGraphData context env metaID async w = Res.ok r w1 →
      r = (w.mResources.mRenderGraphs.length, true) ∧
      ∃ render, w1.mResources.mRenderGraphs[r.1]? = some render ∧ render.Resident env) ∧
    ∀ (ra rs : Ptr × Bool) (wa ws : World),
      try_createDX12RenderGraphData context env metaID true w = Res.ok ra wa →
      try_createDX12RenderGraphData context env metaID false w = Res.ok rs ws →
      ra = rs ∧ wa.mResources.mRenderGraphs = ws.mResources.mRenderGraphs := by
  refine ⟨fun async r w1 h => ?_, fun ra rs wa ws ha hs => ?_⟩
  · refine ⟨?_, try_createDX12RenderGraphData_resident _ _ _ _ _ _ _ hfresh h⟩
    rw [try_createDX12RenderGraphData_fresh _ _ _ _ _ hfresh] at h
    split at h
    · split at h
      · simp only [Res.ok.injEq] at h
        exact h.1.symm
      · cases h
    · cases h
  · rw [try_createDX12RenderGraphData_fresh _ _ _ _ _ hfresh] at ha hs
    split at ha
    · rename_i render w2 hm
      simp only [hm] at hs
      split at ha
      · rename_i rendera w3a hfa
        split at hs
        · rename_i renders w3s hfs
          simp only [Res.ok.injEq] at ha hs
          obtain ⟨hrender, _⟩ := (fillRenderGraph_agrees context env render).agrees
            _ _ _ _ _ _ rfl hfa hfs
          have hka := (keeps_of_ok (fillRenderGraph_keeps _ _ _ _) hfa).1.2.2.2.2.2.1 (by simp)
          have hks := (keeps_of_ok (fillRenderGraph_keeps _ _ _ _) hfs).1.2.2.2.2.2.1 (by simp)
          refine ⟨ha.1.symm.trans hs.1, ?_⟩
          rw [← ha.2, ← hs.2]
          simp only [hka, hks, hrender]
        · cases hs
      · cases ha
    · cases ha

/-- C11 at the scenario: render graph 8, whose subpasses queue content 40, is
requested in the initial world with either flag. Both requests return, and
they leave the same render-graph cache. -/
theorem C11_render_graph_template_does_not_depend_on_the_flag_witness :
    ((0, true) : Ptr × Bool) = (0, true) ∧
    (try_createDX12RenderGraphData ⟨8⟩ exampleQueuedEnv 8 true
        initialWorld).world.mResources.mRenderGraphs =
      (try_createDX12RenderGraphData ⟨8⟩ exampleQueuedEnv 8 false
        initialWorld).world.mResources.mRenderGraphs :=
  (C11_render_graph_template_does_not_depend_on_the_flag ⟨8⟩ exampleQueuedEnv 8
    initialWorld (by decide!)).2 (0, true) (0, true)
    (try_createDX12RenderGraphData ⟨8⟩ exampleQueuedEnv 8 true initialWorld).world
    (try_createDX12RenderGraphData ⟨8⟩ exampleQueuedEnv 8 false initialWorld).world
    (by decide!) (by decide!)

/-! ## Index maps and children -/

theorem forall₂_left {α δ : Type} {P : α → Prop} {xs : List α} {ys : List δ}
    (h : List.Forall₂ (fun x _ => P x) xs ys) : ∀ x ∈ xs, P x := by
  induction h with
  | nil => intro x hx; cases hx
  | cons hxy _ ih =>
    intro x hx
    rcases List.mem_cons.mp hx with rfl | hx1
    · exact hxy
    · exact ih x hx1

/-- The zip loop keeps the number of elements, and keeps a property of the
elements that its body keeps. -/
theorem returns_forEachCombine_all {α δ : Type} {f : α → δ → M α} {P : α → Prop}
    (hf : ∀ x y, P x → Returns (f x y) P) (xs : List α) (ys : List δ)
    (h : ∀ x ∈ xs, P x) :
    Returns (forEachCombine f xs ys) (fun xs1 => xs1.length = xs.length ∧ ∀ x ∈ xs1, P x) := by
  induction xs generalizing ys with
  | nil => unfold forEachCombine; exact returns_pure ⟨rfl, h⟩
  | cons x xs ih =>
    cases ys with
    | nil => unfold forEachCombine; exact returns_pure ⟨rfl, h⟩
    | cons y ys =>
      unfold forEachCombine
      refine returns_bind_of (hf x y (h x (List.mem_cons_self _ _))) (fun x1 hx1 => ?_)
      refine returns_bind_of (ih ys (fun z hz => h z (List.mem_cons_of_mem _ hz)))
        (fun xs1 hxs1 => returns_pure ⟨by simp [hxs1.1], ?_⟩)
      intro z hz
      rcases List.mem_cons.mp hz with rfl | hz1
      · exact hx1
      · exact hxs1.2 z hz1

/-- An index that is returned has one entry per name. -/
theorem emplaceIndex_length {ρ δ : Type} [DecidableEq ρ] (flatmap : List (ρ × Nat))
    (index : List (Name × δ)) (renderIndex : List (Name × ρ)) :
    Returns (emplaceIndex flatmap index renderIndex) (fun fm => fm.length = index.length) := by
  unfold emplaceIndex
  simp only [bind_eq, pure_eq]
  exact returns_bind (fun fm => returns_bind_of (returns_Expects _)
    (fun _ h => returns_pure (by simpa using h)))

theorem emplaceNameIndex_length {δ : Type} (flatmap : List (Name × Nat))
    (index : List (Name × δ)) :
    Returns (emplaceNameIndex flatmap index) (fun fm => fm.length = index.length) := by
  unfold emplaceNameIndex
  simp only [bind_eq, pure_eq]
  exact returns_bind_of (returns_Expects _) (fun _ h => returns_pure (by simpa using h))

/-- When the loop of `emplaceIndex` leaves an index whose size is not the
number of names, `emplaceIndex` fails on its contract. -/
theorem emplaceIndex_mismatch {ρ δ : Type} [DecidableEq ρ] (flatmap fm : List (ρ × Nat))
    (index : List (Name × δ)) (renderIndex : List (Name × ρ)) (w w1 : World)
    (hloop : emplaceIndexLoop renderIndex index 0 flatmap w = Res.ok fm w1)
    (hsize : fm.length ≠ index.length) :
    emplaceIndex flatmap index renderIndex w = Res.fail Failure.Contract w1 := by
  unfold emplaceIndex
  simp only [bind_eq, pure_eq]
  rw [bind_ok hloop]
  have : (fm.length == index.length) = false := by simpa using hsize
  simp [M.bind, Expects, this, M.fail]

theorem createIndexLevel_indexed (level : DX12ShaderLevelData) (levelData : ShaderLevelData) :
    Returns (createIndexLevel level levelData) IndexedLevel := by
  unfold createIndexLevel
  simp only [bind_eq, pure_eq]
  refine returns_bind_of (returns_Expects _) (fun _ hlen => ?_)
  refine returns_bind_of (emplaceNameIndex_length _ _) (fun passIndex hindex => ?_)
  refine returns_bind (fun _ => returns_pure ?_)
  unfold IndexedLevel
  simp only [hindex]
  exact (by simpa using hlen : level.mPasses.length = levelData.mPasses.length).symm

theorem createIndexPipeline_indexed {S : DX12ShaderSubpassData → ShaderSubpassData → Prop}
    (renderSolution : DX12RenderSolution) (pipeline : DX12ShaderPipelineData)
    (pipelineData : Name × ShaderPipelineData) (h : MirrorPipeline S pipeline pipelineData) :
    Returns (createIndexPipeline renderSolution pipeline pipelineData) IndexedPipeline := by
  have hqueue : ∀ queue queueData, MirrorQueue S queue queueData →
      Returns (createIndexQueue queue queueData) IndexedQueue := by
    intro queue queueData hq
    unfold createIndexQueue
    simp only [bind_eq, pure_eq]
    exact returns_bind_of (returns_forEachCombine (U := fun l _ => IndexedLevel l)
      (fun x y _ => createIndexLevel_indexed x y) _ _ hq)
      (fun levels hl => returns_pure (forall₂_left hl))
  unfold createIndexPipeline
  simp only [bind_eq, pure_eq]
  refine returns_bind (fun _ => returns_bind (fun _ => returns_bind (fun _ => ?_)))
  refine returns_bind_of (emplaceIndex_length _ _ _) (fun queueIndex hindex => ?_)
  refine returns_bind (fun _ => ?_)
  refine returns_bind_of (returns_forEachCombine (U := fun q _ => IndexedQueue q)
    (fun x y hxy => hqueue x y hxy) _ _ h) (fun queues hq => returns_pure ⟨?_, forall₂_left hq⟩)
  simp only [hindex]
  exact (List.Forall₂.length_eq hq).symm

theorem createIndexSolution_indexed {S : DX12ShaderSubpassData → ShaderSubpassData → Prop}
    (renderGraph : DX12RenderWorks) (solution : DX12ShaderSolutionData)
    (solutionData : Name × ShaderSolutionData) (h : MirrorSolution S solution solutionData) :
    Returns (createIndexSolution renderGraph solution solutionData) IndexedSolution := by
  unfold createIndexSolution
  simp only [bind_eq, pure_eq]
  refine returns_bind (fun _ => returns_bind (fun _ => returns_bind (fun _ => ?_)))
  refine returns_bind_of (emplaceIndex_length _ _ _) (fun pipelineIndex hindex => ?_)
  refine returns_bind (fun _ => ?_)
  refine returns_bind_of (returns_forEachCombine (U := fun p _ => IndexedPipeline p)
    (fun x y hxy => createIndexPipeline_indexed _ x y hxy) _ _ h)
    (fun pipelines hp => returns_pure ⟨?_, forall₂_left hp⟩)
  simp only [hindex]
  exact (List.Forall₂.length_eq hp).symm

/-- The function `createIndex` returns a tree whose index maps have the size
of its children at every level. -/
theorem createIndex_indexed {S : DX12ShaderSubpassData → ShaderSubpassData → Prop}
    (prototype : DX12ShaderData) (prototypeData : ShaderData) (renderGraph : DX12RenderWorks)
    (h : Mirrors S prototype prototypeData) :
    Returns (createIndex prototype prototypeData renderGraph) DX12ShaderData.Indexed := by
  unfold createIndex
  simp only [bind_eq, pure_eq]
  refine returns_bind (fun _ => ?_)
  refine returns_bind_of (emplaceIndex_length _ _ _) (fun solutionIndex hindex => ?_)
  refine returns_bind (fun _ => ?_)
  refine returns_bind_of (returns_forEachCombine (U := fun s _ => IndexedSolution s)
    (fun x y hxy => createIndexSolution_indexed _ x y hxy) _ _ h)
    (fun solutions hs => returns_pure ⟨?_, forall₂_left hs⟩)
  simp only [hindex]
  exact (List.Forall₂.length_eq hs).symm

/-- The resource loop keeps the index maps and the number of children. -/
theorem createResourcesSolution_indexed (env : Env) (settings : ContentSettings)
    (renderGraph : DX12RenderWorks) (solution : DX12ShaderSolutionData)
    (solutionData : Name × ShaderSolutionData) (h : IndexedSolution solution) :
    Returns (createResourcesSolution env settings renderGraph solution solutionData)
      IndexedSolution := by
  have hlevel : ∀ renderSolution renderSubpass level levelData, IndexedLevel level →
      Returns (createResourcesLevel env settings renderSolution renderSubpass level levelData)
        IndexedLevel := by
    intro renderSolution renderSubpass level levelData hl
    unfold createResourcesLevel
    simp only [bind_eq, pure_eq]
    refine returns_bind_of (returns_forEachCombine_all (P := fun _ => True)
      (fun _ _ _ => ⟨fun _ _ _ _ => trivial⟩) _ _ (fun _ _ => trivial))
      (fun passes hp => returns_pure ?_)
    unfold IndexedLevel at hl ⊢
    simp only [hp.1]
    exact hl
  have hqueue : ∀ renderSolution renderPipeline queue queueData, IndexedQueue queue →
      Returns (createResourcesQueue env settings renderSolution renderPipeline queue queueData)
        IndexedQueue := by
    intro renderSolution renderPipeline queue queueData hq
    unfold createResourcesQueue
    simp only [bind_eq, pure_eq]
    refine returns_bind (fun _ => returns_bind (fun _ => returns_bind (fun renderSubpass => ?_)))
    exact returns_bind_of (returns_forEachCombine_all
      (fun x y hx => hlevel renderSolution renderSubpass x y hx) _ _ hq)
      (fun levels hl => returns_pure hl.2)
  have hpipeline : ∀ renderSolution pipeline pipelineData, IndexedPipeline pipeline →
      Returns (createResourcesPipeline env settings renderSolution pipeline pipelineData)
        IndexedPipeline := by
    intro renderSolution pipeline pipelineData hp
    unfold createResourcesPipeline
    simp only [bind_eq, pure_eq]
    refine returns_bind (fun _ => returns_bind (fun renderPipeline => ?_))
    refine returns_bind_of (returns_forEachCombine_all
      (fun x y hx => hqueue renderSolution renderPipeline x y hx) _ _ hp.2)
      (fun queues hq => returns_pure ⟨?_, hq.2⟩)
    simp only [hq.1]
    exact hp.1
  unfold createResourcesSolution
  simp only [bind_eq, pure_eq]
  refine returns_bind (fun _ => returns_bind (fun renderSolution => ?_))
  refine returns_bind_of (returns_forEachCombine_all
    (fun x y hx => hpipeline renderSolution x y hx) _ _ h.2)
    (fun pipelines hp => returns_pure ⟨?_, hp.2⟩)
  simp only [hp.1]
  exact h.1

/-- The synchronous shader modifier, applied to an entry without solutions,
returns a tree whose index maps have the size of its children at every
level. -/
theorem modifyShader_indexed (env : Env) (rg : DX12RenderGraphData) (metaID : MetaID)
    (shader0 : DX12ShaderData) (hempty : shader0.mSolutions = []) :
    Returns (modifyShader env rg metaID false shader0) DX12ShaderData.Indexed := by
  unfold modifyShader
  simp only [bind_eq, pure_eq, Bool.not_false, ↓reduceIte]
  refine returns_bind (fun _ => ?_)
  cases hasset : env.shaders metaID with
  | none =>
    simp only [AssetHandle.reset, Bool.false_eq_true, ↓reduceIte, hasset]
    exact returns_fail _
  | some shaderData =>
    simp only [AssetHandle.reset, Bool.false_eq_true, ↓reduceIte, hasset]
    unfold reserveIndex
    refine returns_bind_of (createIndex_indexed (S := SubpassResized) _ shaderData
      rg.mRenderGraph (resizeData_mirrors { shader0 with mShaderData := ⟨metaID, some shaderData⟩ }
        shaderData hempty)) ?_
    intro prototype hindexed
    refine returns_bind (fun _ => returns_bind (fun resources => ?_))
    refine returns_bind_of (returns_forEachCombine_all
      (fun x y hx => createResourcesSolution_indexed env resources.mSettings _ x y hx) _ _
      hindexed.2) (fun solutions hs => returns_pure ⟨?_, hs.2⟩)
    simp only [hs.1]
    exact hindexed.1

/-- C12 (amended): the check of an index map against the children is made
while a shader variant tree is built against the template, not while the
template is built. When the synchronous materialization of a shader that has
no entry yet returns, every index map of the new tree (solution index,
pipeline indices, queue indices, pass indices) has as many entries as the tree
has children at that level. And whenever the loop of `emplaceIndex` leaves an
index whose size differs from the number of names it was given, `emplaceIndex`
fails on its contract, so no tree is produced. -/
theorem C12_index_sizes_are_checked_when_a_shader_tree_is_built (env : Env)
    (rg : DX12RenderGraphData) (metaID : MetaID) (w w1 : World) (r : Ptr × Bool)
    (hfresh : Cache.find w.mResources.mShaders metaID = none)
    (h : try_createDX12ShaderData env rg metaID false w = Res.ok r w1) :
    (∃ shader, w1.mResources.mShaders[r.1]? = some shader ∧ shader.Indexed) ∧
    ∀ (ρ δ : Type) [DecidableEq ρ] (flatmap fm : List (ρ × Nat)) (index : List (Name × δ))
      (renderIndex : List (Name × ρ)) (w2 w3 : World),
      emplaceIndexLoop renderIndex index 0 flatmap w2 = Res.ok fm w3 →
      fm.length ≠ index.length →
      emplaceIndex flatmap index renderIndex w2 = Res.fail Failure.Contract w3 := by
  refine ⟨?_, fun ρ δ _ flatmap fm index renderIndex w2 w3 hloop hsize =>
    emplaceIndex_mismatch flatmap fm index renderIndex w2 w3 hloop hsize⟩
  rw [try_createDX12ShaderData_fresh _ _ _ _ _ hfresh] at h
  split at h
  · rename_i shader w2 hm
    simp only [Res.ok.injEq] at h
    obtain ⟨hr, hw1⟩ := h
    have hk := (keeps_of_ok (modifyShader_keeps _ _ _ _ _) hm).1.2.2.1 (by simp)
    refine ⟨shader, ?_, (modifyShader_indexed env rg metaID _ rfl).returns _ _ _ hm⟩
    rw [← hw1, ← hr]
    simp only at hk
    simp [hk, Cache.modify]
  · cases h

/-- C12 (amended) at the scenario: shader 20 is built against render graph 7
and its tree is indexed. A shader with the solutions `Forward` and `Deferred`,
built against a template whose solution index sends both names to position 0,
fails on the contract of `emplaceIndex`. -/
theorem C12_index_sizes_are_checked_when_a_shader_tree_is_built_witness :
    (∃ shader, exampleShaderWorld.mResources.mShaders[((0, true) : Ptr × Bool).1]? =
      some shader ∧ shader.Indexed) ∧
    try_createDX12ShaderData exampleTwoSolutionEnv exampleAliasedRenderGraphEntry 21 false
        exampleRenderGraphWorld =
      Res.fail Failure.Contract
        (try_createDX12ShaderData exampleTwoSolutionEnv exampleAliasedRenderGraphEntry 21 false
          exampleRenderGraphWorld).world :=
  ⟨(C12_index_sizes_are_checked_when_a_shader_tree_is_built exampleEnv exampleRenderGraphEntry
    20 exampleRenderGraphWorld exampleShaderWorld (0, true) (by decide!) (by decide!)).1,
    by decide!⟩

/-- C12 (counterexample): the baked render graph 9 has one name in its
solution index for two solutions, two names in the pipeline index of each
solution for one pipeline, and no name in the subpass index of each pipeline
for one subpass. Its materialization returns, and the template has these index
maps and these children. -/
theorem C12_render_graph_template_is_built_with_mismatched_index_maps :
    try_createDX12 ⟨9⟩ exampleMismatchedEnv 9 ResourceType.RenderGraph_ false initialWorld =
      Res.ok true exampleMismatchedWorld ∧
    exampleMismatchedWorld.mResources.mRenderGraphs.map (fun render =>
      (render.mRenderGraph.mSolutionIndex.length, render.mRenderGraph.mSolutions.length)) =
      [(1, 2)] ∧
    exampleMismatchedWorld.mResources.mRenderGraphs.map (fun render =>
      render.mRenderGraph.mSolutions.map (fun solution =>
        (solution.mPipelineIndex.length, solution.mPipelines.length))) =
      [[(2, 1), (2, 1)]] ∧
    exampleMismatchedWorld.mResources.mRenderGraphs.map (fun render =>
      render.mRenderGraph.mSolutions.map (fun solution =>
        solution.mPipelines.map (fun pipeline =>
          (pipeline.mSubpassIndex.length,
            (pipeline.mPasses.map (fun pass => pass.mSubpasses.length)).sum)))) =
      [[[(0, 1)], [(0, 1)]]] := by
  decide!

/-! ## The depth check of a pipeline state -/

theorem returns_const {α : Type} {m : M α} {P : Prop} (h : P) : Returns m (fun _ => P) :=
  ⟨fun _ _ _ _ => h⟩

/-- The body of the vertex-layout loop returns only when depth is enabled or
the render subpass has no depth-stencil attachment. -/
theorem createPipelineState_depth (env : Env) (settings : ContentSettings)
    (renderSolution : DX12RenderSolution) (renderSubpass : DX12RenderSubpass)
    (subpassData : ShaderSubpassData) (subpass : DX12ShaderSubpassData) (i vertID : Nat) :
    Returns (createPipelineState env settings renderSolution renderSubpass subpassData subpass
        i vertID)
      (fun _ => renderSubpass.mDepthStencilAttachment.isSome = true →
        subpassData.mState.mDepthStencilState.mDepthEnabled = true) := by
  unfold createPipelineState
  simp only [bind_eq, pure_eq]
  cases hatt : renderSubpass.mDepthStencilAttachment with
  | none => exact returns_const (fun h => by simp at h)
  | some attachment =>
    simp only []
    refine returns_bind (fun _ => returns_bind (fun _ => returns_bind (fun _ => ?_)))
    split
    · refine returns_bind (fun _ => ?_)
      exact returns_bind_of
        (returns_bind (fun _ => returns_bind_of (returns_Expects _)
          (fun _ hdepth => returns_const hdepth)))
        (fun _ hdepth => returns_const (fun _ => hdepth))
    · exact returns_fail _

theorem createShaderResources_depth (env : Env) (settings : ContentSettings)
    (renderSolution : DX12RenderSolution) (renderSubpass : DX12RenderSubpass)
    (subpass : DX12ShaderSubpassData) (subpassData : ShaderSubpassData) :
    Returns (createShaderResources env settings renderSolution renderSubpass subpass
      subpassData) (fun _ => DepthChecked renderSubpass subpassData) := by
  unfold createShaderResources
  simp only [bind_eq, pure_eq]
  refine returns_bind (fun ps => returns_bind (fun vs => returns_bind (fun _ => ?_)))
  cases hv : subpassData.mVertexLayouts with
  | nil => exact returns_const (fun h => absurd hv h)
  | cons vertID vertIDs =>
    unfold createPipelineStates
    exact returns_bind_of
      (returns_bind_of (createPipelineState_depth _ _ _ _ _ _ _ _)
        (fun _ hd => returns_const hd))
      (fun _ hd => returns_const (fun _ hatt => hd hatt))

/-- The queue body of the resource loop returns only when every subpass of
the baked queue passes the depth check against the render subpass that the
name of the queue selects. -/
theorem createResourcesQueue_depth {S : DX12ShaderSubpassData → ShaderSubpassData → Prop}
    (env : Env) (settings : ContentSettings)
    (renderSolution : DX12RenderSolution) (renderPipeline : DX12RenderPipeline)
    (queue : DX12ShaderQueueData) (queueData : Name × ShaderQueueData)
    (h : MirrorQueue S queue queueData) :
    Returns (createResourcesQueue env settings renderSolution renderPipeline queue queueData)
      (fun _ => ∃ renderSubpass, QueueSubpass renderPipeline queueData renderSubpass ∧
        ∀ subpassData, SubpassOfQueue queueData subpassData →
          DepthChecked renderSubpass subpassData) := by
  unfold createResourcesQueue
  simp only [bind_eq, pure_eq]
  refine returns_bind_of (returns_mapAt _ _) ?_
  rintro passDesc ⟨e, hfind, he⟩
  refine returns_bind_of (returns_vectorAt _ _) (fun renderPass hpass => ?_)
  refine returns_bind_of (returns_vectorAt _ _) (fun renderSubpass hsub => ?_)
  have hlevel : ∀ level levelData, MirrorLevel S level levelData →
      Returns (createResourcesLevel env settings renderSolution renderSubpass level levelData)
        (fun _ => ∀ variantData ∈ levelData.mPasses, ∀ subpassData ∈ variantData.2.mSubpasses,
          DepthChecked renderSubpass subpassData) := by
    intro level levelData hl
    unfold createResourcesLevel
    simp only [bind_eq, pure_eq]
    refine returns_bind_of (returns_forEachCombine_each (fun variant variantData hv => ?_) _ _ hl)
      (fun _ hall => returns_pure hall)
    unfold createResourcesPass
    simp only [bind_eq, pure_eq]
    exact returns_bind_of (returns_forEachCombine_each
      (fun x y _ => createShaderResources_depth env settings renderSolution renderSubpass x y)
      _ _ hv) (fun _ hall => returns_pure hall)
  refine returns_bind_of (returns_forEachCombine_each
    (fun x y hxy => hlevel x y hxy) _ _ h) (fun _ hall => returns_pure ?_)
  refine ⟨renderSubpass, ⟨e, renderPass, hfind, by rw [he]; exact hpass, by rw [he]; exact hsub⟩,
    ?_⟩
  rintro subpassData ⟨levelData, hl, variantData, hv, hs⟩
  exact hall levelData hl variantData hv subpassData hs

/-- The solution body of the resource loop returns only when every subpass of
the baked solution passes the depth check against the render subpass it is
built against. -/
theorem createResourcesSolution_depth {S : DX12ShaderSubpassData → ShaderSubpassData → Prop}
    (env : Env) (settings : ContentSettings) (renderGraph : DX12RenderWorks)
    (solution : DX12ShaderSolutionData) (solutionData : Name × ShaderSolutionData)
    (h : MirrorSolution S solution solutionData) :
    Returns (createResourcesSolution env settings renderGraph solution solutionData)
      (fun _ => ∃ renderSolution, SolutionOfTemplate renderGraph solutionData renderSolution ∧
        ∀ pipelineData ∈ solutionData.2.mPipelines, ∃ renderPipeline,
          PipelineOfTemplate renderSolution pipelineData renderPipeline ∧
          ∀ queueData ∈ pipelineData.2.mQueues, ∃ renderSubpass,
            QueueSubpass renderPipeline queueData renderSubpass ∧
            ∀ subpassData, SubpassOfQueue queueData subpassData →
              DepthChecked renderSubpass subpassData) := by
  unfold createResourcesSolution
  simp only [bind_eq, pure_eq]
  refine returns_bind_of (returns_mapAt _ _) ?_
  rintro renderID ⟨e, hfind, he⟩
  refine returns_bind_of (returns_vectorAt _ _) (fun renderSolution hrs => ?_)
  refine returns_bind_of (returns_forEachCombine_each (fun pipeline pipelineData hp => ?_) _ _ h)
    (fun _ hall => returns_pure ⟨renderSolution, ⟨e, hfind, by rw [he]; exact hrs⟩, hall⟩)
  unfold createResourcesPipeline
  simp only [bind_eq, pure_eq]
  refine returns_bind_of (returns_mapAt _ _) ?_
  rintro renderID1 ⟨e1, hfind1, he1⟩
  refine returns_bind_of (returns_vectorAt _ _) (fun renderPipeline hrp => ?_)
  exact returns_bind_of (returns_forEachCombine_each
    (fun x y hxy => createResourcesQueue_depth env settings renderSolution renderPipeline x y hxy)
    _ _ hp)
    (fun _ hall => returns_pure ⟨renderPipeline, ⟨e1, hfind1, by rw [he1]; exact hrp⟩, hall⟩)

theorem QueueSubpass_unique {renderPipeline : DX12RenderPipeline}
    {queueData : Name × ShaderQueueData} {a b : DX12RenderSubpass}
    (ha : QueueSubpass renderPipeline queueData a) (hb : QueueSubpass renderPipeline queueData b) :
    a = b := by
  obtain ⟨e, p, h1, h2, h3⟩ := ha
  obtain ⟨e1, p1, h4, h5, h6⟩ := hb
  rw [h1] at h4
  cases h4
  rw [h2] at h5
  cases h5
  rw [h3] at h6
  cases h6
  rfl

theorem PipelineOfTemplate_unique {renderSolution : DX12RenderSolution}
    {pipelineData : Name × ShaderPipelineData} {a b : DX12RenderPipeline}
    (ha : PipelineOfTemplate renderSolution pipelineData a)
    (hb : PipelineOfTemplate renderSolution pipelineData b) : a = b := by
  obtain ⟨e, h1, h2⟩ := ha
  obtain ⟨e1, h4, h5⟩ := hb
  rw [h1] at h4
  cases h4
  rw [h2] at h5
  cases h5
  rfl

theorem SolutionOfTemplate_unique {renderGraph : DX12RenderWorks}
    {solutionData : Name × ShaderSolutionData} {a b : DX12RenderSolution}
    (ha : SolutionOfTemplate renderGraph solutionData a)
    (hb : SolutionOfTemplate renderGraph solutionData b) : a = b := by
  obtain ⟨e, h1, h2⟩ := ha
  obtain ⟨e1, h4, h5⟩ := hb
  rw [h1] at h4
  cases h4
  rw [h2] at h5
  cases h5
  rfl

/-- The synchronous shader modifier, applied to an entry without solutions,
returns only when every baked subpass passes the depth check against the
render subpass it is built against. -/
theorem modifyShader_depth (env : Env) (rg : DX12RenderGraphData) (metaID : MetaID)
    (shader0 : DX12ShaderData) (hempty : shader0.mSolutions = []) :
    Returns (modifyShader env rg metaID false shader0)
      (fun _ => ∃ shaderData, env.shaders metaID = some shaderData ∧
        ∀ renderSubpass subpassData,
          BuiltAgainst rg.mRenderGraph shaderData renderSubpass subpassData →
          DepthChecked renderSubpass subpassData) := by
  unfold modifyShader
  simp only [bind_eq, pure_eq, Bool.not_false, ↓reduceIte]
  refine returns_bind (fun _ => ?_)
  cases hasset : env.shaders metaID with
  | none =>
    simp only [AssetHandle.reset, Bool.false_eq_true, ↓reduceIte, hasset]
    exact returns_fail _
  | some shaderData =>
    simp only [AssetHandle.reset, Bool.false_eq_true, ↓reduceIte, hasset]
    unfold reserveIndex
    refine returns_bind_of (createIndex_mirrors (S := SubpassResized) _ shaderData
      rg.mRenderGraph (resizeData_mirrors { shader0 with mShaderData := ⟨metaID, some shaderData⟩ }
        shaderData hempty)) ?_
    intro prototype hmirror
    refine returns_bind (fun _ => returns_bind (fun resources => ?_))
    refine returns_bind_of (returns_forEachCombine_each
      (fun x y hxy => createResourcesSolution_depth env resources.mSettings _ x y hxy) _ _
      hmirror) (fun _ hall => returns_pure ⟨shaderData, rfl, ?_⟩)
    rintro renderSubpass subpassData ⟨solutionData, hs, renderSolution, hrs, pipelineData, hp,
      renderPipeline, hrp, queueData, hq, hsub, hof⟩
    obtain ⟨renderSolution1, hrs1, hpipes⟩ := hall solutionData hs
    cases SolutionOfTemplate_unique hrs hrs1
    obtain ⟨renderPipeline1, hrp1, hqueues⟩ := hpipes pipelineData hp
    cases PipelineOfTemplate_unique hrp hrp1
    obtain ⟨renderSubpass1, hsub1, hchecked⟩ := hqueues queueData hq
    cases QueueSubpass_unique hsub hsub1
    exact hchecked subpassData hof

/-- C13 (amended): the check is made in the other direction. When a baked
subpass with at least one vertex layout is built against a render subpass
that has a depth-stencil attachment, and the depth-stencil state of the baked
subpass has depth disabled, the synchronous materialization of the shader
fails: no shader entry is populated. (Depth enabled without a depth-stencil
attachment is not checked.) -/
theorem C13_depth_attachment_without_depth_enabled_fails (env : Env)
    (rg : DX12RenderGraphData) (metaID : MetaID) (shaderData : ShaderData)
    (renderSubpass : DX12RenderSubpass) (subpassData : ShaderSubpassData) (w : World)
    (hfresh : Cache.find w.mResources.mShaders metaID = none)
    (hasset : env.shaders metaID = some shaderData)
    (hbuilt : BuiltAgainst rg.mRenderGraph shaderData renderSubpass subpassData)
    (hlayouts : subpassData.mVertexLayouts ≠ [])
    (hattachment : renderSubpass.mDepthStencilAttachment.isSome = true)
    (hdepth : subpassData.mState.mDepthStencilState.mDepthEnabled = false) :
    ∃ e w1, try_createDX12ShaderData env rg metaID false w = Res.fail e w1 := by
  cases h : try_createDX12ShaderData env rg metaID false w with
  | fail e w1 => exact ⟨e, w1, rfl⟩
  | ok r w1 =>
    exfalso
    rw [try_createDX12ShaderData_fresh _ _ _ _ _ hfresh] at h
    split at h
    · rename_i shader w2 hm
      obtain ⟨shaderData1, hasset1, hchecked⟩ :=
        (modifyShader_depth env rg metaID _ rfl).returns _ _ _ hm
      rw [hasset] at hasset1
      cases hasset1
      have := hchecked renderSubpass subpassData hbuilt hlayouts hattachment
      rw [hdepth] at this
      cases this
    · cases h

/-- C13 (amended) at the scenario: shader 20, whose subpasses disable depth,
is built against a template whose subpasses have a depth-stencil attachment.
The call fails, on the contract of the depth check. -/
theorem C13_depth_attachment_without_depth_enabled_fails_witness :
    (∃ e w1, try_createDX12ShaderData exampleEnv exampleDepthRenderGraphEntry 20 false
      exampleRenderGraphWorld = Res.fail e w1) ∧
    try_createDX12ShaderData exampleEnv exampleDepthRenderGraphEntry 20 false
        exampleRenderGraphWorld =
      Res.fail Failure.Contract
        (try_createDX12ShaderData exampleEnv exampleDepthRenderGraphEntry 20 false
          exampleRenderGraphWorld).world :=
  ⟨C13_depth_attachment_without_depth_enabled_fails exampleEnv exampleDepthRenderGraphEntry 20
    exampleShader exampleDepthRenderSubpass (exampleSubpass ["Albedo", "Normal", "Emissive"])
    exampleRenderGraphWorld (by decide!) (by decide!)
    ⟨_, List.mem_cons_self _ _, exampleDepthRenderSolution, ⟨("Forward", 0), by decide!,
        by decide!⟩,
      _, List.mem_cons_self _ _, _, ⟨("Main", 0), by decide!, rfl⟩,
      _, List.mem_cons_self _ _, ⟨("Opaque", ⟨0, 0⟩), _, by decide!, rfl, rfl⟩,
      _, List.mem_cons_self _ _, _, List.mem_cons_self _ _, List.mem_cons_self _ _⟩
    (by decide) (by decide) (by decide),
    by decide!⟩

/-- C13 (counterexample): shader 22 enables depth in the state of both
subpasses, and no subpass of the template of render graph 7 has a
depth-stencil attachment. The synchronous materialization of shader 22
against it returns, with a created pipeline state for every subpass. -/
theorem C13_depth_enabled_without_attachment_is_accepted :
    exampleDepthShader.shape = [[[[[2]]]]] ∧
    (exampleDepthSubpass ["Albedo", "Normal", "Emissive"]).mState.mDepthStencilState.mDepthEnabled
      = true ∧
    (exampleDepthSubpass []).mState.mDepthStencilState.mDepthEnabled = true ∧
    exampleRenderGraphEntry.mRenderGraph.mSolutions.map (fun solution =>
      solution.mPipelines.map (fun pipeline => pipeline.mPasses.map (fun pass =>
        pass.mSubpasses.map (fun subpass => subpass.mDepthStencilAttachment)))) =
      [[[[none]]], [[[none]]]] ∧
    try_createDX12ShaderData exampleDepthEnv exampleRenderGraphEntry 22 false
        exampleRenderGraphWorld =
      Res.ok (0, true)
        (try_createDX12ShaderData exampleDepthEnv exampleRenderGraphEntry 22 false
          exampleRenderGraphWorld).world ∧
    (try_createDX12ShaderData exampleDepthEnv exampleRenderGraphEntry 22 false
        exampleRenderGraphWorld).world.mResources.mShaders.map (fun shader =>
      shader.subpasses.map (fun subpass =>
        subpass.mStates.map (fun state => state.mObject.isSome))) =
      [[[true], [true]]] := by
  decide!

/-! ## Failing requests -/

/-- C14: a request that fails between the arena allocation of
`createShaderResources` and its `release` leaves the allocation outstanding.
In the world that holds render graph 7, with no arena allocation outstanding,
shader 20 is requested synchronously. On a device whose
`CreateGraphicsPipelineState` fails the request fails with the device
failure, one arena allocation is outstanding and the call has recorded an
arena allocation and no release. The same holds for shader 23, whose vertex
layout is missing from the settings, with the out-of-range failure of the
lookup. On the scenario device the request for shader 20 returns, with no
arena allocation outstanding. -/
theorem C14_arena_allocation_is_outstanding_after_a_failed_request :
    exampleRenderGraphWorld.mArenaLive = 0 ∧
    try_createDX12 exampleContext exampleDeviceFailureEnv 20 ResourceType.Shader_ false
        exampleRenderGraphWorld = Res.fail Failure.Device exampleDeviceFailureWorld ∧
    exampleDeviceFailureWorld.mArenaLive = 1 ∧
    (exampleDeviceFailureWorld.mTrace.drop exampleRenderGraphWorld.mTrace.length).filter
        (fun e => e = Event.arenaAllocate ∨ e = Event.arenaRelease) = [Event.arenaAllocate] ∧
    try_createDX12 exampleContext exampleMissingLayoutEnv 23 ResourceType.Shader_ false
        exampleRenderGraphWorld = Res.fail Failure.OutOfRange exampleMissingLayoutWorld ∧
    exampleMissingLayoutWorld.mArenaLive = 1 ∧
    (exampleMissingLayoutWorld.mTrace.drop exampleRenderGraphWorld.mTrace.length).filter
        (fun e => e = Event.arenaAllocate ∨ e = Event.arenaRelease) = [Event.arenaAllocate] ∧
    try_createDX12 exampleContext exampleEnv 20 ResourceType.Shader_ false
        exampleRenderGraphWorld = Res.ok true exampleShaderWorld ∧
    exampleShaderWorld.mArenaLive = 0 := by
  decide!

/-! ## Render works -/

namespace RenderWorks

/-! ### Persistent ranges of a pipeline -/

theorem extends_refl (c : Context) : Extends c c [] [] :=
  ⟨[], by simp, rfl, rfl, rfl⟩

theorem extends_trans {c c1 c2 : Context} {a a1 d d1 : List (Nat × Nat)}
    (h : Extends c c1 a d) (h1 : Extends c1 c2 a1 d1) : Extends c c2 (a ++ a1) (d ++ d1) := by
  obtain ⟨ev, ht, ha, hd, hs⟩ := h
  obtain ⟨ev1, ht1, ha1, hd1, hs1⟩ := h1
  refine ⟨ev ++ ev1, by rw [ht1, ht, List.append_assoc], ?_, ?_, hs1.trans hs⟩
  · simp [allocations, List.filterMap_append, ← ha, ← ha1]
  · simp [deallocations, List.filterMap_append, ← hd, ← hd1]

theorem extends_silent {c c1 c2 : Context} {a d : List (Nat × Nat)}
    (h : Extends c c1 a d) (h1 : Extends c1 c2 [] []) : Extends c c2 a d := by
  simpa using extends_trans h h1

theorem silent_pure {α : Type} (a : α) : Silent (CM.pure a) := ⟨fun c => extends_refl c⟩

theorem silent_throw {α : Type} (e : Thrown) : Silent (CM.throw e : CM α) :=
  ⟨fun c => extends_refl c⟩

theorem silent_bind {α β : Type} {m : CM α} {f : α → CM β} (hm : Silent m)
    (hf : ∀ a, Silent (f a)) : Silent (CM.bind m f) :=
  ⟨fun c => by
    have h1 := hm.silent c
    unfold CM.bind
    cases hmc : m c with
    | throw e c1 =>
      rw [hmc] at h1
      exact h1
    | ok a c1 =>
      rw [hmc] at h1
      exact extends_silent h1 ((hf a).silent c1)⟩

theorem silent_emit (e : Event) (ha : e.allocation = none) (hd : e.deallocation = none) :
    Silent (emit e) :=
  ⟨fun c => ⟨[e], rfl, by simp [allocations, ha], by simp [deallocations, hd], rfl⟩⟩

theorem silent_newObject : Silent newObject :=
  ⟨fun c => ⟨[], by simp [newObject, Outcome.context], rfl, rfl, rfl⟩⟩

theorem silent_index {α : Type} (v : List α) (i : Nat) : Silent (index v i) := by
  unfold index
  split
  · exact silent_pure _
  · exact silent_throw _

theorem silent_mapAt (map : List (Nat × Nat)) (key : Nat) : Silent (mapAt map key) := by
  unfold mapAt
  split
  · exact silent_pure _
  · exact silent_throw _

theorem silent_Expects (cond : Bool) : Silent (Expects cond) := by
  unfold Expects
  split
  · exact silent_pure _
  · exact silent_throw _

theorem silent_Ensures (cond : Bool) : Silent (Ensures cond) := by
  unfold Ensures
  split
  · exact silent_pure _
  · exact silent_throw _

theorem silent_forEach {α : Type} (f : α → CM Unit) (xs : List α) (hf : ∀ x, Silent (f x)) :
    Silent (forEach f xs) := by
  induction xs with
  | nil => exact silent_pure _
  | cons x xs ih =>
    unfold forEach
    exact silent_bind (hf x) (fun _ => ih)

@[simp] theorem cm_bind_eq {α β : Type} (m : CM α) (f : α → CM β) : (m >>= f) = CM.bind m f :=
  rfl

@[simp] theorem cm_pure_eq {α : Type} (a : α) : (pure a : CM α) = CM.pure a := rfl

theorem createFramebuffer_silent (device : Device) (n : Nat) (rt : Framebuffer) (i : Nat)
    (framebuffers : List (Option Handle)) :
    Silent (createFramebuffer device n rt i framebuffers) := by
  unfold createFramebuffer
  simp only [cm_bind_eq, cm_pure_eq]
  repeat' first
    | exact silent_pure _
    | exact silent_throw _
    | exact silent_index _ _
    | exact silent_Expects _
    | exact silent_newObject
    | exact silent_emit _ rfl rfl
    | apply silent_bind
    | intro _
    | split

theorem createFramebuffers_extends (device : Device) (n : Nat) (rts : List Framebuffer)
    (i : Nat) (framebuffers : List (Option Handle)) (c : Context) :
    Extends c (createFramebuffers device n rts i framebuffers c).context [] [] := by
  induction rts generalizing i framebuffers c with
  | nil => exact extends_refl c
  | cons rt rts ih =>
    unfold createFramebuffers
    have h := (createFramebuffer_silent device n rt i framebuffers).silent c
    cases hc : createFramebuffer device n rt i framebuffers c with
    | throw e c1 =>
      rw [hc] at h
      exact h
    | ok fbs c1 =>
      rw [hc] at h
      exact extends_silent h (ih _ _ _)

theorem createViews_silent (view : Option Handle → Nat → Nat → Event)
    (hview : ∀ r f d, (view r f d).allocation = none ∧ (view r f d).deallocation = none)
    (device : Device) (framebuffers : List (Option Handle)) (sources : List ViewSource)
    (array : Nat) (descs : List ViewDesc) (i : Nat) :
    Silent (createViews view device framebuffers sources array descs i) := by
  induction descs generalizing i with
  | nil => exact silent_pure _
  | cons desc0 descs ih =>
    unfold createViews
    exact silent_bind (silent_index _ _) (fun _ => silent_bind (silent_index _ _) (fun _ =>
      silent_bind (silent_emit _ (hview _ _ _).1 (hview _ _ _).2) (fun _ => ih _)))

theorem createSolutionViews_silent (device : Device) (rw : DX12RenderWorks)
    (sl : DX12RenderSolution) : Silent (createSolutionViews device rw sl) := by
  unfold createSolutionViews
  simp only [cm_bind_eq]
  exact silent_bind
    (createViews_silent Event.CreateRenderTargetView (fun _ _ _ => ⟨rfl, rfl⟩) _ _ _ _ _ _)
    (fun _ => silent_bind
      (createViews_silent Event.CreateDepthStencilView (fun _ _ _ => ⟨rfl, rfl⟩) _ _ _ _ _ _)
      (fun _ =>
        createViews_silent Event.CreateShaderResourceView (fun _ _ _ => ⟨rfl, rfl⟩) _ _ _ _ _ _))

theorem fillResourceViewList_silent (device : Device) (rw : DX12RenderWorks)
    (sl : DX12RenderSolution) (dx12List : DX12DescriptorList) :
    Silent (fillResourceViewList device rw sl dx12List) := by
  have hrt : ∀ attrs i, Silent (copyRenderTargetDescriptors rw sl dx12List.mCpuOffset attrs i) := by
    intro attrs
    induction attrs with
    | nil => intro i; exact silent_pure _
    | cons attr attrs ih =>
      intro i
      unfold copyRenderTargetDescriptors
      exact silent_bind (silent_mapAt _ _) (fun _ =>
        silent_bind (silent_emit _ rfl rfl) (fun _ => ih _))
  have hsub : ∀ subrange, Silent (copySubrange device rw sl dx12List.mCpuOffset subrange) := by
    intro subrange
    unfold copySubrange
    simp only [cm_bind_eq, cm_pure_eq]
    refine silent_bind ?_ (fun _ => silent_bind (silent_Ensures _) (fun _ => silent_pure _))
    split
    · split
      · exact silent_pure _
      · exact silent_throw _
    · exact hrt _ _
    · exact silent_throw _
  have hsubs : ∀ subranges offset,
      Silent (copySubranges device rw sl dx12List.mCpuOffset subranges offset) := by
    intro subranges
    induction subranges with
    | nil => intro offset; exact silent_pure _
    | cons subrange subranges ih =>
      intro offset
      unfold copySubranges
      exact silent_bind (hsub _) (fun _ => ih _)
  have hranges : ∀ ranges offset,
      Silent (copyRanges device rw sl dx12List.mCpuOffset ranges offset) := by
    intro ranges
    induction ranges with
    | nil => intro offset; exact silent_pure _
    | cons range ranges ih =>
      intro offset
      unfold copyRanges
      exact silent_bind (hsubs _ _) (fun _ => ih _)
  unfold fillResourceViewList
  simp only [cm_bind_eq, cm_pure_eq]
  refine silent_bind (hranges _ _) (fun _ => silent_bind (silent_Ensures _) (fun _ => ?_))
  split
  · exact silent_pure _
  · exact silent_throw _

theorem checkSamplerList_silent (collection : DX12DescriptorCollection)
    (dx12List : DX12DescriptorList) : Silent (checkSamplerList collection dx12List) := by
  unfold checkSamplerList
  split
  · simp only [cm_bind_eq, cm_pure_eq]
    refine silent_bind (silent_forEach _ _ (fun range => ?_)) (fun _ => ?_)
    · unfold checkSamplerRange
      split
      · exact silent_pure _
      · exact silent_throw _
    · split
      · exact silent_pure _
      · exact silent_throw _
  · exact silent_pure _

theorem allocates_traverse {α : Type} {g : α → List (Nat × Nat)} {f : α → Context → Step α}
    (h : Allocates g f) : Allocates (fun xs => xs.flatMap g) (traverse f) := by
  intro xs
  induction xs with
  | nil =>
    intro c _ _
    exact extends_refl c
  | cons x xs ih =>
    intro c hg hs
    have hgx : g x = [] ∧ xs.flatMap g = [] := by
      simpa [List.flatMap_cons, List.append_eq_nil] using hg
    have hx := h x c hgx.1 hs
    cases hfx : f x c with
    | mk x1 c1 t =>
      rw [hfx] at hx
      cases t with
      | some e =>
        simp only [traverse, hfx, List.flatMap_cons, hgx.2, List.append_nil]
        exact hx
      | none =>
        have hs1 : 0 < c1.mDescriptorHeap.mCpuStart := by
          obtain ⟨_, _, _, _, hst⟩ := hx
          simp only at hst
          omega
        have hrest := ih c1 hgx.2 hs1
        cases hxs : traverse f xs c1 with
        | mk xs1 c2 t2 =>
          rw [hxs] at hrest
          simp only [traverse, hfx, hxs, List.flatMap_cons]
          simpa using extends_trans hx hrest

theorem frees_traverse {α : Type} {g : α → List (Nat × Nat)} {f : α → Context → Step α}
    (h : Frees g f) : Frees (fun xs => xs.flatMap g) (traverse f) := by
  intro xs
  induction xs with
  | nil =>
    intro c
    exact ⟨extends_refl c, rfl, rfl⟩
  | cons x xs ih =>
    intro c
    obtain ⟨hx, hgx, ht⟩ := h x c
    cases hfx : f x c with
    | mk x1 c1 t =>
      rw [hfx] at hx hgx ht
      simp only at hx hgx ht
      subst ht
      obtain ⟨hrest, hgrest, htrest⟩ := ih c1
      cases hxs : traverse f xs c1 with
      | mk xs1 c2 t2 =>
        rw [hxs] at hrest hgrest htrest
        simp only at hrest hgrest htrest
        simp only [traverse, hfx, hxs, List.flatMap_cons]
        refine ⟨by simpa using extends_trans hx hrest, ?_, htrest⟩
        simp [hgx, hgrest]

theorem allocate_cpuStart {heap heap1 : DX12ShaderDescriptorHeap} {count first : Nat}
    (h : allocate heap count = some (first, heap1)) : heap1.mCpuStart = heap.mCpuStart := by
  unfold allocate at h
  split at h
  · simp only [Option.some.injEq, Prod.mk.injEq] at h
    rw [← h.2]
  · split at h
    · simp only [Option.some.injEq, Prod.mk.injEq] at h
      rw [← h.2]
    · cases h

theorem createResourceViewList_allocates (device : Device) (rw : DX12RenderWorks)
    (sl : DX12RenderSolution) (collection : DX12DescriptorCollection) :
    Allocates (ownedList collection) (createResourceViewList device rw sl collection) := by
  intro dx12List c hg hs
  unfold createResourceViewList
  cases hp : collection.mIndex.mPersistency with
  | Dynamic_ =>
    simp only [hg]
    exact extends_refl c
  | Persistent_ =>
    simp only
    split
    · simp only [hg]
      exact extends_refl c
    · cases ha : allocate c.mDescriptorHeap dx12List.mCapacity with
      | none =>
        simp only [hg]
        exact extends_refl c
      | some r =>
        obtain ⟨first, heap⟩ := r
        have hstart := allocate_cpuStart ha
        have hfill := (fillResourceViewList_silent device rw sl
          { dx12List with
            mGpuOffset := c.mDescriptorHeap.mGpuStart + first,
            mCpuOffset := c.mDescriptorHeap.mCpuStart + first }).silent
          { c with
            mDescriptorHeap := heap,
            mTrace := c.mTrace ++
              [Event.allocatePersistent dx12List.mCapacity (c.mDescriptorHeap.mCpuStart + first)] }
        have hfirst : Extends c
            { c with
              mDescriptorHeap := heap,
              mTrace := c.mTrace ++
                [Event.allocatePersistent dx12List.mCapacity
                  (c.mDescriptorHeap.mCpuStart + first)] }
            [(c.mDescriptorHeap.mCpuStart + first, dx12List.mCapacity)] [] :=
          ⟨_, rfl, rfl, rfl, hstart⟩
        have hne : c.mDescriptorHeap.mCpuStart + first ≠ 0 := by omega
        have howned : ownedList collection
            { dx12List with
              mGpuOffset := c.mDescriptorHeap.mGpuStart + first,
              mCpuOffset := c.mDescriptorHeap.mCpuStart + first } =
            [(c.mDescriptorHeap.mCpuStart + first, dx12List.mCapacity)] := by
          simp [ownedList, hp, hne]
        simp only
        split
        · rename_i heq
          rw [heq] at hfill
          simp only [howned]
          exact extends_silent hfirst hfill
        · rename_i heq
          rw [heq] at hfill
          simp only [howned]
          exact extends_silent hfirst hfill

theorem createCollection_allocates (device : Device) (rw : DX12RenderWorks)
    (sl : DX12RenderSolution) : Allocates ownedCollection (createCollection device rw sl) := by
  intro collection c hg hs
  have hlists := allocates_traverse (createResourceViewList_allocates device rw sl collection)
    collection.mResourceViewLists c hg hs
  unfold createCollection
  cases ht : traverse (createResourceViewList device rw sl collection)
      collection.mResourceViewLists c with
  | mk lists c1 t =>
    rw [ht] at hlists
    cases t with
    | some e => exact hlists
    | none =>
      have hsamplers := (silent_forEach (checkSamplerList collection) collection.mSamplerLists
        (fun dx12List => checkSamplerList_silent collection dx12List)).silent c1
      simp only
      split
      · rename_i heq
        rw [heq] at hsamplers
        exact extends_silent hlists hsamplers
      · rename_i heq
        rw [heq] at hsamplers
        exact extends_silent hlists hsamplers

theorem createSubpass_allocates (device : Device) (rw : DX12RenderWorks)
    (sl : DX12RenderSolution) : Allocates ownedSubpass (createSubpass device rw sl) := by
  intro subpass c hg hs
  have h := allocates_traverse (createCollection_allocates device rw sl)
    subpass.mDescriptors c hg hs
  unfold createSubpass
  cases ht : traverse (createCollection device rw sl) subpass.mDescriptors c with
  | mk v c1 t =>
    rw [ht] at h
    exact h

theorem createPass_allocates (device : Device) (rw : DX12RenderWorks)
    (sl : DX12RenderSolution) : Allocates ownedPass (createPass device rw sl) := by
  intro pass c hg hs
  have h := allocates_traverse (createSubpass_allocates device rw sl)
    pass.mGraphicsSubpasses c hg hs
  unfold createPass
  cases ht : traverse (createSubpass device rw sl) pass.mGraphicsSubpasses c with
  | mk v c1 t =>
    rw [ht] at h
    exact h

theorem createPipeline_allocates (device : Device) (rw : DX12RenderWorks)
    (sl : DX12RenderSolution) : Allocates ownedPipeline (createPipeline device rw sl) := by
  intro pipeline c hg hs
  have h := allocates_traverse (createPass_allocates device rw sl) pipeline.mPasses c hg hs
  unfold createPipeline
  cases ht : traverse (createPass device rw sl) pipeline.mPasses c with
  | mk v c1 t =>
    rw [ht] at h
    exact h

theorem clearResourceViewList_frees (collection : DX12DescriptorCollection) :
    Frees (ownedList collection) (clearResourceViewList collection) := by
  intro dx12List c
  unfold clearResourceViewList ownedList
  cases hp : collection.mIndex.mPersistency with
  | Dynamic_ => exact ⟨extends_refl c, rfl, rfl⟩
  | Persistent_ =>
    by_cases h0 : dx12List.mCpuOffset = 0
    · simp only [h0, ne_eq, not_true_eq_false, if_false]
      exact ⟨extends_refl c, trivial, trivial⟩
    · simp only [h0, ne_eq, not_false_eq_true, if_true]
      exact ⟨⟨_, rfl, rfl, rfl, rfl⟩, by simp, trivial⟩

theorem clearSamplerList_null (collection : DX12DescriptorCollection)
    (lists : List DX12DescriptorList) (h : lists.flatMap (ownedList collection) = [])
    (c : Context) : forEach (clearSamplerList collection) lists c = Outcome.ok () c := by
  induction lists with
  | nil => rfl
  | cons l lists ih =>
    have hl : ownedList collection l = [] ∧ lists.flatMap (ownedList collection) = [] := by
      simpa [List.flatMap_cons, List.append_eq_nil] using h
    have h1 : clearSamplerList collection l c = Outcome.ok () c := by
      have h2 := hl.1
      unfold ownedList at h2
      unfold clearSamplerList
      cases hp : collection.mIndex.mPersistency with
      | Dynamic_ => rfl
      | Persistent_ =>
        rw [hp] at h2
        by_cases h0 : l.mCpuOffset = 0
        · simp [h0, CM.pure]
        · simp [h0] at h2
    unfold forEach CM.bind
    rw [h1]
    exact ih hl.2

theorem clearCollection_frees : Frees ownedCollection clearCollection := by
  intro collection c
  obtain ⟨hx, hg, ht⟩ := frees_traverse (clearResourceViewList_frees collection)
    collection.mResourceViewLists c
  unfold clearCollection
  cases htr : traverse (clearResourceViewList collection) collection.mResourceViewLists c with
  | mk lists c1 t =>
    rw [htr] at hx hg ht
    simp only at hx hg ht
    subst ht
    simp only [clearSamplerList_null collection lists hg c1]
    exact ⟨hx, hg, trivial⟩

theorem clearSubpass_frees : Frees ownedSubpass clearSubpass := by
  intro subpass c
  have h := frees_traverse clearCollection_frees subpass.mDescriptors c
  unfold clearSubpass
  cases ht : traverse clearCollection subpass.mDescriptors c with
  | mk v c1 t =>
    rw [ht] at h
    exact h

theorem clearPass_frees : Frees ownedPass clearPass := by
  intro pass c
  have h := frees_traverse clearSubpass_frees pass.mGraphicsSubpasses c
  unfold clearPass
  cases ht : traverse clearSubpass pass.mGraphicsSubpasses c with
  | mk v c1 t =>
    rw [ht] at h
    exact h

theorem clearPipeline_frees : Frees ownedPipeline clearPipeline := by
  intro pipeline c
  have h := frees_traverse clearPass_frees pipeline.mPasses c
  unfold clearPipeline
  cases ht : traverse clearPass pipeline.mPasses c with
  | mk v c1 t =>
    rw [ht] at h
    exact h

theorem owned_withPipeline (rw : DX12RenderWorks) {id pipelineID : Nat}
    {sl : DX12RenderSolution} {pipeline : DX12RenderPipeline} (pipeline1 : DX12RenderPipeline)
    (hsol : rw.mSolutions[id]? = some sl) (hpipe : sl.mPipelines[pipelineID]? = some pipeline) :
    owned (withPipeline rw id pipelineID sl pipeline1) id pipelineID =
      ownedPipeline pipeline1 := by
  have hid : id < rw.mSolutions.length := by
    rcases Nat.lt_or_ge id rw.mSolutions.length with h | h
    · exact h
    · rw [List.getElem?_eq_none h] at hsol
      cases hsol
  have hpid : pipelineID < sl.mPipelines.length := by
    rcases Nat.lt_or_ge pipelineID sl.mPipelines.length with h | h
    · exact h
    · rw [List.getElem?_eq_none h] at hpipe
      cases hpipe
  simp [owned, withPipeline, hid, hpid]

theorem owned_of_nullOffsets {rw : DX12RenderWorks} {id pipelineID : Nat}
    (h : NullOffsets rw id pipelineID) : owned rw id pipelineID = [] := by
  cases hsol : rw.mSolutions[id]? with
  | none => simp only [owned, hsol]
  | some sl =>
    cases hpipe : sl.mPipelines[pipelineID]? with
    | none => simp only [owned, hsol, hpipe]
    | some pipeline =>
      have hp : NullPipeline pipeline := h sl (by simp [hsol]) pipeline (by simp [hpipe])
      simp only [owned, hsol, hpipe, ownedPipeline, ownedPass, ownedSubpass, ownedCollection,
        List.flatMap_eq_nil_iff]
      intro pass hpass subpass hsub collection hcoll dx12List hl
      have h0 := (hp pass hpass subpass hsub collection hcoll dx12List hl).1
      unfold ownedList
      split
      · simp [h0]
      · rfl

theorem createRenderSolutionRenderTargets_extends (device : Device) (rw : DX12RenderWorks)
    (id pipelineID : Nat) (c : Context) (hnull : owned rw id pipelineID = [])
    (hs : 0 < c.mDescriptorHeap.mCpuStart) :
    Extends c (createRenderSolutionRenderTargets device rw id pipelineID c).context
      (owned (createRenderSolutionRenderTargets device rw id pipelineID c).value id pipelineID)
      [] := by
  cases hsol : rw.mSolutions[id]? with
  | none =>
    simp only [createRenderSolutionRenderTargets, hsol, hnull]
    exact extends_refl c
  | some sl =>
    have hfb := createFramebuffers_extends device rw.mNumBackBuffers sl.mFramebuffers 0
      rw.mFramebuffers c
    cases hf : createFramebuffers device rw.mNumBackBuffers sl.mFramebuffers 0
        rw.mFramebuffers c with
    | mk framebuffers c1 t =>
      rw [hf] at hfb
      simp only at hfb
      have hsame : owned { rw with mFramebuffers := framebuffers } id pipelineID = [] := hnull
      cases t with
      | some e =>
        simp only [createRenderSolutionRenderTargets, hsol, hf, hsame]
        exact hfb
      | none =>
        have hviews := (createSolutionViews_silent device
          { rw with mFramebuffers := framebuffers } sl).silent c1
        cases hv : createSolutionViews device { rw with mFramebuffers := framebuffers } sl c1 with
        | throw e c2 =>
          rw [hv] at hviews
          simp only [createRenderSolutionRenderTargets, hsol, hf, hv, hsame]
          exact extends_silent hfb hviews
        | ok u c2 =>
          rw [hv] at hviews
          have h2 := extends_silent hfb hviews
          simp only [Outcome.context] at h2
          cases hpipe : sl.mPipelines[pipelineID]? with
          | none =>
            simp only [createRenderSolutionRenderTargets, hsol, hf, hv, hpipe, hsame]
            exact h2
          | some pipeline =>
            have hp0 : ownedPipeline pipeline = [] := by
              have h0 := hnull
              simp only [owned, hsol, hpipe] at h0
              exact h0
            have hs2 : 0 < c2.mDescriptorHeap.mCpuStart := by
              obtain ⟨_, _, _, _, hst⟩ := h2
              omega
            have hp := createPipeline_allocates device { rw with mFramebuffers := framebuffers }
              sl pipeline c2 hp0 hs2
            cases hcp : createPipeline device { rw with mFramebuffers := framebuffers }
                sl pipeline c2 with
            | mk pipeline1 c3 t3 =>
              rw [hcp] at hp
              simp only at hp
              simp only [createRenderSolutionRenderTargets, hsol, hf, hv, hpipe, hcp]
              rw [owned_withPipeline { rw with mFramebuffers := framebuffers }
                pipeline1 hsol hpipe]
              simpa using extends_trans h2 hp

theorem clearRenderTargets_frees (rw : DX12RenderWorks) (id pipelineID : Nat) (c : Context) :
    Extends c (clearRenderTargets rw id pipelineID c).context [] (owned rw id pipelineID) ∧
      owned (clearRenderTargets rw id pipelineID c).value id pipelineID = [] := by
  cases hsol : rw.mSolutions[id]? with
  | none =>
    simp only [clearRenderTargets, owned, hsol]
    exact ⟨extends_refl c, trivial⟩
  | some sl =>
    cases hpipe : sl.mPipelines[pipelineID]? with
    | none =>
      simp only [clearRenderTargets, owned, hsol, hpipe]
      exact ⟨extends_refl c, trivial⟩
    | some pipeline =>
      obtain ⟨hx, hg, ht⟩ := clearPipeline_frees pipeline c
      cases hcp : clearPipeline pipeline c with
      | mk pipeline1 c1 t =>
        rw [hcp] at hx hg ht
        simp only at hx hg ht
        subst ht
        have how : owned rw id pipelineID = ownedPipeline pipeline := by
          simp only [owned, hsol, hpipe]
        have hafter : owned
            { withPipeline rw id pipelineID sl pipeline1 with mFramebuffers := [] }
            id pipelineID = [] := by
          have h1 := owned_withPipeline rw pipeline1 hsol hpipe
          rw [hg] at h1
          exact h1
        simp only [clearRenderTargets, hsol, hpipe, hcp, how]
        exact ⟨hx, hafter⟩

/-- C15: starting from resource-view lists with null offsets, the
persistent ranges `createRenderSolutionRenderTargets` allocates are those
`clearRenderTargets` deallocates on the same solution and pipeline, each as
often as it was allocated and with the same handle and size; the creation
deallocates nothing, the clear allocates nothing, the lists of the pipeline
hold no range after it, and a second clear deallocates nothing. This holds
also when the creation throws. -/
theorem C15_persistent_ranges_are_deallocated_as_often_as_allocated (device : Device)
    (rw : DX12RenderWorks) (id pipelineID : Nat) (c : Context)
    (hstart : 0 < c.mDescriptorHeap.mCpuStart) (hnull : NullOffsets rw id pipelineID) :
    ∃ created cleared again,
      (createRenderSolutionRenderTargets device rw id pipelineID c).context.mTrace =
        c.mTrace ++ created ∧
      (clearRenderTargets (createRenderSolutionRenderTargets device rw id pipelineID c).value
        id pipelineID
        (createRenderSolutionRenderTargets device rw id pipelineID c).context).context.mTrace =
        c.mTrace ++ created ++ cleared ∧
      (clearRenderTargets
        (clearRenderTargets (createRenderSolutionRenderTargets device rw id pipelineID c).value
          id pipelineID
          (createRenderSolutionRenderTargets device rw id pipelineID c).context).value
        id pipelineID
        (clearRenderTargets (createRenderSolutionRenderTargets device rw id pipelineID c).value
          id pipelineID
          (createRenderSolutionRenderTargets device rw id pipelineID c).context).context
        ).context.mTrace = c.mTrace ++ created ++ cleared ++ again ∧
      deallocations created = [] ∧
      deallocations cleared = allocations created ∧
      allocations cleared = [] ∧
      owned (clearRenderTargets
        (createRenderSolutionRenderTargets device rw id pipelineID c).value id pipelineID
        (createRenderSolutionRenderTargets device rw id pipelineID c).context).value
        id pipelineID = [] ∧
      deallocations again = [] ∧ allocations again = [] := by
  obtain ⟨ev1, ht1, ha1, hd1, _⟩ := createRenderSolutionRenderTargets_extends device rw id
    pipelineID c (owned_of_nullOffsets hnull) hstart
  obtain ⟨⟨ev2, ht2, ha2, hd2, _⟩, hnone⟩ := clearRenderTargets_frees
    (createRenderSolutionRenderTargets device rw id pipelineID c).value id pipelineID
    (createRenderSolutionRenderTargets device rw id pipelineID c).context
  obtain ⟨⟨ev3, ht3, ha3, hd3, _⟩, _⟩ := clearRenderTargets_frees
    (clearRenderTargets (createRenderSolutionRenderTargets device rw id pipelineID c).value
      id pipelineID
      (createRenderSolutionRenderTargets device rw id pipelineID c).context).value
    id pipelineID
    (clearRenderTargets (createRenderSolutionRenderTargets device rw id pipelineID c).value
      id pipelineID
      (createRenderSolutionRenderTargets device rw id pipelineID c).context).context
  refine ⟨ev1, ev2, ev3, ht1, ?_, ?_, hd1, ?_, ha2, hnone, ?_, ha3⟩
  · rw [ht2, ht1]
  · rw [ht3, ht2, ht1]
  · rw [hd2, ha1]
  · rw [hd3, hnone]

/-- C15 at the scenario: on render works with two persistent resource-view lists of one
and of two descriptors: the creation allocates the ranges at handles 4096 and
4097, and the clear deallocates these two. -/
theorem C15_persistent_ranges_are_deallocated_as_often_as_allocated_witness :
    0 < exampleHeapContext.mDescriptorHeap.mCpuStart ∧
    NullOffsets (exampleWorks [exampleCollection]) 0 0 ∧
    allocations (createRenderSolutionRenderTargets exampleDevice
      (exampleWorks [exampleCollection]) 0 0 exampleHeapContext).context.mTrace =
      [(4096, 1), (4097, 2)] ∧
    deallocations (clearRenderTargets
      (createRenderSolutionRenderTargets exampleDevice
        (exampleWorks [exampleCollection]) 0 0 exampleHeapContext).value 0 0
      (createRenderSolutionRenderTargets exampleDevice
        (exampleWorks [exampleCollection]) 0 0 exampleHeapContext).context).context.mTrace =
      [(4096, 1), (4097, 2)] ∧
    ∃ created cleared again,
      (createRenderSolutionRenderTargets exampleDevice (exampleWorks [exampleCollection]) 0 0
        exampleHeapContext).context.mTrace = exampleHeapContext.mTrace ++ created ∧
      (clearRenderTargets (createRenderSolutionRenderTargets exampleDevice
        (exampleWorks [exampleCollection]) 0 0 exampleHeapContext).value 0 0
        (createRenderSolutionRenderTargets exampleDevice (exampleWorks [exampleCollection]) 0 0
          exampleHeapContext).context).context.mTrace =
        exampleHeapContext.mTrace ++ created ++ cleared ∧
      (clearRenderTargets
        (clearRenderTargets (createRenderSolutionRenderTargets exampleDevice
          (exampleWorks [exampleCollection]) 0 0 exampleHeapContext).value 0 0
          (createRenderSolutionRenderTargets exampleDevice (exampleWorks [exampleCollection])
            0 0 exampleHeapContext).context).value
        0 0
        (clearRenderTargets (createRenderSolutionRenderTargets exampleDevice
          (exampleWorks [exampleCollection]) 0 0 exampleHeapContext).value 0 0
          (createRenderSolutionRenderTargets exampleDevice (exampleWorks [exampleCollection])
            0 0 exampleHeapContext).context).context
        ).context.mTrace = exampleHeapContext.mTrace ++ created ++ cleared ++ again ∧
      deallocations created = [] ∧
      deallocations cleared = allocations created ∧
      allocations cleared = [] ∧
      owned (clearRenderTargets
        (createRenderSolutionRenderTargets exampleDevice (exampleWorks [exampleCollection]) 0 0
          exampleHeapContext).value 0 0
        (createRenderSolutionRenderTargets exampleDevice (exampleWorks [exampleCollection]) 0 0
          exampleHeapContext).context).value 0 0 = [] ∧
      deallocations again = [] ∧ allocations again = [] :=
  ⟨by decide, by decide!, by decide!, by decide!,
    C15_persistent_ranges_are_deallocated_as_often_as_allocated exampleDevice
      (exampleWorks [exampleCollection]) 0 0 exampleHeapContext (by decide) (by decide!)⟩

/-! ### Rejected descriptor lists -/

theorem thrown_bind_left {α β : Type} {m : CM α} (f : α → CM β) {c : Context}
    (h : (m c).thrown.isSome = true) : (CM.bind m f c).thrown.isSome = true := by
  unfold CM.bind
  cases hm : m c with
  | ok a c1 =>
    rw [hm] at h
    cases h
  | throw e c1 => rfl

theorem thrown_bind_right {α β : Type} (m : CM α) {f : α → CM β}
    (h : ∀ a c1, (f a c1).thrown.isSome = true) (c : Context) :
    (CM.bind m f c).thrown.isSome = true := by
  unfold CM.bind
  cases hm : m c with
  | ok a c1 => exact h a c1
  | throw e c1 => rfl

theorem forEach_thrown {α : Type} {f : α → CM Unit} {xs : List α} {x : α} (hx : x ∈ xs)
    (h : ∀ c, (f x c).thrown.isSome = true) (c : Context) :
    (forEach f xs c).thrown.isSome = true := by
  induction xs generalizing c with
  | nil => cases hx
  | cons y ys ih =>
    unfold forEach
    rcases List.mem_cons.mp hx with rfl | hmem
    · exact thrown_bind_left _ (h c)
    · exact thrown_bind_right _ (fun _ c1 => ih hmem c1) c

theorem traverse_thrown {α : Type} {f : α → Context → Step α} {xs : List α} {x : α}
    (hx : x ∈ xs) (h : ∀ c, (f x c).thrown.isSome = true) (c : Context) :
    (traverse f xs c).thrown.isSome = true := by
  induction xs generalizing c with
  | nil => cases hx
  | cons y ys ih =>
    cases hfy : f y c with
    | mk y1 c1 t =>
      cases t with
      | some e => simp only [traverse, hfy, Option.isSome_some]
      | none =>
        rcases List.mem_cons.mp hx with rfl | hmem
        · have hy := h c
          rw [hfy] at hy
          cases hy
        · have hrest := ih hmem c1
          cases hxs : traverse f ys c1 with
          | mk ys1 c2 t2 =>
            rw [hxs] at hrest
            simp only [traverse, hfy, hxs]
            exact hrest

theorem copySubranges_thrown (device : Device) (rw : DX12RenderWorks) (sl : DX12RenderSolution)
    (cpuHandle : Nat) {subranges : List DescriptorSubrange} {subrange : DescriptorSubrange}
    (hs : subrange ∈ subranges)
    (h : ∀ c, (copySubrange device rw sl cpuHandle subrange c).thrown.isSome = true)
    (offset : Nat) (c : Context) :
    (copySubranges device rw sl cpuHandle subranges offset c).thrown.isSome = true := by
  induction subranges generalizing offset c with
  | nil => cases hs
  | cons y ys ih =>
    unfold copySubranges
    rcases List.mem_cons.mp hs with rfl | hmem
    · exact thrown_bind_left _ (h c)
    · exact thrown_bind_right _ (fun _ c1 => ih hmem _ c1) c

theorem copyRanges_thrown (device : Device) (rw : DX12RenderWorks) (sl : DX12RenderSolution)
    (cpuHandle : Nat) {ranges : List DescriptorRange} {range : DescriptorRange}
    {subrange : DescriptorSubrange} (hr : range ∈ ranges) (hs : subrange ∈ range.mSubranges)
    (h : ∀ c, (copySubrange device rw sl cpuHandle subrange c).thrown.isSome = true)
    (offset : Nat) (c : Context) :
    (copyRanges device rw sl cpuHandle ranges offset c).thrown.isSome = true := by
  induction ranges generalizing offset c with
  | nil => cases hr
  | cons y ys ih =>
    unfold copyRanges
    rcases List.mem_cons.mp hr with rfl | hmem
    · exact thrown_bind_left _ (copySubranges_thrown device rw sl cpuHandle hs h offset c)
    · exact thrown_bind_right _ (fun _ c1 => ih hmem _ c1) c

theorem copySubrange_material (device : Device) (rw : DX12RenderWorks) (sl : DX12RenderSolution)
    (cpuHandle : Nat) {subrange : DescriptorSubrange}
    (h : subrange.mSource = DescriptorSource.MaterialSource_) (c : Context) :
    copySubrange device rw sl cpuHandle subrange c = Outcome.throw
      (Thrown.runtime_error "GraphicsSubpass MaterialSource Descriptor not supported yet") c := by
  unfold copySubrange
  simp only [cm_bind_eq, h]
  rfl

theorem copySubrange_engine (device : Device) (rw : DX12RenderWorks) (sl : DX12RenderSolution)
    (cpuHandle : Nat) {subrange : DescriptorSubrange} {attr : ShaderAttribute}
    {attrs : List ShaderAttribute} (h : subrange.mSource = DescriptorSource.EngineSource_)
    (hd : subrange.mDescriptors = attr :: attrs) (c : Context) :
    copySubrange device rw sl cpuHandle subrange c =
      Outcome.throw (engineDescriptorError device attr) c := by
  unfold copySubrange
  simp only [cm_bind_eq, h, hd]
  rfl

theorem fillResourceViewList_thrown (device : Device) (rw : DX12RenderWorks)
    (sl : DX12RenderSolution) (dx12List : DX12DescriptorList) {range : DescriptorRange}
    {subrange : DescriptorSubrange} (hr : range ∈ dx12List.mRanges)
    (hs : subrange ∈ range.mSubranges)
    (h : ∀ cpuHandle c, (copySubrange device rw sl cpuHandle subrange c).thrown.isSome = true)
    (c : Context) : (fillResourceViewList device rw sl dx12List c).thrown.isSome = true := by
  unfold fillResourceViewList
  simp only [cm_bind_eq]
  exact thrown_bind_left _ (copyRanges_thrown device rw sl _ hr hs (h _) 0 c)

theorem fillResourceViewList_unbounded (device : Device) (rw : DX12RenderWorks)
    (sl : DX12RenderSolution) (dx12List : DX12DescriptorList)
    (h : dx12List.mUnboundedDescriptors ≠ []) (c : Context) :
    (fillResourceViewList device rw sl dx12List c).thrown.isSome = true := by
  unfold fillResourceViewList
  simp only [cm_bind_eq]
  refine thrown_bind_right _ (fun _ c1 => thrown_bind_right _ (fun _ c2 => ?_) c1) c
  cases hu : dx12List.mUnboundedDescriptors with
  | nil => exact absurd hu h
  | cons a as => rfl

theorem createResourceViewList_thrown (device : Device) (rw : DX12RenderWorks)
    (sl : DX12RenderSolution) {collection : DX12DescriptorCollection}
    {dx12List : DX12DescriptorList}
    (hp : collection.mIndex.mPersistency = Persistency.Persistent_)
    (hu : device.PerPass ≤ collection.mIndex.mUpdate)
    (h : ∀ gpuOffset cpuOffset c,
      (fillResourceViewList device rw sl
        { dx12List with mGpuOffset := gpuOffset, mCpuOffset := cpuOffset } c).thrown.isSome = true)
    (c : Context) :
    (createResourceViewList device rw sl collection dx12List c).thrown.isSome = true := by
  unfold createResourceViewList
  simp only [hp, Nat.not_lt.mpr hu, if_false]
  cases ha : allocate c.mDescriptorHeap dx12List.mCapacity with
  | none => rfl
  | some r =>
    obtain ⟨first, heap⟩ := r
    have hf := h (c.mDescriptorHeap.mGpuStart + first) (c.mDescriptorHeap.mCpuStart + first)
      { c with
        mDescriptorHeap := heap,
        mTrace := c.mTrace ++
          [Event.allocatePersistent dx12List.mCapacity (c.mDescriptorHeap.mCpuStart + first)] }
    simp only
    split
    · rename_i heq
      rw [heq] at hf
      cases hf
    · rfl

theorem createCollection_thrown_of_viewList (device : Device) (rw : DX12RenderWorks)
    (sl : DX12RenderSolution) {collection : DX12DescriptorCollection}
    {dx12List : DX12DescriptorList} (hl : dx12List ∈ collection.mResourceViewLists)
    (h : ∀ c, (createResourceViewList device rw sl collection dx12List c).thrown.isSome = true)
    (c : Context) : (createCollection device rw sl collection c).thrown.isSome = true := by
  have ht := traverse_thrown hl h c
  cases htr : traverse (createResourceViewList device rw sl collection)
      collection.mResourceViewLists c with
  | mk lists c1 t =>
    rw [htr] at ht
    cases t with
    | none => cases ht
    | some e => simp only [createCollection, htr, Option.isSome_some]

theorem createCollection_thrown_of_samplerList (device : Device) (rw : DX12RenderWorks)
    (sl : DX12RenderSolution) {collection : DX12DescriptorCollection}
    {dx12List : DX12DescriptorList} (hl : dx12List ∈ collection.mSamplerLists)
    (h : ∀ c, (checkSamplerList collection dx12List c).thrown.isSome = true)
    (c : Context) : (createCollection device rw sl collection c).thrown.isSome = true := by
  cases htr : traverse (createResourceViewList device rw sl collection)
      collection.mResourceViewLists c with
  | mk lists c1 t =>
    cases t with
    | some e => simp only [createCollection, htr, Option.isSome_some]
    | none =>
      have hs := forEach_thrown hl h c1
      cases hfe : forEach (checkSamplerList collection) collection.mSamplerLists c1 with
      | ok u c2 =>
        rw [hfe] at hs
        cases hs
      | throw e c2 => simp only [createCollection, htr, hfe, Option.isSome_some]

theorem createPipeline_thrown (device : Device) (rw : DX12RenderWorks)
    (sl : DX12RenderSolution) {pipeline : DX12RenderPipeline}
    {collection : DX12DescriptorCollection} (hc : CollectionOf pipeline collection)
    (h : ∀ c, (createCollection device rw sl collection c).thrown.isSome = true)
    (c : Context) : (createPipeline device rw sl pipeline c).thrown.isSome = true := by
  obtain ⟨pass, hpass, subpass, hsub, hcoll⟩ := hc
  have hsubpass : ∀ c, (createSubpass device rw sl subpass c).thrown.isSome = true := by
    intro c
    have ht := traverse_thrown hcoll h c
    unfold createSubpass
    cases htr : traverse (createCollection device rw sl) subpass.mDescriptors c with
    | mk v c1 t =>
      rw [htr] at ht
      exact ht
  have hps : ∀ c, (createPass device rw sl pass c).thrown.isSome = true := by
    intro c
    have ht := traverse_thrown hsub hsubpass c
    unfold createPass
    cases htr : traverse (createSubpass device rw sl) pass.mGraphicsSubpasses c with
    | mk v c1 t =>
      rw [htr] at ht
      exact ht
  have ht := traverse_thrown hpass hps c
  unfold createPipeline
  cases htr : traverse (createPass device rw sl) pipeline.mPasses c with
  | mk v c1 t =>
    rw [htr] at ht
    exact ht

theorem createRenderSolutionRenderTargets_thrown (device : Device) (rw : DX12RenderWorks)
    (id pipelineID : Nat) {sl : DX12RenderSolution} {pipeline : DX12RenderPipeline}
    {collection : DX12DescriptorCollection} (hsol : rw.mSolutions[id]? = some sl)
    (hpipe : sl.mPipelines[pipelineID]? = some pipeline)
    (hc : CollectionOf pipeline collection)
    (h : ∀ rw1 c, (createCollection device rw1 sl collection c).thrown.isSome = true)
    (c : Context) :
    (createRenderSolutionRenderTargets device rw id pipelineID c).thrown.isSome = true := by
  cases hf : createFramebuffers device rw.mNumBackBuffers sl.mFramebuffers 0
      rw.mFramebuffers c with
  | mk framebuffers c1 t =>
    cases t with
    | some e => simp only [createRenderSolutionRenderTargets, hsol, hf, Option.isSome_some]
    | none =>
      cases hv : createSolutionViews device { rw with mFramebuffers := framebuffers } sl c1 with
      | throw e c2 =>
        simp only [createRenderSolutionRenderTargets, hsol, hf, hv, Option.isSome_some]
      | ok u c2 =>
        have hp := createPipeline_thrown device { rw with mFramebuffers := framebuffers } sl hc
          (h _) c2
        cases hcp : createPipeline device { rw with mFramebuffers := framebuffers }
            sl pipeline c2 with
        | mk pipeline1 c3 t3 =>
          rw [hcp] at hp
          simp only [createRenderSolutionRenderTargets, hsol, hf, hv, hpipe, hcp]
          exact hp

/-- C16 (amended): when a persistent descriptor collection of a graphics subpass
of the selected pipeline is updated per pass or less often and one of its
resource-view lists has a material-sourced subrange,
`createRenderSolutionRenderTargets` does not complete: it throws. -/
theorem C16_material_sourced_subrange_of_a_persistent_list_is_rejected (device : Device)
    (rw : DX12RenderWorks) (id pipelineID : Nat) (c : Context) (sl : DX12RenderSolution)
    (pipeline : DX12RenderPipeline) (collection : DX12DescriptorCollection)
    (dx12List : DX12DescriptorList) (range : DescriptorRange) (subrange : DescriptorSubrange)
    (hsol : rw.mSolutions[id]? = some sl) (hpipe : sl.mPipelines[pipelineID]? = some pipeline)
    (hcollection : CollectionOf pipeline collection)
    (hpersistent : collection.mIndex.mPersistency = Persistency.Persistent_)
    (hupdate : device.PerPass ≤ collection.mIndex.mUpdate)
    (hlist : dx12List ∈ collection.mResourceViewLists) (hrange : range ∈ dx12List.mRanges)
    (hsubrange : subrange ∈ range.mSubranges)
    (hsource : subrange.mSource = DescriptorSource.MaterialSource_) :
    (createRenderSolutionRenderTargets device rw id pipelineID c).thrown.isSome = true :=
  createRenderSolutionRenderTargets_thrown device rw id pipelineID hsol hpipe hcollection
    (fun rw1 c1 => createCollection_thrown_of_viewList device rw1 sl hlist
      (fun c2 => createResourceViewList_thrown device rw1 sl hpersistent hupdate
        (fun gpuOffset cpuOffset c3 => fillResourceViewList_thrown device rw1 sl
          { dx12List with mGpuOffset := gpuOffset, mCpuOffset := cpuOffset } hrange hsubrange
          (fun cpuHandle c4 => by
            rw [copySubrange_material device rw1 sl cpuHandle hsource c4]
            rfl) c3) c2) c1) c

/-- C16 (amended) at the scenario: on render works whose persistent collection, updated per pass,
has a resource-view list with a material-sourced subrange: the call throws
the error of the material source. -/
theorem C16_material_sourced_subrange_of_a_persistent_list_is_rejected_witness :
    (createRenderSolutionRenderTargets exampleDevice (exampleWorks [exampleMaterialCollection])
      0 0 exampleHeapContext).thrown.isSome = true ∧
    (createRenderSolutionRenderTargets exampleDevice (exampleWorks [exampleMaterialCollection])
      0 0 exampleHeapContext).thrown = some
        (Thrown.runtime_error "GraphicsSubpass MaterialSource Descriptor not supported yet") :=
  ⟨C16_material_sourced_subrange_of_a_persistent_list_is_rejected exampleDevice
      (exampleWorks [exampleMaterialCollection]) 0 0 exampleHeapContext _ _
      exampleMaterialCollection
      (exampleViewList DescriptorSource.MaterialSource_ [exampleViewAttribute])
      ⟨RangeType.other 1, [⟨DescriptorSource.MaterialSource_, [exampleViewAttribute]⟩]⟩
      ⟨DescriptorSource.MaterialSource_, [exampleViewAttribute]⟩
      rfl rfl
      ⟨_, List.mem_singleton.mpr rfl, _, List.mem_singleton.mpr rfl, List.mem_singleton.mpr rfl⟩
      rfl (by decide) (List.mem_singleton.mpr rfl) (List.mem_singleton.mpr rfl)
      (List.mem_singleton.mpr rfl) rfl,
    by decide!⟩

/-- C16 (counterexample): resource-view lists with a
material-sourced subrange are accepted when their collection is dynamic, and
when it is persistent but updated more often than per pass. -/
theorem C16_material_sourced_subrange_is_accepted_outside_persistent_per_pass_lists :
    (∃ dx12List ∈ exampleDynamicMaterialCollection.mResourceViewLists,
      ∃ range ∈ dx12List.mRanges, ∃ subrange ∈ range.mSubranges,
        subrange.mSource = DescriptorSource.MaterialSource_) ∧
    (createRenderSolutionRenderTargets exampleDevice
      (exampleWorks [exampleDynamicMaterialCollection]) 0 0 exampleHeapContext).thrown = none ∧
    (∃ dx12List ∈ exampleFrequentMaterialCollection.mResourceViewLists,
      ∃ range ∈ dx12List.mRanges, ∃ subrange ∈ range.mSubranges,
        subrange.mSource = DescriptorSource.MaterialSource_) ∧
    exampleFrequentMaterialCollection.mIndex.mPersistency = Persistency.Persistent_ ∧
    (createRenderSolutionRenderTargets exampleDevice
      (exampleWorks [exampleFrequentMaterialCollection]) 0 0 exampleHeapContext).thrown = none :=
  ⟨by decide!, by decide!, by decide!, rfl, by decide!⟩

/-- C17 (amended): when a persistent descriptor
collection of a graphics subpass of the selected pipeline is updated per pass
or less often and one of its resource-view lists has an engine-sourced
subrange with a descriptor, of a constant type or not,
`createRenderSolutionRenderTargets` does not complete: it throws, and the
visit of that subrange throws the error of its first descriptor before any
view is copied. -/
theorem C17_engine_sourced_descriptor_of_a_persistent_list_is_rejected (device : Device)
    (rw : DX12RenderWorks) (id pipelineID : Nat) (c : Context) (sl : DX12RenderSolution)
    (pipeline : DX12RenderPipeline) (collection : DX12DescriptorCollection)
    (dx12List : DX12DescriptorList) (range : DescriptorRange) (subrange : DescriptorSubrange)
    (attr : ShaderAttribute) (attrs : List ShaderAttribute) (cpuHandle : Nat)
    (hsol : rw.mSolutions[id]? = some sl) (hpipe : sl.mPipelines[pipelineID]? = some pipeline)
    (hcollection : CollectionOf pipeline collection)
    (hpersistent : collection.mIndex.mPersistency = Persistency.Persistent_)
    (hupdate : device.PerPass ≤ collection.mIndex.mUpdate)
    (hlist : dx12List ∈ collection.mResourceViewLists) (hrange : range ∈ dx12List.mRanges)
    (hsubrange : subrange ∈ range.mSubranges)
    (hsource : subrange.mSource = DescriptorSource.EngineSource_)
    (hdescriptors : subrange.mDescriptors = attr :: attrs) :
    (createRenderSolutionRenderTargets device rw id pipelineID c).thrown.isSome = true ∧
    copySubrange device rw sl cpuHandle subrange c =
      Outcome.throw (engineDescriptorError device attr) c :=
  ⟨createRenderSolutionRenderTargets_thrown device rw id pipelineID hsol hpipe hcollection
    (fun rw1 c1 => createCollection_thrown_of_viewList device rw1 sl hlist
      (fun c2 => createResourceViewList_thrown device rw1 sl hpersistent hupdate
        (fun gpuOffset cpuOffset c3 => fillResourceViewList_thrown device rw1 sl
          { dx12List with mGpuOffset := gpuOffset, mCpuOffset := cpuOffset } hrange hsubrange
          (fun cpuHandle1 c4 => by
            rw [copySubrange_engine device rw1 sl cpuHandle1 hsource hdescriptors c4]
            rfl) c3) c2) c1) c,
    copySubrange_engine device rw sl cpuHandle hsource hdescriptors c⟩

/-- C17 (amended) at the scenario: on render works whose persistent collection, updated per pass,
has a resource-view list with an engine-sourced subrange of one constant-typed
descriptor: the call throws the error of the constant descriptor. -/
theorem C17_engine_sourced_descriptor_of_a_persistent_list_is_rejected_witness :
    exampleDevice.isConstant exampleConstantAttribute.mAttributeType = true ∧
    (createRenderSolutionRenderTargets exampleDevice
      (exampleWorks [exampleEngineConstantCollection]) 0 0 exampleHeapContext).thrown = some
        (Thrown.runtime_error "descriptor should not be constant") ∧
    ((createRenderSolutionRenderTargets exampleDevice
      (exampleWorks [exampleEngineConstantCollection]) 0 0 exampleHeapContext).thrown.isSome
        = true ∧
    copySubrange exampleDevice (exampleWorks [exampleEngineConstantCollection])
      ⟨[⟨[⟨[⟨[exampleEngineConstantCollection]⟩]⟩]⟩],
        [⟨⟨28, 1280, 720, 1, 1⟩, ClearValue.ClearColor 28⟩], [⟨28⟩], [⟨0⟩], [], [], [⟨28⟩],
        [⟨0⟩], [(7, 0)]⟩
      4096 ⟨DescriptorSource.EngineSource_, [exampleConstantAttribute]⟩ exampleHeapContext =
      Outcome.throw (engineDescriptorError exampleDevice exampleConstantAttribute)
        exampleHeapContext) :=
  ⟨by decide, by decide!,
    C17_engine_sourced_descriptor_of_a_persistent_list_is_rejected exampleDevice
      (exampleWorks [exampleEngineConstantCollection]) 0 0 exampleHeapContext _ _
      exampleEngineConstantCollection
      (exampleViewList DescriptorSource.EngineSource_ [exampleConstantAttribute])
      ⟨RangeType.other 1, [⟨DescriptorSource.EngineSource_, [exampleConstantAttribute]⟩]⟩
      ⟨DescriptorSource.EngineSource_, [exampleConstantAttribute]⟩
      exampleConstantAttribute [] 4096
      rfl rfl
      ⟨_, List.mem_singleton.mpr rfl, _, List.mem_singleton.mpr rfl, List.mem_singleton.mpr rfl⟩
      rfl (by decide) (List.mem_singleton.mpr rfl) (List.mem_singleton.mpr rfl)
      (List.mem_singleton.mpr rfl) rfl rfl⟩

/-- C17 (counterexample): a constant-typed descriptor in a
render-target-sourced subrange of a persistent resource-view list is not
rejected; the call completes and the view of its attribute is copied to the
range of the list. -/
theorem C17_constant_typed_descriptor_of_a_render_target_subrange_is_copied :
    exampleDevice.isConstant exampleConstantAttribute.mAttributeType = true ∧
    (createRenderSolutionRenderTargets exampleDevice
      (exampleWorks [exampleRenderTargetConstantCollection]) 0 0 exampleHeapContext).thrown
        = none ∧
    Event.CopyDescriptorsSimple 4096 300 ∈
      (createRenderSolutionRenderTargets exampleDevice
        (exampleWorks [exampleRenderTargetConstantCollection]) 0 0
        exampleHeapContext).context.mTrace :=
  ⟨by decide, by decide!, by decide!⟩

theorem checkSamplerList_thrown {collection : DX12DescriptorCollection}
    {dx12List : DX12DescriptorList}
    (hp : collection.mIndex.mPersistency = Persistency.Persistent_)
    (h : (∃ range ∈ dx12List.mRanges, range.mType ≠ RangeType.SSV_) ∨
      dx12List.mUnboundedDescriptors ≠ []) (c : Context) :
    (checkSamplerList collection dx12List c).thrown.isSome = true := by
  unfold checkSamplerList
  simp only [hp, cm_bind_eq]
  rcases h with ⟨range, hr, ht⟩ | hu
  · refine thrown_bind_left _ (forEach_thrown hr (fun c1 => ?_) c)
    unfold checkSamplerRange
    simp only [ht, if_false]
    rfl
  · refine thrown_bind_right _ (fun _ c1 => ?_) c
    cases hd : dx12List.mUnboundedDescriptors with
    | nil => exact absurd hd hu
    | cons a as => rfl

/-- C18 (amended): in a persistent descriptor collection
of a graphics subpass of the selected pipeline, a sampler list with a range
whose type is not `SSV_`, a sampler list with an unbounded descriptor, and,
when the collection is updated per pass or less often, a resource-view list
with an unbounded descriptor make `createRenderSolutionRenderTargets` throw
rather than complete. -/
theorem C18_other_range_or_unbounded_array_of_a_persistent_list_is_rejected (device : Device)
    (rw : DX12RenderWorks) (id pipelineID : Nat) (c : Context) (sl : DX12RenderSolution)
    (pipeline : DX12RenderPipeline) (collection : DX12DescriptorCollection)
    (hsol : rw.mSolutions[id]? = some sl) (hpipe : sl.mPipelines[pipelineID]? = some pipeline)
    (hcollection : CollectionOf pipeline collection)
    (hpersistent : collection.mIndex.mPersistency = Persistency.Persistent_)
    (hlist : (∃ dx12List ∈ collection.mSamplerLists,
        (∃ range ∈ dx12List.mRanges, range.mType ≠ RangeType.SSV_) ∨
          dx12List.mUnboundedDescriptors ≠ []) ∨
      (device.PerPass ≤ collection.mIndex.mUpdate ∧
        ∃ dx12List ∈ collection.mResourceViewLists, dx12List.mUnboundedDescriptors ≠ [])) :
    (createRenderSolutionRenderTargets device rw id pipelineID c).thrown.isSome = true := by
  refine createRenderSolutionRenderTargets_thrown device rw id pipelineID hsol hpipe hcollection
    (fun rw1 c1 => ?_) c
  rcases hlist with ⟨dx12List, hl, hbad⟩ | ⟨hupdate, dx12List, hl, hu⟩
  · exact createCollection_thrown_of_samplerList device rw1 sl hl
      (checkSamplerList_thrown hpersistent hbad) c1
  · exact createCollection_thrown_of_viewList device rw1 sl hl
      (fun c2 => createResourceViewList_thrown device rw1 sl hpersistent hupdate
        (fun gpuOffset cpuOffset c3 => fillResourceViewList_unbounded device rw1 sl
          { dx12List with mGpuOffset := gpuOffset, mCpuOffset := cpuOffset } hu c3) c2) c1

/-- C18 (amended) at the scenario: on render works whose persistent collection has a sampler list
with a range that is not of type `SSV_`: the call throws the error of the
sampler list. -/
theorem C18_other_range_or_unbounded_array_of_a_persistent_list_is_rejected_witness :
    (createRenderSolutionRenderTargets exampleDevice
      (exampleWorks [exampleSamplerCollection (RangeType.other 1)]) 0 0
      exampleHeapContext).thrown = some
        (Thrown.runtime_error "GraphicsSubpass sampler list not supported yet") ∧
    (createRenderSolutionRenderTargets exampleDevice
      (exampleWorks [exampleSamplerCollection (RangeType.other 1)]) 0 0
      exampleHeapContext).thrown.isSome = true :=
  ⟨by decide!,
    C18_other_range_or_unbounded_array_of_a_persistent_list_is_rejected exampleDevice
      (exampleWorks [exampleSamplerCollection (RangeType.other 1)]) 0 0 exampleHeapContext _ _
      (exampleSamplerCollection (RangeType.other 1))
      rfl rfl
      ⟨_, List.mem_singleton.mpr rfl, _, List.mem_singleton.mpr rfl, List.mem_singleton.mpr rfl⟩
      rfl
      (Or.inl ⟨exampleSamplerList (RangeType.other 1), List.mem_singleton.mpr rfl,
        Or.inl ⟨_, List.mem_singleton.mpr rfl, by decide⟩⟩)⟩

/-- C18 (counterexample): a persistent sampler list with one
range of type `SSV_` is accepted, and so are the lists of a dynamic
collection with unbounded descriptors. -/
theorem C18_sampler_list_with_a_sampler_range_is_accepted :
    (∃ dx12List ∈ (exampleSamplerCollection RangeType.SSV_).mSamplerLists,
      dx12List.mRanges ≠ []) ∧
    (exampleSamplerCollection RangeType.SSV_).mIndex.mPersistency = Persistency.Persistent_ ∧
    (createRenderSolutionRenderTargets exampleDevice
      (exampleWorks [exampleSamplerCollection RangeType.SSV_]) 0 0
      exampleHeapContext).thrown = none ∧
    (∃ dx12List ∈ exampleDynamicUnboundedCollection.mResourceViewLists,
      dx12List.mUnboundedDescriptors ≠ []) ∧
    (∃ dx12List ∈ exampleDynamicUnboundedCollection.mSamplerLists,
      dx12List.mUnboundedDescriptors ≠ []) ∧
    (createRenderSolutionRenderTargets exampleDevice
      (exampleWorks [exampleDynamicUnboundedCollection]) 0 0
      exampleHeapContext).thrown = none :=
  ⟨by decide!, rfl, by decide!, by decide!, by decide!, by decide!⟩

end RenderWorks

namespace RenderWorks

/-! ### Live ranges of a heap -/

theorem disjointRanges_symm {a b : Nat × Nat} (h : DisjointRanges a b) : DisjointRanges b a :=
  Or.symm h

theorem takeFree_perm {count first : Nat} {free rest : List (Nat × Nat)}
    (h : takeFree count free = some (first, rest)) : free.Perm ((count, first) :: rest) := by
  induction free generalizing rest with
  | nil => cases h
  | cons b bs ih =>
    unfold takeFree at h
    split at h
    · rename_i hb
      simp only [Option.some.injEq, Prod.mk.injEq] at h
      obtain ⟨h1, h2⟩ := h
      subst h2
      have : b = (count, first) := by
        cases b
        simp only at hb h1
        rw [hb, h1]
      rw [this]
    · cases ht : takeFree count bs with
      | none => simp [ht] at h
      | some r =>
        simp only [ht, Option.map_some', Option.some.injEq, Prod.mk.injEq] at h
        obtain ⟨h1, h2⟩ := h
        have hperm := @ih r.2 (by rw [ht, ← h1])
        rw [← h2]
        exact (List.Perm.cons b hperm).trans (List.Perm.swap _ _ _)

theorem perm_cons_erase_range (l : List (Nat × Nat)) (r : Nat × Nat) (h : r ∈ l) :
    (r :: l.erase r).Perm l := by
  induction l with
  | nil => cases h
  | cons a l ih =>
    by_cases ha : a = r
    · subst ha
      simp
    · have hmem : r ∈ l := by
        rcases List.mem_cons.mp h with rfl | hm
        · exact absurd rfl ha
        · exact hm
      have hne : (a == r) = false := by simpa using ha
      rw [List.erase_cons, hne]
      exact (List.Perm.swap _ _ _).trans (List.Perm.cons a (ih hmem))

theorem tiled_of_perm {s s1 : HeapState}
    (hperm : (s1.live ++ freeRanges s1.heap).Perm (s.live ++ freeRanges s.heap))
    (hnext : s1.heap.mNext = s.heap.mNext) (hcap : s1.heap.mCapacity = s.heap.mCapacity)
    (h : s.Tiled) : s1.Tiled := by
  obtain ⟨hp, hb, hc⟩ := h
  refine ⟨(hperm.pairwise_iff (fun hab => disjointRanges_symm hab)).mpr hp, ?_, ?_⟩
  · intro r hr
    rw [hnext]
    exact hb r (hperm.subset hr)
  · rw [hnext, hcap]
    exact hc

/-- A call that hands back a live range, or allocates, keeps the ranges
tiled. -/
theorem call_tiled (s : HeapState) (c : HeapCall) (h : s.Tiled)
    (hproper : s.proper [c] = true) : (s.call c).Tiled := by
  cases c with
  | allocatePersistent count =>
    cases ht : takeFree count s.heap.mFree with
    | some r =>
      obtain ⟨first, rest⟩ := r
      simp only [HeapState.call, allocate, ht]
      refine tiled_of_perm (s := s) ?_ rfl rfl h
      have hperm := takeFree_perm ht
      simp only [freeRanges]
      have hmap := hperm.map (fun b : Nat × Nat => (b.2, b.1))
      simp only [List.map_cons] at hmap
      rw [List.append_assoc]
      refine List.Perm.append_left _ ?_
      simpa using hmap.symm
    | none =>
      by_cases hroom : s.heap.mNext + count ≤ s.heap.mCapacity
      · simp only [HeapState.call, allocate, ht, hroom, if_true]
        obtain ⟨hp, hb, hc⟩ := h
        have hperm : (s.live ++ [(s.heap.mNext, count)] ++ freeRanges s.heap).Perm
            ((s.heap.mNext, count) :: (s.live ++ freeRanges s.heap)) := by
          rw [List.append_assoc]
          exact List.perm_middle
        refine ⟨?_, ?_, hroom⟩
        · refine (hperm.pairwise_iff (fun hab => disjointRanges_symm hab)).mpr ?_
          refine List.pairwise_cons.mpr ⟨fun r hr => Or.inr (hb r hr), hp⟩
        · intro r hr
          have hr1 := hperm.subset hr
          rcases List.mem_cons.mp hr1 with rfl | hmem
          · exact Nat.le_refl _
          · have := hb r hmem
            show r.1 + r.2 ≤ s.heap.mNext + count
            omega
      · simp only [HeapState.call, allocate, ht, hroom, if_false]
        exact h
  | deallocatePersistent cpuHandle count =>
    simp only [HeapState.proper, Bool.and_true, Bool.and_eq_true, decide_eq_true_eq] at hproper
    obtain ⟨_, hlive⟩ := hproper
    simp only [HeapState.call]
    refine tiled_of_perm (s := s) ?_ rfl rfl h
    simp only [deallocate, freeRanges, List.map_append, List.map_cons, List.map_nil]
    have hperm := perm_cons_erase_range _ _ hlive
    rw [← List.append_assoc]
    refine (List.perm_append_singleton _ _).trans ?_
    rw [← List.cons_append]
    exact List.Perm.append_right _ hperm

theorem proper_cons (s : HeapState) (c : HeapCall) (calls : List HeapCall)
    (h : s.proper (c :: calls) = true) :
    s.proper [c] = true ∧ (s.call c).proper calls = true := by
  cases c with
  | allocatePersistent count =>
    simp only [HeapState.proper] at h ⊢
    exact ⟨trivial, h⟩
  | deallocatePersistent cpuHandle count =>
    simp only [HeapState.proper, Bool.and_eq_true, decide_eq_true_eq, Bool.and_true] at h ⊢
    exact ⟨h.1, h.2⟩

theorem run_tiled (s : HeapState) (calls : List HeapCall) (h : s.Tiled)
    (hproper : s.proper calls = true) : (s.run calls).Tiled := by
  induction calls generalizing s with
  | nil => exact h
  | cons c calls ih =>
    obtain ⟨h1, h2⟩ := proper_cons s c calls hproper
    exact ih (s.call c) (call_tiled s c h h1) h2

/-- C21: for every serialized sequence of persistent allocations and
deallocations on a heap that starts with nothing allocated, in which every
deallocation hands back a live range with its slot count, any two ranges that
are live after the sequence occupy disjoint slot intervals, and every live
range lies within the capacity of the heap. -/
theorem C21_live_persistent_ranges_are_disjoint (capacity cpuStart gpuStart : Nat)
    (calls : List HeapCall)
    (hproper : (emptyHeap capacity cpuStart gpuStart).proper calls = true) :
    ((emptyHeap capacity cpuStart gpuStart).run calls).live.Pairwise DisjointRanges ∧
    ∀ r ∈ ((emptyHeap capacity cpuStart gpuStart).run calls).live, r.1 + r.2 ≤ capacity := by
  have hempty : (emptyHeap capacity cpuStart gpuStart).Tiled := by
    refine ⟨by simp [emptyHeap, freeRanges], ?_, Nat.zero_le _⟩
    intro r hr
    simp [emptyHeap, freeRanges] at hr
  obtain ⟨hp, hb, hc⟩ := run_tiled _ calls hempty hproper
  have hcap : ((emptyHeap capacity cpuStart gpuStart).run calls).heap.mCapacity = capacity := by
    have hgen : ∀ (s : HeapState) (cs : List HeapCall),
        (s.run cs).heap.mCapacity = s.heap.mCapacity := by
      intro s cs
      induction cs generalizing s with
      | nil => rfl
      | cons c cs ih =>
        show ((s.call c).run cs).heap.mCapacity = s.heap.mCapacity
        rw [ih]
        cases c with
        | allocatePersistent count =>
          cases ht : takeFree count s.heap.mFree with
          | some r => simp only [HeapState.call, allocate, ht]
          | none =>
            by_cases hroom : s.heap.mNext + count ≤ s.heap.mCapacity
            · simp only [HeapState.call, allocate, ht, hroom, if_true]
            · simp only [HeapState.call, allocate, ht, hroom, if_false]
        | deallocatePersistent cpuHandle count => rfl
    exact hgen _ _
  refine ⟨(List.pairwise_append.mp hp).1, fun r hr => ?_⟩
  have := hb r (List.mem_append_left _ hr)
  omega

/-- C21 at an example: two ranges are allocated, the first is handed back and
reused by an allocation of its size, and one more is allocated; the live
ranges are the slots 3..4, 0..2 and 5. -/
theorem C21_live_persistent_ranges_are_disjoint_witness :
    (emptyHeap 64 4096 8192).proper exampleHeapCalls = true ∧
    ((emptyHeap 64 4096 8192).run exampleHeapCalls).live = [(3, 2), (0, 3), (5, 1)] ∧
    (((emptyHeap 64 4096 8192).run exampleHeapCalls).live.Pairwise DisjointRanges ∧
      ∀ r ∈ ((emptyHeap 64 4096 8192).run exampleHeapCalls).live, r.1 + r.2 ≤ 64) :=
  ⟨by decide, by decide,
    C21_live_persistent_ranges_are_disjoint 64 4096 8192 exampleHeapCalls (by decide)⟩

end RenderWorks

/-! ## The copies of a texture -/

theorem mipOffset_succ (env : Env) (resource : ResourceDesc) (i : Nat) :
    mipOffset env resource (i + 1) =
      mipOffset env resource i + (mipInfo env resource i).mUploadSliceSize := by
  simp [mipOffset, List.range_succ]

/-- The mip loop, entered at mip `i` with the running offset, width and height
of that mip, records the copies of the mips `i` to `i + count`. -/
theorem copyMipLevels_ok (env : Env) (resource : ResourceDesc) (texture : Option Handle)
    (base count i : Nat) (w : World) :
    copyMipLevels env resource texture base count i (mipOffset env resource i % 2 ^ 64)
        (mipWidth env resource i) (mipHeight env resource i) w =
      Res.ok () { w with
        mTrace := w.mTrace ++ (List.range' i count).map (fun j =>
          Event.CopyTextureRegion texture j (mipFootprint env resource base j)) } := by
  induction count generalizing i w with
  | zero => simp [copyMipLevels, M.pure]
  | succ n ih =>
    unfold copyMipLevels
    have hoff : (mipOffset env resource i % 2 ^ 64 +
        (env.getMipInfo resource.mFormat (mipWidth env resource i)
          (mipHeight env resource i)).mUploadSliceSize) % 2 ^ 64 =
        mipOffset env resource (i + 1) % 2 ^ 64 := by
      rw [mipOffset_succ, Nat.add_mod (mipOffset env resource i), mipInfo]
      simp [Nat.add_mod]
    have hfoot : (⟨(base + mipOffset env resource i % 2 ^ 64) % 2 ^ 64,
        env.getDXGIFormat resource.mFormat, mipWidth env resource i, mipHeight env resource i,
        resource.mDepthOrArraySize,
        (env.getMipInfo resource.mFormat (mipWidth env resource i)
          (mipHeight env resource i)).mUploadRowPitchSize⟩ : PlacedFootprint) =
        mipFootprint env resource base i := by
      simp [mipFootprint, mipInfo, Nat.add_mod]
    simp only [M.bind, emit, hoff, hfoot]
    have hstep := ih (i + 1)
      { w with mTrace := w.mTrace ++
        [Event.CopyTextureRegion texture i (mipFootprint env resource base i)] }
    simp only [mipWidth, mipHeight] at hstep
    rw [hstep]
    simp [List.range'_succ]

theorem recordedCopies_map (texture : Option Handle) (f : Nat → PlacedFootprint)
    (js : List Nat) :
    recordedCopies (js.map (fun j => Event.CopyTextureRegion texture j (f j))) =
      js.map (fun j => (texture, j, f j)) := by
  induction js with
  | nil => rfl
  | cons j js ih =>
    simp only [recordedCopies, List.map_cons, List.filterMap_cons, Event.copiedTexture] at ih ⊢
    rw [ih]

theorem submittedBarriers_copies (texture : Option Handle) (f : Nat → PlacedFootprint)
    (js : List Nat) :
    submittedBarriers (js.map (fun j => Event.CopyTextureRegion texture j (f j))) = [] := by
  induction js with
  | nil => rfl
  | cons j js ih =>
    simp only [submittedBarriers, List.map_cons, List.flatten_cons, Event.barriers,
      List.nil_append] at ih ⊢
    exact ih

/-- The modifier of a synchronous texture request, step by step: the reset,
the upload, the created texture, the copies of the mips and the barrier. -/
theorem modifyTexture_sync (env : Env) (metaID : MetaID) (textureData : TextureData)
    (tex0 : DX12TextureData) (w : World) (hasset : env.textures metaID = some textureData) :
    modifyTexture env metaID false tex0 w =
      Res.ok
        { tex0 with
          mTextureData := ⟨metaID, some textureData⟩,
          mTexture := some w.mNextObject,
          mFormat := env.getDXGIFormat textureData.mFormat }
        { w with
          mUploadOffset := alignUp w.mUploadOffset env.sSliceAlignment + textureData.mBuffer.size,
          mNextObject := w.mNextObject + 1,
          mTrace := w.mTrace ++
            ([Event.reset ResourceType.Texture_ metaID false,
              Event.upload textureData.mBuffer.size env.sSliceAlignment
                (alignUp w.mUploadOffset env.sSliceAlignment),
              Event.createTexture2D w.mNextObject textureData.mDesc
                (env.getDXGIFormat textureData.mDesc.mFormat)] ++
              (List.range textureData.mDesc.mMipLevels).map (fun j =>
                Event.CopyTextureRegion (some w.mNextObject) j
                  (mipFootprint env textureData.mDesc
                    (alignUp w.mUploadOffset env.sSliceAlignment) j)) ++
              [Event.ResourceBarrier [⟨some w.mNextObject, ResourceState.COPY_DEST,
                ResourceState.PIXEL_SHADER_RESOURCE⟩]]) } := by
  have hloop := copyMipLevels_ok env textureData.mDesc (some w.mNextObject)
    (alignUp w.mUploadOffset env.sSliceAlignment) textureData.mDesc.mMipLevels 0
  simp only [mipOffset, List.range_zero, List.map_nil, List.sum_nil, Nat.zero_mod, mipWidth,
    mipHeight] at hloop
  simp only [modifyTexture, bind_eq, pure_eq, M.bind, emit, AssetHandle.reset, hasset,
    Bool.not_false, Bool.false_eq_true, ↓reduceIte, upload, createTexture2D, newObject, M.pure,
    hloop]
  simp [List.range_eq_range']

/-- C22: synchronous materialization of a texture that is not cached yet and
whose baked payload has `m` mip levels returns `created = true` and records
exactly `m` copies into the created texture, one per mip in order. Copy `i`
reads the staging buffer at the 64-bit offset `base + (sum of the upload slice
sizes of the mips before i)`, where `base` is the offset of the one upload of
the call, uses the upload row pitch computed for mip `i`, and the width and
height obtained by halving once per preceding level. The call then records
exactly one barrier, of the created texture from copy-dest to
pixel-shader-resource. -/
theorem C22_texture_copies_and_barrier (env : Env) (metaID : MetaID)
    (textureData : TextureData) (w : World)
    (hfresh : Cache.find w.mResources.mTextures metaID = none)
    (hasset : env.textures metaID = some textureData) :
    ∃ w1 events tex,
      try_createDX12TextureData env metaID false w =
        Res.ok (w.mResources.mTextures.length, true) w1 ∧
      w1.mTrace = w.mTrace ++ events ∧
      w1.mResources.mTextures[w.mResources.mTextures.length]? = some tex ∧
      tex.mTexture.isSome = true ∧
      events.filterMap Event.uploaded = [alignUp w.mUploadOffset env.sSliceAlignment] ∧
      recordedCopies events =
        (List.range textureData.mDesc.mMipLevels).map (fun i =>
          (tex.mTexture, i,
            mipFootprint env textureData.mDesc
              (alignUp w.mUploadOffset env.sSliceAlignment) i)) ∧
      (recordedCopies events).length = textureData.mDesc.mMipLevels ∧
      submittedBarriers events =
        [⟨tex.mTexture, ResourceState.COPY_DEST, ResourceState.PIXEL_SHADER_RESOURCE⟩] := by
  rw [try_createDX12TextureData_fresh _ _ _ _ hfresh,
    modifyTexture_sync env metaID textureData _ _ hasset]
  dsimp only
  refine ⟨_,
    [Event.reset ResourceType.Texture_ metaID false,
      Event.upload textureData.mBuffer.size env.sSliceAlignment
        (alignUp w.mUploadOffset env.sSliceAlignment),
      Event.createTexture2D w.mNextObject textureData.mDesc
        (env.getDXGIFormat textureData.mDesc.mFormat)] ++
      (List.range textureData.mDesc.mMipLevels).map (fun j =>
        Event.CopyTextureRegion (some w.mNextObject) j
          (mipFootprint env textureData.mDesc
            (alignUp w.mUploadOffset env.sSliceAlignment) j)) ++
      [Event.ResourceBarrier [⟨some w.mNextObject, ResourceState.COPY_DEST,
        ResourceState.PIXEL_SHADER_RESOURCE⟩]] ++ [Event.arenaRelease],
    ⟨metaID, ⟨metaID, some textureData⟩, some w.mNextObject,
      env.getDXGIFormat textureData.mFormat⟩,
    rfl, ?_, ?_, rfl, ?_, ?_, ?_, ?_⟩
  · simp only [List.append_assoc]
  · simp [Cache.modify]
    rfl
  · simp only [List.filterMap_append, List.filterMap_cons, List.filterMap_nil, Event.uploaded,
      List.cons_append, List.nil_append]
    have : ∀ js : List Nat, (js.map (fun j => Event.CopyTextureRegion (some w.mNextObject) j
        (mipFootprint env textureData.mDesc
          (alignUp w.mUploadOffset env.sSliceAlignment) j))).filterMap Event.uploaded = [] := by
      intro js
      induction js with
      | nil => rfl
      | cons j js ih => simp [Event.uploaded]
    rw [this]
    rfl
  · unfold recordedCopies
    simp only [List.filterMap_append, List.cons_append, List.nil_append, List.filterMap_cons,
      List.filterMap_nil, Event.copiedTexture, List.append_nil]
    exact recordedCopies_map _ _ _
  · unfold recordedCopies
    simp only [List.filterMap_append, List.cons_append, List.nil_append, List.filterMap_cons,
      List.filterMap_nil, Event.copiedTexture, List.append_nil]
    have := recordedCopies_map (some w.mNextObject)
      (mipFootprint env textureData.mDesc (alignUp w.mUploadOffset env.sSliceAlignment))
      (List.range textureData.mDesc.mMipLevels)
    unfold recordedCopies at this
    rw [this]
    simp
  · have hb := submittedBarriers_copies (some w.mNextObject)
      (mipFootprint env textureData.mDesc (alignUp w.mUploadOffset env.sSliceAlignment))
      (List.range textureData.mDesc.mMipLevels)
    unfold submittedBarriers at hb ⊢
    simp only [List.map_append, List.flatten_append, hb, List.map_cons, List.map_nil,
      List.flatten_cons, List.flatten_nil, Event.barriers, List.cons_append, List.nil_append,
      List.append_nil]

/-- C22 at the scenario: texture 50, of 4 by 4 texels with 3 mip levels, is
requested in the initial world. The three copies read the staging buffer at
the offsets 0, 1024 and 1536, with the sizes 4, 2 and 1, and one barrier
follows. -/
theorem C22_texture_copies_and_barrier_witness :
    recordedCopies (try_createDX12TextureData exampleEnv 50 false initialWorld).world.mTrace =
      [(some 1, 0, ⟨0, 28, 4, 4, 1, 256⟩), (some 1, 1, ⟨1024, 28, 2, 2, 1, 256⟩),
        (some 1, 2, ⟨1536, 28, 1, 1, 1, 256⟩)] ∧
    ∃ w1 events tex,
      try_createDX12TextureData exampleEnv 50 false initialWorld =
        Res.ok (initialWorld.mResources.mTextures.length, true) w1 ∧
      w1.mTrace = initialWorld.mTrace ++ events ∧
      w1.mResources.mTextures[initialWorld.mResources.mTextures.length]? = some tex ∧
      tex.mTexture.isSome = true ∧
      events.filterMap Event.uploaded =
        [alignUp initialWorld.mUploadOffset exampleEnv.sSliceAlignment] ∧
      recordedCopies events =
        (List.range exampleTexture.mDesc.mMipLevels).map (fun i =>
          (tex.mTexture, i,
            mipFootprint exampleEnv exampleTexture.mDesc
              (alignUp initialWorld.mUploadOffset exampleEnv.sSliceAlignment) i)) ∧
      (recordedCopies events).length = exampleTexture.mDesc.mMipLevels ∧
      submittedBarriers events =
        [⟨tex.mTexture, ResourceState.COPY_DEST, ResourceState.PIXEL_SHADER_RESOURCE⟩] :=
  ⟨by decide!,
    C22_texture_copies_and_barrier exampleEnv 50 exampleTexture initialWorld (by decide!)
      (by decide!)⟩

/-! ## One pipeline state per vertex layout -/

/-- A call that records nothing leaves the trace as it is. -/
theorem trace_of_keeps {α : Type} {T : List ResourceType} {m : M α}
    (hk : Keeps (Effect T (fun _ => False)) m) {w w1 : World} {a : α}
    (h : m w = Res.ok a w1) : w1.mTrace = w.mTrace := by
  obtain ⟨events, ht, hp⟩ := (keeps_of_ok hk h).2
  cases events with
  | nil => simpa using ht
  | cons e es => exact absurd (hp e (List.mem_cons_self _ _)) (fun hf => hf)

theorem if_fail_ok {α : Type} {c : Prop} [Decidable c] {m : M α} {e : Failure} {w w1 : World}
    {a : α} (h : (if c then m else M.fail e) w = Res.ok a w1) : c ∧ m w = Res.ok a w1 := by
  by_cases hc : c
  · rw [if_pos hc] at h
    exact ⟨hc, h⟩
  · rw [if_neg hc] at h
    simp [M.fail] at h

theorem find_map_assign_self {ν : Type} (map : List (Nat × ν)) (key : Nat) (value : ν)
    (hany : map.any (fun e => e.1 = key) = true) :
    (map.map (fun e => if e.1 = key then (key, value) else e)).find? (fun e => e.1 = key) =
      some (key, value) := by
  induction map with
  | nil => simp at hany
  | cons e es ih =>
    by_cases he : e.1 = key
    · simp [List.find?, he]
    · have hany1 : es.any (fun e => decide (e.1 = key)) = true := by
        simpa [he] using hany
      simp only [List.map_cons, he, if_false, List.find?, decide_False]
      exact ih hany1

theorem find_map_assign_other {ν : Type} (map : List (Nat × ν)) (key other : Nat) (value : ν)
    (h : other ≠ key) :
    (map.map (fun e => if e.1 = key then (key, value) else e)).find? (fun e => e.1 = other) =
      map.find? (fun e => e.1 = other) := by
  induction map with
  | nil => rfl
  | cons e es ih =>
    have hne2 : ¬ key = other := fun hk => h hk.symm
    by_cases he : e.1 = key
    · have hne : ¬ e.1 = other := by rw [he]; exact hne2
      simp only [List.map_cons, he, if_true, List.find?, hne, hne2, decide_False]
      exact ih
    · by_cases ho : e.1 = other
      · have hok : ¬ other = key := h
        simp only [List.map_cons, he, if_false, List.find?, ho, decide_True]
        simp [hok, ho]
      · simp only [List.map_cons, he, if_false, List.find?, ho, decide_False]
        exact ih

theorem insert_or_assign_find_self {ν : Type} (map : List (Nat × ν)) (key : Nat) (value : ν) :
    (insert_or_assign map key value).find? (fun e => e.1 = key) = some (key, value) := by
  unfold insert_or_assign
  split
  · rename_i hany
    exact find_map_assign_self map key value hany
  · rename_i hany
    have hnone : map.find? (fun e => decide (e.1 = key)) = none := by
      rw [List.find?_eq_none]
      intro e he hk
      exact hany (List.any_eq_true.mpr ⟨e, he, hk⟩)
    rw [List.find?_append, hnone]
    simp

theorem insert_or_assign_find_other {ν : Type} (map : List (Nat × ν)) (key other : Nat)
    (value : ν) (h : other ≠ key) :
    (insert_or_assign map key value).find? (fun e => e.1 = other) =
      map.find? (fun e => e.1 = other) := by
  unfold insert_or_assign
  split
  · exact find_map_assign_other map key other value h
  · rw [List.find?_append]
    have hne2 : ¬ key = other := fun hk => h hk.symm
    cases map.find? (fun e => decide (e.1 = other)) with
    | some e => rfl
    | none => simp [List.find?, hne2]

/-- The body of the vertex-layout loop, when it returns, has recorded exactly
one event: the creation of a pipeline state built for `vertID`, which it
stores in state `i`; and it has assigned `i` to `vertID` in the index. -/
theorem createPipelineState_step (env : Env) (settings : ContentSettings)
    (renderSolution : DX12RenderSolution) (renderSubpass : DX12RenderSubpass)
    (subpassData : ShaderSubpassData) (subpass s1 : DX12ShaderSubpassData) (i vertID : Nat)
    (w w1 : World)
    (h : createPipelineState env settings renderSolution renderSubpass subpassData subpass
      i vertID w = Res.ok s1 w1) :
    ∃ object desc,
      w1.mTrace = w.mTrace ++ [Event.CreateGraphicsPipelineState object desc] ∧
      DescOfLayout settings subpassData vertID desc ∧
      i < subpass.mStates.length ∧
      s1.mStates = subpass.mStates.set i ⟨some object⟩ ∧
      s1.mVertexLayoutIndex = insert_or_assign subpass.mVertexLayoutIndex vertID i := by
  unfold createPipelineState at h
  simp only [bind_eq, pure_eq] at h
  obtain ⟨st, wa, h1, ha⟩ := bind_eq_ok h
  clear h
  obtain ⟨hst, hwa⟩ := vectorIndex_eq_ok h1
  have hi : i < subpass.mStates.length := by
    by_contra hge
    rw [List.getElem?_eq_none (by omega)] at hst
    cases hst
  obtain ⟨meshLayout, wb, h2, hb⟩ := bind_eq_ok ha
  clear ha
  obtain ⟨⟨e, hfind, he2⟩, hwb⟩ := mapAt_eq_ok h2
  have he1 : e.1 = vertID := by
    have := List.find?_some hfind
    simpa using this
  have hlayout : settings.mVertexLayouts.find? (fun e => e.1 = vertID) =
      some (vertID, meshLayout) := by
    rw [hfind, ← he1, ← he2]
  obtain ⟨elemDescs, wc, h3, hc⟩ := bind_eq_ok hb
  clear hb
  have htc : wc.mTrace = wb.mTrace :=
    trace_of_keeps (T := []) (keeps_forEach _ _ (fun (s : Nat × List Nat) =>
      createInputElements_keeps env meshLayout s.2 0)) h3
  cases hvs : subpass.mProgram.mVS with
  | none => simp [hvs, M.fail] at hc
  | some vs =>
    cases hps : subpass.mProgram.mPS with
    | none => simp [hvs, hps, M.fail] at hc
    | some ps =>
      simp only [hvs, hps] at hc
      obtain ⟨rtvFormats, wd, h4, hd⟩ := bind_eq_ok hc
      clear hc
      have htd : wd.mTrace = wc.mTrace :=
        trace_of_keeps (T := []) (createRTVFormats_keeps _ _ _) h4
      obtain ⟨dsvFormat, we, h5, he⟩ := bind_eq_ok hd
      clear hd
      have hte : we.mTrace = wd.mTrace := by
        refine trace_of_keeps (T := []) ?_ h5
        split
        · exact keeps_bind (keeps_vectorIndex _ _) (fun _ =>
            keeps_bind (keeps_Expects _) (fun _ => keeps_pure _))
        · exact keeps_pure _
      obtain ⟨_, hf⟩ := if_fail_ok he
      clear he
      simp only [M.bind, newObject, emit, M.pure, Res.ok.injEq] at hf
      obtain ⟨hs1, hw1⟩ := hf
      have htr : we.mTrace = w.mTrace := by rw [hte, htd, htc, hwb, hwa]
      rw [← hw1, ← hs1]
      simp only [htr]
      refine ⟨_, _, rfl, ⟨meshLayout, hlayout, fun hsem => ?_⟩, hi, ?_, ?_⟩
      · simp [hsem]
      · simp
      · simp

/-- The vertex-layout loop, entered at position `i`: it records one pipeline
state per remaining layout, in order, each built for its layout and stored at
its position; the positions below `i` keep their states; the index sends a
layout that the loop meets once to its position and keeps the other keys. -/
theorem createPipelineStates_steps (env : Env) (settings : ContentSettings)
    (renderSolution : DX12RenderSolution) (renderSubpass : DX12RenderSubpass)
    (subpassData : ShaderSubpassData) (vertIDs : List Nat) (i : Nat)
    (subpass s1 : DX12ShaderSubpassData) (w w1 : World)
    (h : createPipelineStates env settings renderSolution renderSubpass subpassData vertIDs
      i subpass w = Res.ok s1 w1) :
    ∃ events, w1.mTrace = w.mTrace ++ events ∧
      (∀ e ∈ events, e.createdPipelineState.isSome = true) ∧
      List.Forall₂ (fun vertID c => DescOfLayout settings subpassData vertID c.2)
        vertIDs (createdPipelineStates events) ∧
      s1.mStates.length = subpass.mStates.length ∧
      (∀ k, k < i → s1.mStates[k]? = subpass.mStates[k]?) ∧
      (∀ j c, (createdPipelineStates events)[j]? = some c →
        s1.mStates[i + j]? = some ⟨some c.1⟩) ∧
      (∀ key, key ∉ vertIDs →
        s1.mVertexLayoutIndex.find? (fun e => e.1 = key) =
          subpass.mVertexLayoutIndex.find? (fun e => e.1 = key)) ∧
      (vertIDs.Nodup → ∀ j vertID, vertIDs[j]? = some vertID →
        s1.mVertexLayoutIndex.find? (fun e => e.1 = vertID) = some (vertID, i + j)) := by
  induction vertIDs generalizing i subpass w with
  | nil =>
    simp only [createPipelineStates, M.pure, Res.ok.injEq] at h
    obtain ⟨rfl, rfl⟩ := h
    refine ⟨[], by simp, by simp, List.Forall₂.nil, rfl, fun _ _ => rfl, ?_, fun _ _ => rfl, ?_⟩
    · intro j c hc
      simp [createdPipelineStates] at hc
    · intro _ j vertID hj
      simp at hj
  | cons vertID vertIDs ih =>
    unfold createPipelineStates at h
    obtain ⟨s0, w0, h0, hrest⟩ := bind_eq_ok h
    obtain ⟨object, desc, ht0, hdesc, hi, hstates0, hindex0⟩ :=
      createPipelineState_step _ _ _ _ _ _ _ _ _ _ _ h0
    obtain ⟨events, ht, hall, hrel, hlen, hbelow, hat, hother, hnodup⟩ :=
      ih (i + 1) s0 w0 hrest
    have hcreated : createdPipelineStates
        (Event.CreateGraphicsPipelineState object desc :: events) =
        (object, desc) :: createdPipelineStates events := by
      simp [createdPipelineStates, Event.createdPipelineState]
    refine ⟨Event.CreateGraphicsPipelineState object desc :: events, ?_, ?_, ?_, ?_, ?_, ?_, ?_,
      ?_⟩
    · rw [ht, ht0]
      simp
    · intro e he
      rcases List.mem_cons.mp he with rfl | hmem
      · rfl
      · exact hall e hmem
    · rw [hcreated]
      exact List.Forall₂.cons hdesc hrel
    · rw [hlen, hstates0, List.length_set]
    · intro k hk
      rw [hbelow k (by omega), hstates0, List.getElem?_set_ne (by omega)]
    · intro j c hc
      rw [hcreated] at hc
      cases j with
      | zero =>
        simp only [List.getElem?_cons_zero, Option.some.injEq] at hc
        subst hc
        rw [Nat.add_zero, hbelow i (by omega), hstates0, List.getElem?_set_self hi]
      | succ j =>
        simp only [List.getElem?_cons_succ] at hc
        have := hat j c hc
        rw [show i + (j + 1) = i + 1 + j by omega]
        exact this
    · intro key hkey
      have hne : key ≠ vertID := fun hk => hkey (by rw [hk]; exact List.mem_cons_self _ _)
      have hnot : key ∉ vertIDs := fun hm => hkey (List.mem_cons_of_mem _ hm)
      rw [hother key hnot, hindex0, insert_or_assign_find_other _ _ _ _ hne]
    · intro hnd j key hj
      obtain ⟨hnotin, hnd1⟩ := List.nodup_cons.mp hnd
      cases j with
      | zero =>
        simp only [List.getElem?_cons_zero, Option.some.injEq] at hj
        subst hj
        rw [hother _ hnotin, hindex0, insert_or_assign_find_self]
        rfl
      | succ j =>
        simp only [List.getElem?_cons_succ] at hj
        rw [show i + (j + 1) = i + 1 + j by omega]
        exact hnodup hnd1 j key hj

theorem createBlob_records {T : List ResourceType} {P : Event → Prop} (env : Env)
    (program : ByteBuffer) (he : ∀ size, P (Event.D3DCreateBlob size)) :
    Keeps (Effect T P) (createBlob env program) := by
  unfold createBlob
  simp only [bind_eq, pure_eq]
  repeat' first
    | exact keeps_pure _
    | exact keeps_fail _
    | exact keeps_emit _ (he _)
    | apply keeps_bind
    | intro _
    | split

/-- C23: when `createShaderResources` returns for a subpass that `resizeData`
has sized, with `k` vertex-layout ids, it has created exactly `k` pipeline
states, in the order of the ids; the state at position `i` of the subpass holds
the `i`-th created object, whose description is built for the layout
`mVertexLayouts[i]`; and when the ids are pairwise distinct the vertex-layout
index of the subpass sends `mVertexLayouts[i]` to `i`, for every `i`. -/
theorem C23_one_pipeline_state_per_vertex_layout (env : Env) (settings : ContentSettings)
    (renderSolution : DX12RenderSolution) (renderSubpass : DX12RenderSubpass)
    (subpass subpass1 : DX12ShaderSubpassData) (subpassData : ShaderSubpassData) (w w1 : World)
    (hresized : SubpassResized subpass subpassData)
    (h : createShaderResources env settings renderSolution renderSubpass subpass subpassData w =
      Res.ok subpass1 w1) :
    ∃ events, w1.mTrace = w.mTrace ++ events ∧
      (createdPipelineStates events).length = subpassData.mVertexLayouts.length ∧
      subpass1.mStates = (createdPipelineStates events).map (fun c => ⟨some c.1⟩) ∧
      List.Forall₂ (fun vertID c => DescOfLayout settings subpassData vertID c.2)
        subpassData.mVertexLayouts (createdPipelineStates events) ∧
      (subpassData.mVertexLayouts.Nodup → ∀ i vertID,
        subpassData.mVertexLayouts[i]? = some vertID →
        subpass1.mVertexLayoutIndex.find? (fun e => e.1 = vertID) = some (vertID, i)) := by
  unfold createShaderResources at h
  simp only [bind_eq, pure_eq] at h
  obtain ⟨ps, wa, h1, ha⟩ := bind_eq_ok h
  clear h
  obtain ⟨vs, wb, h2, hb⟩ := bind_eq_ok ha
  clear ha
  obtain ⟨u, wc, h3, hc⟩ := bind_eq_ok hb
  clear hb
  obtain ⟨s1, wd, h4, hd⟩ := bind_eq_ok hc
  clear hc
  obtain ⟨u2, we, h5, he⟩ := bind_eq_ok hd
  clear hd
  simp only [M.pure, Res.ok.injEq] at he
  obtain ⟨hs, hw⟩ := he
  subst hs hw
  obtain ⟨ev1, ht1, hp1⟩ := (keeps_of_ok (createBlob_records (T := [])
    (P := fun e => e.createdPipelineState = none) env subpassData.mProgram.mPS
    (fun _ => rfl)) h1).2
  obtain ⟨ev2, ht2, hp2⟩ := (keeps_of_ok (createBlob_records (T := [])
    (P := fun e => e.createdPipelineState = none) env subpassData.mProgram.mVS
    (fun _ => rfl)) h2).2
  have ht3 : wc.mTrace = wb.mTrace ++ [Event.arenaAllocate] := by
    simp only [arenaAllocate, Res.ok.injEq] at h3
    rw [← h3.2]
  have ht5 : we.mTrace = wd.mTrace ++ [Event.arenaRelease] := by
    simp only [arenaRelease, Res.ok.injEq] at h5
    rw [← h5.2]
  obtain ⟨events, ht, hall, hrel, hlen, _, hat, _, hnodup⟩ :=
    createPipelineStates_steps _ _ _ _ _ _ _ _ _ _ _ h4
  have hnone : ∀ evs : List Event, (∀ e ∈ evs, e.createdPipelineState = none) →
      createdPipelineStates evs = [] := by
    intro evs hevs
    unfold createdPipelineStates
    rw [List.filterMap_eq_nil_iff]
    exact hevs
  have hcreated : createdPipelineStates
      (ev1 ++ ev2 ++ [Event.arenaAllocate] ++ events ++ [Event.arenaRelease]) =
      createdPipelineStates events := by
    have h1n := hnone ev1 hp1
    have h2n := hnone ev2 hp2
    unfold createdPipelineStates at h1n h2n ⊢
    simp only [List.filterMap_append, h1n, h2n, List.filterMap_cons, List.filterMap_nil,
      Event.createdPipelineState, List.nil_append, List.append_nil]
  have hk : (createdPipelineStates events).length = subpassData.mVertexLayouts.length :=
    (List.Forall₂.length_eq hrel).symm
  have hstates : subpass.mStates.length = subpassData.mVertexLayouts.length := by
    have hr : subpass.mStates = List.replicate subpassData.mVertexLayouts.length ⟨none⟩ :=
      hresized
    rw [hr, List.length_replicate]
  refine ⟨ev1 ++ ev2 ++ [Event.arenaAllocate] ++ events ++ [Event.arenaRelease], ?_, ?_, ?_, ?_,
    ?_⟩
  · rw [ht5, ht, ht3, ht2, ht1]
    simp only [List.append_assoc]
  · rw [hcreated, hk]
  · rw [hcreated]
    refine List.ext_getElem? (fun j => ?_)
    rw [List.getElem?_map]
    cases hc : (createdPipelineStates events)[j]? with
    | some c =>
      have := hat j c hc
      rw [Nat.zero_add] at this
      rw [this]
      rfl
    | none =>
      have hj : (createdPipelineStates events).length ≤ j := by
        by_contra hlt
        rw [List.getElem?_eq_getElem (by omega)] at hc
        cases hc
      rw [List.getElem?_eq_none (by simp only at hlen; omega)]
      rfl
  · rw [hcreated]
    exact hrel
  · intro hnd i vertID hi
    have := hnodup hnd i vertID hi
    rw [Nat.zero_add] at this
    exact this


/-- C23 at an example: a subpass with the vertex layouts 5 and 0 gets two
pipeline states, objects 1 and 2 in states 0 and 1, the first with the strip
cut value and topology of layout 5, and the index sends 5 to 0 and 0 to 1. -/
theorem C23_one_pipeline_state_per_vertex_layout_witness :
    (createdPipelineStates (createShaderResources exampleEnv exampleTwoLayoutSettings
      exampleTemplateSolution exampleTemplateSubpass exampleResizedSubpass
      exampleTwoLayoutSubpass initialWorld).world.mTrace).map
        (fun c => (c.1, c.2.IBStripCutValue, c.2.PrimitiveTopologyType)) =
      [(1, 1, 2), (2, 0, 3)] ∧
    ∃ events,
      (createShaderResources exampleEnv exampleTwoLayoutSettings exampleTemplateSolution
        exampleTemplateSubpass exampleResizedSubpass exampleTwoLayoutSubpass
        initialWorld).world.mTrace = initialWorld.mTrace ++ events ∧
      (createdPipelineStates events).length = exampleTwoLayoutSubpass.mVertexLayouts.length ∧
      (⟨[(5, 0), (0, 1)], [⟨some 1⟩, ⟨some 2⟩], [], ⟨some 256, some 128⟩⟩ :
        DX12ShaderSubpassData).mStates =
        (createdPipelineStates events).map (fun c => ⟨some c.1⟩) ∧
      List.Forall₂
        (fun vertID c => DescOfLayout exampleTwoLayoutSettings exampleTwoLayoutSubpass vertID c.2)
        exampleTwoLayoutSubpass.mVertexLayouts (createdPipelineStates events) ∧
      (exampleTwoLayoutSubpass.mVertexLayouts.Nodup → ∀ i vertID,
        exampleTwoLayoutSubpass.mVertexLayouts[i]? = some vertID →
        (⟨[(5, 0), (0, 1)], [⟨some 1⟩, ⟨some 2⟩], [], ⟨some 256, some 128⟩⟩ :
          DX12ShaderSubpassData).mVertexLayoutIndex.find? (fun e => e.1 = vertID) =
          some (vertID, i)) :=
  ⟨by decide!,
    C23_one_pipeline_state_per_vertex_layout exampleEnv exampleTwoLayoutSettings
      exampleTemplateSolution exampleTemplateSubpass exampleResizedSubpass
      ⟨[(5, 0), (0, 1)], [⟨some 1⟩, ⟨some 2⟩], [], ⟨some 256, some 128⟩⟩
      exampleTwoLayoutSubpass initialWorld
      (createShaderResources exampleEnv exampleTwoLayoutSettings exampleTemplateSolution
        exampleTemplateSubpass exampleResizedSubpass exampleTwoLayoutSubpass initialWorld).world
      rfl (by decide!)⟩

/-! ## Root signatures of the template -/

/-- The subpass body of the template builder. With an empty payload it
returns a subpass without root signature and leaves the world as it is; with
a payload it returns, when the device call succeeds, a subpass with the
created root signature after recording that one call. -/
theorem createRenderSubpass_step (env : Env) (subpassData : RenderSubpassData)
    (subpass : DX12RenderSubpass) (w w1 : World)
    (h : createRenderSubpass env subpassData w = Res.ok subpass w1) :
    (subpassData.mRootSignature.empty = true → subpass.mRootSignature = none ∧ w1 = w) ∧
    (subpassData.mRootSignature.empty = false → ∃ object,
      subpass.mRootSignature = some object ∧
      w1.mTrace = w.mTrace ++
        [Event.CreateRootSignature object subpassData.mRootSignature.size]) := by
  unfold createRenderSubpass at h
  simp only [bind_eq, pure_eq] at h
  cases hempty : subpassData.mRootSignature.empty with
  | true =>
    simp only [hempty, Bool.not_true, Bool.false_eq_true, if_false, M.pure, Res.ok.injEq] at h
    refine ⟨fun _ => ⟨(by rw [← h.1]), h.2.symm⟩, fun hc => (by cases hc)⟩
  | false =>
    simp only [hempty, Bool.not_false, if_true] at h
    obtain ⟨_, hf⟩ := if_fail_ok h
    simp only [M.bind, newObject, emit, M.pure, Res.ok.injEq] at hf
    refine ⟨fun hc => (by cases hc), fun _ => ⟨w.mNextObject, (by rw [← hf.1]), (by rw [← hf.2])⟩⟩

/-- An empty payload is valid: the subpass body returns whatever the device
does. -/
theorem createRenderSubpass_empty (env : Env) (subpassData : RenderSubpassData) (w : World)
    (hempty : subpassData.mRootSignature.empty = true) :
    ∃ subpass, createRenderSubpass env subpassData w = Res.ok subpass w ∧
      subpass.mRootSignature = none := by
  unfold createRenderSubpass
  simp only [bind_eq, pure_eq, hempty, Bool.not_true, Bool.false_eq_true, if_false, M.pure]
  exact ⟨_, rfl, rfl⟩

theorem createRenderSubpass_observes (env : Env) (subpassData : RenderSubpassData) :
    Observes Event.createdRootSignature
      (fun (s : RenderSubpassData) (c : Handle × Nat) => c.2 = s.mRootSignature.size)
      (createRenderSubpass env subpassData)
      ([subpassData].filter (fun s => !s.mRootSignature.empty)) := by
  intro w subpass w1 h
  obtain ⟨h1, h2⟩ := createRenderSubpass_step env subpassData subpass w w1 h
  cases hempty : subpassData.mRootSignature.empty with
  | true =>
    obtain ⟨_, hw⟩ := h1 hempty
    refine ⟨[], by simp [hw], ?_⟩
    simp [List.filter, hempty]
  | false =>
    obtain ⟨object, _, ht⟩ := h2 hempty
    refine ⟨_, ht, ?_⟩
    simp only [List.filter, hempty, Bool.not_false, List.filterMap_cons,
      Event.createdRootSignature, List.filterMap_nil]
    exact List.Forall₂.cons rfl List.Forall₂.nil

theorem createRenderSolution_observes (env : Env) (solutionData : RenderSolutionData) :
    Observes Event.createdRootSignature
      (fun (s : RenderSubpassData) (c : Handle × Nat) => c.2 = s.mRootSignature.size)
      (createRenderSolution env solutionData)
      (solutionData.mPipelines.flatMap (fun pipelineData =>
        pipelineData.mPasses.flatMap (fun passData =>
          passData.mSubpasses.flatMap (fun subpassData =>
            [subpassData].filter (fun s => !s.mRootSignature.empty))))) := by
  have hpass : ∀ passData : RenderPassData,
      Observes Event.createdRootSignature
        (fun (s : RenderSubpassData) (c : Handle × Nat) => c.2 = s.mRootSignature.size)
        (createRenderPass env passData)
        (passData.mSubpasses.flatMap (fun subpassData =>
          [subpassData].filter (fun s => !s.mRootSignature.empty))) := by
    intro passData
    unfold createRenderPass
    simp only [bind_eq, pure_eq]
    have := observes_bind (J := ([] : List RenderSubpassData))
      (observes_forEach (createRenderSubpass env) _
        (fun subpassData => createRenderSubpass_observes env subpassData) passData.mSubpasses)
      (fun subpasses => observes_pure (⟨subpasses, passData.mViewports, passData.mScissorRects,
        passData.mFramebuffers, passData.mDependencies⟩ : DX12RenderPass))
    simpa using this
  have hpipeline : ∀ pipelineData : RenderPipelineData,
      Observes Event.createdRootSignature
        (fun (s : RenderSubpassData) (c : Handle × Nat) => c.2 = s.mRootSignature.size)
        (createRenderPipeline env pipelineData)
        (pipelineData.mPasses.flatMap (fun passData =>
          passData.mSubpasses.flatMap (fun subpassData =>
            [subpassData].filter (fun s => !s.mRootSignature.empty)))) := by
    intro pipelineData
    unfold createRenderPipeline
    simp only [bind_eq, pure_eq]
    have := observes_bind (J := ([] : List RenderSubpassData))
      (observes_forEach (createRenderPass env) _ hpass pipelineData.mPasses)
      (fun passes => observes_pure (⟨passes, pipelineData.mDependencies,
        pipelineData.mRTVInitialStates, pipelineData.mDSVInitialStates,
        pipelineData.mSubpassIndex⟩ : DX12RenderPipeline))
    simpa using this
  unfold createRenderSolution
  simp only [bind_eq, pure_eq]
  have := observes_bind (J := ([] : List RenderSubpassData))
    (observes_forEach (createRenderPipeline env) _ hpipeline solutionData.mPipelines)
    (fun pipelines => observes_pure (⟨pipelines, solutionData.mRTVSources,
      solutionData.mDSVSources, solutionData.mFramebuffers, solutionData.mRTVs,
      solutionData.mDSVs, solutionData.mPipelineIndex⟩ : DX12RenderSolution))
  simpa using this

theorem forall₂_map_snd {α : Type} (f : α → Nat) {xs : List α} {ys : List (Handle × Nat)}
    (h : List.Forall₂ (fun a (c : Handle × Nat) => c.2 = f a) xs ys) :
    ys.map Prod.snd = xs.map f := by
  induction h with
  | nil => rfl
  | cons hab _ ih => simp [hab, ih]

theorem modifyRenderGraph_observes (env : Env) (metaID : MetaID)
    (render0 : DX12RenderGraphData) (renderData : RenderGraphData)
    (hasset : env.renderGraphs metaID = some renderData) :
    Observes Event.createdRootSignature
      (fun (s : RenderSubpassData) (c : Handle × Nat) => c.2 = s.mRootSignature.size)
      (modifyRenderGraph env metaID render0)
      (renderData.subpasses.filter (fun s => !s.mRootSignature.empty)) := by
  have hitems : renderData.subpasses.filter (fun s => !s.mRootSignature.empty) =
      renderData.mRenderGraph.mSolutions.flatMap (fun solutionData =>
        solutionData.mPipelines.flatMap (fun pipelineData =>
          pipelineData.mPasses.flatMap (fun passData =>
            passData.mSubpasses.flatMap (fun subpassData =>
              [subpassData].filter (fun s => !s.mRootSignature.empty))))) := by
    rw [← flatMap_filter_singleton]
    simp only [RenderGraphData.subpasses, List.flatMap_assoc]
  rw [hitems]
  unfold modifyRenderGraph
  simp only [bind_eq, pure_eq, AssetHandle.reset, Bool.false_eq_true, if_false, hasset]
  have := observes_bind (I := ([] : List RenderSubpassData))
    (observes_emit (o := Event.createdRootSignature)
      (R := fun (s : RenderSubpassData) (c : Handle × Nat) => c.2 = s.mRootSignature.size)
      (Event.reset ResourceType.RenderGraph_ metaID false) [] List.Forall₂.nil)
    (fun _ => observes_bind (I := ([] : List RenderSubpassData))
      (observes_emit (Event.resizeDescriptorArray renderData.mRenderGraph.mNumReserveDSVs) []
        List.Forall₂.nil)
      (fun _ => observes_bind (I := ([] : List RenderSubpassData))
        (observes_emit (Event.resizeDescriptorArray renderData.mRenderGraph.mNumReserveRTVs) []
          List.Forall₂.nil)
        (fun _ => observes_bind (J := ([] : List RenderSubpassData))
          (observes_forEach (createRenderSolution env) _
            (fun solutionData => createRenderSolution_observes env solutionData)
            renderData.mRenderGraph.mSolutions)
          (fun solutions => observes_pure
            ({ render0 with
              mRenderGraphData := ⟨metaID, some renderData⟩,
              mShaderIndex := renderData.mShaderIndex,
              mRenderGraph :=
                { mSolutions := render0.mRenderGraph.mSolutions ++ solutions,
                  mFramebuffers := renderData.mRenderGraph.mNumReserveFramebuffers,
                  mDSVs := renderData.mRenderGraph.mNumReserveDSVs,
                  mRTVs := renderData.mRenderGraph.mNumReserveRTVs,
                  mNumBackBuffers := renderData.mRenderGraph.mNumBackBuffers,
                  mSolutionIndex := renderData.mRenderGraph.mSolutionIndex } } :
              DX12RenderGraphData)))))
  simpa using this

/-- C24: when the template builder returns for an entry without solutions,
every subpass of the template has a root signature if and only if the payload
of its baked subpass is not empty, and the root signatures created on the
device are those of the baked subpasses with a non-empty payload, one each, in
order, with the size of the payload. The subpass body records no device call
and returns a subpass without root signature when the payload is empty,
whatever the device does, and records exactly the one `CreateRootSignature`
call when it is not. -/
theorem C24_root_signature_iff_payload_not_empty (env : Env) (metaID : MetaID)
    (render0 render : DX12RenderGraphData) (w w1 : World)
    (hempty : render0.mRenderGraph.mSolutions = [])
    (h : modifyRenderGraph env metaID render0 w = Res.ok render w1) :
    ∃ renderData events, env.renderGraphs metaID = some renderData ∧
      w1.mTrace = w.mTrace ++ events ∧
      RenderMirrors (fun subpass subpassData =>
          subpass.mRootSignature.isSome = !subpassData.mRootSignature.empty)
        render.mRenderGraph.mSolutions renderData.mRenderGraph.mSolutions ∧
      (createdRootSignatures events).map Prod.snd =
        (renderData.subpasses.filter (fun s => !s.mRootSignature.empty)).map
          (fun s => s.mRootSignature.size) ∧
      (createdRootSignatures events).length =
        (renderData.subpasses.filter (fun s => !s.mRootSignature.empty)).length ∧
      (∀ subpassData w0, subpassData.mRootSignature.empty = true →
        ∃ subpass, createRenderSubpass env subpassData w0 = Res.ok subpass w0 ∧
          subpass.mRootSignature = none) ∧
      ∀ subpassData subpass w0 w2,
        createRenderSubpass env subpassData w0 = Res.ok subpass w2 →
        subpassData.mRootSignature.empty = false →
        ∃ object, subpass.mRootSignature = some object ∧
          w2.mTrace = w0.mTrace ++
            [Event.CreateRootSignature object subpassData.mRootSignature.size] := by
  obtain ⟨renderData, hasset, _, _, _, hmirror⟩ :=
    (modifyRenderGraph_created env metaID render0 hempty).returns _ _ _ h
  obtain ⟨events, ht, hrel⟩ := modifyRenderGraph_observes env metaID render0 renderData hasset
    w render w1 h
  refine ⟨renderData, events, hasset, ht, ?_, ?_, ?_,
    fun subpassData w0 he => createRenderSubpass_empty env subpassData w0 he,
    fun subpassData subpass w0 w2 hs hne =>
      (createRenderSubpass_step env subpassData subpass w0 w2 hs).2 hne⟩
  · refine List.Forall₂.imp (fun _ _ hs => ?_) hmirror
    refine List.Forall₂.imp (fun _ _ hp => ?_) hs
    refine List.Forall₂.imp (fun _ _ hq => ?_) hp
    exact List.Forall₂.imp (fun _ _ hc => hc.1) hq
  · exact forall₂_map_snd _ hrel
  · exact (List.Forall₂.length_eq hrel).symm


/-- C24 at an example: render graph 10 has two subpasses, the first with a
payload of 64 bytes and the second with an empty payload. The builder creates
one root signature, of 64 bytes, and the template has a root signature on the
first subpass only. -/
theorem C24_root_signature_iff_payload_not_empty_witness :
    createdRootSignatures (modifyRenderGraph exampleMixedEnv 10 (CacheEntry.create 10)
      initialWorld).world.mTrace = [(1, 64)] ∧
    exampleMixedTemplate.mRenderGraph.mSolutions.map (fun solution =>
      solution.mPipelines.map (fun pipeline => pipeline.mPasses.map (fun pass =>
        pass.mSubpasses.map (fun subpass => subpass.mRootSignature)))) =
      [[[[some 1]]], [[[none]]]] ∧
    ∃ renderData events, exampleMixedEnv.renderGraphs 10 = some renderData ∧
      (modifyRenderGraph exampleMixedEnv 10 (CacheEntry.create 10) initialWorld).world.mTrace =
        initialWorld.mTrace ++ events ∧
      RenderMirrors (fun subpass subpassData =>
          subpass.mRootSignature.isSome = !subpassData.mRootSignature.empty)
        exampleMixedTemplate.mRenderGraph.mSolutions renderData.mRenderGraph.mSolutions ∧
      (createdRootSignatures events).map Prod.snd =
        (renderData.subpasses.filter (fun s => !s.mRootSignature.empty)).map
          (fun s => s.mRootSignature.size) ∧
      (createdRootSignatures events).length =
        (renderData.subpasses.filter (fun s => !s.mRootSignature.empty)).length ∧
      (∀ subpassData w0, subpassData.mRootSignature.empty = true →
        ∃ subpass, createRenderSubpass exampleMixedEnv subpassData w0 = Res.ok subpass w0 ∧
          subpass.mRootSignature = none) ∧
      ∀ subpassData subpass w0 w2,
        createRenderSubpass exampleMixedEnv subpassData w0 = Res.ok subpass w2 →
        subpassData.mRootSignature.empty = false →
        ∃ object, subpass.mRootSignature = some object ∧
          w2.mTrace = w0.mTrace ++
            [Event.CreateRootSignature object subpassData.mRootSignature.size] :=
  ⟨by decide!, by decide!,
    C24_root_signature_iff_payload_not_empty exampleMixedEnv 10 (CacheEntry.create 10)
      exampleMixedTemplate initialWorld
      (modifyRenderGraph exampleMixedEnv 10 (CacheEntry.create 10) initialWorld).world
      rfl (by decide!)⟩

/-! ## The material tree and the shader tree -/

/-- C25: after the synchronous materialization of a material that had no
entry, the variant tree of the material has as many children as the variant
tree of the shader entry it refers to at every one of the six levels:
solutions, pipelines of every solution, queues of every pipeline, levels of
every queue, passes of every level and subpasses of every pass. -/
theorem C25_material_tree_has_the_child_counts_of_the_shader_tree (env : Env)
    (rg : DX12RenderGraphData) (metaID : MetaID) (w w1 : World) (r : Ptr × Bool)
    (hfresh : Cache.find w.mResources.mMaterials metaID = none)
    (h : try_createDX12MaterialData env rg metaID false w = Res.ok r w1) :
    ∃ material p shader,
      w1.mResources.mMaterials[r.1]? = some material ∧
      material.mShader = some p ∧
      w1.mResources.mShaders[p]? = some shader ∧
      material.mShaderData.length = shader.mSolutions.length ∧
      material.shape = shader.shape := by
  obtain ⟨material, hm, materialData, p, shader, _, hp, hs, _, _, htree⟩ :=
    try_createDX12MaterialData_built env rg metaID w w1 r hfresh h
  refine ⟨material, p, shader, hm, hp, hs, List.Forall₂.length_eq htree, ?_⟩
  unfold DX12MaterialData.shape DX12ShaderData.shape
  refine forall₂_map_eq _ _ (fun s sd hsd => ?_) htree
  refine forall₂_map_eq _ _ (fun q qd hq => ?_) hsd
  refine forall₂_map_eq _ _ (fun l ld hl => ?_) hq
  refine forall₂_map_eq _ _ (fun v vd hv => ?_) hl
  refine forall₂_map_eq _ _ (fun x xd hx => ?_) hv
  exact List.Forall₂.length_eq hx

/-- C25 at the scenario: material 30 is built against shader 20; both trees
have one solution, one pipeline, one queue, one level, one pass and two
subpasses. -/
theorem C25_material_tree_has_the_child_counts_of_the_shader_tree_witness :
    exampleMaterialWorld.mResources.mMaterials.map (fun material => material.shape) =
      [[[[[[2]]]]]] ∧
    exampleMaterialWorld.mResources.mShaders.map (fun shader => shader.shape) =
      [[[[[[2]]]]]] ∧
    ∃ material p shader,
      exampleMaterialWorld.mResources.mMaterials[((0, true) : Ptr × Bool).1]? = some material ∧
      material.mShader = some p ∧
      exampleMaterialWorld.mResources.mShaders[p]? = some shader ∧
      material.mShaderData.length = shader.mSolutions.length ∧
      material.shape = shader.shape :=
  ⟨by decide!, by decide!,
    C25_material_tree_has_the_child_counts_of_the_shader_tree exampleEnv
      exampleRenderGraphEntry 30 exampleRenderGraphWorld exampleMaterialWorld (0, true)
      (by decide!) (by decide!)⟩

/-! ## The slots of the views of a material -/

/-- C26: material 30 is requested synchronously in the world that holds
render graph 7. Subpass A of its shader has three texture attributes; one
range of three slots is allocated for it, at slot 0 of the heap, whose first
CPU handle is 4096. The three views are all created at handle 4096, slot 0 of
the range: the slots 1 and 2 of the range, handles 4097 and 4098, receive no
view. -/
theorem C26_views_of_a_subpass_are_all_created_at_slot_zero :
    try_createDX12MaterialData exampleEnv exampleRenderGraphEntry 30 false
        exampleRenderGraphWorld = Res.ok (0, true) exampleMaterialWorld ∧
    exampleMaterialWorld.mResources.mShaders.map (fun shader =>
      shader.subpasses.map (fun pass => pass.mTextures)) =
      [[["Albedo", "Normal", "Emissive"], []]] ∧
    exampleMaterialWorld.mDescriptorHeap.mCpuStart = 4096 ∧
    (exampleMaterialWorld.mTrace.drop exampleRenderGraphWorld.mTrace.length).filterMap
      (fun e => match e with
        | Event.allocatePersistent count first => some (count, first)
        | _ => none) = [(3, 0)] ∧
    createdViews (exampleMaterialWorld.mTrace.drop exampleRenderGraphWorld.mTrace.length) =
      [(TextureRef.cached 0, 4096), (TextureRef.cached 1, 4096),
        (TextureRef.wellKnown DefaultTexture.White, 4096)] ∧
    (createdViews (exampleMaterialWorld.mTrace.drop
      exampleRenderGraphWorld.mTrace.length)).map Prod.snd ≠ [4096, 4097, 4098] := by
  decide!

namespace RenderWorks

/-! ### The slots of the copied descriptors -/

/-- C27: a persistent resource-view list of capacity 2, updated per pass, has
one range with two render-target-sourced subranges of one descriptor each,
for the attributes 7 and 8. The call completes; the range of the list is
allocated at handle 4096 and both descriptors are copied to handle 4096, slot
0 of the range: the descriptor at overall position 1 is not copied to slot 1.
With the two descriptors in one subrange they are copied to the slots 0 and
1. -/
theorem C27_descriptors_of_later_subranges_are_copied_to_the_first_slots :
    (createRenderSolutionRenderTargets exampleDevice
      (exampleTwoViewWorks [exampleTwoSubrangeCollection]) 0 0 exampleHeapContext).thrown
        = none ∧
    allocations (createRenderSolutionRenderTargets exampleDevice
      (exampleTwoViewWorks [exampleTwoSubrangeCollection]) 0 0
      exampleHeapContext).context.mTrace = [(4096, 2)] ∧
    copiedDescriptors (createRenderSolutionRenderTargets exampleDevice
      (exampleTwoViewWorks [exampleTwoSubrangeCollection]) 0 0
      exampleHeapContext).context.mTrace = [(4096, 300), (4096, 301)] ∧
    (createRenderSolutionRenderTargets exampleDevice
      (exampleTwoViewWorks [exampleOneSubrangeCollection]) 0 0 exampleHeapContext).thrown
        = none ∧
    copiedDescriptors (createRenderSolutionRenderTargets exampleDevice
      (exampleTwoViewWorks [exampleOneSubrangeCollection]) 0 0
      exampleHeapContext).context.mTrace = [(4096, 300), (4097, 301)] := by
  decide!

end RenderWorks

namespace RenderWorks

/-! ### The clear completes -/

/-- What holds of every element before holds, in the form `Q`, of every
element after a loop whose body does not throw. -/
theorem traverse_forall {α : Type} {f : α → Context → Step α} {P Q : α → Prop}
    (hf : ∀ x c, P x → Q (f x c).value) (hthrown : ∀ x c, (f x c).thrown = none)
    (xs : List α) (c : Context) (h : ∀ x ∈ xs, P x) :
    ∀ y ∈ (traverse f xs c).value, Q y := by
  induction xs generalizing c with
  | nil =>
    intro y hy
    simp [traverse] at hy
  | cons x xs ih =>
    have hx := hf x c (h x (List.mem_cons_self _ _))
    have ht := hthrown x c
    cases hfx : f x c with
    | mk x1 c1 t =>
      rw [hfx] at hx ht
      simp only at hx ht
      subst ht
      have hrest := ih c1 (fun z hz => h z (List.mem_cons_of_mem _ hz))
      cases hxs : traverse f xs c1 with
      | mk xs1 c2 t2 =>
        rw [hxs] at hrest
        simp only [traverse, hfx, hxs]
        intro y hy
        rcases List.mem_cons.mp hy with rfl | hmem
        · exact hx
        · exact hrest y hmem

theorem clearPipeline_forall {P Q : DX12DescriptorList → Prop}
    (hPQ : ∀ dx12List, P dx12List →
      (dx12List.mCpuOffset ≠ 0 → Q { dx12List with mGpuOffset := 0, mCpuOffset := 0 }) ∧
      (dx12List.mCpuOffset = 0 → Q dx12List))
    (pipeline : DX12RenderPipeline) (c : Context) (h : PersistentLists P pipeline) :
    PersistentLists Q (clearPipeline pipeline c).value := by
  have hcollection : ∀ (collection : DX12DescriptorCollection) (c : Context),
      (collection.mIndex.mPersistency = Persistency.Persistent_ →
        ∀ l ∈ collection.mResourceViewLists, P l) →
      ((clearCollection collection c).value.mIndex.mPersistency = Persistency.Persistent_ →
        ∀ l ∈ (clearCollection collection c).value.mResourceViewLists, Q l) := by
    intro collection c hc
    have hlists : collection.mIndex.mPersistency = Persistency.Persistent_ →
        ∀ l ∈ (traverse (clearResourceViewList collection)
          collection.mResourceViewLists c).value, Q l := by
      intro hp
      refine traverse_forall (P := P) (fun l c1 hl => ?_)
        (fun l c1 => (clearResourceViewList_frees collection l c1).2.2) _ c (hc hp)
      unfold clearResourceViewList
      simp only [hp]
      by_cases h0 : l.mCpuOffset = 0
      · simp only [h0, ne_eq, not_true_eq_false, if_false]
        exact (hPQ l hl).2 h0
      · simp only [h0, ne_eq, not_false_eq_true, if_true]
        exact (hPQ l hl).1 h0
    have hvalue : (clearCollection collection c).value =
        { collection with mResourceViewLists :=
          (traverse (clearResourceViewList collection) collection.mResourceViewLists c).value }
        := by
      unfold clearCollection
      cases htr : traverse (clearResourceViewList collection)
          collection.mResourceViewLists c with
      | mk lists c1 t =>
        cases t with
        | some e => rfl
        | none =>
          simp only
          split <;> rfl
    rw [hvalue]
    exact hlists
  have hsubpass : ∀ (subpass : DX12GraphicsSubpass) (c : Context),
      (∀ collection ∈ subpass.mDescriptors,
        collection.mIndex.mPersistency = Persistency.Persistent_ →
          ∀ l ∈ collection.mResourceViewLists, P l) →
      ∀ collection ∈ (clearSubpass subpass c).value.mDescriptors,
        collection.mIndex.mPersistency = Persistency.Persistent_ →
          ∀ l ∈ collection.mResourceViewLists, Q l := by
    intro subpass c hs
    have := traverse_forall
      (P := fun (collection : DX12DescriptorCollection) =>
        collection.mIndex.mPersistency = Persistency.Persistent_ →
          ∀ l ∈ collection.mResourceViewLists, P l)
      (Q := fun (collection : DX12DescriptorCollection) =>
        collection.mIndex.mPersistency = Persistency.Persistent_ →
          ∀ l ∈ collection.mResourceViewLists, Q l)
      (fun collection c1 hc => hcollection collection c1 hc)
      (fun collection c1 => (clearCollection_frees collection c1).2.2) subpass.mDescriptors c hs
    unfold clearSubpass
    cases htr : traverse clearCollection subpass.mDescriptors c with
    | mk v c1 t =>
      rw [htr] at this
      exact this
  have hpass : ∀ (pass : DX12RenderPass) (c : Context),
      (∀ subpass ∈ pass.mGraphicsSubpasses, ∀ collection ∈ subpass.mDescriptors,
        collection.mIndex.mPersistency = Persistency.Persistent_ →
          ∀ l ∈ collection.mResourceViewLists, P l) →
      ∀ subpass ∈ (clearPass pass c).value.mGraphicsSubpasses,
        ∀ collection ∈ subpass.mDescriptors,
          collection.mIndex.mPersistency = Persistency.Persistent_ →
            ∀ l ∈ collection.mResourceViewLists, Q l := by
    intro pass c hs
    have := traverse_forall
      (P := fun (subpass : DX12GraphicsSubpass) => ∀ collection ∈ subpass.mDescriptors,
        collection.mIndex.mPersistency = Persistency.Persistent_ →
          ∀ l ∈ collection.mResourceViewLists, P l)
      (Q := fun (subpass : DX12GraphicsSubpass) => ∀ collection ∈ subpass.mDescriptors,
        collection.mIndex.mPersistency = Persistency.Persistent_ →
          ∀ l ∈ collection.mResourceViewLists, Q l)
      (fun subpass c1 hc => hsubpass subpass c1 hc)
      (fun subpass c1 => (clearSubpass_frees subpass c1).2.2) pass.mGraphicsSubpasses c hs
    unfold clearPass
    cases htr : traverse clearSubpass pass.mGraphicsSubpasses c with
    | mk v c1 t =>
      rw [htr] at this
      exact this
  have := traverse_forall
    (P := fun (pass : DX12RenderPass) => ∀ subpass ∈ pass.mGraphicsSubpasses,
      ∀ collection ∈ subpass.mDescriptors,
        collection.mIndex.mPersistency = Persistency.Persistent_ →
          ∀ l ∈ collection.mResourceViewLists, P l)
    (Q := fun (pass : DX12RenderPass) => ∀ subpass ∈ pass.mGraphicsSubpasses,
      ∀ collection ∈ subpass.mDescriptors,
        collection.mIndex.mPersistency = Persistency.Persistent_ →
          ∀ l ∈ collection.mResourceViewLists, Q l)
    (fun pass c1 hc => hpass pass c1 hc)
    (fun pass c1 => (clearPass_frees pass c1).2.2) pipeline.mPasses c h
  unfold clearPipeline
  cases htr : traverse clearPass pipeline.mPasses c with
  | mk v c1 t =>
    rw [htr] at this
    exact this

end RenderWorks

namespace RenderWorks

theorem selected_withPipeline (rw : DX12RenderWorks) {id pipelineID : Nat}
    {sl : DX12RenderSolution} {pipeline : DX12RenderPipeline} (pipeline1 : DX12RenderPipeline)
    (hsol : rw.mSolutions[id]? = some sl) (hpipe : sl.mPipelines[pipelineID]? = some pipeline) :
    (withPipeline rw id pipelineID sl pipeline1).mSolutions[id]? =
        some { sl with mPipelines := sl.mPipelines.set pipelineID pipeline1 } ∧
      (sl.mPipelines.set pipelineID pipeline1)[pipelineID]? = some pipeline1 := by
  have hid : id < rw.mSolutions.length := by
    rcases Nat.lt_or_ge id rw.mSolutions.length with h | h
    · exact h
    · rw [List.getElem?_eq_none h] at hsol
      cases hsol
  have hpid : pipelineID < sl.mPipelines.length := by
    rcases Nat.lt_or_ge pipelineID sl.mPipelines.length with h | h
    · exact h
    · rw [List.getElem?_eq_none h] at hpipe
      cases hpipe
  simp [withPipeline, hid, hpid]

/-- For a solution id and a pipeline id in range, `clearRenderTargets`
completes without throwing, the framebuffer table is empty afterwards, every
persistent resource-view list of the selected pipeline has a null CPU offset
afterwards, and every such list has a null GPU offset afterwards when the
offsets of the persistent lists of the pipeline were set together before the
call. -/
theorem clearRenderTargets_nulls (rw : DX12RenderWorks)
    (id pipelineID : Nat) (c : Context) (sl : DX12RenderSolution)
    (pipeline : DX12RenderPipeline) (hsol : rw.mSolutions[id]? = some sl)
    (hpipe : sl.mPipelines[pipelineID]? = some pipeline) :
    (clearRenderTargets rw id pipelineID c).thrown = none ∧
      (clearRenderTargets rw id pipelineID c).value.mFramebuffers = [] ∧
      ∃ sl1 pipeline1,
        (clearRenderTargets rw id pipelineID c).value.mSolutions[id]? = some sl1 ∧
        sl1.mPipelines[pipelineID]? = some pipeline1 ∧
        PersistentLists (fun dx12List => dx12List.mCpuOffset = 0) pipeline1 ∧
        (PersistentLists (fun dx12List => dx12List.mCpuOffset = 0 → dx12List.mGpuOffset = 0)
            pipeline →
          PersistentLists (fun dx12List => dx12List.mGpuOffset = 0) pipeline1) := by
  have ht := (clearPipeline_frees pipeline c).2.2
  have hcpu := clearPipeline_forall (P := fun _ => True)
    (Q := fun dx12List => dx12List.mCpuOffset = 0)
    (fun dx12List _ => ⟨fun _ => rfl, fun h0 => h0⟩) pipeline c
    (fun _ _ _ _ _ _ _ _ _ => trivial)
  have hgpu := clearPipeline_forall
    (P := fun dx12List => dx12List.mCpuOffset = 0 → dx12List.mGpuOffset = 0)
    (Q := fun dx12List => dx12List.mGpuOffset = 0)
    (fun dx12List hl => ⟨fun _ => rfl, fun h0 => hl h0⟩) pipeline c
  cases hcp : clearPipeline pipeline c with
  | mk pipeline1 c1 t =>
    rw [hcp] at ht hcpu hgpu
    simp only at ht hcpu hgpu
    subst ht
    obtain ⟨h1, h2⟩ := selected_withPipeline rw pipeline1 hsol hpipe
    simp only [clearRenderTargets, hsol, hpipe, hcp]
    exact ⟨trivial, trivial, _, pipeline1, h1, h2, hcpu, hgpu⟩

end RenderWorks

/-! ## The resolution of the textures of a material -/

theorem avoids_pure {α : Type} {I : World → Prop} {e : Failure} (a : α) :
    Avoids I e (M.pure a) := by
  refine ⟨fun w hw => ⟨fun b w1 h => ?_, fun w1 h => ?_⟩⟩
  · simp only [M.pure, Res.ok.injEq] at h
    exact h.2 ▸ hw
  · simp [M.pure] at h

theorem avoids_bind {α β : Type} {I : World → Prop} {e : Failure} {m : M α} {f : α → M β}
    (hm : Avoids I e m) (hf : ∀ a, Avoids I e (f a)) : Avoids I e (M.bind m f) := by
  refine ⟨fun w hw => ?_⟩
  obtain ⟨h1, h2⟩ := hm.avoids w hw
  have hb : M.bind m f w =
      match m w with
      | Res.ok a w1 => f a w1
      | Res.fail e1 w1 => Res.fail e1 w1 := rfl
  rw [hb]
  cases hmw : m w with
  | ok a w1 => exact (hf a).avoids w1 (h1 a w1 hmw)
  | fail e1 w1 =>
    refine ⟨fun a w2 h => (by cases h), fun w2 h => ?_⟩
    cases h
    exact h2 w1 hmw

theorem avoids_forEach {α β : Type} {I : World → Prop} {e : Failure} (f : α → M β)
    (xs : List α) (hf : ∀ x, Avoids I e (f x)) : Avoids I e (forEach f xs) := by
  induction xs with
  | nil => unfold forEach; exact avoids_pure _
  | cons x xs ih =>
    unfold forEach
    exact avoids_bind (hf x) (fun _ => avoids_bind ih (fun _ => avoids_pure _))

/-- A call that leaves the texture cache alone and does not fail with `e`
avoids `e` from the worlds with a given texture cache. -/
theorem avoids_of_keeps {α : Type} {P : Event → Prop} {cache : List DX12TextureData}
    {e : Failure} {m : M α} (hk : Keeps (Effect [] P) m)
    (hn : ∀ w w1, w.mResources.mTextures = cache → m w ≠ Res.fail e w1) :
    Avoids (fun w => w.mResources.mTextures = cache) e m := by
  refine ⟨fun w hw => ⟨fun a w1 h => ?_, fun w1 => hn w w1 hw⟩⟩
  have := (keeps_of_ok hk h).1.2.1 (by simp)
  show w1.mResources.mTextures = cache
  rw [this]
  exact hw

/-- A request for a texture leaves every identifier that the cache holds at
its position. -/
theorem try_createDX12TextureData_stable (env : Env) (metaID : MetaID) (async : Bool)
    (w w1 : World) (r : Ptr × Bool)
    (h : try_createDX12TextureData env metaID async w = Res.ok r w1) (k : MetaID) (p : Ptr)
    (hk : Cache.find w.mResources.mTextures k = some p) :
    Cache.find w1.mResources.mTextures k = some p := by
  cases hf : Cache.find w.mResources.mTextures metaID with
  | some q =>
    rw [try_createDX12TextureData_found _ _ _ _ _ hf] at h
    cases h
    exact hk
  | none =>
    rw [try_createDX12TextureData_fresh _ _ _ _ hf] at h
    split at h
    · rename_i tex w2 hm
      cases h
      have hkeep := (keeps_of_ok (modifyTexture_keeps _ _ _ _) hm).1.2.1 (by simp)
      have hid := ((modifyTexture_metaID _ _ _ _).returns _ _ _ hm).1
      simp only at hkeep
      simp only [hkeep]
      unfold Cache.modify
      rw [find_set]
      · exact find_append_some _ _ _ _ hk
      · intro e0 h0
        simp at h0
        subst h0
        exact hid.symm
    · cases h

/-- After the texture loop of the material modifier, every identifier that
the material bakes is held by the texture cache at the position the loop
returned for it. -/
theorem textureLoop_resolved (env : Env) (async : Bool) (xs : List (Name × MetaID))
    (w w1 : World) (textures : List (Ptr × Bool))
    (h : forEach (fun (texture : Name × MetaID) =>
      try_createDX12TextureData env texture.2 async) xs w = Res.ok textures w1) :
    List.Forall₂ (fun (texture : Name × MetaID) (p : Ptr) =>
        Cache.find w1.mResources.mTextures texture.2 = some p) xs (textures.map Prod.fst) ∧
      ∀ k p, Cache.find w.mResources.mTextures k = some p →
        Cache.find w1.mResources.mTextures k = some p := by
  induction xs generalizing w textures with
  | nil =>
    unfold forEach at h
    simp only [M.pure, Res.ok.injEq] at h
    obtain ⟨ha, hb⟩ := h
    subst ha hb
    exact ⟨List.Forall₂.nil, fun _ _ hk => hk⟩
  | cons x xs ih =>
    unfold forEach at h
    obtain ⟨r, wa, h1, h2⟩ := bind_eq_ok h
    obtain ⟨rs, wb, h3, h4⟩ := bind_eq_ok h2
    simp only [M.pure, Res.ok.injEq] at h4
    obtain ⟨ha, hb⟩ := h4
    subst ha hb
    obtain ⟨hrest, hstable⟩ := ih wa rs h3
    have hfirst := (try_createDX12TextureData_ok _ _ _ _ _ _ h1).1
    refine ⟨?_, fun k p hk =>
      hstable k p (try_createDX12TextureData_stable _ _ _ _ _ _ h1 k p hk)⟩
    simp only [List.map_cons]
    exact List.Forall₂.cons (hstable _ _ hfirst) hrest

/-- The search of the textures of the material finds the position at which
the cache holds the identifier, when the identifier is among those the
pointers were obtained for. -/
theorem findMaterialTexture_finds (cache : List DX12TextureData) (texID : MetaID)
    (ids : List MetaID) (ptrs : List Ptr) (w : World)
    (hall : List.Forall₂ (fun id p => Cache.find cache id = some p) ids ptrs)
    (hmem : texID ∈ ids) :
    ∃ tex, findMaterialTexture cache texID ptrs w = Res.ok (some tex) w ∧
      Cache.find cache texID = some tex := by
  induction hall with
  | nil => cases hmem
  | @cons id p ids ptrs hp _ ih =>
    obtain ⟨e, hget, hkey⟩ := find_get _ _ _ hp
    have hkey1 : e.mMetaID = id := hkey
    unfold findMaterialTexture
    by_cases heq : texID = e.mMetaID
    · refine ⟨p, ?_, ?_⟩
      · simp [M.bind, vectorIndex, hget, M.pure, heq]
      · rw [heq, hkey1]
        exact hp
    · have hne : texID ≠ id := by
        rw [← hkey1]
        exact heq
      have hrest : texID ∈ ids := by
        rcases List.mem_cons.mp hmem with h | h
        · exact absurd h hne
        · exact h
      obtain ⟨tex, h1, h2⟩ := ih hrest
      refine ⟨tex, ?_, h2⟩
      simp only [M.bind, vectorIndex, hget, M.pure, heq, if_false]
      exact h1

/-- The texture of an attribute that the material bakes resolves to the
cache entry of the identifier baked for it. -/
theorem resolveTexture_present (materialData : MaterialData) (material : DX12MaterialData)
    (attributeName : Name) (w : World) (iter : Name × MetaID)
    (hall : TexturesResolved materialData material.mTextures w.mResources.mTextures)
    (hmap : materialData.mTextures.find? (fun e => e.1 = attributeName) = some iter) :
    ∃ tex entry,
      resolveTexture materialData material attributeName w =
        Res.ok (TextureRef.cached tex, entry) w ∧
      Cache.find w.mResources.mTextures iter.2 = some tex ∧
      w.mResources.mTextures[tex]? = some entry ∧
      entry.mMetaID = iter.2 := by
  have hmem : iter.2 ∈ materialData.mTextures.map Prod.snd :=
    List.mem_map_of_mem _ (List.mem_of_find?_eq_some hmap)
  have hall1 : List.Forall₂ (fun id p => Cache.find w.mResources.mTextures id = some p)
      (materialData.mTextures.map Prod.snd) material.mTextures :=
    List.forall₂_map_left_iff.mpr hall
  obtain ⟨tex, h1, h2⟩ := findMaterialTexture_finds _ _ _ _ w hall1 hmem
  obtain ⟨entry, hget, hkey⟩ := find_get _ _ _ h2
  refine ⟨tex, entry, ?_, h2, hget, hkey⟩
  simp [resolveTexture, M.bind, getResources, hmap, h1, vectorIndex, hget, M.pure]

/-- The resolution of a texture does not fail on a contract when the
textures of the material are resolved in the cache. -/
theorem resolveTexture_avoids (materialData : MaterialData) (material : DX12MaterialData)
    (attributeName : Name) (cache : List DX12TextureData)
    (hall : TexturesResolved materialData material.mTextures cache) :
    Avoids (fun w => w.mResources.mTextures = cache) Failure.Contract
      (resolveTexture materialData material attributeName) := by
  refine avoids_of_keeps (P := fun _ => True) (resolveTexture_keeps _ _ _) (fun w w1 hw => ?_)
  cases hmap : materialData.mTextures.find? (fun e => e.1 = attributeName) with
  | some iter =>
    obtain ⟨tex, entry, h, _⟩ := resolveTexture_present materialData material attributeName w
      iter (by rw [hw]; exact hall) hmap
    rw [h]
    exact fun hc => by cases hc
  | none =>
    simp only [resolveTexture, bind_eq, pure_eq, hmap, M.bind, getResources, mapAt]
    cases hwhite : w.mResources.mDefaultTextures.find? (fun e => e.1 = DefaultTexture.White) with
    | some white => simp [M.pure]
    | none => simp [M.fail]

/-- The tree loop of the material modifier does not fail on a contract when
the textures of the material are resolved in the cache: the assertion on the
resolved texture is the only contract in it. -/
theorem createMaterialSolution_avoids (materialData : MaterialData)
    (material : DX12MaterialData) (cache : List DX12TextureData)
    (hall : TexturesResolved materialData material.mTextures cache)
    (solution : DX12ShaderSolutionData) :
    Avoids (fun w => w.mResources.mTextures = cache) Failure.Contract
      (createMaterialSolution materialData material solution) := by
  have hworld : Avoids (fun w => w.mResources.mTextures = cache) Failure.Contract getWorld :=
    avoids_of_keeps (P := fun _ => True) keeps_getWorld
      (fun w w1 _ h => by simp [getWorld] at h)
  have hemit : ∀ e, Avoids (fun w => w.mResources.mTextures = cache) Failure.Contract
      (emit e) := fun e =>
    avoids_of_keeps (P := fun _ => True) (keeps_emit e trivial)
      (fun w w1 _ h => by simp [emit] at h)
  have halloc : ∀ count, Avoids (fun w => w.mResources.mTextures = cache) Failure.Contract
      (allocatePersistent count) := fun count =>
    avoids_of_keeps (P := fun _ => True) (keeps_allocatePersistent count (fun _ => trivial))
      (fun w w1 _ h => by
        unfold Star.allocatePersistent at h
        dsimp only at h
        split at h
        · cases h
        · split at h <;> cases h)
  unfold createMaterialSolution
  simp only [bind_eq, pure_eq]
  repeat' first
    | exact avoids_pure _
    | exact hworld
    | exact hemit _
    | exact halloc _
    | exact resolveTexture_avoids _ _ _ _ hall
    | apply avoids_forEach
    | apply avoids_bind
    | intro _
    | split
    | (unfold createMaterialSubpass; simp only [bind_eq, pure_eq])

/-- C29: let the texture loop of the synchronous material modifier return.
Then in every world with the texture cache the loop left, and these are the
worlds of the tree loop, every attribute whose name is in the texture map of
the material resolves: the search over the textures of the material finds an
entry, the resolution returns it, and it is the entry of the texture cache
for the identifier that the map assigns to the name. The tree loop never
fails on the assertion, whatever the shader tree. -/
theorem C29_texture_resolution_finds_the_cache_entry (env : Env) (materialData : MaterialData)
    (material : DX12MaterialData) (async : Bool) (w w2 : World) (textures : List (Ptr × Bool))
    (hloop : forEach (fun (texture : Name × MetaID) =>
      try_createDX12TextureData env texture.2 async) materialData.mTextures w =
        Res.ok textures w2) :
    (∀ w3 attributeName iter, w3.mResources.mTextures = w2.mResources.mTextures →
      materialData.mTextures.find? (fun e => e.1 = attributeName) = some iter →
      ∃ tex entry,
        findMaterialTexture w3.mResources.mTextures iter.2 (textures.map Prod.fst) w3 =
          Res.ok (some tex) w3 ∧
        resolveTexture materialData { material with mTextures := textures.map Prod.fst }
          attributeName w3 = Res.ok (TextureRef.cached tex, entry) w3 ∧
        Cache.find w3.mResources.mTextures iter.2 = some tex ∧
        w3.mResources.mTextures[tex]? = some entry ∧
        entry.mMetaID = iter.2) ∧
    ∀ solutions,
      (∀ shaderData w4, forEach (createMaterialSolution materialData
          { material with mTextures := textures.map Prod.fst }) solutions w2 =
            Res.ok shaderData w4 → w4.mResources.mTextures = w2.mResources.mTextures) ∧
      ∀ w4, forEach (createMaterialSolution materialData
          { material with mTextures := textures.map Prod.fst }) solutions w2 ≠
            Res.fail Failure.Contract w4 := by
  have hall := (textureLoop_resolved env async _ w w2 textures hloop).1
  refine ⟨fun w3 attributeName iter hsame hmap => ?_, fun solutions => ?_⟩
  · have hall3 : TexturesResolved materialData
        ({ material with mTextures := textures.map Prod.fst } : DX12MaterialData).mTextures
        w3.mResources.mTextures := by
      rw [hsame]
      exact hall
    obtain ⟨tex, entry, h1, h2, h3, h4⟩ := resolveTexture_present materialData
      { material with mTextures := textures.map Prod.fst } attributeName w3 iter hall3 hmap
    refine ⟨tex, entry, ?_, h1, h2, h3, h4⟩
    have hmem : iter.2 ∈ materialData.mTextures.map Prod.snd :=
      List.mem_map_of_mem _ (List.mem_of_find?_eq_some hmap)
    obtain ⟨tex1, h5, h6⟩ := findMaterialTexture_finds _ _ _ _ w3
      (List.forall₂_map_left_iff.mpr hall3) hmem
    rw [h2] at h6
    cases h6
    exact h5
  · exact (avoids_forEach _ solutions
      (createMaterialSolution_avoids materialData
        { material with mTextures := textures.map Prod.fst } w2.mResources.mTextures
        hall)).avoids w2 rfl


/-- C29 at the scenario: the texture loop of material 30, which bakes
`Albedo` as texture 50 and `Normal` as texture 51, returns the positions 0 and
1; the attribute `Normal` then resolves to the entry at position 1, which is
the entry of the cache for texture 51. -/
theorem C29_texture_resolution_finds_the_cache_entry_witness :
    forEach (fun (texture : Name × MetaID) =>
        try_createDX12TextureData exampleEnv texture.2 false) exampleMaterial.mTextures
        exampleRenderGraphWorld = Res.ok [(0, true), (1, true)] exampleTexturesWorld ∧
      exampleMaterial.mTextures.find? (fun e => e.1 = "Normal") = some ("Normal", 51) ∧
      Cache.find exampleTexturesWorld.mResources.mTextures 51 = some 1 ∧
      ∃ tex entry,
        findMaterialTexture exampleTexturesWorld.mResources.mTextures
          (("Normal", 51) : Name × MetaID).2
          (([(0, true), (1, true)] : List (Ptr × Bool)).map Prod.fst) exampleTexturesWorld =
          Res.ok (some tex) exampleTexturesWorld ∧
        resolveTexture exampleMaterial
          { (CacheEntry.create 30 : DX12MaterialData) with
            mTextures := ([(0, true), (1, true)] : List (Ptr × Bool)).map Prod.fst }
          "Normal" exampleTexturesWorld = Res.ok (TextureRef.cached tex, entry)
            exampleTexturesWorld ∧
        Cache.find exampleTexturesWorld.mResources.mTextures
          (("Normal", 51) : Name × MetaID).2 = some tex ∧
        exampleTexturesWorld.mResources.mTextures[tex]? = some entry ∧
        entry.mMetaID = (("Normal", 51) : Name × MetaID).2 :=
  ⟨by decide!, by decide!, by decide!,
    (C29_texture_resolution_finds_the_cache_entry exampleEnv exampleMaterial
      (CacheEntry.create 30) false exampleRenderGraphWorld exampleTexturesWorld
      [(0, true), (1, true)] (by decide!)).1 exampleTexturesWorld "Normal" ("Normal", 51) rfl
      (by decide!)⟩
namespace Shader

/-! ## The outputs and the attributes of the shader modules -/

/-- C30: of the 51 modules that `createStarModules` registers, exactly one has
a declared output name that does not occur in each of its content variants:
`CosThetaD` declares the output `cosThetaD`, and its only content variant is
`cosThetaH = dot(lightDir, halfAngle);`, the assignment of the module
`CosThetaH` with the operands of `CosThetaD`. The module `LdotH` takes
`cosThetaD` as its input. Every attribute name of every module is declared
in the global attribute list. -/
theorem C30_output_of_CosThetaD_does_not_occur_in_its_content :
    (createStarModules ⟨[], []⟩).mModules.length = 51 ∧
    ((createStarModules ⟨[], []⟩).mModules.filter
      (fun shaderModule => !shaderModule.outputsOccur)).map
      (fun shaderModule => (shaderModule.mName, shaderModule.mOutputs,
        shaderModule.mContents.map (fun content => content.mContent))) =
      [("CosThetaD", ["cosThetaD"], ["cosThetaH = dot(lightDir, halfAngle);\n"])] ∧
    ((createStarModules ⟨[], []⟩).mModules.filter
      (fun shaderModule => shaderModule.mInputs.contains "cosThetaD")).map
      (fun shaderModule => shaderModule.mName) = ["LdotH"] ∧
    (createStarModules ⟨[], []⟩).mModules.all
      (fun shaderModule =>
        shaderModule.attributesDeclared (createStarModules ⟨[], []⟩).mAttributes) = true := by
  decide!

end Shader

/-! ## Relations kept by every call -/

theorem keepsR_pure {α : Type} {R : World → World → Prop} (hrefl : ∀ w, R w w) (a : α) :
    Keeps R (M.pure a) :=
  ⟨fun w => hrefl w⟩

theorem keepsR_fail {α : Type} {R : World → World → Prop} (hrefl : ∀ w, R w w) (e : Failure) :
    Keeps R (M.fail e : M α) :=
  ⟨fun w => hrefl w⟩

theorem keepsR_bind {α β : Type} {R : World → World → Prop}
    (htrans : ∀ a b c, R a b → R b c → R a c) {m : M α} {f : α → M β} (hm : Keeps R m)
    (hf : ∀ a, Keeps R (f a)) : Keeps R (M.bind m f) := by
  refine ⟨fun w => ?_⟩
  rw [world_bind]
  have h1 := hm.keeps w
  cases hmw : m w with
  | ok a w1 =>
    rw [hmw] at h1
    exact htrans _ _ _ h1 ((hf a).keeps w1)
  | fail e w1 =>
    rw [hmw] at h1
    exact h1

theorem keepsR_forEach {α β : Type} {R : World → World → Prop} (hrefl : ∀ w, R w w)
    (htrans : ∀ a b c, R a b → R b c → R a c) (f : α → M β) (xs : List α)
    (hf : ∀ x, Keeps R (f x)) : Keeps R (forEach f xs) := by
  induction xs with
  | nil => unfold forEach; exact keepsR_pure hrefl _
  | cons x xs ih =>
    unfold forEach
    exact keepsR_bind htrans (hf x) (fun _ => keepsR_bind htrans ih
      (fun _ => keepsR_pure hrefl _))

theorem keepsR_forEachCombine {α δ : Type} {R : World → World → Prop} (hrefl : ∀ w, R w w)
    (htrans : ∀ a b c, R a b → R b c → R a c) (f : α → δ → M α) (xs : List α) (ys : List δ)
    (hf : ∀ x y, Keeps R (f x y)) : Keeps R (forEachCombine f xs ys) := by
  induction xs generalizing ys with
  | nil => unfold forEachCombine; exact keepsR_pure hrefl _
  | cons x xs ih =>
    cases ys with
    | nil => unfold forEachCombine; exact keepsR_pure hrefl _
    | cons y ys =>
      unfold forEachCombine
      exact keepsR_bind htrans (hf x y) (fun _ => keepsR_bind htrans (ih ys)
        (fun _ => keepsR_pure hrefl _))

/-- A call that changes no cache leaves the caches as they are. -/
theorem resources_of_effect {P : Event → Prop} {w w1 : World} (h : Effect [] P w w1) :
    w1.mResources = w.mResources := by
  obtain ⟨⟨h1, h2, h3, h4, h5, h6, h7, h8⟩, _⟩ := h
  have a1 := h1 (by simp)
  have a2 := h2 (by simp)
  have a3 := h3 (by simp)
  have a4 := h4 (by simp)
  have a5 := h5 (by simp)
  have a6 := h6 (by simp)
  cases hr : w.mResources
  cases hr1 : w1.mResources
  simp only [hr, hr1] at a1 a2 a3 a4 a5 a6 h7 h8
  simp only [DX12Resources.mk.injEq]
  exact ⟨a1, a2, a3, a4, a5, a6, h7, h8⟩

theorem keepsR_of_effect {α : Type} {R : World → World → Prop} {P : Event → Prop}
    (hres : ∀ w w1, w1.mResources = w.mResources → R w w1) {m : M α}
    (hk : Keeps (Effect [] P) m) : Keeps R m :=
  ⟨fun w => hres _ _ (resources_of_effect (hk.keeps w))⟩

/-! ## Nil identifiers -/

theorem keepsNoNil_refl (w : World) : KeepsNoNil w w :=
  ⟨id, id, id, id, id, id⟩

theorem keepsNoNil_trans (a b c : World) (h : KeepsNoNil a b) (h1 : KeepsNoNil b c) :
    KeepsNoNil a c :=
  ⟨fun x => h1.1 (h.1 x), fun x => h1.2.1 (h.2.1 x), fun x => h1.2.2.1 (h.2.2.1 x),
    fun x => h1.2.2.2.1 (h.2.2.2.1 x), fun x => h1.2.2.2.2.1 (h.2.2.2.2.1 x),
    fun x => h1.2.2.2.2.2 (h.2.2.2.2.2 x)⟩

theorem keepsNoNil_of_resources (w w1 : World) (h : w1.mResources = w.mResources) :
    KeepsNoNil w w1 := by
  unfold KeepsNoNil
  rw [h]
  exact ⟨id, id, id, id, id, id⟩

theorem noNilKey_modify_emplaced {α : Type} [CacheEntry α] (cache : List α) (c e : α)
    (h : Cache.NoNilKey cache) (he : MetaID.isNil (CacheEntry.metaID e) = false) :
    Cache.NoNilKey (Cache.modify (cache ++ [c]) cache.length e) := by
  intro x hx
  have hset : Cache.modify (cache ++ [c]) cache.length e = cache ++ [e] := by
    simp [Cache.modify]
  rw [hset] at hx
  rcases List.mem_append.mp hx with hx | hx
  · exact h x hx
  · simp only [List.mem_singleton] at hx
    rw [hx]
    exact he

theorem noNilKey_erase_emplaced {α : Type} [CacheEntry α] (cache : List α) (c : α)
    (h : Cache.NoNilKey cache) : Cache.NoNilKey (Cache.erase (cache ++ [c]) cache.length) := by
  have herase : Cache.erase (cache ++ [c]) cache.length = cache := by
    simp [Cache.erase, List.eraseIdx_append_of_length_le]
  rw [herase]
  exact h

theorem noNilKey_modify {α : Type} [CacheEntry α] (cache : List α) (p : Ptr) (e : α)
    (h : Cache.NoNilKey cache) (he : MetaID.isNil (CacheEntry.metaID e) = false) :
    Cache.NoNilKey (Cache.modify cache p e) := by
  intro x hx
  rcases List.mem_or_eq_of_mem_set hx with hx | hx
  · exact h x hx
  · rw [hx]
    exact he

theorem noNilKey_erase {α : Type} [CacheEntry α] (cache : List α) (p : Ptr)
    (h : Cache.NoNilKey cache) : Cache.NoNilKey (Cache.erase cache p) :=
  fun x hx => h x ((List.eraseIdx_sublist cache p).subset hx)

theorem noNilKey_emplaced {α : Type} [CacheEntry α] (cache : List α) (c : α)
    (h : Cache.NoNilKey cache) (hc : MetaID.isNil (CacheEntry.metaID c) = false) :
    Cache.NoNilKey (cache ++ [c]) := by
  intro x hx
  rcases List.mem_append.mp hx with hx | hx
  · exact h x hx
  · simp only [List.mem_singleton] at hx
    rw [hx]
    exact hc

theorem modifyMesh_loaded (env : Env) (metaID : MetaID) (mesh0 mesh : DX12MeshData)
    (w w1 : World) (h : modifyMesh env metaID false mesh0 w = Res.ok mesh w1) :
    (env.meshes metaID).isSome = true := by
  cases hasset : env.meshes metaID with
  | some _ => rfl
  | none =>
    simp [modifyMesh, M.bind, emit, AssetHandle.reset, hasset, M.fail] at h

theorem modifyTexture_loaded (env : Env) (metaID : MetaID) (tex0 tex : DX12TextureData)
    (w w1 : World) (h : modifyTexture env metaID false tex0 w = Res.ok tex w1) :
    (env.textures metaID).isSome = true := by
  cases hasset : env.textures metaID with
  | some _ => rfl
  | none =>
    simp [modifyTexture, M.bind, emit, AssetHandle.reset, hasset, M.fail] at h

theorem modifyShader_loaded (env : Env) (rg : DX12RenderGraphData) (metaID : MetaID)
    (shader0 shader : DX12ShaderData) (w w1 : World)
    (h : modifyShader env rg metaID false shader0 w = Res.ok shader w1) :
    (env.shaders metaID).isSome = true := by
  cases hasset : env.shaders metaID with
  | some _ => rfl
  | none =>
    simp [modifyShader, M.bind, emit, AssetHandle.reset, hasset, M.fail] at h

theorem modifyMaterial_loaded (env : Env) (rg : DX12RenderGraphData) (metaID : MetaID)
    (material0 material : DX12MaterialData) (w w1 : World)
    (h : modifyMaterial env rg metaID false material0 w = Res.ok material w1) :
    (env.materials metaID).isSome = true := by
  cases hasset : env.materials metaID with
  | some _ => rfl
  | none =>
    simp [modifyMaterial, M.bind, emit, AssetHandle.reset, hasset, M.fail] at h

/-- The identifier of an entry that a modifier has populated is not nil: an
asynchronous request is made for identifiers that are not nil, and a
synchronous one has loaded the asset. -/
theorem isNil_of_loaded {α : Type} (db : MetaID → Option α) (metaID : MetaID) (async : Bool)
    (hdb : MetaID.isNil metaID = true → db metaID = none)
    (hid : async = true → MetaID.isNil metaID = false)
    (hloaded : async = false → (db metaID).isSome = true) : MetaID.isNil metaID = false := by
  cases async with
  | true => exact hid rfl
  | false =>
    cases hnil : MetaID.isNil metaID with
    | false => rfl
    | true =>
      have := hloaded rfl
      rw [hdb hnil] at this
      cases this

theorem try_createDX12MeshData_nonil (env : Env) (hassets : NoNilAssets env) (metaID : MetaID)
    (async : Bool) (hid : async = true → MetaID.isNil metaID = false) :
    Keeps KeepsNoNil (try_createDX12MeshData env metaID async) := by
  refine ⟨fun w => ?_⟩
  cases hf : Cache.find w.mResources.mMeshes metaID with
  | some p =>
    rw [try_createDX12MeshData_found _ _ _ _ _ hf]
    exact keepsNoNil_refl w
  | none =>
    rw [try_createDX12MeshData_fresh _ _ _ _ hf]
    have hk := (modifyMesh_keeps env metaID async (CacheEntry.create metaID)).keeps
      { w with mResources := { w.mResources with
          mMeshes := w.mResources.mMeshes ++ [CacheEntry.create metaID] } }
    cases hm : modifyMesh env metaID async (CacheEntry.create metaID)
        { w with mResources := { w.mResources with
          mMeshes := w.mResources.mMeshes ++ [CacheEntry.create metaID] } } with
    | ok mesh w2 =>
      rw [hm] at hk
      have hres : w2.mResources = _ := resources_of_effect hk
      have hkey := ((modifyMesh_metaID _ _ _ _).returns _ _ _ hm).1
      have hnil : MetaID.isNil mesh.mMetaID = false := by
        rw [hkey]
        exact isNil_of_loaded env.meshes metaID async (fun h => (hassets _ h).1) hid
          (fun ha => by subst ha; exact modifyMesh_loaded _ _ _ _ _ _ hm)
      unfold KeepsNoNil
      dsimp only [Res.world]
      rw [hres]
      dsimp only
      exact ⟨fun h => noNilKey_modify_emplaced _ _ _ h hnil, id, id, id, id, id⟩
    | fail e w2 =>
      rw [hm] at hk
      have hres : w2.mResources = _ := resources_of_effect hk
      unfold KeepsNoNil
      dsimp only [Res.world]
      rw [hres]
      dsimp only
      exact ⟨fun h => noNilKey_erase_emplaced _ _ h, id, id, id, id, id⟩

theorem try_createDX12TextureData_nonil (env : Env) (hassets : NoNilAssets env)
    (metaID : MetaID) (async : Bool) (hid : async = true → MetaID.isNil metaID = false) :
    Keeps KeepsNoNil (try_createDX12TextureData env metaID async) := by
  refine ⟨fun w => ?_⟩
  cases hf : Cache.find w.mResources.mTextures metaID with
  | some p =>
    rw [try_createDX12TextureData_found _ _ _ _ _ hf]
    exact keepsNoNil_of_resources _ _ rfl
  | none =>
    rw [try_createDX12TextureData_fresh _ _ _ _ hf]
    have hk := (modifyTexture_keeps env metaID async (CacheEntry.create metaID)).keeps
      { w with mResources := { w.mResources with
          mTextures := w.mResources.mTextures ++ [CacheEntry.create metaID] } }
    cases hm : modifyTexture env metaID async (CacheEntry.create metaID)
        { w with mResources := { w.mResources with
          mTextures := w.mResources.mTextures ++ [CacheEntry.create metaID] } } with
    | ok tex w2 =>
      rw [hm] at hk
      have hres : w2.mResources = _ := resources_of_effect hk
      have hkey := ((modifyTexture_metaID _ _ _ _).returns _ _ _ hm).1
      have hnil : MetaID.isNil tex.mMetaID = false := by
        rw [hkey]
        exact isNil_of_loaded env.textures metaID async (fun h => (hassets _ h).2.1) hid
          (fun ha => by subst ha; exact modifyTexture_loaded _ _ _ _ _ _ hm)
      unfold KeepsNoNil
      dsimp only [Res.world]
      rw [hres]
      dsimp only
      exact ⟨id, fun h => noNilKey_modify_emplaced _ _ _ h hnil, id, id, id, id⟩
    | fail e w2 =>
      rw [hm] at hk
      have hres : w2.mResources = _ := resources_of_effect hk
      unfold KeepsNoNil
      dsimp only [Res.world]
      rw [hres]
      dsimp only
      exact ⟨id, fun h => noNilKey_erase_emplaced _ _ h, id, id, id, id⟩

theorem try_createDX12ShaderData_nonil (env : Env) (hassets : NoNilAssets env)
    (rg : DX12RenderGraphData) (metaID : MetaID) (async : Bool)
    (hid : async = true → MetaID.isNil metaID = false) :
    Keeps KeepsNoNil (try_createDX12ShaderData env rg metaID async) := by
  refine ⟨fun w => ?_⟩
  cases hf : Cache.find w.mResources.mShaders metaID with
  | some p =>
    rw [try_createDX12ShaderData_found _ _ _ _ _ _ hf]
    exact keepsNoNil_refl w
  | none =>
    rw [try_createDX12ShaderData_fresh _ _ _ _ _ hf]
    have hk := (modifyShader_keeps env rg metaID async (CacheEntry.create metaID)).keeps
      { w with mResources := { w.mResources with
          mShaders := w.mResources.mShaders ++ [CacheEntry.create metaID] } }
    cases hm : modifyShader env rg metaID async (CacheEntry.create metaID)
        { w with mResources := { w.mResources with
          mShaders := w.mResources.mShaders ++ [CacheEntry.create metaID] } } with
    | ok shader w2 =>
      rw [hm] at hk
      have hres : w2.mResources = _ := resources_of_effect hk
      have hkey := ((modifyShader_metaID _ _ _ _ _).returns _ _ _ hm).1
      have hnil : MetaID.isNil shader.mMetaID = false := by
        rw [hkey]
        exact isNil_of_loaded env.shaders metaID async (fun h => (hassets _ h).2.2.1) hid
          (fun ha => by subst ha; exact modifyShader_loaded _ _ _ _ _ _ _ hm)
      unfold KeepsNoNil
      dsimp only [Res.world]
      rw [hres]
      dsimp only
      exact ⟨id, id, fun h => noNilKey_modify_emplaced _ _ _ h hnil, id, id, id⟩
    | fail e w2 =>
      rw [hm] at hk
      have hres : w2.mResources = _ := resources_of_effect hk
      unfold KeepsNoNil
      dsimp only [Res.world]
      rw [hres]
      dsimp only
      exact ⟨id, id, fun h => noNilKey_erase_emplaced _ _ h, id, id, id⟩

theorem modifyMaterial_nonil (env : Env) (hassets : NoNilAssets env) (rg : DX12RenderGraphData)
    (metaID : MetaID) (async : Bool) (material0 : DX12MaterialData) :
    Keeps KeepsNoNil (modifyMaterial env rg metaID async material0) := by
  cases async <;>
  · unfold modifyMaterial
    simp only [bind_eq, pure_eq, Bool.not_false, Bool.not_true, ↓reduceIte, Bool.false_eq_true]
    repeat' first
      | exact keepsR_pure keepsNoNil_refl _
      | exact keepsR_fail keepsNoNil_refl _
      | exact keepsR_of_effect keepsNoNil_of_resources (P := fun _ => True)
          (keeps_emit _ trivial)
      | exact keepsR_of_effect keepsNoNil_of_resources (P := fun _ => True) keeps_getResources
      | exact keepsR_of_effect keepsNoNil_of_resources (P := fun _ => True) (keeps_mapAt _ _)
      | exact keepsR_of_effect keepsNoNil_of_resources (P := fun _ => True)
          (keeps_vectorIndex _ _)
      | exact keepsR_of_effect keepsNoNil_of_resources
          (keeps_forEach _ _ (fun x => createMaterialSolution_keeps _ _ x))
      | exact try_createDX12ShaderData_nonil env hassets _ _ false (by simp)
      | exact keepsR_forEach keepsNoNil_refl keepsNoNil_trans _ _
          (fun _ => try_createDX12TextureData_nonil env hassets _ false (by simp))
      | apply keepsR_bind keepsNoNil_trans
      | intro _
      | split

theorem try_createDX12MaterialData_nonil (env : Env) (hassets : NoNilAssets env)
    (rg : DX12RenderGraphData) (metaID : MetaID) (async : Bool)
    (hid : async = true → MetaID.isNil metaID = false) :
    Keeps KeepsNoNil (try_createDX12MaterialData env rg metaID async) := by
  refine ⟨fun w => ?_⟩
  cases hf : Cache.find w.mResources.mMaterials metaID with
  | some p =>
    rw [try_createDX12MaterialData_found _ _ _ _ _ _ hf]
    exact keepsNoNil_refl w
  | none =>
    rw [try_createDX12MaterialData_fresh _ _ _ _ _ hf]
    have hk := (modifyMaterial_keeps env rg metaID async (CacheEntry.create metaID)).keeps
      { w with mResources := { w.mResources with
          mMaterials := w.mResources.mMaterials ++ [CacheEntry.create metaID] } }
    have hn := (modifyMaterial_nonil env hassets rg metaID async
      (CacheEntry.create metaID)).keeps
      { w with mResources := { w.mResources with
          mMaterials := w.mResources.mMaterials ++ [CacheEntry.create metaID] } }
    cases hm : modifyMaterial env rg metaID async (CacheEntry.create metaID)
        { w with mResources := { w.mResources with
          mMaterials := w.mResources.mMaterials ++ [CacheEntry.create metaID] } } with
    | ok material w2 =>
      rw [hm] at hk hn
      have hown : w2.mResources.mMaterials = _ := hk.1.2.2.2.1 (by simp)
      have hkey := ((modifyMaterial_metaID _ _ _ _ _).returns _ _ _ hm).1
      have hnil : MetaID.isNil material.mMetaID = false := by
        rw [hkey]
        exact isNil_of_loaded env.materials metaID async (fun h => (hassets _ h).2.2.2) hid
          (fun ha => by subst ha; exact modifyMaterial_loaded _ _ _ _ _ _ _ hm)
      unfold KeepsNoNil
      dsimp only [Res.world]
      rw [hown]
      dsimp only
      exact ⟨hn.1, hn.2.1, hn.2.2.1, fun h => noNilKey_modify_emplaced _ _ _ h hnil,
        hn.2.2.2.2.1, hn.2.2.2.2.2⟩
    | fail e w2 =>
      rw [hm] at hk hn
      have hown : w2.mResources.mMaterials = _ := hk.1.2.2.2.1 (by simp)
      unfold KeepsNoNil
      dsimp only [Res.world]
      rw [hown]
      dsimp only
      exact ⟨hn.1, hn.2.1, hn.2.2.1, fun h => noNilKey_erase_emplaced _ _ h,
        hn.2.2.2.2.1, hn.2.2.2.2.2⟩

theorem createDrawCall_nonil (env : Env) (hassets : NoNilAssets env) (rg : DX12RenderGraphData)
    (async : Bool) (data : DrawCallData) :
    Keeps KeepsNoNil (createDrawCall env rg async data) := by
  unfold createDrawCall
  simp only [bind_eq, pure_eq]
  split
  · exact keepsR_pure keepsNoNil_refl _
  · rename_i hnil
    refine keepsR_bind keepsNoNil_trans
      (try_createDX12MeshData_nonil env hassets _ _ (fun _ => by simpa using hnil)) (fun _ => ?_)
    exact keepsR_bind keepsNoNil_trans
      (try_createDX12MaterialData_nonil env hassets rg _ _ (fun _ => by simpa using hnil))
      (fun _ => keepsR_pure keepsNoNil_refl _)

theorem createFlattenedObjects_nonil (env : Env) (hassets : NoNilAssets env)
    (rg : DX12RenderGraphData) (data : FlattenedObjectsData) :
    Keeps KeepsNoNil (createFlattenedObjects env rg false data) := by
  unfold createFlattenedObjects
  simp only [bind_eq, pure_eq]
  refine keepsR_bind keepsNoNil_trans (keepsR_forEach keepsNoNil_refl keepsNoNil_trans _ _
    (fun rendererData => ?_)) (fun _ => keepsR_pure keepsNoNil_refl _)
  unfold createMeshRenderer
  simp only [bind_eq, pure_eq]
  refine keepsR_bind keepsNoNil_trans
    (try_createDX12MeshData_nonil env hassets _ false (by simp)) (fun _ => ?_)
  exact keepsR_bind keepsNoNil_trans (keepsR_forEach keepsNoNil_refl keepsNoNil_trans _ _
    (fun _ => try_createDX12MaterialData_nonil env hassets rg _ false (by simp)))
    (fun _ => keepsR_pure keepsNoNil_refl _)

theorem modifyContent_nonil (context : CreationContext) (env : Env) (hassets : NoNilAssets env)
    (metaID : MetaID) (async : Bool) (content0 : DX12ContentData) :
    Keeps KeepsNoNil (modifyContent context env metaID async content0) := by
  cases async <;>
  · unfold modifyContent
    simp only [bind_eq, pure_eq, Bool.not_false, Bool.not_true, ↓reduceIte, Bool.false_eq_true]
    repeat' first
      | exact keepsR_pure keepsNoNil_refl _
      | exact keepsR_fail keepsNoNil_refl _
      | exact keepsR_of_effect keepsNoNil_of_resources (P := fun _ => True)
          (keeps_emit _ trivial)
      | exact keepsR_of_effect keepsNoNil_of_resources (P := fun _ => True) keeps_getResources
      | exact keepsR_of_effect keepsNoNil_of_resources (P := fun _ => True)
          (keeps_vectorIndex _ _)
      | exact keepsR_forEach keepsNoNil_refl keepsNoNil_trans _ _
          (fun _ => createDrawCall_nonil env hassets _ _ _)
      | exact keepsR_forEach keepsNoNil_refl keepsNoNil_trans _ _
          (fun _ => createFlattenedObjects_nonil env hassets _ _)
      | apply keepsR_bind keepsNoNil_trans
      | intro _
      | split

theorem createContent_nonil (context : CreationContext) (env : Env) (hassets : NoNilAssets env)
    (metaID : MetaID) (async : Bool) (hid : MetaID.isNil metaID = false) :
    Keeps KeepsNoNil (createContent context env metaID async) := by
  refine ⟨fun w => ?_⟩
  cases hf : Cache.find w.mResources.mContents metaID with
  | some p =>
    obtain ⟨e, _, heq⟩ := createContent_found context env metaID async w p hf
    rw [heq]
    split <;> exact keepsNoNil_refl w
  | none =>
    rw [createContent_fresh _ _ _ _ _ hf]
    have hk := (modifyContent_keeps context env metaID async (CacheEntry.create metaID)).keeps
      { w with mResources := { w.mResources with
          mContents := w.mResources.mContents ++ [CacheEntry.create metaID] } }
    have hn := (modifyContent_nonil context env hassets metaID async
      (CacheEntry.create metaID)).keeps
      { w with mResources := { w.mResources with
          mContents := w.mResources.mContents ++ [CacheEntry.create metaID] } }
    cases hm : modifyContent context env metaID async (CacheEntry.create metaID)
        { w with mResources := { w.mResources with
          mContents := w.mResources.mContents ++ [CacheEntry.create metaID] } } with
    | ok content w2 =>
      rw [hm] at hk hn
      have hown : w2.mResources.mContents = _ := hk.1.2.2.2.2.1 (by simp)
      have hkey := ((modifyContent_metaID _ _ _ _ _).returns _ _ _ hm).1
      have hnil : MetaID.isNil content.mMetaID = false := by
        rw [hkey]
        exact hid
      unfold KeepsNoNil
      dsimp only [Res.world]
      rw [hown]
      dsimp only
      exact ⟨hn.1, hn.2.1, hn.2.2.1, hn.2.2.2.1,
        fun h => noNilKey_modify_emplaced _ _ _ h hnil, hn.2.2.2.2.2⟩
    | fail e w2 =>
      rw [hm] at hk hn
      have hown : w2.mResources.mContents = _ := hk.1.2.2.2.2.1 (by simp)
      unfold KeepsNoNil
      dsimp only [Res.world]
      rw [hown]
      dsimp only
      exact ⟨hn.1, hn.2.1, hn.2.2.1, hn.2.2.2.1, fun h => noNilKey_erase_emplaced _ _ h,
        hn.2.2.2.2.2⟩

theorem try_createDX12Content_nonil (context : CreationContext) (env : Env)
    (hassets : NoNilAssets env) (metaID : MetaID) (async : Bool) :
    Keeps KeepsNoNil (try_createDX12Content context env metaID async) := by
  unfold try_createDX12Content
  split
  · exact keepsR_fail keepsNoNil_refl _
  · rename_i hnil
    exact createContent_nonil context env hassets metaID async (by simpa using hnil)

theorem fillRenderGraph_nonil (context : CreationContext) (env : Env)
    (hassets : NoNilAssets env) (async : Bool) (render : DX12RenderGraphData) :
    Keeps KeepsNoNil (fillRenderGraph context env async render) := by
  unfold fillRenderGraph
  simp only [bind_eq, pure_eq]
  repeat' first
    | exact keepsR_pure keepsNoNil_refl _
    | exact keepsR_fail keepsNoNil_refl _
    | exact keepsR_of_effect keepsNoNil_of_resources (P := fun _ => True) (keeps_Expects _)
    | exact keepsR_of_effect keepsNoNil_of_resources (P := fun _ => True) keeps_getResources
    | exact try_createDX12Content_nonil context env hassets _ _
    | apply keepsR_forEach keepsNoNil_refl keepsNoNil_trans
    | apply keepsR_forEachCombine keepsNoNil_refl keepsNoNil_trans
    | apply keepsR_bind keepsNoNil_trans
    | intro _
    | split

theorem try_createDX12RenderGraphData_nonil (context : CreationContext) (env : Env)
    (hassets : NoNilAssets env) (metaID : MetaID) (async : Bool)
    (hid : MetaID.isNil metaID = false) :
    Keeps KeepsNoNil (try_createDX12RenderGraphData context env metaID async) := by
  refine ⟨fun w => ?_⟩
  cases hf : Cache.find w.mResources.mRenderGraphs metaID with
  | some p =>
    rw [try_createDX12RenderGraphData_found _ _ _ _ _ _ hf]
    exact keepsNoNil_refl w
  | none =>
    rw [try_createDX12RenderGraphData_fresh _ _ _ _ _ hf]
    have hk := (modifyRenderGraph_keeps env metaID (CacheEntry.create metaID)).keeps
      { w with mResources := { w.mResources with
          mRenderGraphs := w.mResources.mRenderGraphs ++ [CacheEntry.create metaID] } }
    cases hm : modifyRenderGraph env metaID (CacheEntry.create metaID)
        { w with mResources := { w.mResources with
          mRenderGraphs := w.mResources.mRenderGraphs ++ [CacheEntry.create metaID] } } with
    | fail e w2 =>
      rw [hm] at hk
      have hres : w2.mResources = _ := resources_of_effect hk
      unfold KeepsNoNil
      dsimp only [Res.world]
      rw [hres]
      dsimp only
      exact ⟨id, id, id, id, id, fun h => noNilKey_erase_emplaced _ _ h⟩
    | ok render w2 =>
      rw [hm] at hk
      have hres : w2.mResources = _ := resources_of_effect hk
      have hkey : render.mMetaID = metaID := (modifyRenderGraph_metaID _ _ _).returns _ _ _ hm
      have hnil : MetaID.isNil render.mMetaID = false := by
        rw [hkey]
        exact hid
      dsimp only
      have hk2 := (fillRenderGraph_keeps context env async render).keeps
        { w2 with mResources := { w2.mResources with
            mRenderGraphs := Cache.modify w2.mResources.mRenderGraphs
              w.mResources.mRenderGraphs.length render } }
      have hn := (fillRenderGraph_nonil context env hassets async render).keeps
        { w2 with mResources := { w2.mResources with
            mRenderGraphs := Cache.modify w2.mResources.mRenderGraphs
              w.mResources.mRenderGraphs.length render } }
      have hstart : Cache.NoNilKey w.mResources.mRenderGraphs →
          Cache.NoNilKey (Cache.modify w2.mResources.mRenderGraphs
            w.mResources.mRenderGraphs.length render) := by
        intro h
        rw [hres]
        exact noNilKey_modify_emplaced _ _ _ h hnil
      have hleaf : w2.mResources.mMeshes = w.mResources.mMeshes ∧
          w2.mResources.mTextures = w.mResources.mTextures ∧
          w2.mResources.mShaders = w.mResources.mShaders ∧
          w2.mResources.mMaterials = w.mResources.mMaterials ∧
          w2.mResources.mContents = w.mResources.mContents := by
        rw [hres]
        exact ⟨rfl, rfl, rfl, rfl, rfl⟩
      cases hfill : fillRenderGraph context env async render
          { w2 with mResources := { w2.mResources with
            mRenderGraphs := Cache.modify w2.mResources.mRenderGraphs
              w.mResources.mRenderGraphs.length render } } with
      | ok render1 w3 =>
        rw [hfill] at hk2 hn
        have hkey1 : render1.mMetaID = render.mMetaID :=
          (fillRenderGraph_metaID _ _ _ _).returns _ _ _ hfill
        have hnil1 : MetaID.isNil render1.mMetaID = false := by
          rw [hkey1]
          exact hnil
        unfold KeepsNoNil at hn ⊢
        dsimp only [Res.world] at hn ⊢
        rw [hleaf.1, hleaf.2.1, hleaf.2.2.1, hleaf.2.2.2.1, hleaf.2.2.2.2] at hn
        exact ⟨hn.1, hn.2.1, hn.2.2.1, hn.2.2.2.1, hn.2.2.2.2.1,
          fun h => noNilKey_modify _ _ _ (hn.2.2.2.2.2 (hstart h)) hnil1⟩
      | fail e w3 =>
        rw [hfill] at hk2 hn
        unfold KeepsNoNil at hn ⊢
        dsimp only [Res.world] at hn ⊢
        rw [hleaf.1, hleaf.2.1, hleaf.2.2.1, hleaf.2.2.2.1, hleaf.2.2.2.2] at hn
        exact ⟨hn.1, hn.2.1, hn.2.2.1, hn.2.2.2.1, hn.2.2.2.2.1,
          fun h => noNilKey_erase _ _ (hn.2.2.2.2.2 (hstart h))⟩

theorem contextRenderGraph_nonil (context : CreationContext) :
    Keeps KeepsNoNil (contextRenderGraph context) :=
  ⟨fun w => by
    rw [contextRenderGraph_world]
    exact keepsNoNil_refl w⟩

theorem try_createDX12_nonil (context : CreationContext) (env : Env)
    (hassets : NoNilAssets env) (metaID : MetaID) (tag : ResourceType) (async : Bool) :
    Keeps KeepsNoNil (try_createDX12 context env metaID tag async) := by
  unfold try_createDX12
  split
  · exact keepsR_fail keepsNoNil_refl _
  · rename_i hnil
    have hid : MetaID.isNil metaID = false := by simpa using hnil
    cases tag <;> simp only [bind_eq, pure_eq]
    · exact keepsR_bind keepsNoNil_trans
        (try_createDX12MeshData_nonil env hassets metaID async (fun _ => hid))
        (fun _ => keepsR_pure keepsNoNil_refl _)
    · exact keepsR_bind keepsNoNil_trans
        (try_createDX12TextureData_nonil env hassets metaID async (fun _ => hid))
        (fun _ => keepsR_pure keepsNoNil_refl _)
    · exact keepsR_bind keepsNoNil_trans (contextRenderGraph_nonil context)
        (fun rg => keepsR_bind keepsNoNil_trans
          (try_createDX12ShaderData_nonil env hassets rg metaID async (fun _ => hid))
          (fun _ => keepsR_pure keepsNoNil_refl _))
    · exact keepsR_bind keepsNoNil_trans (contextRenderGraph_nonil context)
        (fun rg => keepsR_bind keepsNoNil_trans
          (try_createDX12MaterialData_nonil env hassets rg metaID async (fun _ => hid))
          (fun _ => keepsR_pure keepsNoNil_refl _))
    · exact createContent_nonil context env hassets metaID async hid
    · exact keepsR_bind keepsNoNil_trans
        (try_createDX12RenderGraphData_nonil context env hassets metaID async hid)
        (fun _ => keepsR_pure keepsNoNil_refl _)

/-- C19: nil identifiers never enter the caches. Let the asset database store
no mesh, texture, shader or material under the nil identifier, and let no
cache hold an entry keyed by the nil identifier. Then after a call of
`try_createDX12`, for every kind, identifier and flag and whether the call
returns or fails, no cache holds an entry keyed by the nil identifier, and a
lookup of the nil identifier finds nothing in any cache. The dependency
requests of the call are included: a nil identifier among the identifiers
baked in a content batch, a material or a render graph is refused by the
identity check or the nil test where there is one, and where there is none
the request emplaces an entry under the nil identifier, fails to load a
payload for it, and the entry is erased as the failure leaves `modify`. -/
theorem C19_nil_identifiers_never_enter_the_caches (context : CreationContext) (env : Env)
    (metaID : MetaID) (tag : ResourceType) (async : Bool) (w : World)
    (hassets : NoNilAssets env) (hkeys : NoNilKeys w.mResources) :
    NoNilKeys (try_createDX12 context env metaID tag async w).world.mResources ∧
      ∀ kind nil, MetaID.isNil nil = true →
        findEntry (try_createDX12 context env metaID tag async w).world.mResources kind nil =
          none := by
  have hk := (try_createDX12_nonil context env hassets metaID tag async).keeps w
  have hall : NoNilKeys (try_createDX12 context env metaID tag async w).world.mResources :=
    ⟨hk.1 hkeys.1, hk.2.1 hkeys.2.1, hk.2.2.1 hkeys.2.2.1, hk.2.2.2.1 hkeys.2.2.2.1,
      hk.2.2.2.2.1 hkeys.2.2.2.2.1, hk.2.2.2.2.2 hkeys.2.2.2.2.2⟩
  refine ⟨hall, fun kind nil hnil => ?_⟩
  have hnone : ∀ {α : Type} [CacheEntry α] (cache : List α), Cache.NoNilKey cache →
      Cache.find cache nil = none := by
    intro α _ cache hc
    cases hfind : Cache.find cache nil with
    | none => rfl
    | some p =>
      obtain ⟨e, he, hkey⟩ := find_get _ _ _ hfind
      have := hc e (List.mem_iff_getElem?.mpr ⟨p, he⟩)
      rw [hkey, hnil] at this
      cases this
  cases kind
  · exact hnone _ hall.1
  · exact hnone _ hall.2.1
  · exact hnone _ hall.2.2.1
  · exact hnone _ hall.2.2.2.1
  · exact hnone _ hall.2.2.2.2.1
  · exact hnone _ hall.2.2.2.2.2

/-- C19 at the scenario: content 41 has one mesh renderer with the nil mesh
identifier. Its synchronous request in the world that holds render graph 7
emplaces a mesh entry under the nil identifier, fails on the contract that
the mesh payload is loaded, and ends with the mesh entry and the content
entry erased: no cache holds the nil identifier. -/
theorem C19_nil_identifiers_never_enter_the_caches_witness :
    NoNilAssets exampleNilMeshEnv ∧ NoNilKeys exampleRenderGraphWorld.mResources ∧
    MetaID.isNil 0 = true ∧
    (exampleNilMeshEnv.contents 41).map (fun content =>
      content.mFlattenedObjects.map (fun object =>
        object.mMeshRenderers.map (fun renderer => renderer.mMeshID))) = some [[0]] ∧
    try_createDX12 exampleContext exampleNilMeshEnv 41 ResourceType.Content_ false
      exampleRenderGraphWorld = Res.fail Failure.Contract exampleNilMeshWorld ∧
    exampleNilMeshWorld.mTrace.drop exampleRenderGraphWorld.mTrace.length =
      [Event.reset ResourceType.Content_ 41 false, Event.reset ResourceType.Mesh_ 0 false] ∧
    exampleNilMeshWorld.mResources.mMeshes = [] ∧
    exampleNilMeshWorld.mResources.mContents = [] ∧
    NoNilKeys (try_createDX12 exampleContext exampleNilMeshEnv 41 ResourceType.Content_ false
      exampleRenderGraphWorld).world.mResources ∧
    ∀ kind nil, MetaID.isNil nil = true →
      findEntry (try_createDX12 exampleContext exampleNilMeshEnv 41 ResourceType.Content_ false
        exampleRenderGraphWorld).world.mResources kind nil = none :=
  have hassets : NoNilAssets exampleNilMeshEnv := fun metaID hnil => by
    have h0 : metaID = 0 := by simpa [MetaID.isNil] using hnil
    subst h0
    exact ⟨by decide, by decide, by decide, by decide⟩
  have hkeys : NoNilKeys exampleRenderGraphWorld.mResources := by
    unfold NoNilKeys Cache.NoNilKey
    decide!
  ⟨hassets, hkeys, by decide, by decide!, by decide!, by decide!, by decide!, by decide!,
    C19_nil_identifiers_never_enter_the_caches exampleContext exampleNilMeshEnv 41
      ResourceType.Content_ false exampleRenderGraphWorld hassets hkeys⟩

namespace RenderWorks

/-! ### The offsets of the lists that the code produces -/

/-- What holds of every element before a loop holds of every element after
it, also when the loop throws, when the body keeps it for its element and
keeps what it needs of the context. -/
theorem traverse_invariant {α : Type} {f : α → Context → Step α} {P : α → Prop}
    {I : Context → Prop}
    (hf : ∀ x c, I c → (P x → P (f x c).value) ∧ I (f x c).context)
    (xs : List α) (c : Context) (hI : I c) :
    ((∀ x ∈ xs, P x) → ∀ y ∈ (traverse f xs c).value, P y) ∧ I (traverse f xs c).context := by
  induction xs generalizing c with
  | nil => exact ⟨fun h => h, hI⟩
  | cons x xs ih =>
    obtain ⟨hx, hc⟩ := hf x c hI
    cases hfx : f x c with
    | mk x1 c1 t =>
      rw [hfx] at hx hc
      simp only at hx hc
      cases t with
      | some e =>
        simp only [traverse, hfx]
        refine ⟨fun h y hy => ?_, hc⟩
        rcases List.mem_cons.mp hy with rfl | hmem
        · exact hx (h x (List.mem_cons_self _ _))
        · exact h y (List.mem_cons_of_mem _ hmem)
      | none =>
        obtain ⟨hrest, hc2⟩ := ih c1 hc
        cases hxs : traverse f xs c1 with
        | mk xs1 c2 t2 =>
          rw [hxs] at hrest hc2
          simp only [traverse, hfx, hxs]
          refine ⟨fun h y hy => ?_, hc2⟩
          rcases List.mem_cons.mp hy with rfl | hmem
          · exact hx (h x (List.mem_cons_self _ _))
          · exact hrest (fun z hz => h z (List.mem_cons_of_mem _ hz)) y hmem

theorem createResourceViewList_paired (device : Device) (rw : DX12RenderWorks)
    (sl : DX12RenderSolution) (collection : DX12DescriptorCollection)
    (dx12List : DX12DescriptorList) (c : Context) (hs : 0 < c.mDescriptorHeap.mCpuStart) :
    (OffsetsPaired dx12List →
        OffsetsPaired (createResourceViewList device rw sl collection dx12List c).value) ∧
      0 < (createResourceViewList device rw sl collection dx12List c).context.mDescriptorHeap.mCpuStart
    := by
  unfold createResourceViewList
  cases hp : collection.mIndex.mPersistency with
  | Dynamic_ => exact ⟨fun h => h, hs⟩
  | Persistent_ =>
    simp only
    split
    · exact ⟨fun h => h, hs⟩
    · cases ha : allocate c.mDescriptorHeap dx12List.mCapacity with
      | none => exact ⟨fun h => h, hs⟩
      | some r =>
        obtain ⟨first, heap⟩ := r
        have hstart := allocate_cpuStart ha
        have hsilent := (fillResourceViewList_silent device rw sl
          { dx12List with
            mGpuOffset := c.mDescriptorHeap.mGpuStart + first,
            mCpuOffset := c.mDescriptorHeap.mCpuStart + first }).silent
          { c with
            mDescriptorHeap := heap,
            mTrace := c.mTrace ++
              [Event.allocatePersistent dx12List.mCapacity (c.mDescriptorHeap.mCpuStart + first)] }
        have hpaired : OffsetsPaired { dx12List with
            mGpuOffset := c.mDescriptorHeap.mGpuStart + first,
            mCpuOffset := c.mDescriptorHeap.mCpuStart + first } := by
          intro h0
          simp only at h0
          omega
        simp only
        cases hfill : fillResourceViewList device rw sl
            { dx12List with
              mGpuOffset := c.mDescriptorHeap.mGpuStart + first,
              mCpuOffset := c.mDescriptorHeap.mCpuStart + first }
            { c with
              mDescriptorHeap := heap,
              mTrace := c.mTrace ++
                [Event.allocatePersistent dx12List.mCapacity
                  (c.mDescriptorHeap.mCpuStart + first)] } with
        | ok u c1 =>
          rw [hfill] at hsilent
          obtain ⟨_, _, _, _, hst⟩ := hsilent
          simp only [Outcome.context] at hst
          exact ⟨fun _ => hpaired, by simp only; omega⟩
        | throw e c1 =>
          rw [hfill] at hsilent
          obtain ⟨_, _, _, _, hst⟩ := hsilent
          simp only [Outcome.context] at hst
          exact ⟨fun _ => hpaired, by simp only; omega⟩

theorem createPipeline_paired (device : Device) (rw : DX12RenderWorks)
    (sl : DX12RenderSolution) (pipeline : DX12RenderPipeline) (c : Context)
    (hs : 0 < c.mDescriptorHeap.mCpuStart)
    (h : PersistentLists OffsetsPaired pipeline) :
    PersistentLists OffsetsPaired (createPipeline device rw sl pipeline c).value := by
  have hcollection : ∀ (collection : DX12DescriptorCollection) (c : Context),
      0 < c.mDescriptorHeap.mCpuStart →
      ((collection.mIndex.mPersistency = Persistency.Persistent_ →
          ∀ l ∈ collection.mResourceViewLists, OffsetsPaired l) →
        ((createCollection device rw sl collection c).value.mIndex.mPersistency =
            Persistency.Persistent_ →
          ∀ l ∈ (createCollection device rw sl collection c).value.mResourceViewLists,
            OffsetsPaired l)) ∧
      0 < (createCollection device rw sl collection c).context.mDescriptorHeap.mCpuStart := by
    intro collection c hs
    obtain ⟨hlists, hctx⟩ := traverse_invariant (P := OffsetsPaired)
      (I := fun c => 0 < c.mDescriptorHeap.mCpuStart)
      (fun l c1 h1 => createResourceViewList_paired device rw sl collection l c1 h1)
      collection.mResourceViewLists c hs
    unfold createCollection
    cases htr : traverse (createResourceViewList device rw sl collection)
        collection.mResourceViewLists c with
    | mk lists c1 t =>
      rw [htr] at hlists hctx
      simp only at hlists hctx
      cases t with
      | some e => exact ⟨fun hc hp => hlists (hc hp), hctx⟩
      | none =>
        have hsamplers := (silent_forEach (checkSamplerList collection)
          collection.mSamplerLists
          (fun dx12List => checkSamplerList_silent collection dx12List)).silent c1
        simp only
        cases hfe : forEach (checkSamplerList collection) collection.mSamplerLists c1 with
        | ok u c2 =>
          rw [hfe] at hsamplers
          obtain ⟨_, _, _, _, hst⟩ := hsamplers
          simp only [Outcome.context] at hst
          exact ⟨fun hc hp => hlists (hc hp), by simp only; omega⟩
        | throw e c2 =>
          rw [hfe] at hsamplers
          obtain ⟨_, _, _, _, hst⟩ := hsamplers
          simp only [Outcome.context] at hst
          exact ⟨fun hc hp => hlists (hc hp), by simp only; omega⟩
  have hsubpass : ∀ (subpass : DX12GraphicsSubpass) (c : Context),
      0 < c.mDescriptorHeap.mCpuStart →
      ((∀ collection ∈ subpass.mDescriptors,
          collection.mIndex.mPersistency = Persistency.Persistent_ →
            ∀ l ∈ collection.mResourceViewLists, OffsetsPaired l) →
        ∀ collection ∈ (createSubpass device rw sl subpass c).value.mDescriptors,
          collection.mIndex.mPersistency = Persistency.Persistent_ →
            ∀ l ∈ collection.mResourceViewLists, OffsetsPaired l) ∧
      0 < (createSubpass device rw sl subpass c).context.mDescriptorHeap.mCpuStart := by
    intro subpass c hs
    have := traverse_invariant
      (P := fun (collection : DX12DescriptorCollection) =>
        collection.mIndex.mPersistency = Persistency.Persistent_ →
          ∀ l ∈ collection.mResourceViewLists, OffsetsPaired l)
      (I := fun c => 0 < c.mDescriptorHeap.mCpuStart)
      (fun collection c1 h1 => hcollection collection c1 h1) subpass.mDescriptors c hs
    unfold createSubpass
    cases htr : traverse (createCollection device rw sl) subpass.mDescriptors c with
    | mk v c1 t =>
      rw [htr] at this
      exact this
  have hpass : ∀ (pass : DX12RenderPass) (c : Context),
      0 < c.mDescriptorHeap.mCpuStart →
      ((∀ subpass ∈ pass.mGraphicsSubpasses, ∀ collection ∈ subpass.mDescriptors,
          collection.mIndex.mPersistency = Persistency.Persistent_ →
            ∀ l ∈ collection.mResourceViewLists, OffsetsPaired l) →
        ∀ subpass ∈ (createPass device rw sl pass c).value.mGraphicsSubpasses,
          ∀ collection ∈ subpass.mDescriptors,
            collection.mIndex.mPersistency = Persistency.Persistent_ →
              ∀ l ∈ collection.mResourceViewLists, OffsetsPaired l) ∧
      0 < (createPass device rw sl pass c).context.mDescriptorHeap.mCpuStart := by
    intro pass c hs
    have := traverse_invariant
      (P := fun (subpass : DX12GraphicsSubpass) => ∀ collection ∈ subpass.mDescriptors,
        collection.mIndex.mPersistency = Persistency.Persistent_ →
          ∀ l ∈ collection.mResourceViewLists, OffsetsPaired l)
      (I := fun c => 0 < c.mDescriptorHeap.mCpuStart)
      (fun subpass c1 h1 => hsubpass subpass c1 h1) pass.mGraphicsSubpasses c hs
    unfold createPass
    cases htr : traverse (createSubpass device rw sl) pass.mGraphicsSubpasses c with
    | mk v c1 t =>
      rw [htr] at this
      exact this
  have := traverse_invariant
    (P := fun (pass : DX12RenderPass) => ∀ subpass ∈ pass.mGraphicsSubpasses,
      ∀ collection ∈ subpass.mDescriptors,
        collection.mIndex.mPersistency = Persistency.Persistent_ →
          ∀ l ∈ collection.mResourceViewLists, OffsetsPaired l)
    (I := fun c => 0 < c.mDescriptorHeap.mCpuStart)
    (fun pass c1 h1 => hpass pass c1 h1) pipeline.mPasses c hs
  unfold createPipeline
  cases htr : traverse (createPass device rw sl) pipeline.mPasses c with
  | mk v c1 t =>
    rw [htr] at this
    exact this.1 h

theorem pairedWorks_withPipeline (rw : DX12RenderWorks) (id pipelineID : Nat)
    (sl : DX12RenderSolution) (pipeline1 : DX12RenderPipeline)
    (hsol : rw.mSolutions[id]? = some sl) (h : PairedWorks rw)
    (h1 : PersistentLists OffsetsPaired pipeline1) :
    PairedWorks (withPipeline rw id pipelineID sl pipeline1) := by
  intro sl1 hsl1 pipeline hpipeline
  have hmem : sl ∈ rw.mSolutions := List.mem_iff_getElem?.mpr ⟨id, hsol⟩
  unfold withPipeline at hsl1
  rcases List.mem_or_eq_of_mem_set hsl1 with hold | hnew
  · exact h sl1 hold pipeline hpipeline
  · rw [hnew] at hpipeline
    rcases List.mem_or_eq_of_mem_set hpipeline with hold | hnew1
    · exact h sl hmem pipeline hold
    · rw [hnew1]
      exact h1

theorem createRenderSolutionRenderTargets_paired (device : Device) (rw : DX12RenderWorks)
    (id pipelineID : Nat) (c : Context) (hs : 0 < c.mDescriptorHeap.mCpuStart)
    (h : PairedWorks rw) :
    PairedWorks (createRenderSolutionRenderTargets device rw id pipelineID c).value := by
  unfold createRenderSolutionRenderTargets
  cases hsol : rw.mSolutions[id]? with
  | none => exact h
  | some sl =>
    have hfb := createFramebuffers_extends device rw.mNumBackBuffers sl.mFramebuffers 0
      rw.mFramebuffers c
    simp only
    cases hf : createFramebuffers device rw.mNumBackBuffers sl.mFramebuffers 0
        rw.mFramebuffers c with
    | mk framebuffers c1 t =>
      rw [hf] at hfb
      obtain ⟨_, _, _, _, hst1⟩ := hfb
      simp only at hst1
      cases t with
      | some e => exact h
      | none =>
        have hv := (createSolutionViews_silent device
          { rw with mFramebuffers := framebuffers } sl).silent c1
        simp only
        cases hviews : createSolutionViews device { rw with mFramebuffers := framebuffers }
            sl c1 with
        | throw e c2 => exact h
        | ok u c2 =>
          rw [hviews] at hv
          obtain ⟨_, _, _, _, hst2⟩ := hv
          simp only [Outcome.context] at hst2
          simp only
          cases hpipe : sl.mPipelines[pipelineID]? with
          | none => exact h
          | some pipeline =>
            have hmem : sl ∈ rw.mSolutions := List.mem_iff_getElem?.mpr ⟨id, hsol⟩
            have hpm : pipeline ∈ sl.mPipelines :=
              List.mem_iff_getElem?.mpr ⟨pipelineID, hpipe⟩
            have hp1 := createPipeline_paired device { rw with mFramebuffers := framebuffers }
              sl pipeline c2 (by omega) (h sl hmem pipeline hpm)
            simp only
            exact pairedWorks_withPipeline { rw with mFramebuffers := framebuffers } id
              pipelineID sl _ hsol h hp1

theorem clearRenderTargets_paired (rw : DX12RenderWorks) (id pipelineID : Nat) (c : Context)
    (h : PairedWorks rw) : PairedWorks (clearRenderTargets rw id pipelineID c).value := by
  unfold clearRenderTargets
  cases hsol : rw.mSolutions[id]? with
  | none => exact h
  | some sl =>
    simp only
    cases hpipe : sl.mPipelines[pipelineID]? with
    | none => exact h
    | some pipeline =>
      have hmem : sl ∈ rw.mSolutions := List.mem_iff_getElem?.mpr ⟨id, hsol⟩
      have hpm : pipeline ∈ sl.mPipelines := List.mem_iff_getElem?.mpr ⟨pipelineID, hpipe⟩
      have hp1 := clearPipeline_forall (P := OffsetsPaired) (Q := OffsetsPaired)
        (fun dx12List hl => ⟨fun _ _ => rfl, fun _ => hl⟩) pipeline c (h sl hmem pipeline hpm)
      simp only
      cases hcp : clearPipeline pipeline c with
      | mk pipeline1 c1 t =>
        rw [hcp] at hp1
        cases t with
        | some e => exact pairedWorks_withPipeline rw id pipelineID sl _ hsol h hp1
        | none =>
          exact pairedWorks_withPipeline { rw with mFramebuffers := [] } id pipelineID sl _
            hsol h hp1

/-- The offsets of the lists of render works that the code produces are set
together. -/
theorem produced_paired {device : Device} {rw : DX12RenderWorks} (h : Produced device rw) :
    PairedWorks rw := by
  induction h with
  | constructed rw hnull =>
    intro sl hsl pipeline hpipeline pass hpass subpass hsubpass collection hcollection _ l hl _
    exact (hnull sl hsl pipeline hpipeline pass hpass subpass hsubpass collection hcollection
      l hl).2
  | created rw id pipelineID c _ hstart ih =>
    exact createRenderSolutionRenderTargets_paired device rw id pipelineID c hstart ih
  | cleared rw id pipelineID c _ ih => exact clearRenderTargets_paired rw id pipelineID c ih

end RenderWorks

namespace RenderWorks

/-- C28: `clearRenderTargets` never fails: for every render works, solution
id and pipeline id in range the call completes, so the `sampler descriptor
not supported yet` error is not raised, and afterwards the framebuffer table
is empty and every persistent resource-view list of the selected pipeline has
a null CPU offset. On render works that the code produces every such list
has a null GPU offset as well. The render works that the code produces are
those whose lists all have null offsets, as before the first write of an
offset, and those that `createRenderSolutionRenderTargets` and
`clearRenderTargets` leave of such render works. -/
theorem C28_clear_of_produced_render_works_nulls_the_offsets (device : Device)
    (rw : DX12RenderWorks) (id pipelineID : Nat) (c : Context) (sl : DX12RenderSolution)
    (pipeline : DX12RenderPipeline) (hsol : rw.mSolutions[id]? = some sl)
    (hpipe : sl.mPipelines[pipelineID]? = some pipeline) :
    (clearRenderTargets rw id pipelineID c).thrown = none ∧
      (clearRenderTargets rw id pipelineID c).value.mFramebuffers = [] ∧
      ∃ sl1 pipeline1,
        (clearRenderTargets rw id pipelineID c).value.mSolutions[id]? = some sl1 ∧
        sl1.mPipelines[pipelineID]? = some pipeline1 ∧
        PersistentLists (fun dx12List => dx12List.mCpuOffset = 0) pipeline1 ∧
        (Produced device rw →
          PersistentLists (fun dx12List => dx12List.mCpuOffset = 0 ∧ dx12List.mGpuOffset = 0)
            pipeline1) := by
  obtain ⟨ht, hfb, sl1, pipeline1, h1, h2, hcpu, hgpu⟩ :=
    clearRenderTargets_nulls rw id pipelineID c sl pipeline hsol hpipe
  refine ⟨ht, hfb, sl1, pipeline1, h1, h2, hcpu, fun hproduced => ?_⟩
  have hpaired : PersistentLists OffsetsPaired pipeline :=
    produced_paired hproduced sl (List.mem_iff_getElem?.mpr ⟨id, hsol⟩) pipeline
      (List.mem_iff_getElem?.mpr ⟨pipelineID, hpipe⟩)
  intro pass hpass subpass hsubpass collection hcollection hp l hl
  exact ⟨hcpu pass hpass subpass hsubpass collection hcollection hp l hl,
    hgpu hpaired pass hpass subpass hsubpass collection hcollection hp l hl⟩

/-- C28 at the scenario: `createRenderSolutionRenderTargets` has given the two
persistent lists the ranges at the CPU handles 4096 and 4097, with the GPU
handles 8192 and 8193. The clear of these render works completes,
deallocates the two ranges, and leaves both lists with null offsets and the
framebuffer table empty. -/
theorem C28_clear_of_produced_render_works_nulls_the_offsets_witness :
    exampleCreatedWorks.mSolutions[0]? = some exampleCreatedSolution ∧
    exampleCreatedSolution.mPipelines[0]? = some exampleCreatedPipeline ∧
    exampleCreatedPipeline.offsets = [(4096, 8192), (4097, 8193)] ∧
    exampleCreatedWorks.mFramebuffers ≠ [] ∧
    deallocations ((clearRenderTargets exampleCreatedWorks 0 0
      exampleCreatedContext).context.mTrace.drop exampleCreatedContext.mTrace.length) =
      [(4096, 1), (4097, 2)] ∧
    ((clearRenderTargets exampleCreatedWorks 0 0 exampleCreatedContext).value.mSolutions.map
      (fun sl => sl.mPipelines.map (fun pipeline => pipeline.offsets))) =
      [[[(0, 0), (0, 0)]]] ∧
    (clearRenderTargets exampleCreatedWorks 0 0 exampleCreatedContext).thrown = none ∧
    (clearRenderTargets exampleCreatedWorks 0 0 exampleCreatedContext).value.mFramebuffers =
      [] ∧
    ∃ sl1 pipeline1,
      (clearRenderTargets exampleCreatedWorks 0 0 exampleCreatedContext).value.mSolutions[0]? =
        some sl1 ∧
      sl1.mPipelines[0]? = some pipeline1 ∧
      PersistentLists (fun dx12List => dx12List.mCpuOffset = 0) pipeline1 ∧
      PersistentLists (fun dx12List => dx12List.mCpuOffset = 0 ∧ dx12List.mGpuOffset = 0)
        pipeline1 := by
  have hproduced : Produced exampleDevice exampleCreatedWorks :=
    Produced.created (exampleWorks [exampleCollection]) 0 0 exampleHeapContext
      (Produced.constructed _ (by decide!)) (by decide)
  obtain ⟨ht, hfb, sl1, pipeline1, h1, h2, hcpu, hall⟩ :=
    C28_clear_of_produced_render_works_nulls_the_offsets exampleDevice exampleCreatedWorks 0 0
      exampleCreatedContext exampleCreatedSolution exampleCreatedPipeline
      (by decide!) (by decide!)
  exact ⟨by decide!, by decide!, by decide!, by decide!, by decide!, by decide!, ht, hfb,
    sl1, pipeline1, h1, h2, hcpu, hall hproduced⟩

end RenderWorks

/-! ## Synchronous requests -/

end Star
